import Mathlib

/-!
# mstp-lib: bridge model, scheduler and configuration API

A shallow embedding of `Simulator/mstp-lib/stp.cpp` and
`mstp-lib/internal/stp_base_types.cpp`.

* Pointer arrays (`bridge->ports`, `bridge->trees`, `port->trees`,
  `bridge->states`, `bridge->mstConfigTable`) are total maps from indices.
* `assert` is a contract check: a failed assertion ends the call with
  `RESULT.assertFailed s`, where `s` is the bridge as it was when the assertion
  failed.
* The state machines of 802.1Q-2011 are external: they enter through an
  `SM_INTERFACE` value.  The loops of the scheduler that have no static bound
  (`goto rep`, `do ... while (changed)`) take a fuel argument; running out of
  fuel is `RESULT.outOfFuel`.
* The HMAC-MD5 routine of `hmac_md5.h` is not part of the sources at hand and
  enters as a function from the hashed bytes to the digest bytes; likewise the
  BPDU classifier `STP_GetValidatedBpduType` enters as a function of the buffer
  and its size.
* A block of host memory is named after the place its pointer is stored in
  (`BLOCK`); the invocations of the host callbacks are recorded in
  `callbackTrace`.
-/

namespace Stp

/-! ## Base types -/

/-- Protocol versions of `stp.h`. -/
inductive STP_VERSION where
  | LEGACY_STP
  | RSTP
  | MSTP
  deriving DecidableEq, Repr

/-- Modelled from the spec: the numeric values of the `STP_VERSION` enumerators
(declared in `stp.h`, not under src).  Only their order is used by the code
(`ForceProtocolVersion >= STP_VERSION_MSTP`). -/
def STP_VERSION.toNat : STP_VERSION → Nat
  | .LEGACY_STP => 0
  | .RSTP => 2
  | .MSTP => 3

/-- Administrative point-to-point modes of `stp.h`; `AUTO` is the mode of zeroed
memory. -/
inductive STP_ADMIN_P2P where
  | AUTO
  | FORCE_TRUE
  | FORCE_FALSE
  deriving DecidableEq, Repr

/-- Port roles of `stp.h`; `UNKNOWN` is the role of zeroed memory. -/
inductive STP_PORT_ROLE where
  | UNKNOWN
  | DISABLED
  | ROOT
  | DESIGNATED
  | ALTERNATE
  | BACKUP
  | MASTER
  deriving DecidableEq, Repr

/-- Classification of a received buffer. -/
inductive VALIDATED_BPDU_TYPE where
  | UNKNOWN
  | STP_CONFIG
  | STP_TCN
  | RST
  | MST
  deriving DecidableEq, Repr

/-- The two bytes of a port identifier (`PORT_ID` of stp_base_types). -/
structure PORT_ID where
  _high : Nat
  _low : Nat
  deriving DecidableEq, Repr

/-- Method `PORT_ID::Set`; `none` is a failed assertion. -/
def PORT_ID.Set (_self : PORT_ID) (priority portNumber : Nat) : Option PORT_ID :=
  if ¬ ((priority &&& 0x0F) = 0) then none
  else if ¬ (portNumber ≥ 1 ∧ portNumber ≤ 0xFFF) then none
  else some { _high := priority ||| ((portNumber >>> 8) % 256), _low := portNumber % 256 }

/-- Method `PORT_ID::Reset`. -/
def PORT_ID.Reset (_self : PORT_ID) : PORT_ID :=
  { _high := 0, _low := 0 }

/-- Method `PORT_ID::GetPriority`; `none` is a failed assertion. -/
def PORT_ID.GetPriority (self : PORT_ID) : Option Nat :=
  if ¬ (self._low ≠ 0) then none
  else some (self._high &&& 0xF0)

/-- Method `PORT_ID::SetPriority`; `none` is a failed assertion. -/
def PORT_ID.SetPriority (self : PORT_ID) (priority : Nat) : Option PORT_ID :=
  if ¬ (self._low ≠ 0) then none
  else if ¬ ((priority &&& 0x0F) = 0) then none
  else some { self with _high := priority ||| (self._high &&& 0x0F) }

/-- Method `PORT_ID::GetPortNumber`; `none` is a failed assertion. -/
def PORT_ID.GetPortNumber (self : PORT_ID) : Option Nat :=
  if ¬ (self._low ≠ 0) then none
  else some ((self._high &&& 0x0F) ||| self._low)

/-- Method `PORT_ID::GetPortIdentifier`; `none` is a failed assertion. -/
def PORT_ID.GetPortIdentifier (self : PORT_ID) : Option Nat :=
  if ¬ (self._low ≠ 0) then none
  else some (((self._high <<< 8) % 65536) ||| self._low)

/-- Modelled from the spec: `BRIDGE_ID` (declared in the base-types header, not
under src): "priority + bridge address + tree-specific extension".  The first
two bytes hold the 4-bit settable priority in the top nibble and the 12-bit
tree extension below it; six address bytes follow. -/
structure BRIDGE_ID where
  _priorityAndMstid : Nat
  _address : List Nat
  deriving DecidableEq, Repr

/-- Modelled from the spec: `BRIDGE_ID::GetPriority` (not under src), the
16-bit priority field, tree extension included. -/
def BRIDGE_ID.GetPriority (self : BRIDGE_ID) : Nat :=
  self._priorityAndMstid

/-- Modelled from the spec: `BRIDGE_ID::SetPriority` (not under src): stores
the settable priority together with the tree extension in the 16-bit field and
leaves the address alone. -/
def BRIDGE_ID.SetPriority (self : BRIDGE_ID) (settablePriority mstid : Nat) : BRIDGE_ID :=
  { self with _priorityAndMstid := (settablePriority ||| mstid) % 65536 }

/-- Modelled from the spec: `BRIDGE_ID::GetAddress` (not under src). -/
def BRIDGE_ID.GetAddress (self : BRIDGE_ID) : List Nat :=
  self._address

/-- Modelled from the spec: `BRIDGE_ID::SetAddress` (not under src): replaces
the six address bytes and leaves the priority field alone. -/
def BRIDGE_ID.SetAddress (self : BRIDGE_ID) (address : List Nat) : BRIDGE_ID :=
  { self with _address := address }

/-- The timer values of a tree or port (`TIMES`). -/
structure TIMES where
  ForwardDelay : Nat
  HelloTime : Nat
  MaxAge : Nat
  MessageAge : Nat
  remainingHops : Nat
  deriving DecidableEq, Repr

/-- Per-bridge-per-tree variables (`BRIDGE_TREE` of bridge.h, by the fields
stp.cpp uses). -/
structure BRIDGE_TREE where
  BridgeIdentifier : BRIDGE_ID
  BridgeTimes : TIMES
  rootTimes : TIMES
  rootPriority : List Nat
  rootPortId : PORT_ID
  deriving DecidableEq, Repr

/-- Method `BRIDGE_TREE::GetBridgeIdentifier`. -/
def BRIDGE_TREE.GetBridgeIdentifier (self : BRIDGE_TREE) : BRIDGE_ID :=
  self.BridgeIdentifier

/-- Method `BRIDGE_TREE::SetBridgeIdentifier (bid)`. -/
def BRIDGE_TREE.SetBridgeIdentifier (self : BRIDGE_TREE) (bid : BRIDGE_ID) : BRIDGE_TREE :=
  { self with BridgeIdentifier := bid }

/-- Method `BRIDGE_TREE::SetBridgeIdentifier (settablePriority, mstid, address)`. -/
def BRIDGE_TREE.SetBridgeIdentifier3 (self : BRIDGE_TREE) (settablePriority mstid : Nat)
    (address : List Nat) : BRIDGE_TREE :=
  self.SetBridgeIdentifier ((self.BridgeIdentifier.SetPriority settablePriority mstid).SetAddress address)

/-- Per-port-per-tree variables (`PORT_TREE` of bridge.h, by the fields stp.cpp
uses). -/
structure PORT_TREE where
  portId : PORT_ID
  portTimes : TIMES
  role : STP_PORT_ROLE
  learning : Bool
  forwarding : Bool
  selected : Bool
  reselect : Bool
  InternalPortPathCost : Nat
  deriving DecidableEq, Repr

/-- Per-port variables (`PORT` of bridge.h, by the fields stp.cpp uses);
`trees` is the array of pointers to the port's `PORT_TREE`s. -/
structure PORT where
  trees : Nat → PORT_TREE
  AdminEdge : Bool
  AutoEdge : Bool
  adminPointToPointMAC : STP_ADMIN_P2P
  detectedPointToPointMAC : Bool
  operPointToPointMAC : Bool
  operEdge : Bool
  portEnabled : Bool
  rcvdBpdu : Bool
  tick : Bool
  enableBPDUrx : Bool
  enableBPDUtx : Bool
  ExternalPortPathCost : Nat

/-- The MST configuration identifier held by the bridge. -/
structure MST_CONFIG_ID where
  ConfigurationIdentifierFormatSelector : Nat
  ConfigurationName : List Nat
  RevisionLevel : Nat
  ConfigurationDigest : List Nat
  deriving DecidableEq, Repr

/-- An entry of the table given to `STP_SetMstConfigTableAndComputeDigest`;
each field is one byte of the C structure. -/
structure VLAN_TO_MSTID where
  vlanHigh : Nat
  vlanLow : Nat
  mstid : Nat
  deriving DecidableEq, Repr

/-- The blocks the bridge obtains from the host allocator. -/
inductive BLOCK where
  | bridge
  | logBuffer
  | states
  | trees
  | ports
  | bridgeTree (treeIndex : Nat)
  | port (portIndex : Nat)
  | portTrees (portIndex : Nat)
  | portTree (portIndex treeIndex : Nat)
  deriving DecidableEq, Repr

/-- A piece of log text: a format string of the source and its arguments,
rendered. -/
structure LOG_TEXT where
  format : String
  args : List String
  deriving DecidableEq, Repr

/-- An invocation of a host callback (`STP_CALLBACKS`). -/
inductive CALLBACK_EVENT where
  | allocAndZeroMemory (block : BLOCK) (elements : Nat)
  | freeMemory (block : BLOCK)
  | debugStrOut (portIndex treeIndex : Int) (text : List LOG_TEXT) (flush : Bool)
  | enableLearning (portIndex treeIndex : Nat) (enable : Bool)
  | enableForwarding (portIndex treeIndex : Nat) (enable : Bool)
  | flushFdb (portIndex treeIndex : Nat) (flushType : Nat)
  | transmitGetBuffer (portIndex bpduSize timestamp : Nat)
  | transmitReleaseBuffer
  | onTopologyChange
  | onNotifiedTopologyChange
  deriving DecidableEq, Repr

/-- The state of one state-machine instance; 0 is "no state" and, as a result
of `checkConditions`, "no transition". -/
abbrev SM_STATE := Nat

/-- The bridge (`STP_BRIDGE` of bridge.h, by the fields stp.cpp uses).
`callbackTrace` records the host callbacks invoked so far, oldest first. -/
structure STP_BRIDGE where
  ForceProtocolVersion : STP_VERSION
  portCount : Nat
  treeCount : Nat
  started : Bool
  BEGIN : Bool
  loggingEnabled : Bool
  tcIgnore : Nat
  trees : Nat → BRIDGE_TREE
  ports : Nat → PORT
  states : Nat → SM_STATE
  MstConfigId : MST_CONFIG_ID
  mstConfigTable : Nat → Nat
  receivedBpduContent : Option (List Nat)
  receivedBpduType : VALIDATED_BPDU_TYPE
  logBuffer : List LOG_TEXT
  logBufferMaxSize : Nat
  logCurrentPort : Int
  logCurrentTree : Int
  applicationContext : Nat
  callbackTrace : List CALLBACK_EVENT

/-- The outcome of a call into the library. -/
inductive RESULT (α : Type) where
  | ok (value : α)
  | assertFailed (state : STP_BRIDGE)
  | outOfFuel

/-- Sequencing of calls: the first failure ends the computation. -/
def RESULT.bind {α β : Type} (r : RESULT α) (f : α → RESULT β) : RESULT β :=
  match r with
  | .ok a => f a
  | .assertFailed s => .assertFailed s
  | .outOfFuel => .outOfFuel

/-- Instantiation patterns of a state-machine kind (`SM_INFO::instanceType`). -/
inductive INSTANCE_TYPE where
  | PER_BRIDGE
  | PER_BRIDGE_PER_TREE
  | PER_PORT
  | PER_PORT_PER_TREE
  deriving DecidableEq, Repr

/-- A state-machine kind (`SM_INFO`).  `checkConditions` receives the bridge
through a non-const pointer, so it returns the bridge along with the new state
(0 for "no transition"). -/
structure SM_INFO where
  instanceType : INSTANCE_TYPE
  smName : String
  getStateName : SM_STATE → String
  checkConditions : STP_BRIDGE → Int → Int → SM_STATE → STP_BRIDGE × SM_STATE
  initState : STP_BRIDGE → Int → Int → SM_STATE → Nat → STP_BRIDGE

/-- The registered state machines (`SM_INTERFACE`): the ordered list of
non-transmit kinds and the transmit kind. -/
structure SM_INTERFACE where
  smInfo : List SM_INFO
  transmitSmInfo : SM_INFO

/-- Index of the CIST among the trees. -/
def CIST_INDEX : Nat := 0

/-! ## Logging -/

/-- Hands the accumulated log text to the host (`debugStrOut`) and empties the
line buffer. -/
def LogEmit (bridge : STP_BRIDGE) (flush : Bool) : STP_BRIDGE :=
  { bridge with
    callbackTrace := bridge.callbackTrace ++
      [CALLBACK_EVENT.debugStrOut bridge.logCurrentPort bridge.logCurrentTree bridge.logBuffer flush]
    logBuffer := [] }

/-- Modelled from the spec: the `LOG` macro of log.h (not under src): "streamed,
line-buffered diagnostic text; the engine accumulates partial lines per
(port,tree) context internally and flushes on newline or explicit flush".
Nothing is logged while logging is disabled (`STP_EnableLogging`).  The bound
of the buffer is not modelled. -/
def LOG (bridge : STP_BRIDGE) (port tree : Int) (format : String) (args : List String) :
    STP_BRIDGE :=
  if bridge.loggingEnabled then
    let bridge :=
      if (bridge.logCurrentPort ≠ port ∨ bridge.logCurrentTree ≠ tree) ∧ bridge.logBuffer ≠ [] then
        LogEmit bridge false
      else bridge
    let bridge := { bridge with
      logCurrentPort := port
      logCurrentTree := tree
      logBuffer := bridge.logBuffer ++ [{ format := format, args := args }] }
    if format.endsWith "\n" then LogEmit bridge false else bridge
  else bridge

/-- Modelled from the spec: the `FLUSH_LOG` macro of log.h (not under src), the
explicit flush of the line buffer. -/
def FLUSH_LOG (bridge : STP_BRIDGE) : STP_BRIDGE :=
  if bridge.loggingEnabled then LogEmit bridge true else bridge

/-! ## Scheduler -/

/-- One instance run to convergence (`RunStateMachineInstance`): the instance
is re-evaluated after each transition (`goto rep`).  The result carries the
`changed` flag. -/
def RunStateMachineInstance : Nat → STP_BRIDGE → SM_INFO → Int → Int → Nat → Nat →
    RESULT (STP_BRIDGE × Bool)
  | 0, _, _, _, _, _, _ => .outOfFuel
  | fuel + 1, bridge, smInfo, givenPort, givenTree, statePtr, timestamp =>
    let checked := smInfo.checkConditions bridge givenPort givenTree (bridge.states statePtr)
    let bridge := checked.1
    let newState := checked.2
    if newState ≠ 0 then
      let bridge :=
        if givenPort = -1 then LOG bridge givenPort givenTree "Bridge: " []
        else LOG bridge givenPort givenTree "Port \x7bD\x7d: " [toString (1 + givenPort)]
      let bridge :=
        if bridge.ForceProtocolVersion.toNat ≥ STP_VERSION.MSTP.toNat then
          if givenTree = (CIST_INDEX : Int) then LOG bridge givenPort givenTree "CIST: " []
          else if givenTree > 0 then LOG bridge givenPort givenTree "MST\x7bD\x7d: " [toString givenTree]
          else bridge
        else bridge
      let newStateName := smInfo.getStateName newState
      let bridge := LOG bridge givenPort givenTree "\x7bS\x7d: -> \x7bS\x7d\r\n" [smInfo.smName, newStateName]
      let bridge := smInfo.initState bridge givenPort givenTree newState timestamp
      let bridge := { bridge with states := Function.update bridge.states statePtr newState }
      (RunStateMachineInstance fuel bridge smInfo givenPort givenTree statePtr timestamp).bind
        fun r => .ok (r.1, true)
    else .ok (bridge, false)

/-- The body shared by the loops of `RunStateMachineInstances`: each instance
(port, tree) in turn is run on the slot `statePtr`, which is then advanced. -/
def RunStateMachineInstances.loop (fuel : Nat) (smInfo : SM_INFO) (timestamp : Nat) :
    List (Int × Int) → STP_BRIDGE → Nat → Bool → RESULT (STP_BRIDGE × Nat × Bool)
  | [], bridge, statePtr, changed => .ok (bridge, statePtr, changed)
  | (givenPort, givenTree) :: rest, bridge, statePtr, changed =>
    (RunStateMachineInstance fuel bridge smInfo givenPort givenTree statePtr timestamp).bind
      fun r => RunStateMachineInstances.loop fuel smInfo timestamp rest r.1 (statePtr + 1) (changed || r.2)

/-- All instances of one kind (`RunStateMachineInstances`), in the order of the
source's loops.  The result carries the advanced state pointer and the
`changed` flag.  `portCount` and `treeCount` are fixed at creation and are read
when the loop is entered. -/
def RunStateMachineInstances (fuel : Nat) (bridge : STP_BRIDGE) (smInfo : SM_INFO)
    (statePtr : Nat) (timestamp : Nat) : RESULT (STP_BRIDGE × Nat × Bool) :=
  match smInfo.instanceType with
  | .PER_BRIDGE =>
    RunStateMachineInstances.loop fuel smInfo timestamp [(-1, -1)] bridge statePtr false
  | .PER_BRIDGE_PER_TREE =>
    RunStateMachineInstances.loop fuel smInfo timestamp
      ((List.range bridge.treeCount).map fun treeIndex => (-1, (treeIndex : Int)))
      bridge statePtr false
  | .PER_PORT =>
    RunStateMachineInstances.loop fuel smInfo timestamp
      ((List.range bridge.portCount).map fun portIndex => ((portIndex : Int), -1))
      bridge statePtr false
  | .PER_PORT_PER_TREE =>
    RunStateMachineInstances.loop fuel smInfo timestamp
      ((List.range bridge.treeCount).flatMap fun treeIndex =>
        (List.range bridge.portCount).map fun portIndex => ((portIndex : Int), (treeIndex : Int)))
      bridge statePtr false

/-- The pass of `RunStateMachines` over the non-transmit kinds
(`for (i = 0; i < smInfoCount; i++) changed |= ...`). -/
def RunStateMachines.pass (fuel : Nat) (timestamp : Nat) :
    List SM_INFO → STP_BRIDGE → Nat → Bool → RESULT (STP_BRIDGE × Nat × Bool)
  | [], bridge, statePtr, changed => .ok (bridge, statePtr, changed)
  | smInfo :: rest, bridge, statePtr, changed =>
    (RunStateMachineInstances fuel bridge smInfo statePtr timestamp).bind
      fun r => RunStateMachines.pass fuel timestamp rest r.1 r.2.1 (changed || r.2.2)

/-- One iteration of the `do ... while (changed)` of `RunStateMachines`: the
pass over the non-transmit kinds, then the transmit kind if nothing changed. -/
def RunStateMachines.cycle (smInterface : SM_INTERFACE) (fuel : Nat) (bridge : STP_BRIDGE)
    (timestamp : Nat) : RESULT (STP_BRIDGE × Bool) :=
  (RunStateMachines.pass fuel timestamp smInterface.smInfo bridge 0 false).bind fun r =>
    if r.2.2 = false then
      (RunStateMachineInstances fuel r.1 smInterface.transmitSmInfo r.2.1 timestamp).bind
        fun t => .ok (t.1, r.2.2 || t.2.2)
    else .ok (r.1, r.2.2)

/-- The `do ... while (changed)` of `RunStateMachines`, with `cycles` bounding
the number of iterations. -/
def RunStateMachines.loop (smInterface : SM_INTERFACE) (fuel : Nat) (timestamp : Nat) :
    Nat → STP_BRIDGE → RESULT STP_BRIDGE
  | 0, _ => .outOfFuel
  | cycles + 1, bridge =>
    (RunStateMachines.cycle smInterface fuel bridge timestamp).bind fun r =>
      if r.2 then RunStateMachines.loop smInterface fuel timestamp cycles r.1 else .ok r.1

/-- The scheduler (`RunStateMachines`); `fuel` bounds the iterations of each of
its unbounded loops. -/
def RunStateMachines (smInterface : SM_INTERFACE) (fuel : Nat) (bridge : STP_BRIDGE)
    (timestamp : Nat) : RESULT STP_BRIDGE :=
  RunStateMachines.loop smInterface fuel timestamp fuel bridge

/-- Number of instances of one kind (`GetInstanceCountForStateMachine`). -/
def GetInstanceCountForStateMachine (smInfo : SM_INFO) (portCount treeCount : Nat) : Nat :=
  match smInfo.instanceType with
  | .PER_BRIDGE => 1
  | .PER_PORT => portCount
  | .PER_BRIDGE_PER_TREE => treeCount
  | .PER_PORT_PER_TREE => treeCount * portCount

/-! ## MST configuration table and digest -/

/-- The bytes `ComputeMstConfigDigest` hashes: the 4096 entries of the table,
two bytes each, high byte first (`INV_UINT2`). -/
def mstConfigTableBytes (mstConfigTable : Nat → Nat) : List Nat :=
  (List.range 4096).flatMap fun i => [(mstConfigTable i / 256) % 256, mstConfigTable i % 256]

/-- Recomputes the digest (`ComputeMstConfigDigest`): HMAC-MD5 over the
2 * 4096 bytes of the table, stored in the configuration identifier. -/
def ComputeMstConfigDigest (HMAC_MD5 : List Nat → List Nat) (bridge : STP_BRIDGE) : STP_BRIDGE :=
  { bridge with
    MstConfigId := { bridge.MstConfigId with
      ConfigurationDigest := HMAC_MD5 (mstConfigTableBytes bridge.mstConfigTable) } }

/-- The loop of `STP_SetMstConfigTableAndComputeDigest1` over the indices `i` of the array. -/
def STP_SetMstConfigTableAndComputeDigest1.loop (mstids : Nat → Nat) :
    List Nat → STP_BRIDGE → RESULT STP_BRIDGE
  | [], bridge => .ok bridge
  | i :: rest, bridge =>
    let mstid := mstids i % 256
    if ¬ (mstid < bridge.treeCount) then .assertFailed bridge
    else
      STP_SetMstConfigTableAndComputeDigest1.loop mstids rest
        { bridge with mstConfigTable := Function.update bridge.mstConfigTable (i + 1) mstid }

/-- Setter of the whole table from a 4094-byte array
(`STP_SetMstConfigTableAndComputeDigest1`). -/
def STP_SetMstConfigTableAndComputeDigest1 (smInterface : SM_INTERFACE)
    (HMAC_MD5 : List Nat → List Nat) (fuel : Nat) (bridge : STP_BRIDGE) (mstids : Nat → Nat)
    (timestamp : Nat) : RESULT STP_BRIDGE :=
  if ¬ (bridge.ForceProtocolVersion.toNat ≥ STP_VERSION.MSTP.toNat) then .assertFailed bridge
  else
    let bridge := LOG bridge (-1) (-1) "\x7bT\x7d: Setting MST Config Table...\r\n" [toString timestamp]
    (STP_SetMstConfigTableAndComputeDigest1.loop mstids (List.range 4094) bridge).bind fun bridge =>
    let bridge := ComputeMstConfigDigest HMAC_MD5 bridge
    (if bridge.started then
      (RunStateMachines smInterface fuel { bridge with BEGIN := true } timestamp).bind fun bridge =>
      RunStateMachines smInterface fuel { bridge with BEGIN := false } timestamp
    else .ok bridge).bind fun bridge =>
    let bridge := LOG bridge (-1) (-1) "------------------------------------\r\n" []
    .ok (FLUSH_LOG bridge)

/-- The VLAN number of an entry: `entry->vlanLow | (entry->vlanHigh << 8)`, an
`unsigned short` made of two bytes. -/
def VLAN_TO_MSTID.vlan (entry : VLAN_TO_MSTID) : Nat :=
  ((entry.vlanLow % 256) ||| ((entry.vlanHigh % 256) <<< 8)) % 65536

/-- The loop of `STP_SetMstConfigTableAndComputeDigest` over the entries. -/
def STP_SetMstConfigTableAndComputeDigest.loop :
    List VLAN_TO_MSTID → STP_BRIDGE → RESULT STP_BRIDGE
  | [], bridge => .ok bridge
  | entry :: rest, bridge =>
    let vlan := entry.vlan
    if ¬ (vlan > 0 ∧ vlan ≤ 4094) then .assertFailed bridge
    else if ¬ (entry.mstid % 256 ≤ bridge.treeCount) then .assertFailed bridge
    else if ¬ (bridge.mstConfigTable vlan = 0) then .assertFailed bridge
    else
      STP_SetMstConfigTableAndComputeDigest.loop rest
        { bridge with mstConfigTable := Function.update bridge.mstConfigTable vlan (entry.mstid % 256) }

/-- Setter of the table from a list of entries
(`STP_SetMstConfigTableAndComputeDigest`); `table` with its length stands for
the pointer and `tableEntryCount`. -/
def STP_SetMstConfigTableAndComputeDigest (smInterface : SM_INTERFACE)
    (HMAC_MD5 : List Nat → List Nat) (fuel : Nat) (bridge : STP_BRIDGE)
    (table : List VLAN_TO_MSTID) (timestamp : Nat) : RESULT STP_BRIDGE :=
  if ¬ (bridge.ForceProtocolVersion.toNat ≥ STP_VERSION.MSTP.toNat) then .assertFailed bridge
  else
    let bridge := LOG bridge (-1) (-1) "\x7bT\x7d: Setting MST Config Table...\r\n" [toString timestamp]
    let bridge := { bridge with mstConfigTable := fun _ => 0 }
    (STP_SetMstConfigTableAndComputeDigest.loop table bridge).bind fun bridge =>
    let bridge := ComputeMstConfigDigest HMAC_MD5 bridge
    (if bridge.started then
      (RunStateMachines smInterface fuel { bridge with BEGIN := true } timestamp).bind fun bridge =>
      RunStateMachines smInterface fuel { bridge with BEGIN := false } timestamp
    else .ok bridge).bind fun bridge =>
    let bridge := LOG bridge (-1) (-1) "------------------------------------\r\n" []
    .ok (FLUSH_LOG bridge)

/-- Getter of the table (`STP_GetMstConfigTable`): the 4094 bytes written to
`mstidsOut`. -/
def STP_GetMstConfigTable (bridge : STP_BRIDGE) : List Nat :=
  (List.range 4094).map fun i => bridge.mstConfigTable (i + 1) % 256

/-- Getter of the digest (`STP_GetMstConfigTableDigest`). -/
def STP_GetMstConfigTableDigest (bridge : STP_BRIDGE) : RESULT (List Nat) :=
  if ¬ (bridge.ForceProtocolVersion.toNat ≥ STP_VERSION.MSTP.toNat) then .assertFailed bridge
  else .ok bridge.MstConfigId.ConfigurationDigest

/-- Lookup of the tree a VLAN is mapped to (`STP_GetTreeIndexFromVlanNumber`). -/
def STP_GetTreeIndexFromVlanNumber (bridge : STP_BRIDGE) (vlanNumber : Nat) : RESULT Nat :=
  if ¬ (vlanNumber ≥ 1 ∧ vlanNumber ≤ 4094) then .assertFailed bridge
  else .ok (bridge.mstConfigTable vlanNumber % 256)

/-! ## Bridge priority -/

/-- The two assignments `portTree->selected = false; portTree->reselect = true`
on `bridge->ports [portIndex]->trees [treeIndex]`. -/
def RecomputePrioritiesAndPortRoles.mark (bridge : STP_BRIDGE) (portIndex treeIndex : Nat) :
    STP_BRIDGE :=
  { bridge with
    ports := Function.update bridge.ports portIndex
      { bridge.ports portIndex with
        trees := Function.update (bridge.ports portIndex).trees treeIndex
          { (bridge.ports portIndex).trees treeIndex with selected := false, reselect := true } } }

/-- The loop over the ports of one tree in `RecomputePrioritiesAndPortRoles`. -/
def RecomputePrioritiesAndPortRoles.markTree (bridge : STP_BRIDGE) (treeIndex : Nat) : STP_BRIDGE :=
  (List.range bridge.portCount).foldl
    (fun bridge portIndex => RecomputePrioritiesAndPortRoles.mark bridge portIndex treeIndex) bridge

/-- The part of `RecomputePrioritiesAndPortRoles` that precedes the call of the
scheduler: all trees for the CIST, the given tree otherwise. -/
def RecomputePrioritiesAndPortRoles.markPorts (bridge : STP_BRIDGE) (treeIndex : Nat) : STP_BRIDGE :=
  if treeIndex = CIST_INDEX then
    (List.range bridge.treeCount).foldl
      (fun bridge treeIndex => RecomputePrioritiesAndPortRoles.markTree bridge treeIndex) bridge
  else
    RecomputePrioritiesAndPortRoles.markTree bridge treeIndex

/-- Forces a recomputation (`RecomputePrioritiesAndPortRoles`): clears
`selected` and sets `reselect`, then runs the scheduler. -/
def RecomputePrioritiesAndPortRoles (smInterface : SM_INTERFACE) (fuel : Nat) (bridge : STP_BRIDGE)
    (treeIndex : Nat) (timestamp : Nat) : RESULT STP_BRIDGE :=
  RunStateMachines smInterface fuel (RecomputePrioritiesAndPortRoles.markPorts bridge treeIndex) timestamp

/-- Setter of a tree's bridge priority (`STP_SetBridgePriority`);
`bridgePriority` is an `unsigned short`. -/
def STP_SetBridgePriority (smInterface : SM_INTERFACE) (fuel : Nat) (bridge : STP_BRIDGE)
    (treeIndex : Nat) (bridgePriority : Nat) (timestamp : Nat) : RESULT STP_BRIDGE :=
  if ¬ ((bridgePriority &&& 0x0FFF) = 0) then .assertFailed bridge
  else if ¬ (treeIndex < bridge.treeCount) then .assertFailed bridge
  else
    let bridge := LOG bridge (-1) (-1)
      "\x7bT\x7d: Setting bridge priority: tree \x7bTN\x7d prio = \x7bD\x7d...\r\n"
      [toString timestamp, toString treeIndex, toString bridgePriority]
    let bid := (bridge.trees treeIndex).GetBridgeIdentifier
    let bid := bid.SetPriority bridgePriority treeIndex
    let bridge := { bridge with
      trees := Function.update bridge.trees treeIndex ((bridge.trees treeIndex).SetBridgeIdentifier bid) }
    (if bridge.started then
      RecomputePrioritiesAndPortRoles smInterface fuel bridge treeIndex timestamp
    else .ok bridge).bind fun bridge =>
    let bridge := LOG bridge (-1) (-1) "------------------------------------\r\n" []
    .ok (FLUSH_LOG bridge)

/-- Getter of a tree's bridge priority (`STP_GetBridgePriority`). -/
def STP_GetBridgePriority (bridge : STP_BRIDGE) (treeIndex : Nat) : RESULT Nat :=
  if ¬ (treeIndex < bridge.treeCount) then .assertFailed bridge
  else .ok ((bridge.trees treeIndex).GetBridgeIdentifier.GetPriority &&& 0xF000)

/-- Getter of the bridge address (`STP_GetBridgeAddress`): the address in the
CIST's bridge identifier. -/
def STP_GetBridgeAddress (bridge : STP_BRIDGE) : List Nat :=
  (bridge.trees CIST_INDEX).GetBridgeIdentifier.GetAddress

/-! ## Creation -/

/-- Modelled from the spec: the protocol constants of `STP_BRIDGE` (bridge.h,
not under src) that `STP_CreateBridge` copies into the bridge times. -/
structure BRIDGE_CONSTANTS where
  BridgeHelloTime : Nat
  MaxHops : Nat
  BridgeForwardDelay : Nat
  BridgeMaxAge : Nat

/-- Zeroed memory read as `TIMES`. -/
def TIMES.zero : TIMES :=
  { ForwardDelay := 0, HelloTime := 0, MaxAge := 0, MessageAge := 0, remainingHops := 0 }

/-- Zeroed memory read as a `PORT_TREE`. -/
def PORT_TREE.zero : PORT_TREE :=
  { portId := { _high := 0, _low := 0 }, portTimes := TIMES.zero, role := .UNKNOWN,
    learning := false, forwarding := false, selected := false, reselect := false,
    InternalPortPathCost := 0 }

/-- Zeroed memory read as a `PORT`. -/
def PORT.zero : PORT :=
  { trees := fun _ => PORT_TREE.zero, AdminEdge := false, AutoEdge := false,
    adminPointToPointMAC := .AUTO, detectedPointToPointMAC := false,
    operPointToPointMAC := false, operEdge := false, portEnabled := false, rcvdBpdu := false,
    tick := false, enableBPDUrx := false, enableBPDUtx := false, ExternalPortPathCost := 0 }

/-- Zeroed memory read as a `BRIDGE_TREE`. -/
def BRIDGE_TREE.zero : BRIDGE_TREE :=
  { BridgeIdentifier := { _priorityAndMstid := 0, _address := [0, 0, 0, 0, 0, 0] },
    BridgeTimes := TIMES.zero, rootTimes := TIMES.zero, rootPriority := List.replicate 34 0,
    rootPortId := { _high := 0, _low := 0 } }

/-- Zeroed memory read as an `STP_BRIDGE`; no callback has been invoked. -/
def STP_BRIDGE.zero : STP_BRIDGE :=
  { ForceProtocolVersion := .LEGACY_STP, portCount := 0, treeCount := 0, started := false,
    BEGIN := false, loggingEnabled := false, tcIgnore := 0, trees := fun _ => BRIDGE_TREE.zero,
    ports := fun _ => PORT.zero, states := fun _ => 0,
    MstConfigId := { ConfigurationIdentifierFormatSelector := 0,
                     ConfigurationName := List.replicate 32 0, RevisionLevel := 0,
                     ConfigurationDigest := List.replicate 16 0 },
    mstConfigTable := fun _ => 0, receivedBpduContent := none, receivedBpduType := .UNKNOWN,
    logBuffer := [], logBufferMaxSize := 0, logCurrentPort := 0, logCurrentTree := 0,
    applicationContext := 0, callbackTrace := [] }

/-- A call of the host's `allocAndZeroMemory` followed by the assertion that
the block was obtained; `allocOk` tells which requests the host satisfies. -/
def allocAndZeroMemory (allocOk : BLOCK → Bool) (bridge : STP_BRIDGE) (block : BLOCK)
    (elements : Nat) : RESULT STP_BRIDGE :=
  let bridge := { bridge with
    callbackTrace := bridge.callbackTrace ++ [CALLBACK_EVENT.allocAndZeroMemory block elements] }
  if allocOk block then .ok bridge else .assertFailed bridge

/-- The lowercase hexadecimal digit of a value below 16, as a character code. -/
def hexDigit (n : Nat) : Nat :=
  if n < 10 then 48 + n else 87 + n

/-- The default configuration name: `sprintf` of the six address bytes as
`%02x` separated by colons, in the zeroed 32-byte name field. -/
def defaultConfigurationName (bridgeAddress : List Nat) : List Nat :=
  let hex2 := fun (i : Nat) =>
    [hexDigit ((bridgeAddress.getD i 0 % 256) / 16), hexDigit ((bridgeAddress.getD i 0 % 256) % 16)]
  (hex2 0 ++ [58] ++ hex2 1 ++ [58] ++ hex2 2 ++ [58] ++ hex2 3 ++ [58] ++ hex2 4 ++ [58] ++ hex2 5)
    ++ List.replicate 15 0

/-- The loop of `STP_CreateBridge` over the MSTIs (`treeIndex = 1 .. treeCount - 1`). -/
def STP_CreateBridge.mstiLoop (consts : BRIDGE_CONSTANTS) (allocOk : BLOCK → Bool)
    (bridgeAddress : List Nat) : List Nat → STP_BRIDGE → RESULT STP_BRIDGE
  | [], bridge => .ok bridge
  | treeIndex :: rest, bridge =>
    (allocAndZeroMemory allocOk bridge (.bridgeTree treeIndex) 1).bind fun bridge =>
    let tree := BRIDGE_TREE.zero.SetBridgeIdentifier3 0x8000 treeIndex bridgeAddress
    let tree := { tree with BridgeTimes := { tree.BridgeTimes with remainingHops := consts.MaxHops } }
    STP_CreateBridge.mstiLoop consts allocOk bridgeAddress rest
      { bridge with trees := Function.update bridge.trees treeIndex tree }

/-- The inner loop of `STP_CreateBridge` over the trees of one port. -/
def STP_CreateBridge.portTreeLoop (consts : BRIDGE_CONSTANTS) (allocOk : BLOCK → Bool)
    (portIndex : Nat) : List Nat → STP_BRIDGE → RESULT STP_BRIDGE
  | [], bridge => .ok bridge
  | treeIndex :: rest, bridge =>
    (allocAndZeroMemory allocOk bridge (.portTree portIndex treeIndex) 1).bind fun bridge =>
    match PORT_TREE.zero.portId.Set 0x80 ((portIndex % 65536 + 1) % 65536) with
    | none => .assertFailed bridge
    | some portId =>
      let portTree := { PORT_TREE.zero with
        portId := portId
        portTimes := { PORT_TREE.zero.portTimes with HelloTime := consts.BridgeHelloTime }
        InternalPortPathCost := 200000 }
      STP_CreateBridge.portTreeLoop consts allocOk portIndex rest
        { bridge with
          ports := Function.update bridge.ports portIndex
            { bridge.ports portIndex with
              trees := Function.update (bridge.ports portIndex).trees treeIndex portTree } }

/-- The loop of `STP_CreateBridge` over the ports. -/
def STP_CreateBridge.portLoop (consts : BRIDGE_CONSTANTS) (allocOk : BLOCK → Bool)
    (treeCount : Nat) : List Nat → STP_BRIDGE → RESULT STP_BRIDGE
  | [], bridge => .ok bridge
  | portIndex :: rest, bridge =>
    (allocAndZeroMemory allocOk bridge (.port portIndex) 1).bind fun bridge =>
    let bridge := { bridge with ports := Function.update bridge.ports portIndex PORT.zero }
    (allocAndZeroMemory allocOk bridge (.portTrees portIndex) treeCount).bind fun bridge =>
    (STP_CreateBridge.portTreeLoop consts allocOk portIndex (List.range treeCount) bridge).bind
      fun bridge =>
    let port := { bridge.ports portIndex with
      AutoEdge := true
      enableBPDUrx := true
      enableBPDUtx := true
      ExternalPortPathCost := 200000 }
    STP_CreateBridge.portLoop consts allocOk treeCount rest
      { bridge with ports := Function.update bridge.ports portIndex port }

/-- Creation of a bridge (`STP_CreateBridge`).  The `sizeof` assertions on the
layout of the structures are not modelled. -/
def STP_CreateBridge (consts : BRIDGE_CONSTANTS) (smInterface : SM_INTERFACE)
    (HMAC_MD5 : List Nat → List Nat) (allocOk : BLOCK → Bool) (portCount treeCount : Nat)
    (protocolVersion : STP_VERSION) (bridgeAddress : List Nat) (debugLogBufferSize : Nat) :
    RESULT STP_BRIDGE :=
  if ¬ (debugLogBufferSize ≥ 2) then .assertFailed STP_BRIDGE.zero
  else
    (allocAndZeroMemory allocOk STP_BRIDGE.zero .bridge 1).bind fun bridge =>
    if protocolVersion = .LEGACY_STP ∧ ¬ (treeCount = 1) then .assertFailed bridge
    else if protocolVersion = .RSTP ∧ ¬ (treeCount = 1) then .assertFailed bridge
    else if protocolVersion = .MSTP ∧ ¬ (treeCount ≥ 1 ∧ treeCount ≤ 65) then .assertFailed bridge
    else if ¬ (portCount ≥ 1 ∧ portCount < 4096) then .assertFailed bridge
    else
      let bridge := { bridge with
        ForceProtocolVersion := protocolVersion
        portCount := portCount
        treeCount := treeCount }
      (allocAndZeroMemory allocOk bridge .logBuffer debugLogBufferSize).bind fun bridge =>
      let bridge := { bridge with
        logBufferMaxSize := debugLogBufferSize
        logBuffer := []
        logCurrentPort := -1
        logCurrentTree := -1 }
      let stateMachineInstanceCount :=
        (smInterface.smInfo.map fun smInfo =>
          GetInstanceCountForStateMachine smInfo portCount treeCount).sum
        + GetInstanceCountForStateMachine smInterface.transmitSmInfo portCount treeCount
      (allocAndZeroMemory allocOk bridge .states stateMachineInstanceCount).bind fun bridge =>
      (allocAndZeroMemory allocOk bridge .trees treeCount).bind fun bridge =>
      (allocAndZeroMemory allocOk bridge .ports portCount).bind fun bridge =>
      (allocAndZeroMemory allocOk bridge (.bridgeTree CIST_INDEX) 1).bind fun bridge =>
      let cist := BRIDGE_TREE.zero.SetBridgeIdentifier3 0x8000 CIST_INDEX bridgeAddress
      let cist := { cist with
        BridgeTimes := { HelloTime := consts.BridgeHelloTime
                         remainingHops := consts.MaxHops
                         ForwardDelay := consts.BridgeForwardDelay
                         MaxAge := consts.BridgeMaxAge
                         MessageAge := 0 } }
      let bridge := { bridge with trees := Function.update bridge.trees CIST_INDEX cist }
      (STP_CreateBridge.mstiLoop consts allocOk bridgeAddress
        ((List.range treeCount).filter fun treeIndex => 1 ≤ treeIndex) bridge).bind fun bridge =>
      (STP_CreateBridge.portLoop consts allocOk treeCount (List.range portCount) bridge).bind
        fun bridge =>
      let bridge := { bridge with receivedBpduContent := none }
      let bridge := { bridge with
        MstConfigId := { bridge.MstConfigId with
          ConfigurationName := defaultConfigurationName bridgeAddress } }
      .ok (ComputeMstConfigDigest HMAC_MD5 bridge)

/-! ## Start -/

/-- Start of the bridge (`STP_StartBridge`): the scheduler is run with `BEGIN`
asserted, then again with `BEGIN` cleared. -/
def STP_StartBridge (smInterface : SM_INTERFACE) (fuel : Nat) (bridge : STP_BRIDGE)
    (timestamp : Nat) : RESULT STP_BRIDGE :=
  let bridge := LOG bridge (-1) (-1) "\x7bT\x7d: Starting the bridge...\r\n" [toString timestamp]
  if ¬ (bridge.started = false) then .assertFailed bridge
  else
    let bridge := { bridge with started := true }
    (RunStateMachines smInterface fuel { bridge with BEGIN := true } timestamp).bind fun bridge =>
    (RunStateMachines smInterface fuel { bridge with BEGIN := false } timestamp).bind fun bridge =>
    let bridge := LOG bridge (-1) (-1) "Bridge started.\r\n" []
    let bridge := LOG bridge (-1) (-1) "------------------------------------\r\n" []
    .ok (FLUSH_LOG bridge)

/-! ## Port events and received BPDUs -/

/-- Event "port up" (`STP_OnPortEnabled`).  The speed is not used by the
source. -/
def STP_OnPortEnabled (smInterface : SM_INTERFACE) (fuel : Nat) (bridge : STP_BRIDGE)
    (portIndex : Nat) (_speedMegabitsPerSecond : Nat) (detectedPointToPointMAC : Bool)
    (timestamp : Nat) : RESULT STP_BRIDGE :=
  let bridge := LOG bridge (-1) (-1) "\x7bT\x7d: Port \x7bD\x7d good\r\n"
    [toString timestamp, toString (1 + portIndex)]
  let port := bridge.ports portIndex
  if ¬ (port.portEnabled = false) then .assertFailed bridge
  else
    let port := { port with portEnabled := true }
    let port := { port with detectedPointToPointMAC := detectedPointToPointMAC }
    let port :=
      if port.adminPointToPointMAC = STP_ADMIN_P2P.AUTO then
        { port with operPointToPointMAC := detectedPointToPointMAC }
      else port
    let bridge := { bridge with ports := Function.update bridge.ports portIndex port }
    (if bridge.started then RunStateMachines smInterface fuel bridge timestamp
     else .ok bridge).bind fun bridge =>
    let bridge := LOG bridge (-1) (-1) "------------------------------------\r\n" []
    .ok (FLUSH_LOG bridge)

/-- Event "port down" (`STP_OnPortDisabled`). -/
def STP_OnPortDisabled (smInterface : SM_INTERFACE) (fuel : Nat) (bridge : STP_BRIDGE)
    (portIndex : Nat) (timestamp : Nat) : RESULT STP_BRIDGE :=
  let bridge := LOG bridge (-1) (-1) "\x7bT\x7d: Port \x7bD\x7d down\r\n"
    [toString timestamp, toString (1 + portIndex)]
  (if (bridge.ports portIndex).portEnabled then
    let bridge := { bridge with
      ports := Function.update bridge.ports portIndex
        { bridge.ports portIndex with portEnabled := false } }
    if bridge.started then RunStateMachines smInterface fuel bridge timestamp
    else .ok bridge
   else .ok bridge).bind fun bridge =>
  let bridge := LOG bridge (-1) (-1) "------------------------------------\r\n" []
  .ok (FLUSH_LOG bridge)

/-- Modelled from the spec: the `LOG_INDENT` macro of log.h (not under src).
The indentation of the log text is not modelled. -/
def LOG_INDENT (bridge : STP_BRIDGE) : STP_BRIDGE := bridge

/-- Modelled from the spec: the `LOG_UNINDENT` macro of log.h (not under src).
The indentation of the log text is not modelled. -/
def LOG_UNINDENT (bridge : STP_BRIDGE) : STP_BRIDGE := bridge

/-- Modelled from the spec: `DumpConfigBpdu`, `DumpRstpBpdu` and `DumpMstpBpdu`
(not under src): "valid BPDUs are logged with a full field dump (for
diagnostics) before being staged"; the dump is one piece of log text that
carries the bytes of the BPDU. -/
def DumpBpdu (bridge : STP_BRIDGE) (port tree : Int) (bpdu : List Nat) : STP_BRIDGE :=
  LOG bridge port tree "\x7bBPDU\x7d\r\n" (bpdu.map toString)

/-- The `switch (type)` of `STP_OnBpduReceived`: the log of the received BPDU
and the decision `passToStateMachines`. -/
def STP_OnBpduReceived.logBpdu (bridge : STP_BRIDGE) (portIndex : Nat) (bpdu : List Nat)
    (type : VALIDATED_BPDU_TYPE) : STP_BRIDGE × Bool :=
  match type with
  | .STP_CONFIG =>
    let bridge := LOG bridge portIndex (-1) "Config BPDU:\r\n" []
    let bridge := LOG_INDENT bridge
    let bridge := DumpBpdu bridge portIndex (-1) bpdu
    let bridge := LOG_UNINDENT bridge
    (bridge, true)
  | .RST =>
    let bridge := LOG bridge portIndex (-1) "RSTP BPDU:\r\n" []
    let bridge := LOG_INDENT bridge
    let bridge := DumpBpdu bridge portIndex (-1) bpdu
    let bridge := LOG_UNINDENT bridge
    (bridge, true)
  | .MST =>
    let bridge := LOG bridge portIndex (-1) "MSTP BPDU:\r\n" []
    let bridge := LOG_INDENT bridge
    let bridge := DumpBpdu bridge portIndex (-1) bpdu
    let bridge := LOG_UNINDENT bridge
    (bridge, true)
  | .STP_TCN =>
    (LOG bridge portIndex (-1) "TCN BPDU.\r\n" [], true)
  | .UNKNOWN =>
    (LOG bridge portIndex (-1) "Invalid BPDU received. Discarding it.\r\n" [], false)

/-- Event "BPDU received" (`STP_OnBpduReceived`).  The classifier
`STP_GetValidatedBpduType` is not under src and enters as a function of the
buffer and its size. -/
def STP_OnBpduReceived (smInterface : SM_INTERFACE)
    (STP_GetValidatedBpduType : List Nat → Nat → VALIDATED_BPDU_TYPE) (fuel : Nat)
    (bridge : STP_BRIDGE) (portIndex : Nat) (bpdu : List Nat) (bpduSize : Nat)
    (timestamp : Nat) : RESULT STP_BRIDGE :=
  if bridge.started then
    (if (bridge.ports portIndex).portEnabled = false then
      .ok (LOG bridge (-1) (-1)
        "\x7bT\x7d: WARNING: BPDU received on disabled port \x7bD\x7d. The STP library is discarding it.\r\n"
        [toString timestamp, toString (1 + portIndex)])
    else
      let bridge := LOG bridge (-1) (-1) "\x7bT\x7d: BPDU received on Port \x7bD\x7d:\r\n"
        [toString timestamp, toString (1 + portIndex)]
      let type := STP_GetValidatedBpduType bpdu bpduSize
      let logged := STP_OnBpduReceived.logBpdu bridge portIndex bpdu type
      let bridge := logged.1
      let passToStateMachines := logged.2
      if passToStateMachines then
        if ¬ (bridge.receivedBpduContent = none) then .assertFailed bridge
        else if ¬ (bridge.receivedBpduType = VALIDATED_BPDU_TYPE.UNKNOWN) then .assertFailed bridge
        else if ¬ ((bridge.ports portIndex).rcvdBpdu = false) then .assertFailed bridge
        else
          let bridge := { bridge with receivedBpduContent := some bpdu }
          let bridge := { bridge with receivedBpduType := type }
          let bridge := { bridge with
            ports := Function.update bridge.ports portIndex
              { bridge.ports portIndex with rcvdBpdu := true } }
          (RunStateMachines smInterface fuel bridge timestamp).bind fun bridge =>
          let bridge := { bridge with receivedBpduContent := none }
          let bridge := { bridge with receivedBpduType := VALIDATED_BPDU_TYPE.UNKNOWN }
          if ¬ ((bridge.ports portIndex).rcvdBpdu = false) then .assertFailed bridge
          else .ok bridge
      else .ok bridge).bind fun bridge =>
    let bridge := LOG bridge (-1) (-1) "------------------------------------\r\n" []
    .ok (FLUSH_LOG bridge)
  else .ok bridge

/-- Switch of the log (`STP_EnableLogging`). -/
def STP_EnableLogging (bridge : STP_BRIDGE) (enable : Bool) : STP_BRIDGE :=
  { bridge with loggingEnabled := enable }

/-- Getter `STP_GetPortEnabled`. -/
def STP_GetPortEnabled (bridge : STP_BRIDGE) (portIndex : Nat) : Bool :=
  (bridge.ports portIndex).portEnabled

/-- Getter `STP_GetPortOperPointToPointMAC`. -/
def STP_GetPortOperPointToPointMAC (bridge : STP_BRIDGE) (portIndex : Nat) : Bool :=
  (bridge.ports portIndex).operPointToPointMAC

/-- Getter `STP_GetPortAdminPointToPointMAC`. -/
def STP_GetPortAdminPointToPointMAC (bridge : STP_BRIDGE) (portIndex : Nat) : STP_ADMIN_P2P :=
  (bridge.ports portIndex).adminPointToPointMAC

/-- Getter of a port's priority in a tree (`STP_GetPortPriority`). -/
def STP_GetPortPriority (bridge : STP_BRIDGE) (portIndex treeIndex : Nat) : RESULT Nat :=
  if ¬ (portIndex < bridge.portCount) then .assertFailed bridge
  else if ¬ (treeIndex < bridge.treeCount) then .assertFailed bridge
  else
    match ((bridge.ports portIndex).trees treeIndex).portId.GetPriority with
    | none => .assertFailed bridge
    | some priority => .ok priority

/-- Getter of a port's identifier in a tree (`STP_GetPortIdentifier`). -/
def STP_GetPortIdentifier (bridge : STP_BRIDGE) (portIndex treeIndex : Nat) : RESULT Nat :=
  if ¬ (portIndex < bridge.portCount) then .assertFailed bridge
  else if ¬ (treeIndex < bridge.treeCount) then .assertFailed bridge
  else
    match ((bridge.ports portIndex).trees treeIndex).portId.GetPortIdentifier with
    | none => .assertFailed bridge
    | some id => .ok id

/-! ## Destruction, stop and the remaining setters -/

/-- A call of the host's `freeMemory`.  A block is named after the place its
pointer is stored in, which is where `STP_CreateBridge` stored the pointer it
obtained for that place. -/
def freeMemory (bridge : STP_BRIDGE) (block : BLOCK) : STP_BRIDGE :=
  { bridge with callbackTrace := bridge.callbackTrace ++ [CALLBACK_EVENT.freeMemory block] }

/-- Destruction of a bridge (`STP_DestroyBridge`).  The result is the record of
what the call did; the memory of the bridge is released. -/
def STP_DestroyBridge (bridge : STP_BRIDGE) : STP_BRIDGE :=
  let bridge := (List.range bridge.portCount).foldl
    (fun bridge portIndex =>
      let bridge := (List.range bridge.treeCount).foldl
        (fun bridge treeIndex => freeMemory bridge (.portTree portIndex treeIndex)) bridge
      let bridge := freeMemory bridge (.portTrees portIndex)
      freeMemory bridge (.port portIndex)) bridge
  let bridge := (List.range bridge.treeCount).foldl
    (fun bridge treeIndex => freeMemory bridge (.bridgeTree treeIndex)) bridge
  let bridge := freeMemory bridge .ports
  let bridge := freeMemory bridge .trees
  let bridge := freeMemory bridge .states
  let bridge := freeMemory bridge .logBuffer
  freeMemory bridge .bridge

/-- Stop of the bridge (`STP_StopBridge`). -/
def STP_StopBridge (bridge : STP_BRIDGE) (timestamp : Nat) : STP_BRIDGE :=
  let bridge := { bridge with started := false }
  let bridge := LOG bridge (-1) (-1) "\x7bT\x7d: Bridge stopped.\r\n" [toString timestamp]
  let bridge := LOG bridge (-1) (-1) "------------------------------------\r\n" []
  FLUSH_LOG bridge

/-- The loop of `STP_SetBridgeAddress` over the trees: the address of each
tree's bridge identifier is replaced, "without changing the priority". -/
def STP_SetBridgeAddress.loop (address : List Nat) : List Nat → STP_BRIDGE → STP_BRIDGE
  | [], bridge => bridge
  | treeIndex :: rest, bridge =>
    let bid := (bridge.trees treeIndex).GetBridgeIdentifier
    let bid := bid.SetAddress address
    STP_SetBridgeAddress.loop address rest
      { bridge with
        trees := Function.update bridge.trees treeIndex ((bridge.trees treeIndex).SetBridgeIdentifier bid) }

/-- Setter of the bridge address (`STP_SetBridgeAddress`); `address` is the six
bytes the pointer leads to. -/
def STP_SetBridgeAddress (smInterface : SM_INTERFACE) (fuel : Nat) (bridge : STP_BRIDGE)
    (address : List Nat) (timestamp : Nat) : RESULT STP_BRIDGE :=
  let bridge := LOG bridge (-1) (-1) "\x7bT\x7d: Setting bridge MAC address to \x7bBA\x7d...\r\n"
    [toString timestamp, toString address]
  let bridge := STP_SetBridgeAddress.loop address (List.range bridge.treeCount) bridge
  (if bridge.ForceProtocolVersion.toNat < STP_VERSION.MSTP.toNat then
    if bridge.started then RecomputePrioritiesAndPortRoles smInterface fuel bridge CIST_INDEX timestamp
    else .ok bridge
  else
    if bridge.started then
      (RunStateMachines smInterface fuel { bridge with BEGIN := true } timestamp).bind fun bridge =>
      RunStateMachines smInterface fuel { bridge with BEGIN := false } timestamp
    else .ok bridge).bind fun bridge =>
  let bridge := LOG bridge (-1) (-1) "------------------------------------\r\n" []
  .ok (FLUSH_LOG bridge)

/-- Setter of a port's priority in a tree (`STP_SetPortPriority`);
`portPriority` is an `unsigned char`. -/
def STP_SetPortPriority (smInterface : SM_INTERFACE) (fuel : Nat) (bridge : STP_BRIDGE)
    (portIndex treeIndex : Nat) (portPriority : Nat) (timestamp : Nat) : RESULT STP_BRIDGE :=
  if ¬ (portPriority % 16 = 0) then .assertFailed bridge
  else if ¬ (portIndex < bridge.portCount) then .assertFailed bridge
  else if ¬ (treeIndex < bridge.treeCount) then .assertFailed bridge
  else
    let bridge := LOG bridge (-1) (-1)
      "\x7bT\x7d: Setting port priority: port \x7bD\x7d tree \x7bTN\x7d prio = \x7bD\x7d...\r\n"
      [toString timestamp, toString (1 + portIndex), toString treeIndex, toString portPriority]
    match ((bridge.ports portIndex).trees treeIndex).portId.SetPriority portPriority with
    | none => .assertFailed bridge
    | some portId =>
      let bridge := { bridge with
        ports := Function.update bridge.ports portIndex
          { bridge.ports portIndex with
            trees := Function.update (bridge.ports portIndex).trees treeIndex
              { (bridge.ports portIndex).trees treeIndex with portId := portId } } }
      (if bridge.started then
        RecomputePrioritiesAndPortRoles smInterface fuel bridge treeIndex timestamp
      else .ok bridge).bind fun bridge =>
      let bridge := LOG bridge (-1) (-1) "------------------------------------\r\n" []
      .ok (FLUSH_LOG bridge)

/-- Name of an administrative point-to-point mode (`STP_GetAdminP2PString`). -/
def STP_GetAdminP2PString (adminP2P : STP_ADMIN_P2P) : String :=
  match adminP2P with
  | .AUTO => "Auto"
  | .FORCE_TRUE => "ForceTrue"
  | .FORCE_FALSE => "ForceFalse"

/-- Setter of a port's administrative point-to-point mode
(`STP_SetPortAdminPointToPointMAC`). -/
def STP_SetPortAdminPointToPointMAC (bridge : STP_BRIDGE) (portIndex : Nat)
    (adminPointToPointMAC : STP_ADMIN_P2P) (timestamp : Nat) : RESULT STP_BRIDGE :=
  let p2pString := STP_GetAdminP2PString adminPointToPointMAC
  let bridge := LOG bridge portIndex (-1)
    "\x7bT\x7d: Setting adminPointToPointMAC = \x7bS\x7d on port \x7bD\x7d...\r\n"
    [toString timestamp, p2pString, toString (1 + portIndex)]
  let port := bridge.ports portIndex
  (if port.adminPointToPointMAC ≠ adminPointToPointMAC then
    let port := { port with adminPointToPointMAC := adminPointToPointMAC }
    if adminPointToPointMAC = STP_ADMIN_P2P.FORCE_TRUE then
      RESULT.ok { bridge with
        ports := Function.update bridge.ports portIndex { port with operPointToPointMAC := true } }
    else if adminPointToPointMAC = STP_ADMIN_P2P.FORCE_FALSE then
      RESULT.ok { bridge with
        ports := Function.update bridge.ports portIndex { port with operPointToPointMAC := false } }
    else if adminPointToPointMAC = STP_ADMIN_P2P.AUTO then
      RESULT.ok { bridge with
        ports := Function.update bridge.ports portIndex
          { port with operPointToPointMAC := port.detectedPointToPointMAC } }
    else RESULT.assertFailed { bridge with ports := Function.update bridge.ports portIndex port }
  else RESULT.ok bridge).bind fun bridge =>
  let bridge := LOG bridge (-1) (-1) "------------------------------------\r\n" []
  .ok (FLUSH_LOG bridge)

/-- Getter `STP_GetPortRole`. -/
def STP_GetPortRole (bridge : STP_BRIDGE) (portIndex treeIndex : Nat) : STP_PORT_ROLE :=
  ((bridge.ports portIndex).trees treeIndex).role

/-- Getter `STP_GetPortLearning`. -/
def STP_GetPortLearning (bridge : STP_BRIDGE) (portIndex treeIndex : Nat) : Bool :=
  ((bridge.ports portIndex).trees treeIndex).learning

/-- Getter `STP_GetPortForwarding`. -/
def STP_GetPortForwarding (bridge : STP_BRIDGE) (portIndex treeIndex : Nat) : Bool :=
  ((bridge.ports portIndex).trees treeIndex).forwarding

/-- Getter `STP_IsBridgeStarted`. -/
def STP_IsBridgeStarted (bridge : STP_BRIDGE) : Bool :=
  bridge.started

/-- The loop of `STP_OnOneSecondTick` over the ports: `tick` is set on each. -/
def STP_OnOneSecondTick.tickPorts (bridge : STP_BRIDGE) : STP_BRIDGE :=
  (List.range bridge.portCount).foldl
    (fun bridge givenPort =>
      { bridge with
        ports := Function.update bridge.ports givenPort
          { bridge.ports givenPort with tick := true } }) bridge

/-- Event "one second elapsed" (`STP_OnOneSecondTick`). -/
def STP_OnOneSecondTick (smInterface : SM_INTERFACE) (fuel : Nat) (bridge : STP_BRIDGE)
    (timestamp : Nat) : RESULT STP_BRIDGE :=
  if bridge.started then
    let bridge := LOG bridge (-1) (-1) "\x7bT\x7d: One second:\r\n" [toString timestamp]
    let bridge :=
      if bridge.tcIgnore > 0 then { bridge with tcIgnore := bridge.tcIgnore - 1 } else bridge
    let bridge := STP_OnOneSecondTick.tickPorts bridge
    (RunStateMachines smInterface fuel bridge timestamp).bind fun bridge =>
    let bridge := LOG bridge (-1) (-1) "------------------------------------\r\n" []
    .ok (FLUSH_LOG bridge)
  else .ok bridge

/-- Setter `STP_SetPortAdminEdge`.  The timestamp is not used by the source. -/
def STP_SetPortAdminEdge (bridge : STP_BRIDGE) (portIndex : Nat) (newAdminEdge : Bool)
    (_timestamp : Nat) : STP_BRIDGE :=
  { bridge with
    ports := Function.update bridge.ports portIndex
      { bridge.ports portIndex with AdminEdge := newAdminEdge } }

/-- Setter `STP_SetPortAutoEdge`.  The timestamp is not used by the source. -/
def STP_SetPortAutoEdge (bridge : STP_BRIDGE) (portIndex : Nat) (newAutoEdge : Bool)
    (_timestamp : Nat) : STP_BRIDGE :=
  { bridge with
    ports := Function.update bridge.ports portIndex
      { bridge.ports portIndex with AutoEdge := newAutoEdge } }

/-- Setter of the configuration name (`STP_SetMstConfigName`); `name` is the
characters of the C string before its terminating zero, so that `strlen (name)`
is its length. -/
def STP_SetMstConfigName (smInterface : SM_INTERFACE) (fuel : Nat) (bridge : STP_BRIDGE)
    (name : List Nat) (timestamp : Nat) : RESULT STP_BRIDGE :=
  if ¬ (bridge.ForceProtocolVersion.toNat ≥ STP_VERSION.MSTP.toNat) then .assertFailed bridge
  else if ¬ (name.length ≤ 32) then .assertFailed bridge
  else
    let bridge := LOG bridge (-1) (-1)
      "\x7bT\x7d: Setting MST Config Name to \x22\x7bS\x7d\x22...\r\n"
      [toString timestamp, String.mk (name.map Char.ofNat)]
    let bridge := { bridge with
      MstConfigId := { bridge.MstConfigId with ConfigurationName := List.replicate 32 0 } }
    let bridge := { bridge with
      MstConfigId := { bridge.MstConfigId with
        ConfigurationName := name ++ bridge.MstConfigId.ConfigurationName.drop name.length } }
    (if bridge.started then
      (RunStateMachines smInterface fuel { bridge with BEGIN := true } timestamp).bind fun bridge =>
      RunStateMachines smInterface fuel { bridge with BEGIN := false } timestamp
    else .ok bridge).bind fun bridge =>
    let bridge := LOG bridge (-1) (-1) "------------------------------------\r\n" []
    .ok (FLUSH_LOG bridge)

/-- Setter of the revision level (`STP_SetMstConfigRevisionLevel`);
`revisionLevel` is an `unsigned short`. -/
def STP_SetMstConfigRevisionLevel (smInterface : SM_INTERFACE) (fuel : Nat) (bridge : STP_BRIDGE)
    (revisionLevel : Nat) (timestamp : Nat) : RESULT STP_BRIDGE :=
  if ¬ (bridge.ForceProtocolVersion.toNat ≥ STP_VERSION.MSTP.toNat) then .assertFailed bridge
  else if bridge.MstConfigId.RevisionLevel ≠ revisionLevel then
    let bridge := LOG bridge (-1) (-1)
      "\x7bT\x7d: Setting MST Config Revision Level to \x7bD\x7d...\r\n"
      [toString timestamp, toString revisionLevel]
    let bridge := { bridge with
      MstConfigId := { bridge.MstConfigId with RevisionLevel := revisionLevel } }
    (if bridge.started then
      (RunStateMachines smInterface fuel { bridge with BEGIN := true } timestamp).bind fun bridge =>
      RunStateMachines smInterface fuel { bridge with BEGIN := false } timestamp
    else .ok bridge).bind fun bridge =>
    let bridge := LOG bridge (-1) (-1) "------------------------------------\r\n" []
    .ok (FLUSH_LOG bridge)
  else .ok bridge

/-- Setter `STP_SetStpVersion`: "not implemented", its body is
`assert (false)`. -/
def STP_SetStpVersion (bridge : STP_BRIDGE) (_version : STP_VERSION) : RESULT STP_BRIDGE :=
  .assertFailed bridge

/-- Setter `STP_SetApplicationContext`. -/
def STP_SetApplicationContext (bridge : STP_BRIDGE) (applicationContext : Nat) : STP_BRIDGE :=
  { bridge with applicationContext := applicationContext }

/-! ## Notions used by the statements -/

/-- A property of the value a call returns; a failed assertion does not have
it, and a run that is cut short by the fuel is not judged. -/
def RESULT.Holds {α : Type} (Q : α → Prop) : RESULT α → Prop
  | .ok a => Q a
  | .assertFailed _ => False
  | .outOfFuel => True

/-- A relation between the bridge before and after a piece of work that
composes and that logging and the writing of an instance state respect. -/
structure FrameRel (R : STP_BRIDGE → STP_BRIDGE → Prop) : Prop where
  refl : ∀ b, R b b
  trans : ∀ a b c, R a b → R b c → R a c
  log : ∀ b port tree format args, R b (LOG b port tree format args)
  states : ∀ b i s, R b { b with states := Function.update b.states i s }

/-- Both callbacks of a state-machine kind respect the relation `R`. -/
def SM_INFO.Respects (smInfo : SM_INFO) (R : STP_BRIDGE → STP_BRIDGE → Prop) : Prop :=
  (∀ b port tree state, R b (smInfo.checkConditions b port tree state).1) ∧
  (∀ b port tree state timestamp, R b (smInfo.initState b port tree state timestamp))

/-- Every registered kind, the transmit kind included, respects `R`. -/
def SM_INTERFACE.Respects (smInterface : SM_INTERFACE) (R : STP_BRIDGE → STP_BRIDGE → Prop) :
    Prop :=
  (∀ smInfo ∈ smInterface.smInfo, smInfo.Respects R) ∧ smInterface.transmitSmInfo.Respects R

/-- The MST configuration of two bridge states is the same: the table and the
configuration identifier (name, revision level, digest). -/
def SameMstConfig (b b' : STP_BRIDGE) : Prop :=
  b'.mstConfigTable = b.mstConfigTable ∧ b'.MstConfigId = b.MstConfigId

/-- The state machines do not write the MST configuration. -/
def SM_INTERFACE.KeepsMstConfig (smInterface : SM_INTERFACE) : Prop :=
  smInterface.Respects SameMstConfig

/-- The table that a list of entries describes: at each VLAN the sum of the
tree indices the entries give it (one term at most when no VLAN is repeated). -/
def tableOf (table : List VLAN_TO_MSTID) (vlan : Nat) : Nat :=
  ((table.filter fun entry => entry.vlan = vlan).map fun entry => entry.mstid % 256).sum

/-- The bridge states reached from `STP_CreateBridge` by successful calls of
the two table setters. -/
inductive ReachableBySetters (consts : BRIDGE_CONSTANTS) (smInterface : SM_INTERFACE)
    (HMAC_MD5 : List Nat → List Nat) : STP_BRIDGE → Prop where
  | create (allocOk : BLOCK → Bool) (portCount treeCount : Nat) (protocolVersion : STP_VERSION)
      (bridgeAddress : List Nat) (debugLogBufferSize : Nat) (bridge : STP_BRIDGE) :
      STP_CreateBridge consts smInterface HMAC_MD5 allocOk portCount treeCount protocolVersion
        bridgeAddress debugLogBufferSize = .ok bridge →
      ReachableBySetters consts smInterface HMAC_MD5 bridge
  | setTable (fuel : Nat) (bridge : STP_BRIDGE) (table : List VLAN_TO_MSTID) (timestamp : Nat)
      (bridge' : STP_BRIDGE) :
      ReachableBySetters consts smInterface HMAC_MD5 bridge →
      STP_SetMstConfigTableAndComputeDigest smInterface HMAC_MD5 fuel bridge table timestamp
        = .ok bridge' →
      ReachableBySetters consts smInterface HMAC_MD5 bridge'
  | setTable1 (fuel : Nat) (bridge : STP_BRIDGE) (mstids : Nat → Nat) (timestamp : Nat)
      (bridge' : STP_BRIDGE) :
      ReachableBySetters consts smInterface HMAC_MD5 bridge →
      STP_SetMstConfigTableAndComputeDigest1 smInterface HMAC_MD5 fuel bridge mstids timestamp
        = .ok bridge' →
      ReachableBySetters consts smInterface HMAC_MD5 bridge'

/-- A port-tree after the two assignments of the recomputation: `selected`
cleared and `reselect` set. -/
def PORT_TREE.marked (portTree : PORT_TREE) : PORT_TREE :=
  { portTree with selected := false, reselect := true }

/-- The instances (port, tree) of a kind on a bridge, in the order in which
`RunStateMachineInstances` visits them. -/
def SM_INFO.instances (smInfo : SM_INFO) (bridge : STP_BRIDGE) : List (Int × Int) :=
  match smInfo.instanceType with
  | .PER_BRIDGE => [(-1, -1)]
  | .PER_BRIDGE_PER_TREE => (List.range bridge.treeCount).map fun treeIndex => (-1, (treeIndex : Int))
  | .PER_PORT => (List.range bridge.portCount).map fun portIndex => ((portIndex : Int), -1)
  | .PER_PORT_PER_TREE =>
    (List.range bridge.treeCount).flatMap fun treeIndex =>
      (List.range bridge.portCount).map fun portIndex => ((portIndex : Int), (treeIndex : Int))

/-- The instances of one kind with the slots of the state array they are given
when the first of them is given the slot `statePtr`. -/
def slotsFrom (smInfo : SM_INFO) : List (Int × Int) → Nat → List (SM_INFO × Int × Int × Nat)
  | [], _ => []
  | (port, tree) :: rest, statePtr => (smInfo, port, tree, statePtr) :: slotsFrom smInfo rest (statePtr + 1)

/-- The instances of a list of kinds with their slots, the first instance of
the first kind being given the slot `statePtr`. -/
def instanceSlots (bridge : STP_BRIDGE) : List SM_INFO → Nat → List (SM_INFO × Int × Int × Nat)
  | [], _ => []
  | smInfo :: rest, statePtr =>
    slotsFrom smInfo (smInfo.instances bridge) statePtr
      ++ instanceSlots bridge rest (statePtr + (smInfo.instances bridge).length)

/-- Every instance of every kind of the interface, the transmit kind last, with
its slot in `bridge->states`. -/
def SM_INTERFACE.instanceSlots (smInterface : SM_INTERFACE) (bridge : STP_BRIDGE) :
    List (SM_INFO × Int × Int × Nat) :=
  Stp.instanceSlots bridge (smInterface.smInfo ++ [smInterface.transmitSmInfo]) 0

/-- The predicate `checkConditions` of a kind only reads the bridge. -/
def SM_INFO.ChecksPurely (smInfo : SM_INFO) : Prop :=
  ∀ bridge port tree state, (smInfo.checkConditions bridge port tree state).1 = bridge

/-- The `portEnabled` flag of every port is the same in the two bridge states. -/
def SamePortEnabled (b b' : STP_BRIDGE) : Prop :=
  ∀ portIndex, (b'.ports portIndex).portEnabled = (b.ports portIndex).portEnabled

/-- Tells the log callback from the other host callbacks. -/
def CALLBACK_EVENT.isDebugStrOut : CALLBACK_EVENT → Bool
  | .debugStrOut _ _ _ _ => true
  | _ => false

/-- The second bridge state is the first one after some logging: apart from the
line buffer and its context nothing differs, and the host has only been called
through `debugStrOut`. -/
def OnlyLogged (b b' : STP_BRIDGE) : Prop :=
  b' = { b with
    logBuffer := b'.logBuffer
    logCurrentPort := b'.logCurrentPort
    logCurrentTree := b'.logCurrentTree
    callbackTrace := b'.callbackTrace } ∧
  ∃ events, b'.callbackTrace = b.callbackTrace ++ events ∧
    ∀ event ∈ events, event.isDebugStrOut = true

/-- The transient received-BPDU slot is clear. -/
def SlotClear (bridge : STP_BRIDGE) : Prop :=
  bridge.receivedBpduContent = none ∧ bridge.receivedBpduType = VALIDATED_BPDU_TYPE.UNKNOWN

/-- The triples (portCount, treeCount, version) of the specification of
`CreateBridge`: portCount in 1..4095, treeCount 1 for legacy STP and for RSTP
and in 1..65 for MSTP. -/
def ValidCreateTriple (portCount treeCount : Nat) (protocolVersion : STP_VERSION) : Prop :=
  (1 ≤ portCount ∧ portCount ≤ 4095) ∧
  match protocolVersion with
  | .LEGACY_STP => treeCount = 1
  | .RSTP => treeCount = 1
  | .MSTP => 1 ≤ treeCount ∧ treeCount ≤ 65

/-- The port identifier `PORT_ID::Set (0x80, portIndex + 1)` stores. -/
def createdPortId (portIndex : Nat) : PORT_ID :=
  { _high := 0x80 ||| ((portIndex + 1) >>> 8) % 256, _low := (portIndex + 1) % 256 }

/-- The block a callback invocation obtains from the host, if it is an
invocation of `allocAndZeroMemory`. -/
def CALLBACK_EVENT.allocated : CALLBACK_EVENT → Option BLOCK
  | .allocAndZeroMemory block _ => some block
  | _ => none

/-- The block a callback invocation returns to the host, if it is an
invocation of `freeMemory`. -/
def CALLBACK_EVENT.freed : CALLBACK_EVENT → Option BLOCK
  | .freeMemory block => some block
  | _ => none

/-- The blocks obtained from the host in a record of callbacks, in order. -/
def allocatedBlocks (trace : List CALLBACK_EVENT) : List BLOCK :=
  trace.filterMap CALLBACK_EVENT.allocated

/-- The blocks returned to the host in a record of callbacks, in order. -/
def freedBlocks (trace : List CALLBACK_EVENT) : List BLOCK :=
  trace.filterMap CALLBACK_EVENT.freed

/-- The allocations `STP_CreateBridge` makes for the port `portIndex`. -/
def portAllocations (treeCount portIndex : Nat) : List CALLBACK_EVENT :=
  [CALLBACK_EVENT.allocAndZeroMemory (.port portIndex) 1,
   CALLBACK_EVENT.allocAndZeroMemory (.portTrees portIndex) treeCount]
  ++ (List.range treeCount).map fun treeIndex =>
      CALLBACK_EVENT.allocAndZeroMemory (.portTree portIndex treeIndex) 1

/-- The releases `STP_DestroyBridge` makes for the port `portIndex`. -/
def portReleases (treeCount portIndex : Nat) : List CALLBACK_EVENT :=
  ((List.range treeCount).map fun treeIndex =>
      CALLBACK_EVENT.freeMemory (.portTree portIndex treeIndex))
  ++ [CALLBACK_EVENT.freeMemory (.portTrees portIndex), CALLBACK_EVENT.freeMemory (.port portIndex)]

/-- The blocks `STP_CreateBridge` obtains for a bridge of `portCount` ports and
`treeCount` trees, in the order of the source. -/
def createdBlocks (portCount treeCount : Nat) : List BLOCK :=
  [BLOCK.bridge, BLOCK.logBuffer, BLOCK.states, BLOCK.trees, BLOCK.ports, BLOCK.bridgeTree CIST_INDEX]
  ++ (((List.range treeCount).filter fun treeIndex => 1 ≤ treeIndex).map fun treeIndex =>
      BLOCK.bridgeTree treeIndex)
  ++ (List.range portCount).flatMap fun portIndex =>
      [BLOCK.port portIndex, BLOCK.portTrees portIndex]
        ++ (List.range treeCount).map fun treeIndex => BLOCK.portTree portIndex treeIndex

/-- The blocks `STP_DestroyBridge` returns for a bridge of `portCount` ports
and `treeCount` trees, in the order of the source. -/
def releasedBlocks (portCount treeCount : Nat) : List BLOCK :=
  ((List.range portCount).flatMap fun portIndex =>
      ((List.range treeCount).map fun treeIndex => BLOCK.portTree portIndex treeIndex)
        ++ [BLOCK.portTrees portIndex, BLOCK.port portIndex])
  ++ ((List.range treeCount).map fun treeIndex => BLOCK.bridgeTree treeIndex)
  ++ [BLOCK.ports, BLOCK.trees, BLOCK.states, BLOCK.logBuffer, BLOCK.bridge]

/-- The flags `started` and `BEGIN` are the same in the two bridge states. -/
def SameStartedBegin (b b' : STP_BRIDGE) : Prop :=
  b'.started = b.started ∧ b'.BEGIN = b.BEGIN

/-- The part of `RunStateMachineInstance` that follows a transition to
`newState`: the log line, the call of `initState` with the new state, then the
store of the new state in the slot. -/
def RunStateMachineInstance.transition (smInfo : SM_INFO) (bridge : STP_BRIDGE)
    (givenPort givenTree : Int) (statePtr : Nat) (newState : SM_STATE) (timestamp : Nat) :
    STP_BRIDGE :=
  let bridge :=
    if givenPort = -1 then LOG bridge givenPort givenTree "Bridge: " []
    else LOG bridge givenPort givenTree "Port \x7bD\x7d: " [toString (1 + givenPort)]
  let bridge :=
    if bridge.ForceProtocolVersion.toNat ≥ STP_VERSION.MSTP.toNat then
      if givenTree = (CIST_INDEX : Int) then LOG bridge givenPort givenTree "CIST: " []
      else if givenTree > 0 then LOG bridge givenPort givenTree "MST\x7bD\x7d: " [toString givenTree]
      else bridge
    else bridge
  let newStateName := smInfo.getStateName newState
  let bridge := LOG bridge givenPort givenTree "\x7bS\x7d: -> \x7bS\x7d\r\n" [smInfo.smName, newStateName]
  let bridge := smInfo.initState bridge givenPort givenTree newState timestamp
  { bridge with states := Function.update bridge.states statePtr newState }

/-- The runs of one instance: `InstanceRun ... bridge newStates r` says that,
started on `bridge`, the instance makes the transitions to the states
`newStates`, one after the other, each followed by the log line, `initState`
and the store, and that the evaluation of `checkConditions` after the last of
them yields "no transition" and leaves the bridge `r`. -/
inductive InstanceRun (smInfo : SM_INFO) (givenPort givenTree : Int) (statePtr timestamp : Nat) :
    STP_BRIDGE → List SM_STATE → STP_BRIDGE → Prop where
  | rest (bridge : STP_BRIDGE) :
      (smInfo.checkConditions bridge givenPort givenTree (bridge.states statePtr)).2 = 0 →
      InstanceRun smInfo givenPort givenTree statePtr timestamp bridge []
        (smInfo.checkConditions bridge givenPort givenTree (bridge.states statePtr)).1
  | step (bridge : STP_BRIDGE) (newStates : List SM_STATE) (r : STP_BRIDGE) :
      (smInfo.checkConditions bridge givenPort givenTree (bridge.states statePtr)).2 ≠ 0 →
      InstanceRun smInfo givenPort givenTree statePtr timestamp
        (RunStateMachineInstance.transition smInfo
          (smInfo.checkConditions bridge givenPort givenTree (bridge.states statePtr)).1
          givenPort givenTree statePtr
          (smInfo.checkConditions bridge givenPort givenTree (bridge.states statePtr)).2 timestamp)
        newStates r →
      InstanceRun smInfo givenPort givenTree statePtr timestamp bridge
        ((smInfo.checkConditions bridge givenPort givenTree (bridge.states statePtr)).2 :: newStates)
        r

/-- The counts of ports and trees are the same in the two bridge states. -/
def SameCounts (b b' : STP_BRIDGE) : Prop :=
  b'.portCount = b.portCount ∧ b'.treeCount = b.treeCount

/-- The instances of a list, each run to convergence on the slot the list
gives it, in the order of the list; the flag tells whether any of them made a
transition. -/
def runSlots (fuel timestamp : Nat) :
    List (SM_INFO × Int × Int × Nat) → STP_BRIDGE → Bool → RESULT (STP_BRIDGE × Bool)
  | [], bridge, changed => .ok (bridge, changed)
  | (smInfo, givenPort, givenTree, slot) :: rest, bridge, changed =>
    (RunStateMachineInstance fuel bridge smInfo givenPort givenTree slot timestamp).bind
      fun r => runSlots fuel timestamp rest r.1 (changed || r.2)

/-- The value of the local variable `statePtr` of `RunStateMachines` (as an
index into `bridge->states`) at the end of one iteration of its
`do ... while (changed)`. -/
def RunStateMachines.cycleStatePtr (smInterface : SM_INTERFACE) (fuel : Nat) (bridge : STP_BRIDGE)
    (timestamp : Nat) : RESULT Nat :=
  (RunStateMachines.pass fuel timestamp smInterface.smInfo bridge 0 false).bind fun r =>
    if r.2.2 = false then
      (RunStateMachineInstances fuel r.1 smInterface.transmitSmInfo r.2.1 timestamp).bind
        fun t => .ok t.2.1
    else .ok r.2.1

/-- The number of slots `STP_CreateBridge` allocates for the instance states of
a bridge of `portCount` ports and `treeCount` trees
(`stateMachineInstanceCount`). -/
def stateMachineInstanceCount (smInterface : SM_INTERFACE) (portCount treeCount : Nat) : Nat :=
  (smInterface.smInfo.map fun smInfo =>
    GetInstanceCountForStateMachine smInfo portCount treeCount).sum
  + GetInstanceCountForStateMachine smInterface.transmitSmInfo portCount treeCount

/-- The operational point-to-point status of a port agrees with its
administrative mode: true for ForceTrue, false for ForceFalse, and what was
detected for Auto. -/
def PORT.OperAgreesWithAdmin (port : PORT) : Prop :=
  match port.adminPointToPointMAC with
  | .FORCE_TRUE => port.operPointToPointMAC = true
  | .FORCE_FALSE => port.operPointToPointMAC = false
  | .AUTO => port.operPointToPointMAC = port.detectedPointToPointMAC

/-- The bridge states reached from `STP_CreateBridge` by calls of
`STP_OnPortEnabled`, `STP_OnPortDisabled` and
`STP_SetPortAdminPointToPointMAC` that return. -/
inductive ReachableByPortEvents (consts : BRIDGE_CONSTANTS) (smInterface : SM_INTERFACE)
    (HMAC_MD5 : List Nat → List Nat) : STP_BRIDGE → Prop where
  | create (allocOk : BLOCK → Bool) (portCount treeCount : Nat) (protocolVersion : STP_VERSION)
      (bridgeAddress : List Nat) (debugLogBufferSize : Nat) (bridge : STP_BRIDGE) :
      STP_CreateBridge consts smInterface HMAC_MD5 allocOk portCount treeCount protocolVersion
        bridgeAddress debugLogBufferSize = .ok bridge →
      ReachableByPortEvents consts smInterface HMAC_MD5 bridge
  | onPortEnabled (fuel : Nat) (bridge : STP_BRIDGE) (portIndex speedMegabitsPerSecond : Nat)
      (detectedPointToPointMAC : Bool) (timestamp : Nat) (bridge' : STP_BRIDGE) :
      ReachableByPortEvents consts smInterface HMAC_MD5 bridge →
      STP_OnPortEnabled smInterface fuel bridge portIndex speedMegabitsPerSecond
        detectedPointToPointMAC timestamp = .ok bridge' →
      ReachableByPortEvents consts smInterface HMAC_MD5 bridge'
  | onPortDisabled (fuel : Nat) (bridge : STP_BRIDGE) (portIndex timestamp : Nat)
      (bridge' : STP_BRIDGE) :
      ReachableByPortEvents consts smInterface HMAC_MD5 bridge →
      STP_OnPortDisabled smInterface fuel bridge portIndex timestamp = .ok bridge' →
      ReachableByPortEvents consts smInterface HMAC_MD5 bridge'
  | setPortAdminPointToPointMAC (bridge : STP_BRIDGE) (portIndex : Nat)
      (adminPointToPointMAC : STP_ADMIN_P2P) (timestamp : Nat) (bridge' : STP_BRIDGE) :
      ReachableByPortEvents consts smInterface HMAC_MD5 bridge →
      STP_SetPortAdminPointToPointMAC bridge portIndex adminPointToPointMAC timestamp
        = .ok bridge' →
      ReachableByPortEvents consts smInterface HMAC_MD5 bridge'

/-- The 4094-byte array a list of entries describes: the byte at index v - 1 is
the tree index of the entry for the VLAN v, and 0 where the list has no entry
for v. -/
def mstidsOf (table : List VLAN_TO_MSTID) (i : Nat) : Nat :=
  match table.find? (fun entry => entry.vlan = i + 1) with
  | some entry => entry.mstid % 256
  | none => 0

/-- The received-BPDU slot is the same in the two bridge states. -/
def SameSlot (b b' : STP_BRIDGE) : Prop :=
  b'.receivedBpduContent = b.receivedBpduContent ∧ b'.receivedBpduType = b.receivedBpduType

/-- The bridge states a host can observe: the state `STP_CreateBridge` returns
and the state each later call of an entry point of stp.cpp that writes the
bridge returns.  The getters leave the bridge as it is and `STP_DestroyBridge`
ends it. -/
inductive ReachableByEntryPoints (consts : BRIDGE_CONSTANTS) (smInterface : SM_INTERFACE)
    (HMAC_MD5 : List Nat → List Nat)
    (STP_GetValidatedBpduType : List Nat → Nat → VALIDATED_BPDU_TYPE) : STP_BRIDGE → Prop where
  | createBridge (allocOk : BLOCK → Bool) (portCount treeCount : Nat)
      (protocolVersion : STP_VERSION) (bridgeAddress : List Nat) (debugLogBufferSize : Nat)
      (bridge : STP_BRIDGE) :
      STP_CreateBridge consts smInterface HMAC_MD5 allocOk portCount treeCount protocolVersion
        bridgeAddress debugLogBufferSize = .ok bridge →
      ReachableByEntryPoints consts smInterface HMAC_MD5 STP_GetValidatedBpduType bridge
  | startBridge (fuel : Nat) (bridge : STP_BRIDGE) (timestamp : Nat) (bridge' : STP_BRIDGE) :
      ReachableByEntryPoints consts smInterface HMAC_MD5 STP_GetValidatedBpduType bridge →
      STP_StartBridge smInterface fuel bridge timestamp = .ok bridge' →
      ReachableByEntryPoints consts smInterface HMAC_MD5 STP_GetValidatedBpduType bridge'
  | stopBridge (bridge : STP_BRIDGE) (timestamp : Nat) :
      ReachableByEntryPoints consts smInterface HMAC_MD5 STP_GetValidatedBpduType bridge →
      ReachableByEntryPoints consts smInterface HMAC_MD5 STP_GetValidatedBpduType
        (STP_StopBridge bridge timestamp)
  | setBridgeAddress (fuel : Nat) (bridge : STP_BRIDGE) (address : List Nat) (timestamp : Nat)
      (bridge' : STP_BRIDGE) :
      ReachableByEntryPoints consts smInterface HMAC_MD5 STP_GetValidatedBpduType bridge →
      STP_SetBridgeAddress smInterface fuel bridge address timestamp = .ok bridge' →
      ReachableByEntryPoints consts smInterface HMAC_MD5 STP_GetValidatedBpduType bridge'
  | onPortEnabled (fuel : Nat) (bridge : STP_BRIDGE) (portIndex speedMegabitsPerSecond : Nat)
      (detectedPointToPointMAC : Bool) (timestamp : Nat) (bridge' : STP_BRIDGE) :
      ReachableByEntryPoints consts smInterface HMAC_MD5 STP_GetValidatedBpduType bridge →
      STP_OnPortEnabled smInterface fuel bridge portIndex speedMegabitsPerSecond
        detectedPointToPointMAC timestamp = .ok bridge' →
      ReachableByEntryPoints consts smInterface HMAC_MD5 STP_GetValidatedBpduType bridge'
  | onPortDisabled (fuel : Nat) (bridge : STP_BRIDGE) (portIndex timestamp : Nat)
      (bridge' : STP_BRIDGE) :
      ReachableByEntryPoints consts smInterface HMAC_MD5 STP_GetValidatedBpduType bridge →
      STP_OnPortDisabled smInterface fuel bridge portIndex timestamp = .ok bridge' →
      ReachableByEntryPoints consts smInterface HMAC_MD5 STP_GetValidatedBpduType bridge'
  | onOneSecondTick (fuel : Nat) (bridge : STP_BRIDGE) (timestamp : Nat) (bridge' : STP_BRIDGE) :
      ReachableByEntryPoints consts smInterface HMAC_MD5 STP_GetValidatedBpduType bridge →
      STP_OnOneSecondTick smInterface fuel bridge timestamp = .ok bridge' →
      ReachableByEntryPoints consts smInterface HMAC_MD5 STP_GetValidatedBpduType bridge'
  | onBpduReceived (fuel : Nat) (bridge : STP_BRIDGE) (portIndex : Nat) (bpdu : List Nat)
      (bpduSize timestamp : Nat) (bridge' : STP_BRIDGE) :
      ReachableByEntryPoints consts smInterface HMAC_MD5 STP_GetValidatedBpduType bridge →
      STP_OnBpduReceived smInterface STP_GetValidatedBpduType fuel bridge portIndex bpdu bpduSize
        timestamp = .ok bridge' →
      ReachableByEntryPoints consts smInterface HMAC_MD5 STP_GetValidatedBpduType bridge'
  | enableLogging (bridge : STP_BRIDGE) (enable : Bool) :
      ReachableByEntryPoints consts smInterface HMAC_MD5 STP_GetValidatedBpduType bridge →
      ReachableByEntryPoints consts smInterface HMAC_MD5 STP_GetValidatedBpduType
        (STP_EnableLogging bridge enable)
  | setPortAdminEdge (bridge : STP_BRIDGE) (portIndex : Nat) (newAdminEdge : Bool)
      (timestamp : Nat) :
      ReachableByEntryPoints consts smInterface HMAC_MD5 STP_GetValidatedBpduType bridge →
      ReachableByEntryPoints consts smInterface HMAC_MD5 STP_GetValidatedBpduType
        (STP_SetPortAdminEdge bridge portIndex newAdminEdge timestamp)
  | setPortAutoEdge (bridge : STP_BRIDGE) (portIndex : Nat) (newAutoEdge : Bool)
      (timestamp : Nat) :
      ReachableByEntryPoints consts smInterface HMAC_MD5 STP_GetValidatedBpduType bridge →
      ReachableByEntryPoints consts smInterface HMAC_MD5 STP_GetValidatedBpduType
        (STP_SetPortAutoEdge bridge portIndex newAutoEdge timestamp)
  | setPortAdminPointToPointMAC (bridge : STP_BRIDGE) (portIndex : Nat)
      (adminPointToPointMAC : STP_ADMIN_P2P) (timestamp : Nat) (bridge' : STP_BRIDGE) :
      ReachableByEntryPoints consts smInterface HMAC_MD5 STP_GetValidatedBpduType bridge →
      STP_SetPortAdminPointToPointMAC bridge portIndex adminPointToPointMAC timestamp
        = .ok bridge' →
      ReachableByEntryPoints consts smInterface HMAC_MD5 STP_GetValidatedBpduType bridge'
  | setBridgePriority (fuel : Nat) (bridge : STP_BRIDGE) (treeIndex bridgePriority timestamp : Nat)
      (bridge' : STP_BRIDGE) :
      ReachableByEntryPoints consts smInterface HMAC_MD5 STP_GetValidatedBpduType bridge →
      STP_SetBridgePriority smInterface fuel bridge treeIndex bridgePriority timestamp
        = .ok bridge' →
      ReachableByEntryPoints consts smInterface HMAC_MD5 STP_GetValidatedBpduType bridge'
  | setPortPriority (fuel : Nat) (bridge : STP_BRIDGE)
      (portIndex treeIndex portPriority timestamp : Nat) (bridge' : STP_BRIDGE) :
      ReachableByEntryPoints consts smInterface HMAC_MD5 STP_GetValidatedBpduType bridge →
      STP_SetPortPriority smInterface fuel bridge portIndex treeIndex portPriority timestamp
        = .ok bridge' →
      ReachableByEntryPoints consts smInterface HMAC_MD5 STP_GetValidatedBpduType bridge'
  | setMstConfigName (fuel : Nat) (bridge : STP_BRIDGE) (name : List Nat) (timestamp : Nat)
      (bridge' : STP_BRIDGE) :
      ReachableByEntryPoints consts smInterface HMAC_MD5 STP_GetValidatedBpduType bridge →
      STP_SetMstConfigName smInterface fuel bridge name timestamp = .ok bridge' →
      ReachableByEntryPoints consts smInterface HMAC_MD5 STP_GetValidatedBpduType bridge'
  | setMstConfigRevisionLevel (fuel : Nat) (bridge : STP_BRIDGE) (revisionLevel timestamp : Nat)
      (bridge' : STP_BRIDGE) :
      ReachableByEntryPoints consts smInterface HMAC_MD5 STP_GetValidatedBpduType bridge →
      STP_SetMstConfigRevisionLevel smInterface fuel bridge revisionLevel timestamp
        = .ok bridge' →
      ReachableByEntryPoints consts smInterface HMAC_MD5 STP_GetValidatedBpduType bridge'
  | setMstConfigTableAndComputeDigest1 (fuel : Nat) (bridge : STP_BRIDGE) (mstids : Nat → Nat)
      (timestamp : Nat) (bridge' : STP_BRIDGE) :
      ReachableByEntryPoints consts smInterface HMAC_MD5 STP_GetValidatedBpduType bridge →
      STP_SetMstConfigTableAndComputeDigest1 smInterface HMAC_MD5 fuel bridge mstids timestamp
        = .ok bridge' →
      ReachableByEntryPoints consts smInterface HMAC_MD5 STP_GetValidatedBpduType bridge'
  | setMstConfigTableAndComputeDigest (fuel : Nat) (bridge : STP_BRIDGE)
      (table : List VLAN_TO_MSTID) (timestamp : Nat) (bridge' : STP_BRIDGE) :
      ReachableByEntryPoints consts smInterface HMAC_MD5 STP_GetValidatedBpduType bridge →
      STP_SetMstConfigTableAndComputeDigest smInterface HMAC_MD5 fuel bridge table timestamp
        = .ok bridge' →
      ReachableByEntryPoints consts smInterface HMAC_MD5 STP_GetValidatedBpduType bridge'
  | setStpVersion (bridge : STP_BRIDGE) (version : STP_VERSION) (bridge' : STP_BRIDGE) :
      ReachableByEntryPoints consts smInterface HMAC_MD5 STP_GetValidatedBpduType bridge →
      STP_SetStpVersion bridge version = .ok bridge' →
      ReachableByEntryPoints consts smInterface HMAC_MD5 STP_GetValidatedBpduType bridge'
  | setApplicationContext (bridge : STP_BRIDGE) (applicationContext : Nat) :
      ReachableByEntryPoints consts smInterface HMAC_MD5 STP_GetValidatedBpduType bridge →
      ReachableByEntryPoints consts smInterface HMAC_MD5 STP_GetValidatedBpduType
        (STP_SetApplicationContext bridge applicationContext)

/-! ## Sample values -/

/-- A kind with one instance that never makes a transition. -/
def idleSmInfo : SM_INFO :=
  { instanceType := .PER_BRIDGE, smName := "idle", getStateName := fun _ => "",
    checkConditions := fun bridge _ _ _ => (bridge, 0),
    initState := fun bridge _ _ _ _ => bridge }

/-- An interface without non-transmit kinds, whose transmit kind is idle. -/
def idleSmInterface : SM_INTERFACE :=
  { smInfo := [], transmitSmInfo := idleSmInfo }

/-- The standard's default protocol constants. -/
def sampleConstants : BRIDGE_CONSTANTS :=
  { BridgeHelloTime := 2, MaxHops := 20, BridgeForwardDelay := 15, BridgeMaxAge := 20 }

/-- The bridge a successful call returned, the zeroed bridge otherwise. -/
def RESULT.bridgeOr (r : RESULT STP_BRIDGE) : STP_BRIDGE :=
  match r with
  | .ok bridge => bridge
  | _ => STP_BRIDGE.zero

/-- A stand-in for the HMAC-MD5 routine in the sample values. -/
def sampleHash (bytes : List Nat) : List Nat :=
  List.replicate 16 (bytes.sum % 256)

/-- An MSTP bridge with 2 ports and 3 trees, as `STP_CreateBridge` returns it. -/
def sampleBridge : STP_BRIDGE :=
  (STP_CreateBridge sampleConstants idleSmInterface sampleHash (fun _ => true) 2 3 .MSTP
    [0x10, 0x20, 0x30, 0x40, 0x50, 0x60] 16).bridgeOr

/-- The sample bridge after `STP_StartBridge`. -/
def sampleStartedBridge : STP_BRIDGE :=
  (STP_StartBridge idleSmInterface 1 sampleBridge 0).bridgeOr

/-- The entry that maps `vlan` (below 256) to the tree `mstid`. -/
def entryFor (vlan mstid : Nat) : VLAN_TO_MSTID :=
  { vlanHigh := 0, vlanLow := vlan, mstid := mstid }

/-- The sample bridge after VLAN 10 was mapped to tree 1 and VLAN 20 to tree 2. -/
def sampleMappedBridge : STP_BRIDGE :=
  (STP_SetMstConfigTableAndComputeDigest idleSmInterface sampleHash 0 sampleBridge
    [entryFor 10 1, entryFor 20 2] 0).bridgeOr

/-- A classifier that finds every buffer invalid or every buffer an RSTP BPDU,
as its argument says. -/
def sampleClassifier (valid : Bool) : List Nat → Nat → VALIDATED_BPDU_TYPE :=
  fun _ _ => if valid then .RST else .UNKNOWN

/-- The sample bridge with its log switched on. -/
def sampleLoggingBridge : STP_BRIDGE :=
  STP_EnableLogging sampleBridge true

/-- An RSTP bridge with 256 ports, as `STP_CreateBridge` is asked for it. -/
def sampleWideBridgeResult : RESULT STP_BRIDGE :=
  STP_CreateBridge sampleConstants idleSmInterface sampleHash (fun _ => true) 256 1 .RSTP
    [0x10, 0x20, 0x30, 0x40, 0x50, 0x60] 16

/-- A kind with one instance that makes one transition, from "no state" to the
state 1, and then rests. -/
def oneShotSmInfo : SM_INFO :=
  { instanceType := .PER_BRIDGE, smName := "oneShot", getStateName := fun _ => "",
    checkConditions := fun bridge _ _ state => (bridge, if state = 0 then 1 else 0),
    initState := fun bridge _ _ _ _ => bridge }

/-- An interface with one non-transmit kind and a transmit kind, each of which
makes one transition. -/
def oneShotSmInterface : SM_INTERFACE :=
  { smInfo := [oneShotSmInfo], transmitSmInfo := oneShotSmInfo }

/-- The sample bridge after port 0 came up with a point-to-point link. -/
def sampleEnabledBridge : STP_BRIDGE :=
  (STP_OnPortEnabled idleSmInterface 0 sampleBridge 0 100 true 0).bridgeOr

/-- The sample bridge after port 0 came up and went down again. -/
def sampleDisabledAgainBridge : STP_BRIDGE :=
  (STP_OnPortDisabled idleSmInterface 0 sampleEnabledBridge 0 1).bridgeOr

/-- The started sample bridge after port 0 came up. -/
def sampleStartedEnabledBridge : STP_BRIDGE :=
  (STP_OnPortEnabled idleSmInterface 1 sampleStartedBridge 0 100 true 1).bridgeOr

/-- A per-port kind that consumes the `rcvdBpdu` flag of its port: it makes a
transition while the flag is set, and the entry action clears the flag. -/
def receiveSmInfo : SM_INFO :=
  { instanceType := .PER_PORT, smName := "receive", getStateName := fun _ => "",
    checkConditions := fun bridge port _ _ =>
      (bridge, if (bridge.ports port.toNat).rcvdBpdu then 1 else 0),
    initState := fun bridge port _ _ _ =>
      { bridge with
        ports := Function.update bridge.ports port.toNat
          { bridge.ports port.toNat with rcvdBpdu := false } } }

/-- An interface whose only non-transmit kind consumes received BPDUs. -/
def receiveSmInterface : SM_INTERFACE :=
  { smInfo := [receiveSmInfo], transmitSmInfo := idleSmInfo }

/-- An RSTP bridge with 2 ports whose state machines consume received BPDUs,
as `STP_CreateBridge` returns it. -/
def sampleReceiverCreated : STP_BRIDGE :=
  (STP_CreateBridge sampleConstants receiveSmInterface sampleHash (fun _ => true) 2 1 .RSTP
    [0x10, 0x20, 0x30, 0x40, 0x50, 0x60] 16).bridgeOr

/-- The receiver bridge after it was started and port 0 came up. -/
def sampleReceiverBridge : STP_BRIDGE :=
  (STP_OnPortEnabled receiveSmInterface 2
    (STP_StartBridge receiveSmInterface 2 sampleReceiverCreated 0).bridgeOr 0 100 true 1).bridgeOr

/-- An RSTP bridge with 2 ports created for the one-shot interface; it has two
instance states, one of the non-transmit kind and one of the transmit kind. -/
def sampleOneShotBridge : STP_BRIDGE :=
  (STP_CreateBridge sampleConstants oneShotSmInterface sampleHash (fun _ => true) 2 1 .RSTP
    [0x10, 0x20, 0x30, 0x40, 0x50, 0x60] 16).bridgeOr

/-- The sample bridge after port 0 came up with a point-to-point link and was
then forced to "not point-to-point". -/
def sampleForcedBridge : STP_BRIDGE :=
  (STP_SetPortAdminPointToPointMAC sampleEnabledBridge 0 .FORCE_FALSE 1).bridgeOr

/-- A kind with one instance that makes one transition, from "no state" to the
state 1, and whose entry action stores the one-byte buffer [1] in the
received-BPDU slot of the bridge. -/
def slotWriterSmInfo : SM_INFO :=
  { instanceType := .PER_BRIDGE, smName := "slotWriter", getStateName := fun _ => "",
    checkConditions := fun bridge _ _ state => (bridge, if state = 0 then 1 else 0),
    initState := fun bridge _ _ _ _ => { bridge with receivedBpduContent := some [1] } }

/-- An interface whose only non-transmit kind writes the received-BPDU slot. -/
def slotWriterSmInterface : SM_INTERFACE :=
  { smInfo := [slotWriterSmInfo], transmitSmInfo := idleSmInfo }

/-- The receiver bridge after it was started. -/
def sampleReceiverStarted : STP_BRIDGE :=
  (STP_StartBridge receiveSmInterface 2 sampleReceiverCreated 0).bridgeOr

/-! ## The log writes only the log -/

@[simp]
theorem LOG_ForceProtocolVersion (bridge : STP_BRIDGE) (port tree : Int) (format : String) (args : List String) :
    (LOG bridge port tree format args).ForceProtocolVersion = bridge.ForceProtocolVersion := by
  unfold LOG LogEmit
  split_ifs <;> rfl

@[simp]
theorem FLUSH_LOG_ForceProtocolVersion (bridge : STP_BRIDGE) : (FLUSH_LOG bridge).ForceProtocolVersion = bridge.ForceProtocolVersion := by
  unfold FLUSH_LOG LogEmit
  split_ifs <;> rfl

@[simp]
theorem LOG_portCount (bridge : STP_BRIDGE) (port tree : Int) (format : String) (args : List String) :
    (LOG bridge port tree format args).portCount = bridge.portCount := by
  unfold LOG LogEmit
  split_ifs <;> rfl

@[simp]
theorem FLUSH_LOG_portCount (bridge : STP_BRIDGE) : (FLUSH_LOG bridge).portCount = bridge.portCount := by
  unfold FLUSH_LOG LogEmit
  split_ifs <;> rfl

@[simp]
theorem LOG_treeCount (bridge : STP_BRIDGE) (port tree : Int) (format : String) (args : List String) :
    (LOG bridge port tree format args).treeCount = bridge.treeCount := by
  unfold LOG LogEmit
  split_ifs <;> rfl

@[simp]
theorem FLUSH_LOG_treeCount (bridge : STP_BRIDGE) : (FLUSH_LOG bridge).treeCount = bridge.treeCount := by
  unfold FLUSH_LOG LogEmit
  split_ifs <;> rfl

@[simp]
theorem LOG_started (bridge : STP_BRIDGE) (port tree : Int) (format : String) (args : List String) :
    (LOG bridge port tree format args).started = bridge.started := by
  unfold LOG LogEmit
  split_ifs <;> rfl

@[simp]
theorem FLUSH_LOG_started (bridge : STP_BRIDGE) : (FLUSH_LOG bridge).started = bridge.started := by
  unfold FLUSH_LOG LogEmit
  split_ifs <;> rfl

@[simp]
theorem LOG_BEGIN (bridge : STP_BRIDGE) (port tree : Int) (format : String) (args : List String) :
    (LOG bridge port tree format args).BEGIN = bridge.BEGIN := by
  unfold LOG LogEmit
  split_ifs <;> rfl

@[simp]
theorem FLUSH_LOG_BEGIN (bridge : STP_BRIDGE) : (FLUSH_LOG bridge).BEGIN = bridge.BEGIN := by
  unfold FLUSH_LOG LogEmit
  split_ifs <;> rfl

@[simp]
theorem LOG_loggingEnabled (bridge : STP_BRIDGE) (port tree : Int) (format : String) (args : List String) :
    (LOG bridge port tree format args).loggingEnabled = bridge.loggingEnabled := by
  unfold LOG LogEmit
  split_ifs <;> rfl

@[simp]
theorem FLUSH_LOG_loggingEnabled (bridge : STP_BRIDGE) : (FLUSH_LOG bridge).loggingEnabled = bridge.loggingEnabled := by
  unfold FLUSH_LOG LogEmit
  split_ifs <;> rfl

@[simp]
theorem LOG_tcIgnore (bridge : STP_BRIDGE) (port tree : Int) (format : String) (args : List String) :
    (LOG bridge port tree format args).tcIgnore = bridge.tcIgnore := by
  unfold LOG LogEmit
  split_ifs <;> rfl

@[simp]
theorem FLUSH_LOG_tcIgnore (bridge : STP_BRIDGE) : (FLUSH_LOG bridge).tcIgnore = bridge.tcIgnore := by
  unfold FLUSH_LOG LogEmit
  split_ifs <;> rfl

@[simp]
theorem LOG_trees (bridge : STP_BRIDGE) (port tree : Int) (format : String) (args : List String) :
    (LOG bridge port tree format args).trees = bridge.trees := by
  unfold LOG LogEmit
  split_ifs <;> rfl

@[simp]
theorem FLUSH_LOG_trees (bridge : STP_BRIDGE) : (FLUSH_LOG bridge).trees = bridge.trees := by
  unfold FLUSH_LOG LogEmit
  split_ifs <;> rfl

@[simp]
theorem LOG_ports (bridge : STP_BRIDGE) (port tree : Int) (format : String) (args : List String) :
    (LOG bridge port tree format args).ports = bridge.ports := by
  unfold LOG LogEmit
  split_ifs <;> rfl

@[simp]
theorem FLUSH_LOG_ports (bridge : STP_BRIDGE) : (FLUSH_LOG bridge).ports = bridge.ports := by
  unfold FLUSH_LOG LogEmit
  split_ifs <;> rfl

@[simp]
theorem LOG_states (bridge : STP_BRIDGE) (port tree : Int) (format : String) (args : List String) :
    (LOG bridge port tree format args).states = bridge.states := by
  unfold LOG LogEmit
  split_ifs <;> rfl

@[simp]
theorem FLUSH_LOG_states (bridge : STP_BRIDGE) : (FLUSH_LOG bridge).states = bridge.states := by
  unfold FLUSH_LOG LogEmit
  split_ifs <;> rfl

@[simp]
theorem LOG_MstConfigId (bridge : STP_BRIDGE) (port tree : Int) (format : String) (args : List String) :
    (LOG bridge port tree format args).MstConfigId = bridge.MstConfigId := by
  unfold LOG LogEmit
  split_ifs <;> rfl

@[simp]
theorem FLUSH_LOG_MstConfigId (bridge : STP_BRIDGE) : (FLUSH_LOG bridge).MstConfigId = bridge.MstConfigId := by
  unfold FLUSH_LOG LogEmit
  split_ifs <;> rfl

@[simp]
theorem LOG_mstConfigTable (bridge : STP_BRIDGE) (port tree : Int) (format : String) (args : List String) :
    (LOG bridge port tree format args).mstConfigTable = bridge.mstConfigTable := by
  unfold LOG LogEmit
  split_ifs <;> rfl

@[simp]
theorem FLUSH_LOG_mstConfigTable (bridge : STP_BRIDGE) : (FLUSH_LOG bridge).mstConfigTable = bridge.mstConfigTable := by
  unfold FLUSH_LOG LogEmit
  split_ifs <;> rfl

@[simp]
theorem LOG_receivedBpduContent (bridge : STP_BRIDGE) (port tree : Int) (format : String) (args : List String) :
    (LOG bridge port tree format args).receivedBpduContent = bridge.receivedBpduContent := by
  unfold LOG LogEmit
  split_ifs <;> rfl

@[simp]
theorem FLUSH_LOG_receivedBpduContent (bridge : STP_BRIDGE) : (FLUSH_LOG bridge).receivedBpduContent = bridge.receivedBpduContent := by
  unfold FLUSH_LOG LogEmit
  split_ifs <;> rfl

@[simp]
theorem LOG_receivedBpduType (bridge : STP_BRIDGE) (port tree : Int) (format : String) (args : List String) :
    (LOG bridge port tree format args).receivedBpduType = bridge.receivedBpduType := by
  unfold LOG LogEmit
  split_ifs <;> rfl

@[simp]
theorem FLUSH_LOG_receivedBpduType (bridge : STP_BRIDGE) : (FLUSH_LOG bridge).receivedBpduType = bridge.receivedBpduType := by
  unfold FLUSH_LOG LogEmit
  split_ifs <;> rfl

@[simp]
theorem LOG_applicationContext (bridge : STP_BRIDGE) (port tree : Int) (format : String) (args : List String) :
    (LOG bridge port tree format args).applicationContext = bridge.applicationContext := by
  unfold LOG LogEmit
  split_ifs <;> rfl

@[simp]
theorem FLUSH_LOG_applicationContext (bridge : STP_BRIDGE) : (FLUSH_LOG bridge).applicationContext = bridge.applicationContext := by
  unfold FLUSH_LOG LogEmit
  split_ifs <;> rfl

/-! ## Sequencing -/

@[simp]
theorem RESULT.bind_ok {α β : Type} (a : α) (f : α → RESULT β) :
    (RESULT.ok a).bind f = f a := rfl

@[simp]
theorem RESULT.bind_assertFailed {α β : Type} (s : STP_BRIDGE) (f : α → RESULT β) :
    (RESULT.assertFailed s : RESULT α).bind f = .assertFailed s := rfl

@[simp]
theorem RESULT.bind_outOfFuel {α β : Type} (f : α → RESULT β) :
    (RESULT.outOfFuel : RESULT α).bind f = .outOfFuel := rfl

theorem RESULT.bind_eq_ok {α β : Type} {r : RESULT α} {f : α → RESULT β} {b : β} :
    r.bind f = .ok b ↔ ∃ a, r = .ok a ∧ f a = .ok b := by
  cases r <;> simp

theorem RESULT.bind_eq_assertFailed {α β : Type} {r : RESULT α} {f : α → RESULT β}
    {s : STP_BRIDGE} :
    r.bind f = .assertFailed s ↔ r = .assertFailed s ∨ ∃ a, r = .ok a ∧ f a = .assertFailed s := by
  cases r <;> simp

theorem RESULT.Holds.bind {α β : Type} {P : α → Prop} {Q : β → Prop} {r : RESULT α}
    {f : α → RESULT β} (hr : r.Holds P) (hf : ∀ a, P a → (f a).Holds Q) : (r.bind f).Holds Q := by
  cases r with
  | ok a => exact hf a hr
  | assertFailed s => exact hr.elim
  | outOfFuel => trivial

theorem RESULT.Holds.of_ok {α : Type} {Q : α → Prop} {r : RESULT α} {a : α}
    (hr : r.Holds Q) (h : r = .ok a) : Q a := by
  subst h
  exact hr

theorem RESULT.Holds.ne_assertFailed {α : Type} {Q : α → Prop} {r : RESULT α}
    (hr : r.Holds Q) (s : STP_BRIDGE) : r ≠ .assertFailed s := by
  intro h
  subst h
  exact hr

theorem RESULT.Holds.mono {α : Type} {P Q : α → Prop} {r : RESULT α}
    (hr : r.Holds P) (h : ∀ a, P a → Q a) : r.Holds Q := by
  cases r with
  | ok a => exact h a hr
  | assertFailed s => exact hr.elim
  | outOfFuel => trivial

/-! ## The scheduler respects what the state machines respect -/

theorem RunStateMachineInstance_holds {R : STP_BRIDGE → STP_BRIDGE → Prop} (hR : FrameRel R)
    {smInfo : SM_INFO} (hsm : smInfo.Respects R) (givenPort givenTree : Int)
    (statePtr timestamp : Nat) :
    ∀ (fuel : Nat) (bridge : STP_BRIDGE),
      (RunStateMachineInstance fuel bridge smInfo givenPort givenTree statePtr timestamp).Holds
        fun r => R bridge r.1 := by
  intro fuel
  induction fuel with
  | zero => intro bridge; trivial
  | succ fuel ih =>
    intro bridge
    unfold RunStateMachineInstance
    simp only []
    have h0 : R bridge (smInfo.checkConditions bridge givenPort givenTree (bridge.states statePtr)).1 :=
      hsm.1 _ _ _ _
    split_ifs with hne h1 h2 h3 h4 h5 h6 h7
    all_goals first
      | exact hR.refl _
      | (apply RESULT.Holds.bind (ih _)
         intro a ha
         refine hR.trans _ _ _ (hR.trans _ _ _ h0 ?_) ha
         first
           | exact hR.trans _ _ _ (hR.trans _ _ _ (hR.trans _ _ _ (hR.trans _ _ _ (hR.log _ _ _ _ _) (hR.log _ _ _ _ _)) (hR.log _ _ _ _ _)) (hsm.2 _ _ _ _ _)) (hR.states _ _ _)
           | exact hR.trans _ _ _ (hR.trans _ _ _ (hR.trans _ _ _ (hR.log _ _ _ _ _) (hR.log _ _ _ _ _)) (hsm.2 _ _ _ _ _)) (hR.states _ _ _))
      | exact h0


theorem RunStateMachineInstances_loop_holds {R : STP_BRIDGE → STP_BRIDGE → Prop} (hR : FrameRel R)
    {smInfo : SM_INFO} (hsm : smInfo.Respects R) (fuel timestamp : Nat) :
    ∀ (instances : List (Int × Int)) (bridge : STP_BRIDGE) (statePtr : Nat) (changed : Bool),
      (RunStateMachineInstances.loop fuel smInfo timestamp instances bridge statePtr changed).Holds
        fun r => R bridge r.1 := by
  intro instances
  induction instances with
  | nil => intro bridge statePtr changed; exact hR.refl _
  | cons inst rest ih =>
    intro bridge statePtr changed
    obtain ⟨givenPort, givenTree⟩ := inst
    unfold RunStateMachineInstances.loop
    apply RESULT.Holds.bind (RunStateMachineInstance_holds hR hsm givenPort givenTree statePtr timestamp fuel bridge)
    intro a ha
    exact (ih a.1 (statePtr + 1) (changed || a.2)).mono fun r hr => hR.trans _ _ _ ha hr

theorem RunStateMachineInstances_holds {R : STP_BRIDGE → STP_BRIDGE → Prop} (hR : FrameRel R)
    {smInfo : SM_INFO} (hsm : smInfo.Respects R) (fuel : Nat) (bridge : STP_BRIDGE)
    (statePtr timestamp : Nat) :
    (RunStateMachineInstances fuel bridge smInfo statePtr timestamp).Holds
      fun r => R bridge r.1 := by
  unfold RunStateMachineInstances
  split <;> exact RunStateMachineInstances_loop_holds hR hsm fuel timestamp _ _ _ _

theorem RunStateMachines_pass_holds {R : STP_BRIDGE → STP_BRIDGE → Prop} (hR : FrameRel R)
    (fuel timestamp : Nat) :
    ∀ (kinds : List SM_INFO), (∀ smInfo ∈ kinds, smInfo.Respects R) →
      ∀ (bridge : STP_BRIDGE) (statePtr : Nat) (changed : Bool),
        (RunStateMachines.pass fuel timestamp kinds bridge statePtr changed).Holds
          fun r => R bridge r.1 := by
  intro kinds
  induction kinds with
  | nil => intro _ bridge statePtr changed; exact hR.refl _
  | cons smInfo rest ih =>
    intro hk bridge statePtr changed
    unfold RunStateMachines.pass
    apply RESULT.Holds.bind
      (RunStateMachineInstances_holds hR (hk smInfo (List.mem_cons_self _ _)) fuel bridge statePtr timestamp)
    intro a ha
    exact (ih (fun k hk' => hk k (List.mem_cons_of_mem _ hk')) a.1 a.2.1 (changed || a.2.2)).mono
      fun r hr => hR.trans _ _ _ ha hr

theorem RunStateMachines_cycle_holds {R : STP_BRIDGE → STP_BRIDGE → Prop} (hR : FrameRel R)
    {smInterface : SM_INTERFACE} (hsm : smInterface.Respects R) (fuel : Nat) (bridge : STP_BRIDGE)
    (timestamp : Nat) :
    (RunStateMachines.cycle smInterface fuel bridge timestamp).Holds fun r => R bridge r.1 := by
  unfold RunStateMachines.cycle
  apply RESULT.Holds.bind (RunStateMachines_pass_holds hR fuel timestamp _ hsm.1 bridge 0 false)
  intro a ha
  split_ifs
  · apply RESULT.Holds.bind (RunStateMachineInstances_holds hR hsm.2 fuel a.1 a.2.1 timestamp)
    intro t ht
    exact hR.trans _ _ _ ha ht
  · exact ha

theorem RunStateMachines_loop_holds {R : STP_BRIDGE → STP_BRIDGE → Prop} (hR : FrameRel R)
    {smInterface : SM_INTERFACE} (hsm : smInterface.Respects R) (fuel timestamp : Nat) :
    ∀ (cycles : Nat) (bridge : STP_BRIDGE),
      (RunStateMachines.loop smInterface fuel timestamp cycles bridge).Holds fun r => R bridge r := by
  intro cycles
  induction cycles with
  | zero => intro bridge; trivial
  | succ cycles ih =>
    intro bridge
    unfold RunStateMachines.loop
    apply RESULT.Holds.bind (RunStateMachines_cycle_holds hR hsm fuel bridge timestamp)
    intro a ha
    split_ifs
    · exact (ih a.1).mono fun r hr => hR.trans _ _ _ ha hr
    · exact ha

/-- Whatever relation the state machines, the log and the writing of instance
states respect holds between the bridge given to the scheduler and the bridge
it returns; and the scheduler fails no assertion. -/
theorem RunStateMachines_holds {R : STP_BRIDGE → STP_BRIDGE → Prop} (hR : FrameRel R)
    {smInterface : SM_INTERFACE} (hsm : smInterface.Respects R) (fuel : Nat) (bridge : STP_BRIDGE)
    (timestamp : Nat) :
    (RunStateMachines smInterface fuel bridge timestamp).Holds fun r => R bridge r :=
  RunStateMachines_loop_holds hR hsm fuel timestamp fuel bridge

theorem FrameRel_true : FrameRel fun _ _ => True :=
  ⟨fun _ => trivial, fun _ _ _ _ _ => trivial, fun _ _ _ _ _ => trivial, fun _ _ _ => trivial⟩

theorem Respects_true (smInterface : SM_INTERFACE) : smInterface.Respects fun _ _ => True :=
  ⟨fun _ _ => ⟨fun _ _ _ _ => trivial, fun _ _ _ _ _ => trivial⟩,
   ⟨fun _ _ _ _ => trivial, fun _ _ _ _ _ => trivial⟩⟩

/-- The scheduler fails no assertion of the library. -/
theorem RunStateMachines_ne_assertFailed (smInterface : SM_INTERFACE) (fuel : Nat)
    (bridge : STP_BRIDGE) (timestamp : Nat) (s : STP_BRIDGE) :
    RunStateMachines smInterface fuel bridge timestamp ≠ .assertFailed s :=
  (RunStateMachines_holds FrameRel_true (Respects_true smInterface) fuel bridge timestamp).ne_assertFailed s

theorem FrameRel_SameMstConfig : FrameRel SameMstConfig := by
  refine ⟨fun _ => ⟨rfl, rfl⟩, ?_, ?_, fun _ _ _ => ⟨rfl, rfl⟩⟩
  · intro a b c hab hbc
    exact ⟨hbc.1.trans hab.1, hbc.2.trans hab.2⟩
  · intro b port tree format args
    exact ⟨LOG_mstConfigTable _ _ _ _ _, LOG_MstConfigId _ _ _ _ _⟩

/-- The BEGIN / non-BEGIN double run of the scheduler fails no assertion. -/
theorem beginRun_ne_assertFailed (smInterface : SM_INTERFACE) (fuel : Nat)
    (bridge : STP_BRIDGE) (timestamp : Nat) (s : STP_BRIDGE) :
    (RunStateMachines smInterface fuel { bridge with BEGIN := true } timestamp).bind
      (fun bridge => RunStateMachines smInterface fuel { bridge with BEGIN := false } timestamp)
      ≠ .assertFailed s := by
  intro h
  rcases RESULT.bind_eq_assertFailed.mp h with h | ⟨a, _, h⟩
  · exact RunStateMachines_ne_assertFailed _ _ _ _ _ h
  · exact RunStateMachines_ne_assertFailed _ _ _ _ _ h

/-- The BEGIN / non-BEGIN double run keeps the MST configuration when the state
machines do. -/
theorem beginRun_SameMstConfig {smInterface : SM_INTERFACE} (hsm : smInterface.KeepsMstConfig)
    (fuel : Nat) (bridge : STP_BRIDGE) (timestamp : Nat) (r : STP_BRIDGE)
    (h : (RunStateMachines smInterface fuel { bridge with BEGIN := true } timestamp).bind
      (fun bridge => RunStateMachines smInterface fuel { bridge with BEGIN := false } timestamp)
      = .ok r) : SameMstConfig bridge r := by
  obtain ⟨a, h1, h2⟩ := RESULT.bind_eq_ok.mp h
  have e1 := (RunStateMachines_holds FrameRel_SameMstConfig hsm fuel _ timestamp).of_ok h1
  have e2 := (RunStateMachines_holds FrameRel_SameMstConfig hsm fuel _ timestamp).of_ok h2
  exact ⟨e2.1.trans e1.1, e2.2.trans e1.2⟩


/-! ## The loop of the table setter -/

theorem tableOf_nil (vlan : Nat) : tableOf [] vlan = 0 := rfl

theorem tableOf_cons (entry : VLAN_TO_MSTID) (rest : List VLAN_TO_MSTID) (vlan : Nat) :
    tableOf (entry :: rest) vlan
      = (if entry.vlan = vlan then entry.mstid % 256 else 0) + tableOf rest vlan := by
  unfold tableOf
  by_cases h : entry.vlan = vlan <;> simp [List.filter_cons, h]

theorem tableOf_append (pre post : List VLAN_TO_MSTID) (vlan : Nat) :
    tableOf (pre ++ post) vlan = tableOf pre vlan + tableOf post vlan := by
  unfold tableOf
  simp [List.filter_append]

theorem tableOf_perm {l₁ l₂ : List VLAN_TO_MSTID} (h : l₁.Perm l₂) (vlan : Nat) :
    tableOf l₁ vlan = tableOf l₂ vlan := by
  unfold tableOf
  exact ((h.filter _).map _).sum_eq

/-- When no VLAN is repeated, the table of a list holds at the VLAN of each
entry that entry's tree index. -/
theorem tableOf_of_mem :
    ∀ (table : List VLAN_TO_MSTID), (table.map VLAN_TO_MSTID.vlan).Nodup →
      ∀ entry ∈ table, tableOf table entry.vlan = entry.mstid % 256 := by
  intro table
  induction table with
  | nil => intro _ entry h; cases h
  | cons head rest ih =>
    intro hnd entry hmem
    rw [List.map_cons, List.nodup_cons] at hnd
    rw [tableOf_cons]
    rcases List.mem_cons.mp hmem with rfl | hrest
    · have hz : tableOf rest entry.vlan = 0 := by
        unfold tableOf
        have : rest.filter (fun e => decide (e.vlan = entry.vlan)) = [] := by
          apply List.filter_eq_nil_iff.mpr
          intro e he hde
          exact hnd.1 (List.mem_map.mpr ⟨e, he, of_decide_eq_true hde⟩)
        rw [this]
        rfl
      simp [hz]
    · have hne : head.vlan ≠ entry.vlan := by
        intro heq
        exact hnd.1 (List.mem_map.mpr ⟨entry, hrest, heq.symm⟩)
      simp [hne, ih hnd.2 entry hrest]

/-- The table of a list is zero at a VLAN no entry names. -/
theorem tableOf_of_not_mem (table : List VLAN_TO_MSTID) (vlan : Nat)
    (h : ∀ entry ∈ table, entry.vlan ≠ vlan) : tableOf table vlan = 0 := by
  unfold tableOf
  have : table.filter (fun e => decide (e.vlan = vlan)) = [] := by
    apply List.filter_eq_nil_iff.mpr
    intro e he hde
    exact h e he (of_decide_eq_true hde)
  rw [this]
  rfl

/-- The body of the loop: the three assertions, then the write. -/
theorem setTable_loop_cons (entry : VLAN_TO_MSTID) (rest : List VLAN_TO_MSTID)
    (bridge : STP_BRIDGE) :
    STP_SetMstConfigTableAndComputeDigest.loop (entry :: rest) bridge =
      if entry.vlan = 0 ∨ 4094 < entry.vlan ∨ bridge.treeCount < entry.mstid % 256
          ∨ bridge.mstConfigTable entry.vlan ≠ 0 then
        .assertFailed bridge
      else
        STP_SetMstConfigTableAndComputeDigest.loop rest
          { bridge with
            mstConfigTable := Function.update bridge.mstConfigTable entry.vlan (entry.mstid % 256) } := by
  rw [STP_SetMstConfigTableAndComputeDigest.loop]
  by_cases h1 : entry.vlan > 0 ∧ entry.vlan ≤ 4094
  · by_cases h2 : entry.mstid % 256 ≤ bridge.treeCount
    · by_cases h3 : bridge.mstConfigTable entry.vlan = 0
      · have hn : ¬ (entry.vlan = 0 ∨ 4094 < entry.vlan ∨ bridge.treeCount < entry.mstid % 256
          ∨ bridge.mstConfigTable entry.vlan ≠ 0) := by
          rintro (h | h | h | h)
          · omega
          · omega
          · omega
          · exact h h3
        rw [if_neg (not_not.mpr h1), if_neg (not_not.mpr h2), if_neg (not_not.mpr h3), if_neg hn]
      · rw [if_neg (not_not.mpr h1), if_neg (not_not.mpr h2), if_pos h3,
          if_pos (Or.inr (Or.inr (Or.inr h3)))]
    · rw [if_neg (not_not.mpr h1), if_pos h2, if_pos (Or.inr (Or.inr (Or.inl (by omega))))]
  · rw [if_pos h1, if_pos]
    by_cases h0 : entry.vlan = 0
    · exact Or.inl h0
    · exact Or.inr (Or.inl (by omega))

/-- Writing an entry at a VLAN the table maps to 0 adds the entry to the table. -/
theorem table_write_eq (t : Nat → Nat) (entry : VLAN_TO_MSTID) (pre : List VLAN_TO_MSTID)
    (hz : t entry.vlan = 0) :
    (fun v => Function.update t entry.vlan (entry.mstid % 256) v + tableOf pre v)
      = fun v => t v + tableOf (entry :: pre) v := by
  funext v
  rw [tableOf_cons]
  by_cases hv : entry.vlan = v
  · subst hv
    simp [hz]
  · have hv' : v ≠ entry.vlan := fun e => hv e.symm
    simp [hv, Function.update_noteq hv']

/-- A run of the loop that reaches the end of the list has added the table of
the list to the table it started from and has written nothing else. -/
theorem setTable_loop_ok :
    ∀ (table : List VLAN_TO_MSTID) (bridge r : STP_BRIDGE),
      STP_SetMstConfigTableAndComputeDigest.loop table bridge = .ok r →
      r = { bridge with mstConfigTable := fun v => bridge.mstConfigTable v + tableOf table v } := by
  intro table
  induction table with
  | nil =>
    intro bridge r h
    simp only [STP_SetMstConfigTableAndComputeDigest.loop, RESULT.ok.injEq] at h
    subst h
    simp [tableOf_nil]
  | cons entry rest ih =>
    intro bridge r h
    rw [setTable_loop_cons] at h
    by_cases hbad : entry.vlan = 0 ∨ 4094 < entry.vlan ∨ bridge.treeCount < entry.mstid % 256
          ∨ bridge.mstConfigTable entry.vlan ≠ 0
    · rw [if_pos hbad] at h
      cases h
    · rw [if_neg hbad] at h
      have hz : bridge.mstConfigTable entry.vlan = 0 := by
        by_contra hc
        exact hbad (Or.inr (Or.inr (Or.inr hc)))
      rw [ih _ _ h]
      simp only [table_write_eq _ _ _ hz]

/-- The loop fails an assertion when some entry names a VLAN outside 1..4094. -/
theorem setTable_loop_bad_vlan :
    ∀ (table : List VLAN_TO_MSTID) (bridge : STP_BRIDGE),
      (∃ entry ∈ table, entry.vlan = 0 ∨ 4094 < entry.vlan) →
      ∃ s, STP_SetMstConfigTableAndComputeDigest.loop table bridge = .assertFailed s := by
  intro table
  induction table with
  | nil =>
    intro bridge h
    obtain ⟨e, he, _⟩ := h
    cases he
  | cons entry rest ih =>
    intro bridge h
    rw [setTable_loop_cons]
    by_cases hbad : entry.vlan = 0 ∨ 4094 < entry.vlan ∨ bridge.treeCount < entry.mstid % 256
          ∨ bridge.mstConfigTable entry.vlan ≠ 0
    · rw [if_pos hbad]
      exact ⟨_, rfl⟩
    · rw [if_neg hbad]
      apply ih
      obtain ⟨e, he, hb⟩ := h
      rcases List.mem_cons.mp he with rfl | hrest
      · exfalso
        rcases hb with hb | hb
        · exact hbad (Or.inl hb)
        · exact hbad (Or.inr (Or.inl hb))
      · exact ⟨e, hrest, hb⟩


/-! ## The table setter as a whole -/

/-- The bridge on which `STP_SetMstConfigTableAndComputeDigest` runs the
scheduler (if started) once the loop has accepted the list: the first line is
logged, the table is the table of the list and the digest is recomputed. -/
theorem setTable_eq_ok {smInterface : SM_INTERFACE} {HMAC_MD5 : List Nat → List Nat} {fuel : Nat}
    {bridge : STP_BRIDGE} {table : List VLAN_TO_MSTID} {timestamp : Nat} {r : STP_BRIDGE}
    (h : STP_SetMstConfigTableAndComputeDigest smInterface HMAC_MD5 fuel bridge table timestamp
      = .ok r) :
    ∃ logged mid r1,
      logged = LOG bridge (-1) (-1) "\x7bT\x7d: Setting MST Config Table...\r\n" [toString timestamp] ∧
      STP_SetMstConfigTableAndComputeDigest.loop table { logged with mstConfigTable := fun _ => 0 }
        = .ok { logged with mstConfigTable := fun v => tableOf table v } ∧
      mid = ComputeMstConfigDigest HMAC_MD5 { logged with mstConfigTable := fun v => tableOf table v } ∧
      (if bridge.started then
        (RunStateMachines smInterface fuel { mid with BEGIN := true } timestamp).bind fun bridge =>
          RunStateMachines smInterface fuel { bridge with BEGIN := false } timestamp
       else .ok mid) = .ok r1 ∧
      r = FLUSH_LOG (LOG r1 (-1) (-1) "------------------------------------\r\n" []) := by
  unfold STP_SetMstConfigTableAndComputeDigest at h
  by_cases hv : bridge.ForceProtocolVersion.toNat ≥ STP_VERSION.MSTP.toNat
  · rw [if_neg (not_not.mpr hv)] at h
    obtain ⟨b0, hloop, h2⟩ := RESULT.bind_eq_ok.mp h
    dsimp only at h2
    obtain ⟨r1, hrun, h3⟩ := RESULT.bind_eq_ok.mp h2
    have hb0 := setTable_loop_ok _ _ _ hloop
    simp only [zero_add] at hb0
    subst hb0
    simp only [RESULT.ok.injEq] at h3
    refine ⟨_, _, r1, rfl, hloop, rfl, ?_, h3.symm⟩
    simpa [ComputeMstConfigDigest] using hrun
  · rw [if_pos hv] at h
    cases h

/-- The table and the digest a successful call leaves, when the state machines
keep the MST configuration (they are run only on a started bridge). -/
theorem setTable_ok_config {smInterface : SM_INTERFACE} {HMAC_MD5 : List Nat → List Nat}
    {fuel : Nat} {bridge : STP_BRIDGE} {table : List VLAN_TO_MSTID} {timestamp : Nat}
    {r : STP_BRIDGE} (hsm : bridge.started = true → smInterface.KeepsMstConfig)
    (h : STP_SetMstConfigTableAndComputeDigest smInterface HMAC_MD5 fuel bridge table timestamp
      = .ok r) :
    r.mstConfigTable = (fun v => tableOf table v) ∧
    r.MstConfigId.ConfigurationDigest = HMAC_MD5 (mstConfigTableBytes fun v => tableOf table v) := by
  obtain ⟨logged, mid, r1, hlogged, _, hmid, hrun, hr⟩ := setTable_eq_ok h
  have hsame : SameMstConfig mid r1 := by
    by_cases hs : bridge.started = true
    · rw [if_pos hs] at hrun
      exact beginRun_SameMstConfig (hsm hs) fuel mid timestamp r1 hrun
    · rw [if_neg hs] at hrun
      simp only [RESULT.ok.injEq] at hrun
      subst hrun
      exact ⟨rfl, rfl⟩
  subst hr
  simp only [FLUSH_LOG_mstConfigTable, LOG_mstConfigTable, FLUSH_LOG_MstConfigId, LOG_MstConfigId,
    hsame.1, hsame.2]
  subst hmid
  exact ⟨rfl, rfl⟩

/-- A call on a bridge that is not started leaves it not started. -/
theorem setTable_ok_started {smInterface : SM_INTERFACE} {HMAC_MD5 : List Nat → List Nat}
    {fuel : Nat} {bridge : STP_BRIDGE} {table : List VLAN_TO_MSTID} {timestamp : Nat}
    {r : STP_BRIDGE} (hs : bridge.started = false)
    (h : STP_SetMstConfigTableAndComputeDigest smInterface HMAC_MD5 fuel bridge table timestamp
      = .ok r) : r.started = false := by
  obtain ⟨logged, mid, r1, hlogged, _, hmid, hrun, hr⟩ := setTable_eq_ok h
  rw [hs] at hrun
  simp only [Bool.false_eq_true, if_false, RESULT.ok.injEq] at hrun
  subst hr hrun hmid hlogged
  simp [ComputeMstConfigDigest, hs]

/-- Where a rejected call stopped: at the first assertion, with the bridge
untouched, or inside the loop over the entries. -/
theorem setTable_eq_assertFailed {smInterface : SM_INTERFACE} {HMAC_MD5 : List Nat → List Nat}
    {fuel : Nat} {bridge : STP_BRIDGE} {table : List VLAN_TO_MSTID} {timestamp : Nat}
    {s : STP_BRIDGE}
    (h : STP_SetMstConfigTableAndComputeDigest smInterface HMAC_MD5 fuel bridge table timestamp
      = .assertFailed s) :
    (¬ bridge.ForceProtocolVersion.toNat ≥ STP_VERSION.MSTP.toNat ∧ s = bridge) ∨
    (bridge.ForceProtocolVersion.toNat ≥ STP_VERSION.MSTP.toNat ∧
      STP_SetMstConfigTableAndComputeDigest.loop table
        { LOG bridge (-1) (-1) "\x7bT\x7d: Setting MST Config Table...\r\n" [toString timestamp]
          with mstConfigTable := fun _ => 0 } = .assertFailed s) := by
  unfold STP_SetMstConfigTableAndComputeDigest at h
  by_cases hv : bridge.ForceProtocolVersion.toNat ≥ STP_VERSION.MSTP.toNat
  · rw [if_neg (not_not.mpr hv)] at h
    right
    refine ⟨hv, ?_⟩
    rcases RESULT.bind_eq_assertFailed.mp h with h2 | ⟨b0, _, h2⟩
    · exact h2
    · exfalso
      dsimp only at h2
      rcases RESULT.bind_eq_assertFailed.mp h2 with h3 | ⟨r1, _, h3⟩
      · split_ifs at h3
        · exact beginRun_ne_assertFailed _ _ _ _ _ h3
      · cases h3
  · rw [if_pos hv] at h
    simp only [RESULT.assertFailed.injEq] at h
    exact Or.inl ⟨hv, h.symm⟩


/-! ## Facts about the sample values -/

theorem idleSmInterface_KeepsMstConfig : idleSmInterface.KeepsMstConfig :=
  ⟨fun _ h => (List.not_mem_nil _ h).elim,
   ⟨fun _ _ _ _ => ⟨rfl, rfl⟩, fun _ _ _ _ _ => ⟨rfl, rfl⟩⟩⟩

theorem sampleBridge_created :
    STP_CreateBridge sampleConstants idleSmInterface sampleHash (fun _ => true) 2 3 .MSTP
      [0x10, 0x20, 0x30, 0x40, 0x50, 0x60] 16 = .ok sampleBridge := rfl

theorem sampleMappedBridge_set :
    STP_SetMstConfigTableAndComputeDigest idleSmInterface sampleHash 0 sampleBridge
      [entryFor 10 1, entryFor 20 2] 0 = .ok sampleMappedBridge := rfl

theorem sampleStartedBridge_started :
    STP_StartBridge idleSmInterface 1 sampleBridge 0 = .ok sampleStartedBridge := rfl

/-! ## Claims on the MST configuration table -/

/-- C1 (the code departs from the claim): on the sample bridge (MSTP, 3 trees)
the list that maps VLAN 10 to tree 0 and then VLAN 10 to tree 1 names the same
VLAN twice, and `STP_SetMstConfigTableAndComputeDigest` accepts it; VLAN 10 is
then mapped to tree 1. -/
theorem setMstConfigTable_accepts_vlan_repeated_after_tree_0 :
    ∃ r, STP_SetMstConfigTableAndComputeDigest idleSmInterface sampleHash 0 sampleBridge
        [entryFor 10 0, entryFor 10 1] 0 = .ok r ∧
      (entryFor 10 0).vlan = (entryFor 10 1).vlan ∧
      STP_GetTreeIndexFromVlanNumber r 10 = .ok 1 :=
  ⟨_, rfl, rfl, rfl⟩

/-- C2 (the code departs from the claim): on the sample bridge, whose treeCount
is 3, `STP_SetMstConfigTableAndComputeDigest` accepts the entry that maps VLAN
10 to the tree index 3, and VLAN 10 is then mapped to 3. -/
theorem setMstConfigTable_accepts_tree_index_equal_treeCount :
    sampleBridge.treeCount = 3 ∧
    ∃ r, STP_SetMstConfigTableAndComputeDigest idleSmInterface sampleHash 0 sampleBridge
        [entryFor 10 3] 0 = .ok r ∧
      STP_GetTreeIndexFromVlanNumber r 10 = .ok 3 :=
  ⟨rfl, _, rfl, rfl⟩

/-- C3: `STP_SetMstConfigTableAndComputeDigest` rejects every entry list that
contains an entry whose VLAN number (vlanLow | vlanHigh << 8) is 0 or greater
than 4094. -/
theorem setMstConfigTable_rejects_vlan_out_of_range (smInterface : SM_INTERFACE)
    (HMAC_MD5 : List Nat → List Nat) (fuel : Nat) (bridge : STP_BRIDGE)
    (table : List VLAN_TO_MSTID) (timestamp : Nat)
    (h : ∃ entry ∈ table, entry.vlan = 0 ∨ 4094 < entry.vlan) :
    ∃ s, STP_SetMstConfigTableAndComputeDigest smInterface HMAC_MD5 fuel bridge table timestamp
      = .assertFailed s := by
  unfold STP_SetMstConfigTableAndComputeDigest
  by_cases hv : bridge.ForceProtocolVersion.toNat ≥ STP_VERSION.MSTP.toNat
  · rw [if_neg (not_not.mpr hv)]
    obtain ⟨s, hs⟩ := setTable_loop_bad_vlan table
      { LOG bridge (-1) (-1) "\x7bT\x7d: Setting MST Config Table...\r\n" [toString timestamp]
        with mstConfigTable := fun _ => 0 } h
    refine ⟨s, ?_⟩
    dsimp only
    rw [hs]
    rfl
  · rw [if_pos hv]
    exact ⟨_, rfl⟩

/-- Witness of C3: the list that maps VLAN 10 to tree 1 and then names VLAN
4095 is rejected on the sample bridge. -/
theorem setMstConfigTable_rejects_vlan_out_of_range_witness :
    (∃ entry ∈ [entryFor 10 1, { vlanHigh := 15, vlanLow := 255, mstid := 1 }],
      entry.vlan = 0 ∨ 4094 < entry.vlan) ∧
    ∃ s, STP_SetMstConfigTableAndComputeDigest idleSmInterface sampleHash 0 sampleBridge
      [entryFor 10 1, { vlanHigh := 15, vlanLow := 255, mstid := 1 }] 0 = .assertFailed s :=
  ⟨⟨_, List.mem_cons_of_mem _ (List.mem_singleton.mpr rfl), Or.inr (by decide)⟩,
   setMstConfigTable_rejects_vlan_out_of_range idleSmInterface sampleHash 0 sampleBridge _ 0
    ⟨_, List.mem_cons_of_mem _ (List.mem_singleton.mpr rfl), Or.inr (by decide)⟩⟩

/-- C5: after a successful `STP_SetMstConfigTableAndComputeDigest` with an
entry list in which no VLAN occurs twice, for every VLAN v in 1..4094
`STP_GetTreeIndexFromVlanNumber v` returns the tree index of the list's entry
for v if there is one and 0 (the CIST) otherwise, whatever the table held
before the call.  The tree indices are bytes; if the bridge is started, so that
the call runs the state machines, these do not write the MST configuration. -/
theorem getTreeIndex_after_setMstConfigTable (smInterface : SM_INTERFACE)
    (HMAC_MD5 : List Nat → List Nat) (fuel : Nat)
    (bridge : STP_BRIDGE) (table : List VLAN_TO_MSTID) (timestamp : Nat) (r : STP_BRIDGE)
    (hsm : bridge.started = true → smInterface.KeepsMstConfig)
    (hbytes : ∀ entry ∈ table, entry.mstid < 256)
    (hnodup : (table.map VLAN_TO_MSTID.vlan).Nodup)
    (hok : STP_SetMstConfigTableAndComputeDigest smInterface HMAC_MD5 fuel bridge table timestamp
      = .ok r)
    (v : Nat) (hv1 : 1 ≤ v) (hv2 : v ≤ 4094) :
    (∀ entry ∈ table, entry.vlan = v → STP_GetTreeIndexFromVlanNumber r v = .ok entry.mstid) ∧
    ((∀ entry ∈ table, entry.vlan ≠ v) → STP_GetTreeIndexFromVlanNumber r v = .ok 0) := by
  have htab := (setTable_ok_config hsm hok).1
  have hget : STP_GetTreeIndexFromVlanNumber r v = .ok (tableOf table v % 256) := by
    unfold STP_GetTreeIndexFromVlanNumber
    rw [if_neg (not_not.mpr ⟨hv1, hv2⟩), htab]
  constructor
  · intro entry hmem hvlan
    subst hvlan
    rw [hget, tableOf_of_mem table hnodup entry hmem, Nat.mod_mod,
      Nat.mod_eq_of_lt (hbytes entry hmem)]
  · intro hnone
    rw [hget, tableOf_of_not_mem table v hnone]

/-- Witness of C5: scenario C of the specification.  On the sample bridge
(treeCount = 3) with VLAN 10 mapped to tree 1 and VLAN 20 to tree 2, the lookup
gives 1 for VLAN 10, 2 for VLAN 20 and 0 for VLAN 5. -/
theorem getTreeIndex_after_setMstConfigTable_witness :
    STP_GetTreeIndexFromVlanNumber sampleMappedBridge 10 = .ok 1 ∧
    STP_GetTreeIndexFromVlanNumber sampleMappedBridge 20 = .ok 2 ∧
    STP_GetTreeIndexFromVlanNumber sampleMappedBridge 5 = .ok 0 :=
  have hbytes : ∀ entry ∈ [entryFor 10 1, entryFor 20 2], entry.mstid < 256 := by decide
  have hnodup : ([entryFor 10 1, entryFor 20 2].map VLAN_TO_MSTID.vlan).Nodup := by decide
  ⟨(getTreeIndex_after_setMstConfigTable idleSmInterface sampleHash
      0 sampleBridge _ 0 _ (fun _ => idleSmInterface_KeepsMstConfig) hbytes hnodup sampleMappedBridge_set 10 (by decide) (by decide)).1
      (entryFor 10 1) (by decide) rfl,
   (getTreeIndex_after_setMstConfigTable idleSmInterface sampleHash
      0 sampleBridge _ 0 _ (fun _ => idleSmInterface_KeepsMstConfig) hbytes hnodup sampleMappedBridge_set 20 (by decide) (by decide)).1
      (entryFor 20 2) (by decide) rfl,
   (getTreeIndex_after_setMstConfigTable idleSmInterface sampleHash
      0 sampleBridge _ 0 _ (fun _ => idleSmInterface_KeepsMstConfig) hbytes hnodup sampleMappedBridge_set 5 (by decide) (by decide)).2
      (by decide)⟩

/-- C6: for every two accepted entry lists that are permutations of each other,
and for every prior bridge state (so every prior table content),
`STP_SetMstConfigTableAndComputeDigest` leaves the same MST configuration table
and the same digest; and applying it again with the same list yields the same
digest.  Where a call is made on a started bridge, so that it runs the state
machines, these do not write the MST configuration. -/
theorem setMstConfigTable_permutation_same_digest (smInterface : SM_INTERFACE)
    (HMAC_MD5 : List Nat → List Nat) (fuel fuel' : Nat)
    (bridge bridge' : STP_BRIDGE) (table table' : List VLAN_TO_MSTID) (timestamp timestamp' : Nat)
    (r r' : STP_BRIDGE)
    (hsm : bridge.started = true ∨ bridge'.started = true ∨ r.started = true →
      smInterface.KeepsMstConfig)
    (hperm : table.Perm table')
    (hok : STP_SetMstConfigTableAndComputeDigest smInterface HMAC_MD5 fuel bridge table timestamp
      = .ok r)
    (hok' : STP_SetMstConfigTableAndComputeDigest smInterface HMAC_MD5 fuel' bridge' table'
      timestamp' = .ok r') :
    r.mstConfigTable = r'.mstConfigTable ∧
    r.MstConfigId.ConfigurationDigest = r'.MstConfigId.ConfigurationDigest ∧
    (∀ (fuel'' timestamp'' : Nat) (r'' : STP_BRIDGE),
      STP_SetMstConfigTableAndComputeDigest smInterface HMAC_MD5 fuel'' r table timestamp''
        = .ok r'' →
      r''.MstConfigId.ConfigurationDigest = r.MstConfigId.ConfigurationDigest) := by
  have h1 := setTable_ok_config (fun hs => hsm (Or.inl hs)) hok
  have h2 := setTable_ok_config (fun hs => hsm (Or.inr (Or.inl hs))) hok'
  have hfun : (fun v => tableOf table v) = fun v => tableOf table' v :=
    funext fun v => tableOf_perm hperm v
  refine ⟨?_, ?_, ?_⟩
  · rw [h1.1, h2.1, hfun]
  · rw [h1.2, h2.2, hfun]
  · intro fuel'' timestamp'' r'' hok''
    have h3 := setTable_ok_config (fun hs => hsm (Or.inr (Or.inr hs))) hok''
    rw [h1.2, h3.2]

/-- Witness of C6: the entries 10 → 1 and 20 → 2 given to the sample bridge,
and the same entries in the other order given to the bridge in which VLAN 30
is mapped to tree 1, leave the same table and the same digest. -/
theorem setMstConfigTable_permutation_same_digest_witness :
    sampleMappedBridge.mstConfigTable =
      (STP_SetMstConfigTableAndComputeDigest idleSmInterface sampleHash 0
        (STP_SetMstConfigTableAndComputeDigest idleSmInterface sampleHash 0 sampleBridge
          [entryFor 30 1] 0).bridgeOr
        [entryFor 20 2, entryFor 10 1] 1).bridgeOr.mstConfigTable ∧
    sampleMappedBridge.MstConfigId.ConfigurationDigest =
      (STP_SetMstConfigTableAndComputeDigest idleSmInterface sampleHash 0
        (STP_SetMstConfigTableAndComputeDigest idleSmInterface sampleHash 0 sampleBridge
          [entryFor 30 1] 0).bridgeOr
        [entryFor 20 2, entryFor 10 1] 1).bridgeOr.MstConfigId.ConfigurationDigest :=
  have h := setMstConfigTable_permutation_same_digest idleSmInterface sampleHash 0 0 sampleBridge
    (STP_SetMstConfigTableAndComputeDigest idleSmInterface sampleHash 0 sampleBridge
      [entryFor 30 1] 0).bridgeOr
    [entryFor 10 1, entryFor 20 2] [entryFor 20 2, entryFor 10 1] 0 1 _ _
    (fun _ => idleSmInterface_KeepsMstConfig) (List.Perm.swap _ _ _) sampleMappedBridge_set rfl
  ⟨h.1, h.2.1⟩


/-! ## Creation and the second table setter -/

theorem allocAndZeroMemory_eq_ok {allocOk : BLOCK → Bool} {bridge r : STP_BRIDGE} {block : BLOCK}
    {elements : Nat} (h : allocAndZeroMemory allocOk bridge block elements = .ok r) :
    r = { bridge with
      callbackTrace := bridge.callbackTrace ++ [CALLBACK_EVENT.allocAndZeroMemory block elements] } := by
  unfold allocAndZeroMemory at h
  split_ifs at h
  simp only [RESULT.ok.injEq] at h
  exact h.symm

/-- The loop over the MSTIs writes the trees and the record of callbacks. -/
theorem createBridge_mstiLoop_ok (consts : BRIDGE_CONSTANTS) (allocOk : BLOCK → Bool)
    (bridgeAddress : List Nat) :
    ∀ (indices : List Nat) (bridge r : STP_BRIDGE),
      STP_CreateBridge.mstiLoop consts allocOk bridgeAddress indices bridge = .ok r →
      r = { bridge with trees := r.trees, callbackTrace := r.callbackTrace } := by
  intro indices
  induction indices with
  | nil =>
    intro bridge r h
    simp only [STP_CreateBridge.mstiLoop, RESULT.ok.injEq] at h
    subst h
    rfl
  | cons treeIndex rest ih =>
    intro bridge r h
    unfold STP_CreateBridge.mstiLoop at h
    obtain ⟨b1, h1, h2⟩ := RESULT.bind_eq_ok.mp h
    have e1 := allocAndZeroMemory_eq_ok h1
    have e2 := ih _ _ h2
    rw [e2, e1]

/-- The loop over the trees of a port writes the ports and the record of
callbacks. -/
theorem createBridge_portTreeLoop_ok (consts : BRIDGE_CONSTANTS) (allocOk : BLOCK → Bool)
    (portIndex : Nat) :
    ∀ (indices : List Nat) (bridge r : STP_BRIDGE),
      STP_CreateBridge.portTreeLoop consts allocOk portIndex indices bridge = .ok r →
      r = { bridge with ports := r.ports, callbackTrace := r.callbackTrace } := by
  intro indices
  induction indices with
  | nil =>
    intro bridge r h
    simp only [STP_CreateBridge.portTreeLoop, RESULT.ok.injEq] at h
    subst h
    rfl
  | cons treeIndex rest ih =>
    intro bridge r h
    unfold STP_CreateBridge.portTreeLoop at h
    obtain ⟨b1, h1, h2⟩ := RESULT.bind_eq_ok.mp h
    have e1 := allocAndZeroMemory_eq_ok h1
    dsimp only at h2
    split at h2
    · cases h2
    · have e2 := ih _ _ h2
      rw [e2, e1]

/-- The loop over the ports writes the ports and the record of callbacks. -/
theorem createBridge_portLoop_ok (consts : BRIDGE_CONSTANTS) (allocOk : BLOCK → Bool)
    (treeCount : Nat) :
    ∀ (indices : List Nat) (bridge r : STP_BRIDGE),
      STP_CreateBridge.portLoop consts allocOk treeCount indices bridge = .ok r →
      r = { bridge with ports := r.ports, callbackTrace := r.callbackTrace } := by
  intro indices
  induction indices with
  | nil =>
    intro bridge r h
    simp only [STP_CreateBridge.portLoop, RESULT.ok.injEq] at h
    subst h
    rfl
  | cons portIndex rest ih =>
    intro bridge r h
    unfold STP_CreateBridge.portLoop at h
    obtain ⟨b1, h1, h2⟩ := RESULT.bind_eq_ok.mp h
    have e1 := allocAndZeroMemory_eq_ok h1
    dsimp only at h2
    obtain ⟨b2, h3, h4⟩ := RESULT.bind_eq_ok.mp h2
    have e2 := allocAndZeroMemory_eq_ok h3
    obtain ⟨b3, h5, h6⟩ := RESULT.bind_eq_ok.mp h4
    have e3 := createBridge_portTreeLoop_ok consts allocOk portIndex _ _ _ h5
    have e4 := ih _ _ h6
    rw [e4, e3, e2, e1]

/-- The bridge `STP_CreateBridge` returns: zeroed memory in which the counts,
the protocol version, the log fields, the trees, the ports and the default
configuration name have been written and the digest computed. -/
theorem createBridge_eq_ok {consts : BRIDGE_CONSTANTS} {smInterface : SM_INTERFACE}
    {HMAC_MD5 : List Nat → List Nat} {allocOk : BLOCK → Bool} {portCount treeCount : Nat}
    {protocolVersion : STP_VERSION} {bridgeAddress : List Nat} {debugLogBufferSize : Nat}
    {r : STP_BRIDGE}
    (h : STP_CreateBridge consts smInterface HMAC_MD5 allocOk portCount treeCount protocolVersion
      bridgeAddress debugLogBufferSize = .ok r) :
    r = ComputeMstConfigDigest HMAC_MD5
      { STP_BRIDGE.zero with
        ForceProtocolVersion := protocolVersion
        portCount := portCount
        treeCount := treeCount
        logBufferMaxSize := debugLogBufferSize
        logCurrentPort := -1
        logCurrentTree := -1
        trees := r.trees
        ports := r.ports
        callbackTrace := r.callbackTrace
        MstConfigId := { STP_BRIDGE.zero.MstConfigId with
          ConfigurationName := defaultConfigurationName bridgeAddress } } := by
  unfold STP_CreateBridge at h
  split_ifs at h
  all_goals first
    | cases h
    | (obtain ⟨b1, h1, h2⟩ := RESULT.bind_eq_ok.mp h; cases h2)
    | skip
  obtain ⟨b1, h1, h2⟩ := RESULT.bind_eq_ok.mp h
  have e1 := allocAndZeroMemory_eq_ok h1
  try dsimp only at h2
  obtain ⟨b2, h3, h4⟩ := RESULT.bind_eq_ok.mp h2
  have e2 := allocAndZeroMemory_eq_ok h3
  try dsimp only at h4
  obtain ⟨b3, h5, h6⟩ := RESULT.bind_eq_ok.mp h4
  have e3 := allocAndZeroMemory_eq_ok h5
  obtain ⟨b4, h7, h8⟩ := RESULT.bind_eq_ok.mp h6
  have e4 := allocAndZeroMemory_eq_ok h7
  obtain ⟨b5, h9, h10⟩ := RESULT.bind_eq_ok.mp h8
  have e5 := allocAndZeroMemory_eq_ok h9
  obtain ⟨b6, h11, h12⟩ := RESULT.bind_eq_ok.mp h10
  have e6 := allocAndZeroMemory_eq_ok h11
  try dsimp only at h12
  obtain ⟨b7, h13, h14⟩ := RESULT.bind_eq_ok.mp h12
  have e7 := createBridge_mstiLoop_ok consts allocOk bridgeAddress _ _ _ h13
  obtain ⟨b8, h15, h16⟩ := RESULT.bind_eq_ok.mp h14
  have e8 := createBridge_portLoop_ok consts allocOk treeCount _ _ _ h15
  simp only [RESULT.ok.injEq] at h16
  rw [← h16, e8, e7, e6, e5, e4, e3, e2, e1]
  rfl


/-- The bridge a successful `STP_CreateBridge` returns is not started, its
table maps every VLAN to the CIST and its digest is the digest of that table. -/
theorem createBridge_ok_config {consts : BRIDGE_CONSTANTS} {smInterface : SM_INTERFACE}
    {HMAC_MD5 : List Nat → List Nat} {allocOk : BLOCK → Bool} {portCount treeCount : Nat}
    {protocolVersion : STP_VERSION} {bridgeAddress : List Nat} {debugLogBufferSize : Nat}
    {r : STP_BRIDGE}
    (h : STP_CreateBridge consts smInterface HMAC_MD5 allocOk portCount treeCount protocolVersion
      bridgeAddress debugLogBufferSize = .ok r) :
    r.started = false ∧ r.mstConfigTable = (fun _ => 0) ∧
    r.MstConfigId.ConfigurationDigest = HMAC_MD5 (mstConfigTableBytes fun _ => 0) := by
  rw [createBridge_eq_ok h]
  exact ⟨rfl, rfl, rfl⟩

/-- The loop of the second setter, run to its end, has written the entries
`i + 1` of the table for the indices `i` it visited, and nothing else. -/
theorem setTable1_loop_ok (mstids : Nat → Nat) :
    ∀ (indices : List Nat) (bridge r : STP_BRIDGE),
      STP_SetMstConfigTableAndComputeDigest1.loop mstids indices bridge = .ok r →
      r = { bridge with
        mstConfigTable := fun v =>
          if 1 ≤ v ∧ (v - 1) ∈ indices then mstids (v - 1) % 256 else bridge.mstConfigTable v } := by
  intro indices
  induction indices with
  | nil =>
    intro bridge r h
    simp only [STP_SetMstConfigTableAndComputeDigest1.loop, RESULT.ok.injEq] at h
    subst h
    simp
  | cons i rest ih =>
    intro bridge r h
    unfold STP_SetMstConfigTableAndComputeDigest1.loop at h
    dsimp only at h
    split_ifs at h with hbad
    rw [ih _ _ h]
    congr 1
    funext v
    by_cases hv : 1 ≤ v ∧ (v - 1) ∈ rest
    · have hv' : 1 ≤ v ∧ (v - 1) ∈ i :: rest := ⟨hv.1, List.mem_cons_of_mem _ hv.2⟩
      rw [if_pos hv, if_pos hv']
    · rw [if_neg hv]
      by_cases hi : v = i + 1
      · subst hi
        have hv' : 1 ≤ i + 1 ∧ (i + 1 - 1) ∈ i :: rest := ⟨by omega, by simp⟩
        rw [if_pos hv']
        simp
      · have hv' : ¬ (1 ≤ v ∧ (v - 1) ∈ i :: rest) := by
          rintro ⟨h1, h2⟩
          rcases List.mem_cons.mp h2 with h3 | h3
          · omega
          · exact hv ⟨h1, h3⟩
        rw [if_neg hv']
        exact Function.update_noteq hi _ _

/-- The bridge on which `STP_SetMstConfigTableAndComputeDigest1` runs the
scheduler (if started) once its loop has accepted the array. -/
theorem setTable1_eq_ok {smInterface : SM_INTERFACE} {HMAC_MD5 : List Nat → List Nat} {fuel : Nat}
    {bridge : STP_BRIDGE} {mstids : Nat → Nat} {timestamp : Nat} {r : STP_BRIDGE}
    (h : STP_SetMstConfigTableAndComputeDigest1 smInterface HMAC_MD5 fuel bridge mstids timestamp
      = .ok r) :
    ∃ logged mid r1,
      logged = LOG bridge (-1) (-1) "\x7bT\x7d: Setting MST Config Table...\r\n" [toString timestamp] ∧
      mid = ComputeMstConfigDigest HMAC_MD5
        { logged with
          mstConfigTable := fun v =>
            if 1 ≤ v ∧ (v - 1) ∈ List.range 4094 then mstids (v - 1) % 256
            else bridge.mstConfigTable v } ∧
      (if bridge.started then
        (RunStateMachines smInterface fuel { mid with BEGIN := true } timestamp).bind fun bridge =>
          RunStateMachines smInterface fuel { bridge with BEGIN := false } timestamp
       else .ok mid) = .ok r1 ∧
      r = FLUSH_LOG (LOG r1 (-1) (-1) "------------------------------------\r\n" []) := by
  unfold STP_SetMstConfigTableAndComputeDigest1 at h
  by_cases hv : bridge.ForceProtocolVersion.toNat ≥ STP_VERSION.MSTP.toNat
  · rw [if_neg (not_not.mpr hv)] at h
    obtain ⟨b0, hloop, h2⟩ := RESULT.bind_eq_ok.mp h
    dsimp only at h2
    obtain ⟨r1, hrun, h3⟩ := RESULT.bind_eq_ok.mp h2
    have hb0 := setTable1_loop_ok _ _ _ _ hloop
    simp only [LOG_mstConfigTable] at hb0
    subst hb0
    simp only [RESULT.ok.injEq] at h3
    refine ⟨_, _, r1, rfl, rfl, ?_, h3.symm⟩
    simpa [ComputeMstConfigDigest] using hrun
  · rw [if_pos hv] at h
    cases h

/-- The table holds 4096 entries of two bytes. -/
theorem mstConfigTableBytes_length (mstConfigTable : Nat → Nat) :
    (mstConfigTableBytes mstConfigTable).length = 2 * 4096 := by
  have key : ∀ n : Nat,
      ((List.range n).flatMap fun i =>
        [(mstConfigTable i / 256) % 256, mstConfigTable i % 256]).length = 2 * n := by
    intro n
    induction n with
    | zero => rfl
    | succ n ih =>
      rw [List.range_succ, List.flatMap_append, List.length_append, ih]
      simp
      omega
  exact key 4096

/-! ## Claim on the stored digest -/

/-- C7: in every bridge state reached by `STP_CreateBridge` followed by any
sequence of successful `STP_SetMstConfigTableAndComputeDigest` and
`STP_SetMstConfigTableAndComputeDigest1` calls, the digest stored in the MST
configuration identifier is the HMAC-MD5 digest of the current table serialised
as 4096 two-byte entries (8192 bytes); and a bridge that `STP_CreateBridge`
has just returned holds the digest of the all-zero table. -/
theorem digest_is_hmac_of_table (consts : BRIDGE_CONSTANTS) (smInterface : SM_INTERFACE)
    (HMAC_MD5 : List Nat → List Nat) (bridge : STP_BRIDGE)
    (h : ReachableBySetters consts smInterface HMAC_MD5 bridge) :
    bridge.MstConfigId.ConfigurationDigest = HMAC_MD5 (mstConfigTableBytes bridge.mstConfigTable) ∧
    (mstConfigTableBytes bridge.mstConfigTable).length = 8192 ∧
    (∀ (allocOk : BLOCK → Bool) (portCount treeCount : Nat) (protocolVersion : STP_VERSION)
        (bridgeAddress : List Nat) (debugLogBufferSize : Nat),
      STP_CreateBridge consts smInterface HMAC_MD5 allocOk portCount treeCount protocolVersion
        bridgeAddress debugLogBufferSize = .ok bridge →
      bridge.MstConfigId.ConfigurationDigest = HMAC_MD5 (mstConfigTableBytes fun _ => 0)) := by
  refine ⟨?_, mstConfigTableBytes_length _, fun _ _ _ _ _ _ hc => (createBridge_ok_config hc).2.2⟩
  have inv : bridge.started = false ∧
      bridge.MstConfigId.ConfigurationDigest
        = HMAC_MD5 (mstConfigTableBytes bridge.mstConfigTable) := by
    induction h with
    | create allocOk portCount treeCount protocolVersion bridgeAddress debugLogBufferSize b hc =>
      obtain ⟨h1, h2, h3⟩ := createBridge_ok_config hc
      exact ⟨h1, by rw [h3, h2]⟩
    | setTable fuel b table timestamp b' _ hset ih =>
      have hcfg := setTable_ok_config (fun hs => by rw [ih.1] at hs; cases hs) hset
      exact ⟨setTable_ok_started ih.1 hset, by rw [hcfg.2, hcfg.1]⟩
    | setTable1 fuel b mstids timestamp b' _ hset ih =>
      obtain ⟨logged, mid, r1, hlogged, hmid, hrun, hr⟩ := setTable1_eq_ok hset
      rw [ih.1] at hrun
      simp only [Bool.false_eq_true, if_false, RESULT.ok.injEq] at hrun
      subst hr hrun hmid hlogged
      simp [ComputeMstConfigDigest, ih.1]
  exact inv.2

/-- Witness of C7: the sample bridge, and the sample bridge after its table
was set. -/
theorem digest_is_hmac_of_table_witness :
    sampleBridge.MstConfigId.ConfigurationDigest = sampleHash (mstConfigTableBytes fun _ => 0) ∧
    sampleMappedBridge.MstConfigId.ConfigurationDigest
      = sampleHash (mstConfigTableBytes sampleMappedBridge.mstConfigTable) :=
  ⟨(digest_is_hmac_of_table sampleConstants idleSmInterface sampleHash sampleBridge
      (.create _ _ _ _ _ _ _ sampleBridge_created)).2.2 _ _ _ _ _ _ sampleBridge_created,
   (digest_is_hmac_of_table sampleConstants idleSmInterface sampleHash sampleMappedBridge
      (.setTable _ _ _ _ _ (.create _ _ _ _ _ _ _ sampleBridge_created) sampleMappedBridge_set)).1⟩


/-! ## Bridge priority -/

/-- The priority field read back through the mask 0xF000 is the settable
priority that was stored with a tree index below 4096. -/
theorem priority_field_mask (bridgePriority treeIndex : Nat)
    (hp : (bridgePriority &&& 0x0FFF) = 0) (hp16 : bridgePriority < 65536)
    (ht : treeIndex < 4096) :
    ((bridgePriority ||| treeIndex) % 65536) &&& 0xF000 = bridgePriority := by
  have hmod : bridgePriority % 2 ^ 12 = 0 := by
    have := Nat.and_pow_two_sub_one_eq_mod bridgePriority 12
    simpa [hp] using this.symm
  apply Nat.eq_of_testBit_eq
  intro i
  have h65536 : (65536 : Nat) = 2 ^ 16 := by norm_num
  rw [Nat.testBit_and, h65536, Nat.testBit_mod_two_pow, Nat.testBit_or]
  by_cases h12 : i < 12
  · have hpi : bridgePriority.testBit i = false := by
      have := Nat.testBit_mod_two_pow bridgePriority 12 i
      rw [hmod] at this
      simpa [h12] using this.symm
    have hmask : Nat.testBit 0xF000 i = false := by
      interval_cases i <;> decide
    rw [hpi, hmask]
    simp
  · by_cases h16 : i < 16
    · have hti : treeIndex.testBit i = false :=
        Nat.testBit_lt_two_pow (lt_of_lt_of_le ht (by
          calc (4096 : Nat) = 2 ^ 12 := by norm_num
            _ ≤ 2 ^ i := Nat.pow_le_pow_right (by norm_num) (by omega)))
      have hmask : Nat.testBit 0xF000 i = true := by
        interval_cases i <;> decide
      rw [hti, hmask]
      simp [h16]
    · have hpi : bridgePriority.testBit i = false :=
        Nat.testBit_lt_two_pow (lt_of_lt_of_le hp16 (by
          calc (65536 : Nat) = 2 ^ 16 := by norm_num
            _ ≤ 2 ^ i := Nat.pow_le_pow_right (by norm_num) (by omega)))
      rw [hpi]
      simp [h16]

/-- What `STP_SetBridgePriority` does once its two assertions hold: the bridge
identifier of the tree is rewritten, then the recomputation is forced if the
bridge is started. -/
theorem setBridgePriority_eq (smInterface : SM_INTERFACE) (fuel : Nat) (bridge : STP_BRIDGE)
    (treeIndex bridgePriority timestamp : Nat) (hp : (bridgePriority &&& 0x0FFF) = 0)
    (ht : treeIndex < bridge.treeCount) :
    STP_SetBridgePriority smInterface fuel bridge treeIndex bridgePriority timestamp =
      (if bridge.started then
        RunStateMachines smInterface fuel
          (RecomputePrioritiesAndPortRoles.markPorts
            { LOG bridge (-1) (-1)
                "\x7bT\x7d: Setting bridge priority: tree \x7bTN\x7d prio = \x7bD\x7d...\r\n"
                [toString timestamp, toString treeIndex, toString bridgePriority] with
              trees := Function.update bridge.trees treeIndex
                ((bridge.trees treeIndex).SetBridgeIdentifier
                  ((bridge.trees treeIndex).GetBridgeIdentifier.SetPriority bridgePriority
                    treeIndex)) }
            treeIndex) timestamp
       else
        .ok { LOG bridge (-1) (-1)
                "\x7bT\x7d: Setting bridge priority: tree \x7bTN\x7d prio = \x7bD\x7d...\r\n"
                [toString timestamp, toString treeIndex, toString bridgePriority] with
              trees := Function.update bridge.trees treeIndex
                ((bridge.trees treeIndex).SetBridgeIdentifier
                  ((bridge.trees treeIndex).GetBridgeIdentifier.SetPriority bridgePriority
                    treeIndex)) }).bind
        fun bridge => .ok (FLUSH_LOG (LOG bridge (-1) (-1) "------------------------------------\r\n" [])) := by
  unfold STP_SetBridgePriority
  rw [if_neg (not_not.mpr hp), if_neg (not_not.mpr ht)]
  simp only [LOG_trees, LOG_started, RecomputePrioritiesAndPortRoles]

/-- C8: `STP_SetBridgePriority` is rejected as a contract violation exactly
when the priority has a non-zero bit among its low 12 bits or treeIndex is not
less than treeCount; in every other case no assertion fails, and on a bridge
that is not started the call returns. -/
theorem setBridgePriority_rejected_iff (smInterface : SM_INTERFACE) (fuel : Nat)
    (bridge : STP_BRIDGE) (treeIndex bridgePriority timestamp : Nat) :
    ((∃ s, STP_SetBridgePriority smInterface fuel bridge treeIndex bridgePriority timestamp
        = .assertFailed s) ↔
      ((bridgePriority &&& 0x0FFF) ≠ 0 ∨ ¬ treeIndex < bridge.treeCount)) ∧
    (¬ ((bridgePriority &&& 0x0FFF) ≠ 0 ∨ ¬ treeIndex < bridge.treeCount) →
      bridge.started = false →
      ∃ r, STP_SetBridgePriority smInterface fuel bridge treeIndex bridgePriority timestamp
        = .ok r) := by
  constructor
  · constructor
    · rintro ⟨s, hs⟩
      by_contra hgood
      have hp : (bridgePriority &&& 0x0FFF) = 0 := by
        by_contra hc
        exact hgood (Or.inl hc)
      have ht : treeIndex < bridge.treeCount := by
        by_contra hc
        exact hgood (Or.inr hc)
      rw [setBridgePriority_eq smInterface fuel bridge treeIndex bridgePriority timestamp hp ht]
        at hs
      rcases RESULT.bind_eq_assertFailed.mp hs with h | ⟨a, _, h⟩
      · split_ifs at h
        exact RunStateMachines_ne_assertFailed _ _ _ _ _ h
      · cases h
    · intro hbad
      unfold STP_SetBridgePriority
      by_cases hp : (bridgePriority &&& 0x0FFF) = 0
      · have ht : ¬ treeIndex < bridge.treeCount := by
          rcases hbad with h | h
          · exact (h hp).elim
          · exact h
        rw [if_neg (not_not.mpr hp), if_pos ht]
        exact ⟨_, rfl⟩
      · rw [if_pos hp]
        exact ⟨_, rfl⟩
  · intro hgood hns
    have hp : (bridgePriority &&& 0x0FFF) = 0 := by
      by_contra hc
      exact hgood (Or.inl hc)
    have ht : treeIndex < bridge.treeCount := by
      by_contra hc
      exact hgood (Or.inr hc)
    rw [setBridgePriority_eq smInterface fuel bridge treeIndex bridgePriority timestamp hp ht, hns]
    exact ⟨_, rfl⟩

/-- Witness of C8: scenario B of the specification.  On the sample bridge the
priority 0x8001 is rejected, and so is the tree index 3; the priority 0x4000 for
tree 1 is accepted. -/
theorem setBridgePriority_rejected_iff_witness :
    (∃ s, STP_SetBridgePriority idleSmInterface 0 sampleBridge 0 0x8001 0 = .assertFailed s) ∧
    (∃ s, STP_SetBridgePriority idleSmInterface 0 sampleBridge 3 0x4000 0 = .assertFailed s) ∧
    (∃ r, STP_SetBridgePriority idleSmInterface 0 sampleBridge 1 0x4000 0 = .ok r) :=
  ⟨(setBridgePriority_rejected_iff idleSmInterface 0 sampleBridge 0 0x8001 0).1.mpr
      (Or.inl (by decide)),
   (setBridgePriority_rejected_iff idleSmInterface 0 sampleBridge 3 0x4000 0).1.mpr
      (Or.inr (by decide)),
   (setBridgePriority_rejected_iff idleSmInterface 0 sampleBridge 1 0x4000 0).2
      (by decide) rfl⟩


/-- C9: for every treeIndex < treeCount and every priority whose low 12 bits
are zero, on a bridge that is not started, after
`STP_SetBridgePriority (treeIndex, priority)` `STP_GetBridgePriority (treeIndex)`
returns priority, `STP_GetBridgePriority` of every other tree is unchanged and
the bridge address returned by `STP_GetBridgeAddress` is unchanged.  The
priority is an `unsigned short` and the bridge has at most 4096 trees
(`STP_CreateBridge` allows 65). -/
theorem getBridgePriority_after_setBridgePriority (smInterface : SM_INTERFACE) (fuel : Nat)
    (bridge : STP_BRIDGE) (treeIndex bridgePriority timestamp : Nat)
    (hns : bridge.started = false) (ht : treeIndex < bridge.treeCount)
    (hp : (bridgePriority &&& 0x0FFF) = 0) (hp16 : bridgePriority < 65536)
    (htc : bridge.treeCount ≤ 4096) :
    ∃ r, STP_SetBridgePriority smInterface fuel bridge treeIndex bridgePriority timestamp = .ok r ∧
      STP_GetBridgePriority r treeIndex = .ok bridgePriority ∧
      (∀ other, other ≠ treeIndex → other < bridge.treeCount →
        ∃ p, STP_GetBridgePriority r other = .ok p ∧ STP_GetBridgePriority bridge other = .ok p) ∧
      STP_GetBridgeAddress r = STP_GetBridgeAddress bridge := by
  rw [setBridgePriority_eq smInterface fuel bridge treeIndex bridgePriority timestamp hp ht, hns]
  refine ⟨_, rfl, ?_, ?_, ?_⟩
  · unfold STP_GetBridgePriority
    simp only [FLUSH_LOG_treeCount, LOG_treeCount, FLUSH_LOG_trees, LOG_trees]
    rw [if_neg (not_not.mpr ht)]
    simp only [Function.update_same, BRIDGE_TREE.SetBridgeIdentifier,
      BRIDGE_TREE.GetBridgeIdentifier, BRIDGE_ID.SetPriority, BRIDGE_ID.GetPriority]
    rw [priority_field_mask bridgePriority treeIndex hp hp16 (by omega)]
  · intro other hne hlt
    refine ⟨(bridge.trees other).GetBridgeIdentifier.GetPriority &&& 0xF000, ?_, ?_⟩
    · unfold STP_GetBridgePriority
      simp only [FLUSH_LOG_treeCount, LOG_treeCount, FLUSH_LOG_trees, LOG_trees]
      rw [if_neg (not_not.mpr hlt), Function.update_noteq hne]
    · unfold STP_GetBridgePriority
      rw [if_neg (not_not.mpr hlt)]
  · unfold STP_GetBridgeAddress
    simp only [FLUSH_LOG_trees, LOG_trees]
    by_cases h0 : CIST_INDEX = treeIndex
    · subst h0
      simp only [Function.update_same]
      rfl
    · rw [Function.update_noteq h0]

/-- Witness of C9: on the sample bridge, the priority 0x4000 is set for tree 1
and read back; the priority of tree 2 and the bridge address are as before. -/
theorem getBridgePriority_after_setBridgePriority_witness :
    STP_GetBridgePriority
      (STP_SetBridgePriority idleSmInterface 0 sampleBridge 1 0x4000 0).bridgeOr 1 = .ok 0x4000 ∧
    STP_GetBridgePriority
      (STP_SetBridgePriority idleSmInterface 0 sampleBridge 1 0x4000 0).bridgeOr 2 = .ok 0x8000 ∧
    STP_GetBridgePriority sampleBridge 2 = .ok 0x8000 ∧
    STP_GetBridgeAddress (STP_SetBridgePriority idleSmInterface 0 sampleBridge 1 0x4000 0).bridgeOr
      = [0x10, 0x20, 0x30, 0x40, 0x50, 0x60] := by
  obtain ⟨r, hr, h1, h2, h3⟩ := getBridgePriority_after_setBridgePriority idleSmInterface 0
    sampleBridge 1 0x4000 0 rfl (by decide) (by decide) (by decide) (by decide)
  rw [hr]
  obtain ⟨p, hp1, hp2⟩ := h2 2 (by decide) (by decide)
  have e2 : STP_GetBridgePriority sampleBridge 2 = .ok 0x8000 := rfl
  rw [e2] at hp2
  cases hp2
  exact ⟨h1, hp1, e2, h3⟩

/-! ## The marking that precedes the recomputation -/

theorem mark_ports (bridge : STP_BRIDGE) (portIndex treeIndex p t : Nat) :
    ((RecomputePrioritiesAndPortRoles.mark bridge portIndex treeIndex).ports p).trees t =
      if p = portIndex ∧ t = treeIndex then ((bridge.ports p).trees t).marked
      else (bridge.ports p).trees t := by
  unfold RecomputePrioritiesAndPortRoles.mark
  by_cases hp : p = portIndex
  · subst hp
    by_cases ht : t = treeIndex
    · subst ht
      simp [PORT_TREE.marked]
    · simp [ht, Function.update_noteq ht]
  · simp [hp, Function.update_noteq hp]

/-- The loop over a list of ports marks tree `treeIndex` of these ports and
leaves every other port-tree, and the counts, as they were. -/
theorem markList_spec (treeIndex : Nat) :
    ∀ (portIndices : List Nat) (bridge : STP_BRIDGE),
      (portIndices.foldl
          (fun bridge portIndex => RecomputePrioritiesAndPortRoles.mark bridge portIndex treeIndex)
          bridge).portCount = bridge.portCount ∧
      (portIndices.foldl
          (fun bridge portIndex => RecomputePrioritiesAndPortRoles.mark bridge portIndex treeIndex)
          bridge).treeCount = bridge.treeCount ∧
      ∀ p t,
        ((portIndices.foldl
            (fun bridge portIndex => RecomputePrioritiesAndPortRoles.mark bridge portIndex treeIndex)
            bridge).ports p).trees t =
          if p ∈ portIndices ∧ t = treeIndex then ((bridge.ports p).trees t).marked
          else (bridge.ports p).trees t := by
  intro portIndices
  induction portIndices with
  | nil => intro bridge; simp
  | cons portIndex rest ih =>
    intro bridge
    rw [List.foldl_cons]
    obtain ⟨h1, h2, h3⟩ := ih (RecomputePrioritiesAndPortRoles.mark bridge portIndex treeIndex)
    refine ⟨h1, h2, ?_⟩
    intro p t
    rw [h3 p t, mark_ports]
    by_cases ht : t = treeIndex
    · by_cases hp : p = portIndex
      · by_cases hr : p ∈ rest <;> simp [ht, hp, hr, PORT_TREE.marked]
      · by_cases hr : p ∈ rest <;> simp [ht, hp, hr]
    · simp [ht]

theorem markTree_spec (bridge : STP_BRIDGE) (treeIndex : Nat) :
    (RecomputePrioritiesAndPortRoles.markTree bridge treeIndex).portCount = bridge.portCount ∧
    (RecomputePrioritiesAndPortRoles.markTree bridge treeIndex).treeCount = bridge.treeCount ∧
    ∀ p t,
      ((RecomputePrioritiesAndPortRoles.markTree bridge treeIndex).ports p).trees t =
        if p < bridge.portCount ∧ t = treeIndex then ((bridge.ports p).trees t).marked
        else (bridge.ports p).trees t := by
  obtain ⟨h1, h2, h3⟩ := markList_spec treeIndex (List.range bridge.portCount) bridge
  refine ⟨h1, h2, ?_⟩
  intro p t
  have := h3 p t
  simp only [List.mem_range] at this
  exact this

/-- The loop over a list of trees marks every port of these trees. -/
theorem markTrees_spec :
    ∀ (treeIndices : List Nat) (bridge : STP_BRIDGE),
      (treeIndices.foldl
          (fun bridge treeIndex => RecomputePrioritiesAndPortRoles.markTree bridge treeIndex)
          bridge).portCount = bridge.portCount ∧
      ∀ p t,
        ((treeIndices.foldl
            (fun bridge treeIndex => RecomputePrioritiesAndPortRoles.markTree bridge treeIndex)
            bridge).ports p).trees t =
          if p < bridge.portCount ∧ t ∈ treeIndices then ((bridge.ports p).trees t).marked
          else (bridge.ports p).trees t := by
  intro treeIndices
  induction treeIndices with
  | nil => intro bridge; simp
  | cons treeIndex rest ih =>
    intro bridge
    rw [List.foldl_cons]
    obtain ⟨h1, h3⟩ := ih (RecomputePrioritiesAndPortRoles.markTree bridge treeIndex)
    obtain ⟨m1, _, m3⟩ := markTree_spec bridge treeIndex
    refine ⟨h1.trans m1, ?_⟩
    intro p t
    rw [h3 p t, m3 p t, m1]
    by_cases hp : p < bridge.portCount
    · by_cases ht : t = treeIndex
      · by_cases hr : t ∈ rest <;> simp [ht, hp, hr, PORT_TREE.marked]
      · by_cases hr : t ∈ rest <;> simp [ht, hp, hr]
    · simp [hp]


/-- What the marking of `RecomputePrioritiesAndPortRoles` leaves: for the CIST
every port of every tree is marked; for another tree its ports are marked and
the port-trees of the other trees are as before. -/
theorem markPorts_spec (bridge : STP_BRIDGE) (treeIndex : Nat) :
    (treeIndex = CIST_INDEX →
      ∀ p t, p < bridge.portCount → t < bridge.treeCount →
        ((RecomputePrioritiesAndPortRoles.markPorts bridge treeIndex).ports p).trees t
          = ((bridge.ports p).trees t).marked) ∧
    (treeIndex ≠ CIST_INDEX →
      (∀ p, p < bridge.portCount →
        ((RecomputePrioritiesAndPortRoles.markPorts bridge treeIndex).ports p).trees treeIndex
          = ((bridge.ports p).trees treeIndex).marked) ∧
      (∀ p t, t ≠ treeIndex →
        ((RecomputePrioritiesAndPortRoles.markPorts bridge treeIndex).ports p).trees t
          = (bridge.ports p).trees t)) := by
  constructor
  · intro h0 p t hpc htc
    unfold RecomputePrioritiesAndPortRoles.markPorts
    rw [if_pos h0, (markTrees_spec (List.range bridge.treeCount) bridge).2 p t,
      if_pos ⟨hpc, List.mem_range.mpr htc⟩]
  · intro h0
    unfold RecomputePrioritiesAndPortRoles.markPorts
    rw [if_neg h0]
    constructor
    · intro p hpc
      rw [(markTree_spec bridge treeIndex).2.2 p treeIndex, if_pos ⟨hpc, rfl⟩]
    · intro p t hne
      rw [(markTree_spec bridge treeIndex).2.2 p t, if_neg (fun hc => hne hc.2)]

/-- C10: on a started bridge, the recomputation forced by
`STP_SetBridgePriority` hands to the scheduler a bridge in which selected is
false and reselect is true on every port of every tree when treeIndex is 0
(CIST); when treeIndex is k > 0, on every port of tree k only, selected and
reselect of every port of every other tree being as they were before the
call. -/
theorem setBridgePriority_marks_before_scheduler (smInterface : SM_INTERFACE) (fuel : Nat)
    (bridge : STP_BRIDGE) (treeIndex bridgePriority timestamp : Nat)
    (hs : bridge.started = true) (hp : (bridgePriority &&& 0x0FFF) = 0)
    (ht : treeIndex < bridge.treeCount) :
    ∃ marked : STP_BRIDGE,
      STP_SetBridgePriority smInterface fuel bridge treeIndex bridgePriority timestamp =
        (RunStateMachines smInterface fuel marked timestamp).bind
          (fun bridge =>
            .ok (FLUSH_LOG (LOG bridge (-1) (-1) "------------------------------------\r\n" []))) ∧
      (treeIndex = CIST_INDEX →
        ∀ p t, p < bridge.portCount → t < bridge.treeCount →
          ((marked.ports p).trees t).selected = false ∧
          ((marked.ports p).trees t).reselect = true) ∧
      (treeIndex ≠ CIST_INDEX →
        (∀ p, p < bridge.portCount →
          ((marked.ports p).trees treeIndex).selected = false ∧
          ((marked.ports p).trees treeIndex).reselect = true) ∧
        (∀ p t, t ≠ treeIndex →
          ((marked.ports p).trees t).selected = ((bridge.ports p).trees t).selected ∧
          ((marked.ports p).trees t).reselect = ((bridge.ports p).trees t).reselect)) := by
  rw [setBridgePriority_eq smInterface fuel bridge treeIndex bridgePriority timestamp hp ht, hs]
  refine ⟨_, rfl, ?_, ?_⟩
  · intro h0 p t hpc htc
    rw [(markPorts_spec _ treeIndex).1 h0 p t (by simpa using hpc) (by simpa using htc)]
    exact ⟨rfl, rfl⟩
  · intro h0
    constructor
    · intro p hpc
      rw [((markPorts_spec _ treeIndex).2 h0).1 p (by simpa using hpc)]
      exact ⟨rfl, rfl⟩
    · intro p t hne
      rw [((markPorts_spec _ treeIndex).2 h0).2 p t hne]
      simp

/-- Witness of C10: on the started sample bridge, setting the priority of tree
1 marks port 0 of tree 1 and leaves port 1 of tree 2 as it was; setting the
priority of the CIST marks port 1 of tree 2. -/
theorem setBridgePriority_marks_before_scheduler_witness :
    (∃ marked : STP_BRIDGE,
      STP_SetBridgePriority idleSmInterface 1 sampleStartedBridge 1 0x4000 0 =
        (RunStateMachines idleSmInterface 1 marked 0).bind
          (fun bridge =>
            .ok (FLUSH_LOG (LOG bridge (-1) (-1) "------------------------------------\r\n" []))) ∧
      ((marked.ports 0).trees 1).selected = false ∧ ((marked.ports 0).trees 1).reselect = true ∧
      ((marked.ports 1).trees 2).reselect = ((sampleStartedBridge.ports 1).trees 2).reselect) ∧
    (∃ marked : STP_BRIDGE,
      STP_SetBridgePriority idleSmInterface 1 sampleStartedBridge 0 0x4000 0 =
        (RunStateMachines idleSmInterface 1 marked 0).bind
          (fun bridge =>
            .ok (FLUSH_LOG (LOG bridge (-1) (-1) "------------------------------------\r\n" []))) ∧
      ((marked.ports 1).trees 2).selected = false ∧ ((marked.ports 1).trees 2).reselect = true) := by
  constructor
  · obtain ⟨marked, h1, _, h3⟩ := setBridgePriority_marks_before_scheduler idleSmInterface 1
      sampleStartedBridge 1 0x4000 0 rfl (by decide) (by decide)
    exact ⟨marked, h1, ((h3 (by decide)).1 0 (by decide)).1, ((h3 (by decide)).1 0 (by decide)).2,
      ((h3 (by decide)).2 1 2 (by decide)).2⟩
  · obtain ⟨marked, h1, h2, _⟩ := setBridgePriority_marks_before_scheduler idleSmInterface 1
      sampleStartedBridge 0 0x4000 0 rfl (by decide) (by decide)
    exact ⟨marked, h1, h2 rfl 1 2 (by decide) (by decide)⟩

/-! ## The control flow of the scheduler -/

theorem RunStateMachineInstances_eq_loop (fuel : Nat) (bridge : STP_BRIDGE) (smInfo : SM_INFO)
    (statePtr timestamp : Nat) :
    RunStateMachineInstances fuel bridge smInfo statePtr timestamp =
      RunStateMachineInstances.loop fuel smInfo timestamp (smInfo.instances bridge) bridge
        statePtr false := by
  unfold RunStateMachineInstances SM_INFO.instances
  cases smInfo.instanceType <;> rfl

/-- An instance that reports no change made no transition: its
`checkConditions` was evaluated once and yielded 0. -/
theorem RunStateMachineInstance_unchanged {fuel : Nat} {bridge : STP_BRIDGE} {smInfo : SM_INFO}
    {givenPort givenTree : Int} {statePtr timestamp : Nat} {r : STP_BRIDGE}
    (h : RunStateMachineInstance fuel bridge smInfo givenPort givenTree statePtr timestamp
      = .ok (r, false)) :
    smInfo.checkConditions bridge givenPort givenTree (bridge.states statePtr) = (r, 0) := by
  cases fuel with
  | zero => cases h
  | succ fuel =>
    unfold RunStateMachineInstance at h
    dsimp only at h
    by_cases hne :
        (smInfo.checkConditions bridge givenPort givenTree (bridge.states statePtr)).2 ≠ 0
    · rw [if_pos hne] at h
      obtain ⟨a, _, ha⟩ := RESULT.bind_eq_ok.mp h
      simp at ha
    · rw [if_neg hne] at h
      simp only [RESULT.ok.injEq, Prod.mk.injEq, and_true] at h
      have h0 : (smInfo.checkConditions bridge givenPort givenTree (bridge.states statePtr)).2 = 0 :=
        not_not.mp hne
      exact Prod.ext h h0

/-- A run over the instances of a kind that reports no change started with the
flag cleared, advanced the state pointer over every instance and found no
transition; if the kind checks purely, the bridge is as before and every
instance yields "no transition" on it. -/
theorem RunStateMachineInstances_loop_unchanged (fuel : Nat) (smInfo : SM_INFO) (timestamp : Nat) :
    ∀ (instances : List (Int × Int)) (bridge : STP_BRIDGE) (statePtr : Nat) (changed : Bool)
      (r : STP_BRIDGE) (statePtr' : Nat),
      RunStateMachineInstances.loop fuel smInfo timestamp instances bridge statePtr changed
        = .ok (r, statePtr', false) →
      changed = false ∧ statePtr' = statePtr + instances.length ∧
      (smInfo.ChecksPurely → r = bridge ∧
        ∀ x ∈ slotsFrom smInfo instances statePtr,
          x.1.checkConditions bridge x.2.1 x.2.2.1 (bridge.states x.2.2.2) = (bridge, 0)) := by
  intro instances
  induction instances with
  | nil =>
    intro bridge statePtr changed r statePtr' h
    simp only [RunStateMachineInstances.loop, RESULT.ok.injEq, Prod.mk.injEq] at h
    obtain ⟨h1, h2, h3⟩ := h
    subst h1 h2 h3
    exact ⟨rfl, rfl, fun _ => ⟨rfl, fun x hx => by cases hx⟩⟩
  | cons inst rest ih =>
    intro bridge statePtr changed r statePtr' h
    obtain ⟨givenPort, givenTree⟩ := inst
    unfold RunStateMachineInstances.loop at h
    obtain ⟨a, ha, h2⟩ := RESULT.bind_eq_ok.mp h
    obtain ⟨hc, hp, hrest⟩ := ih _ _ _ _ _ h2
    have hchanged : changed = false ∧ a.2 = false := Bool.or_eq_false_iff.mp hc
    have ha' : RunStateMachineInstance fuel bridge smInfo givenPort givenTree statePtr timestamp
        = .ok (a.1, false) := by
      rw [ha, ← hchanged.2]
    have hcheck := RunStateMachineInstance_unchanged ha'
    refine ⟨hchanged.1, by rw [hp, List.length_cons]; omega, ?_⟩
    intro hpure
    have ha1 : a.1 = bridge := by
      have := hpure bridge givenPort givenTree (bridge.states statePtr)
      rw [hcheck] at this
      exact this
    obtain ⟨hr, hall⟩ := hrest hpure
    rw [ha1] at hr hall
    refine ⟨hr, ?_⟩
    intro x hx
    unfold slotsFrom at hx
    rcases List.mem_cons.mp hx with hx | hx
    · subst hx
      rw [ha1] at hcheck
      exact hcheck
    · exact hall x hx

/-- A pass over a list of kinds that reports no change: as for one kind. -/
theorem RunStateMachines_pass_unchanged (fuel timestamp : Nat) :
    ∀ (kinds : List SM_INFO) (bridge : STP_BRIDGE) (statePtr : Nat) (changed : Bool)
      (r : STP_BRIDGE) (statePtr' : Nat),
      RunStateMachines.pass fuel timestamp kinds bridge statePtr changed
        = .ok (r, statePtr', false) →
      changed = false ∧
      ((∀ smInfo ∈ kinds, smInfo.ChecksPurely) → r = bridge ∧
        ∀ x ∈ instanceSlots bridge kinds statePtr,
          x.1.checkConditions bridge x.2.1 x.2.2.1 (bridge.states x.2.2.2) = (bridge, 0)) := by
  intro kinds
  induction kinds with
  | nil =>
    intro bridge statePtr changed r statePtr' h
    simp only [RunStateMachines.pass, RESULT.ok.injEq, Prod.mk.injEq] at h
    obtain ⟨h1, h2, h3⟩ := h
    subst h1 h2 h3
    exact ⟨rfl, fun _ => ⟨rfl, fun x hx => by cases hx⟩⟩
  | cons smInfo rest ih =>
    intro bridge statePtr changed r statePtr' h
    unfold RunStateMachines.pass at h
    obtain ⟨a, ha, h2⟩ := RESULT.bind_eq_ok.mp h
    obtain ⟨hc, hrest⟩ := ih _ _ _ _ _ h2
    have hchanged : changed = false ∧ a.2.2 = false := Bool.or_eq_false_iff.mp hc
    rw [RunStateMachineInstances_eq_loop] at ha
    have ha' : RunStateMachineInstances.loop fuel smInfo timestamp (smInfo.instances bridge) bridge
        statePtr false = .ok (a.1, a.2.1, false) := by
      rw [ha, ← hchanged.2]
    obtain ⟨_, hptr, hkind⟩ := RunStateMachineInstances_loop_unchanged fuel smInfo timestamp _ _ _ _
      _ _ ha'
    refine ⟨hchanged.1, ?_⟩
    intro hpure
    obtain ⟨ha1, hall1⟩ := hkind (hpure smInfo (List.mem_cons_self _ _))
    obtain ⟨hr, hall2⟩ := hrest fun k hk => hpure k (List.mem_cons_of_mem _ hk)
    rw [ha1, hptr] at hall2
    rw [ha1] at hr
    refine ⟨hr, ?_⟩
    intro x hx
    unfold instanceSlots at hx
    rcases List.mem_append.mp hx with hx | hx
    · exact hall1 x hx
    · exact hall2 x hx

theorem instanceSlots_append (bridge : STP_BRIDGE) :
    ∀ (kinds kinds' : List SM_INFO) (statePtr : Nat),
      instanceSlots bridge (kinds ++ kinds') statePtr =
        instanceSlots bridge kinds statePtr ++
          instanceSlots bridge kinds'
            (statePtr + (kinds.map fun smInfo => (smInfo.instances bridge).length).sum) := by
  intro kinds
  induction kinds with
  | nil => intro kinds' statePtr; simp [instanceSlots]
  | cons smInfo rest ih =>
    intro kinds' statePtr
    show slotsFrom smInfo (smInfo.instances bridge) statePtr ++
        instanceSlots bridge (rest ++ kinds') (statePtr + (smInfo.instances bridge).length) = _
    rw [ih]
    simp only [instanceSlots, List.map_cons, List.sum_cons, List.append_assoc, Nat.add_assoc]

/-- The state pointer after a pass that reports no change over kinds that check
purely. -/
theorem RunStateMachines_pass_unchanged_ptr (fuel timestamp : Nat) :
    ∀ (kinds : List SM_INFO) (bridge : STP_BRIDGE) (statePtr : Nat) (changed : Bool)
      (r : STP_BRIDGE) (statePtr' : Nat),
      RunStateMachines.pass fuel timestamp kinds bridge statePtr changed
        = .ok (r, statePtr', false) →
      (∀ smInfo ∈ kinds, smInfo.ChecksPurely) →
      statePtr' = statePtr + (kinds.map fun smInfo => (smInfo.instances bridge).length).sum := by
  intro kinds
  induction kinds with
  | nil =>
    intro bridge statePtr changed r statePtr' h _
    simp only [RunStateMachines.pass, RESULT.ok.injEq, Prod.mk.injEq] at h
    simp [h.2.1.symm]
  | cons smInfo rest ih =>
    intro bridge statePtr changed r statePtr' h hpure
    unfold RunStateMachines.pass at h
    obtain ⟨a, ha, h2⟩ := RESULT.bind_eq_ok.mp h
    obtain ⟨hc, _⟩ := RunStateMachines_pass_unchanged fuel timestamp _ _ _ _ _ _ h2
    have hchanged : changed = false ∧ a.2.2 = false := Bool.or_eq_false_iff.mp hc
    rw [RunStateMachineInstances_eq_loop] at ha
    have ha' : RunStateMachineInstances.loop fuel smInfo timestamp (smInfo.instances bridge) bridge
        statePtr false = .ok (a.1, a.2.1, false) := by
      rw [ha, ← hchanged.2]
    obtain ⟨_, hptr, hkind⟩ := RunStateMachineInstances_loop_unchanged fuel smInfo timestamp _ _ _ _
      _ _ ha'
    obtain ⟨ha1, _⟩ := hkind (hpure smInfo (List.mem_cons_self _ _))
    have := ih _ _ _ _ _ h2 fun k hk => hpure k (List.mem_cons_of_mem _ hk)
    rw [this, hptr, ha1]
    simp only [List.map_cons, List.sum_cons]
    omega

/-- A cycle that reports no change made a pass without a transition over the
non-transmit kinds and then ran the transmit kind without a transition. -/
theorem RunStateMachines_cycle_unchanged {smInterface : SM_INTERFACE} {fuel : Nat}
    {bridge : STP_BRIDGE} {timestamp : Nat} {r : STP_BRIDGE}
    (h : RunStateMachines.cycle smInterface fuel bridge timestamp = .ok (r, false)) :
    ∃ passed statePtr statePtr',
      RunStateMachines.pass fuel timestamp smInterface.smInfo bridge 0 false
        = .ok (passed, statePtr, false) ∧
      RunStateMachineInstances fuel passed smInterface.transmitSmInfo statePtr timestamp
        = .ok (r, statePtr', false) := by
  unfold RunStateMachines.cycle at h
  obtain ⟨a, ha, h2⟩ := RESULT.bind_eq_ok.mp h
  try dsimp only at h2
  by_cases hc : a.2.2 = false
  · rw [if_pos hc] at h2
    obtain ⟨t, ht, h3⟩ := RESULT.bind_eq_ok.mp h2
    simp only [RESULT.ok.injEq, Prod.mk.injEq, hc, Bool.false_or] at h3
    refine ⟨a.1, a.2.1, t.2.1, ?_, ?_⟩
    · rw [ha, ← hc]
    · rw [ht, ← h3.1, ← h3.2]
  · rw [if_neg hc] at h2
    simp only [RESULT.ok.injEq, Prod.mk.injEq] at h2
    exact absurd h2.2 hc

/-- The scheduler returns the bridge of a cycle that reported no change. -/
theorem RunStateMachines_loop_last_cycle (smInterface : SM_INTERFACE) (fuel timestamp : Nat) :
    ∀ (cycles : Nat) (bridge r : STP_BRIDGE),
      RunStateMachines.loop smInterface fuel timestamp cycles bridge = .ok r →
      ∃ last, RunStateMachines.cycle smInterface fuel last timestamp = .ok (r, false) := by
  intro cycles
  induction cycles with
  | zero => intro bridge r h; cases h
  | succ cycles ih =>
    intro bridge r h
    unfold RunStateMachines.loop at h
    obtain ⟨a, ha, h2⟩ := RESULT.bind_eq_ok.mp h
    try dsimp only at h2
    by_cases hc : a.2 = true
    · rw [if_pos hc] at h2
      exact ih _ _ h2
    · rw [if_neg hc] at h2
      simp only [RESULT.ok.injEq] at h2
      refine ⟨bridge, ?_⟩
      rw [ha, ← h2]
      have : a.2 = false := by
        cases hb : a.2
        · rfl
        · exact absurd hb hc
      rw [← this]

/-! ## Claims on the scheduler -/

/-- C11: in a cycle of `RunStateMachines`, when the pass over the instances of
the non-transmit kinds produced a transition, the transmit kind is not
evaluated (the cycle ends with the bridge of the pass, whatever the transmit
kind is); when the pass produced no transition, the cycle goes on with the
instances of the transmit kind.  And when a transmit instance makes a
transition, the loop runs a further cycle, which starts with the pass over the
non-transmit kinds from the first slot. -/
theorem runStateMachines_transmit_after_quiet_pass (smInterface : SM_INTERFACE) (fuel : Nat)
    (bridge : STP_BRIDGE) (timestamp : Nat) (passed : STP_BRIDGE) (statePtr : Nat) (changed : Bool)
    (hpass : RunStateMachines.pass fuel timestamp smInterface.smInfo bridge 0 false
      = .ok (passed, statePtr, changed)) :
    (changed = true →
      ∀ transmit : SM_INFO,
        RunStateMachines.cycle { smInterface with transmitSmInfo := transmit } fuel bridge timestamp
          = .ok (passed, true)) ∧
    (changed = false →
      RunStateMachines.cycle smInterface fuel bridge timestamp =
        (RunStateMachineInstances fuel passed smInterface.transmitSmInfo statePtr timestamp).bind
          fun t => .ok (t.1, t.2.2)) ∧
    (changed = false →
      ∀ (after : STP_BRIDGE) (statePtr' cycles : Nat),
        RunStateMachineInstances fuel passed smInterface.transmitSmInfo statePtr timestamp
          = .ok (after, statePtr', true) →
        RunStateMachines.loop smInterface fuel timestamp (cycles + 1) bridge
          = RunStateMachines.loop smInterface fuel timestamp cycles after ∧
        RunStateMachines.loop smInterface fuel timestamp (cycles + 2) bridge
          = ((RunStateMachines.pass fuel timestamp smInterface.smInfo after 0 false).bind fun r =>
              if r.2.2 = false then
                (RunStateMachineInstances fuel r.1 smInterface.transmitSmInfo r.2.1 timestamp).bind
                  fun t => .ok (t.1, r.2.2 || t.2.2)
              else .ok (r.1, r.2.2)).bind fun r =>
              if r.2 then RunStateMachines.loop smInterface fuel timestamp cycles r.1
              else .ok r.1) := by
  refine ⟨?_, ?_, ?_⟩
  · intro hc transmit
    subst hc
    unfold RunStateMachines.cycle
    rw [hpass]
    rfl
  · intro hc
    subst hc
    unfold RunStateMachines.cycle
    rw [hpass]
    rfl
  · intro hc after statePtr' cycles htx
    subst hc
    have hcycle : RunStateMachines.cycle smInterface fuel bridge timestamp = .ok (after, true) := by
      unfold RunStateMachines.cycle
      rw [hpass]
      simp only [RESULT.bind_ok, if_true]
      rw [htx]
      rfl
    have hstep : ∀ n, RunStateMachines.loop smInterface fuel timestamp (n + 1) bridge
        = RunStateMachines.loop smInterface fuel timestamp n after := by
      intro n
      rw [RunStateMachines.loop, hcycle]
      rfl
    refine ⟨hstep cycles, ?_⟩
    rw [hstep (cycles + 1), RunStateMachines.loop]
    rfl

/-- Witness of C11: with the kinds that make one transition each, the first
cycle on the sample bridge ends after the pass, which changed the state of the
non-transmit instance, whatever the transmit kind; with no non-transmit kind,
the pass is quiet and the cycle is the run of the transmit kind. -/
theorem runStateMachines_transmit_after_quiet_pass_witness :
    (∀ transmit : SM_INFO,
      RunStateMachines.cycle { oneShotSmInterface with transmitSmInfo := transmit } 2 sampleBridge 0
        = .ok ({ sampleBridge with states := Function.update sampleBridge.states 0 1 }, true)) ∧
    RunStateMachines.cycle idleSmInterface 2 sampleBridge 0 =
      (RunStateMachineInstances 2 sampleBridge idleSmInterface.transmitSmInfo 0 0).bind
        fun t => .ok (t.1, t.2.2) :=
  ⟨(runStateMachines_transmit_after_quiet_pass oneShotSmInterface 2 sampleBridge 0
      { sampleBridge with states := Function.update sampleBridge.states 0 1 } 1 true rfl).1 rfl,
   (runStateMachines_transmit_after_quiet_pass idleSmInterface 2 sampleBridge 0
      sampleBridge 0 false rfl).2.1 rfl⟩

/-- C12: whenever `RunStateMachines` returns, its last cycle made a pass over
every instance of every non-transmit kind and then ran every instance of the
transmit kind, and none of them made a transition; so, for state machines whose
`checkConditions` does not modify the bridge, `checkConditions` yields "no
transition" for every instance, on its slot, in the bridge that is returned. -/
theorem runStateMachines_returns_fixpoint (smInterface : SM_INTERFACE) (fuel : Nat)
    (bridge : STP_BRIDGE) (timestamp : Nat) (r : STP_BRIDGE)
    (h : RunStateMachines smInterface fuel bridge timestamp = .ok r) :
    (∃ last passed statePtr statePtr',
      RunStateMachines.pass fuel timestamp smInterface.smInfo last 0 false
        = .ok (passed, statePtr, false) ∧
      RunStateMachineInstances fuel passed smInterface.transmitSmInfo statePtr timestamp
        = .ok (r, statePtr', false)) ∧
    ((∀ smInfo ∈ smInterface.smInfo, smInfo.ChecksPurely) →
      smInterface.transmitSmInfo.ChecksPurely →
      ∀ x ∈ smInterface.instanceSlots r,
        x.1.checkConditions r x.2.1 x.2.2.1 (r.states x.2.2.2) = (r, 0)) := by
  obtain ⟨last, hlast⟩ := RunStateMachines_loop_last_cycle smInterface fuel timestamp fuel bridge r h
  obtain ⟨passed, statePtr, statePtr', hpass, htx⟩ := RunStateMachines_cycle_unchanged hlast
  refine ⟨⟨last, passed, statePtr, statePtr', hpass, htx⟩, ?_⟩
  intro hpure hpuretx x hx
  obtain ⟨hpassed, hall⟩ :=
    (RunStateMachines_pass_unchanged fuel timestamp _ _ _ _ _ _ hpass).2 hpure
  have hptr := RunStateMachines_pass_unchanged_ptr fuel timestamp _ _ _ _ _ _ hpass hpure
  rw [RunStateMachineInstances_eq_loop] at htx
  obtain ⟨hr, halltx⟩ :=
    (RunStateMachineInstances_loop_unchanged fuel _ timestamp _ _ _ _ _ _ htx).2.2 hpuretx
  subst hpassed
  subst hr
  unfold SM_INTERFACE.instanceSlots at hx
  rw [instanceSlots_append] at hx
  rcases List.mem_append.mp hx with hx | hx
  · exact hall x hx
  · rw [← hptr] at hx
    simp only [instanceSlots, List.append_nil] at hx
    exact halltx x hx

/-- Witness of C12: with the kinds that make one transition each, the scheduler
returns on the sample bridge after three cycles, both instances rest in the
state 1 and neither asks for a transition. -/
theorem runStateMachines_returns_fixpoint_witness :
    RunStateMachines oneShotSmInterface 3 sampleBridge 0
      = .ok { sampleBridge with
          states := Function.update (Function.update sampleBridge.states 0 1) 1 1 } ∧
    oneShotSmInterface.instanceSlots
        { sampleBridge with
          states := Function.update (Function.update sampleBridge.states 0 1) 1 1 }
      = [(oneShotSmInfo, -1, -1, 0), (oneShotSmInfo, -1, -1, 1)] ∧
    ∀ x ∈ oneShotSmInterface.instanceSlots
        { sampleBridge with
          states := Function.update (Function.update sampleBridge.states 0 1) 1 1 },
      (x.1.checkConditions
        { sampleBridge with
          states := Function.update (Function.update sampleBridge.states 0 1) 1 1 }
        x.2.1 x.2.2.1
        (({ sampleBridge with
          states := Function.update (Function.update sampleBridge.states 0 1) 1 1 }
            : STP_BRIDGE).states x.2.2.2)).2 = 0 :=
  ⟨rfl, rfl, fun x hx =>
    congrArg Prod.snd
      ((runStateMachines_returns_fixpoint oneShotSmInterface 3 sampleBridge 0 _ rfl).2
        (fun smInfo hs => by
          rw [List.mem_singleton.mp hs]
          intro _ _ _ _
          rfl)
        (fun _ _ _ _ => rfl) x hx)⟩

/-- The per-instance loop of the scheduler has no bound of its own: for a kind
that asks for a transition in every state, no amount of fuel makes it return. -/
theorem RunStateMachineInstance_restless {smInfo : SM_INFO}
    (hrestless : ∀ bridge port tree state, (smInfo.checkConditions bridge port tree state).2 ≠ 0)
    (givenPort givenTree : Int) (statePtr timestamp : Nat) :
    ∀ (fuel : Nat) (bridge : STP_BRIDGE),
      RunStateMachineInstance fuel bridge smInfo givenPort givenTree statePtr timestamp
        = .outOfFuel := by
  intro fuel
  induction fuel with
  | zero => intro bridge; rfl
  | succ fuel ih =>
    intro bridge
    unfold RunStateMachineInstance
    dsimp only
    rw [if_pos (hrestless _ _ _ _), ih]
    rfl

/-! ## Logging leaves everything but the log -/

theorem OnlyLogged.refl (b : STP_BRIDGE) : OnlyLogged b b :=
  ⟨rfl, [], by simp, fun _ h => (List.not_mem_nil _ h).elim⟩

theorem OnlyLogged.trans {a b c : STP_BRIDGE} (hab : OnlyLogged a b) (hbc : OnlyLogged b c) :
    OnlyLogged a c := by
  obtain ⟨h1, e1, ht1, he1⟩ := hab
  obtain ⟨h2, e2, ht2, he2⟩ := hbc
  refine ⟨?_, e1 ++ e2, ?_, ?_⟩
  · rw [h2, h1]
  · rw [ht2, ht1, List.append_assoc]
  · intro e he
    rcases List.mem_append.mp he with h | h
    · exact he1 e h
    · exact he2 e h

theorem LogEmit_onlyLogged (b : STP_BRIDGE) (flush : Bool) : OnlyLogged b (LogEmit b flush) := by
  refine ⟨rfl, [CALLBACK_EVENT.debugStrOut b.logCurrentPort b.logCurrentTree b.logBuffer flush],
    rfl, ?_⟩
  intro e he
  rw [List.mem_singleton.mp he]
  rfl

theorem LOG_onlyLogged (b : STP_BRIDGE) (port tree : Int) (format : String) (args : List String) :
    OnlyLogged b (LOG b port tree format args) := by
  unfold LOG
  by_cases hl : b.loggingEnabled = true
  · rw [if_pos hl]
    have step1 : OnlyLogged b
        (if (b.logCurrentPort ≠ port ∨ b.logCurrentTree ≠ tree) ∧ b.logBuffer ≠ [] then
          LogEmit b false else b) := by
      split_ifs
      · exact LogEmit_onlyLogged b false
      · exact OnlyLogged.refl b
    generalize (if (b.logCurrentPort ≠ port ∨ b.logCurrentTree ≠ tree) ∧ b.logBuffer ≠ [] then
          LogEmit b false else b) = b1 at step1
    have step2 : OnlyLogged b1
        { b1 with
          logCurrentPort := port
          logCurrentTree := tree
          logBuffer := b1.logBuffer ++ [{ format := format, args := args }] } :=
      ⟨rfl, [], by simp, fun _ h => (List.not_mem_nil _ h).elim⟩
    dsimp only
    split_ifs
    · exact (step1.trans step2).trans (LogEmit_onlyLogged _ false)
    · exact step1.trans step2
  · rw [if_neg hl]
    exact OnlyLogged.refl b

theorem FLUSH_LOG_onlyLogged (b : STP_BRIDGE) : OnlyLogged b (FLUSH_LOG b) := by
  unfold FLUSH_LOG
  split_ifs
  · exact LogEmit_onlyLogged b true
  · exact OnlyLogged.refl b

theorem LOG_of_disabled {b : STP_BRIDGE} (h : b.loggingEnabled = false) (port tree : Int)
    (format : String) (args : List String) : LOG b port tree format args = b := by
  unfold LOG
  rw [h]
  rfl

theorem FLUSH_LOG_of_disabled {b : STP_BRIDGE} (h : b.loggingEnabled = false) :
    FLUSH_LOG b = b := by
  unfold FLUSH_LOG
  rw [h]
  rfl

/-- While logging is enabled the explicit flush calls the host once. -/
theorem FLUSH_LOG_trace_length {b : STP_BRIDGE} (h : b.loggingEnabled = true) :
    (FLUSH_LOG b).callbackTrace.length = b.callbackTrace.length + 1 := by
  unfold FLUSH_LOG LogEmit
  rw [if_pos h]
  simp

theorem OnlyLogged.trace_length_le {b b' : STP_BRIDGE} (h : OnlyLogged b b') :
    b.callbackTrace.length ≤ b'.callbackTrace.length := by
  obtain ⟨_, events, ht, _⟩ := h
  rw [ht, List.length_append]
  omega

theorem OnlyLogged.ports {b b' : STP_BRIDGE} (h : OnlyLogged b b') : b'.ports = b.ports := by
  rw [h.1]

theorem OnlyLogged.states {b b' : STP_BRIDGE} (h : OnlyLogged b b') : b'.states = b.states := by
  rw [h.1]

theorem OnlyLogged.trees {b b' : STP_BRIDGE} (h : OnlyLogged b b') : b'.trees = b.trees := by
  rw [h.1]

theorem OnlyLogged.receivedBpduContent {b b' : STP_BRIDGE} (h : OnlyLogged b b') :
    b'.receivedBpduContent = b.receivedBpduContent := by
  rw [h.1]

theorem OnlyLogged.receivedBpduType {b b' : STP_BRIDGE} (h : OnlyLogged b b') :
    b'.receivedBpduType = b.receivedBpduType := by
  rw [h.1]

theorem FrameRel_SamePortEnabled : FrameRel SamePortEnabled := by
  refine ⟨fun _ _ => rfl, ?_, ?_, fun _ _ _ _ => rfl⟩
  · intro a b c hab hbc p
    exact (hbc p).trans (hab p)
  · intro b port tree format args p
    rw [LOG_ports]

/-! ## Port events -/

/-- What `STP_OnPortEnabled` does on a port that is disabled: the flags of the
port are staged, then the scheduler is run if the bridge is started. -/
theorem onPortEnabled_eq (smInterface : SM_INTERFACE) (fuel : Nat) (bridge : STP_BRIDGE)
    (portIndex speed : Nat) (detected : Bool) (timestamp : Nat)
    (hdis : (bridge.ports portIndex).portEnabled = false) :
    STP_OnPortEnabled smInterface fuel bridge portIndex speed detected timestamp =
      (if bridge.started then
        RunStateMachines smInterface fuel
          { LOG bridge (-1) (-1) "\x7bT\x7d: Port \x7bD\x7d good\r\n"
              [toString timestamp, toString (1 + portIndex)] with
            ports := Function.update bridge.ports portIndex
              { bridge.ports portIndex with
                portEnabled := true
                detectedPointToPointMAC := detected
                operPointToPointMAC :=
                  if (bridge.ports portIndex).adminPointToPointMAC = STP_ADMIN_P2P.AUTO then detected
                  else (bridge.ports portIndex).operPointToPointMAC } } timestamp
       else
        .ok { LOG bridge (-1) (-1) "\x7bT\x7d: Port \x7bD\x7d good\r\n"
              [toString timestamp, toString (1 + portIndex)] with
            ports := Function.update bridge.ports portIndex
              { bridge.ports portIndex with
                portEnabled := true
                detectedPointToPointMAC := detected
                operPointToPointMAC :=
                  if (bridge.ports portIndex).adminPointToPointMAC = STP_ADMIN_P2P.AUTO then detected
                  else (bridge.ports portIndex).operPointToPointMAC } }).bind
        fun bridge => .ok (FLUSH_LOG (LOG bridge (-1) (-1) "------------------------------------\r\n" [])) := by
  unfold STP_OnPortEnabled
  simp only [LOG_ports, LOG_started]
  rw [if_neg (not_not.mpr hdis)]
  by_cases hauto : (bridge.ports portIndex).adminPointToPointMAC = STP_ADMIN_P2P.AUTO
  · simp only [hauto, if_true]
  · simp only [hauto, if_false]

/-- What `STP_OnPortDisabled` does on a port that is disabled: it logs. -/
theorem onPortDisabled_of_disabled (smInterface : SM_INTERFACE) (fuel : Nat) (bridge : STP_BRIDGE)
    (portIndex timestamp : Nat) (hdis : (bridge.ports portIndex).portEnabled = false) :
    STP_OnPortDisabled smInterface fuel bridge portIndex timestamp =
      .ok (FLUSH_LOG (LOG (LOG bridge (-1) (-1) "\x7bT\x7d: Port \x7bD\x7d down\r\n"
        [toString timestamp, toString (1 + portIndex)]) (-1) (-1)
        "------------------------------------\r\n" [])) := by
  unfold STP_OnPortDisabled
  simp only [LOG_ports, hdis]
  rfl

/-- After `STP_OnPortDisabled` has returned the port is disabled, provided the
state machines, if they were run, do not write `portEnabled`. -/
theorem onPortDisabled_ok_disabled {smInterface : SM_INTERFACE} {fuel : Nat} {bridge : STP_BRIDGE}
    {portIndex timestamp : Nat} {r : STP_BRIDGE}
    (hsm : bridge.started = true → smInterface.Respects SamePortEnabled)
    (h : STP_OnPortDisabled smInterface fuel bridge portIndex timestamp = .ok r) :
    (r.ports portIndex).portEnabled = false := by
  by_cases hdis : (bridge.ports portIndex).portEnabled = false
  · rw [onPortDisabled_of_disabled _ _ _ _ _ hdis] at h
    simp only [RESULT.ok.injEq] at h
    rw [← h]
    simp only [FLUSH_LOG_ports, LOG_ports, hdis]
  · have hen : (bridge.ports portIndex).portEnabled = true := by
      cases hb : (bridge.ports portIndex).portEnabled
      · exact absurd hb hdis
      · rfl
    unfold STP_OnPortDisabled at h
    simp only [LOG_ports, LOG_started, hen, if_true] at h
    obtain ⟨a, ha, h2⟩ := RESULT.bind_eq_ok.mp h
    simp only [RESULT.ok.injEq] at h2
    rw [← h2]
    simp only [FLUSH_LOG_ports, LOG_ports]
    by_cases hs : bridge.started = true
    · rw [if_pos hs] at ha
      have := (RunStateMachines_holds FrameRel_SamePortEnabled (hsm hs) fuel _ timestamp).of_ok ha
      rw [this portIndex]
      simp
    · rw [if_neg hs] at ha
      simp only [RESULT.ok.injEq] at ha
      rw [← ha]
      simp

/-! ## Claims on the port events -/

/-- C14: for every port index of every bridge, started or not,
`STP_OnPortEnabled` called on a port whose `portEnabled` flag is already true
is rejected as a contract violation; called on a disabled port it fails no
assertion and, when it returns, leaves `portEnabled` true (it returns on a
bridge that is not started; on a started bridge the state machines it runs do
not write `portEnabled`). -/
theorem onPortEnabled_contract (smInterface : SM_INTERFACE) (fuel : Nat) (bridge : STP_BRIDGE)
    (portIndex speed : Nat) (detected : Bool) (timestamp : Nat) :
    ((bridge.ports portIndex).portEnabled = true →
      ∃ s, STP_OnPortEnabled smInterface fuel bridge portIndex speed detected timestamp
        = .assertFailed s) ∧
    ((bridge.ports portIndex).portEnabled = false →
      (∀ s, STP_OnPortEnabled smInterface fuel bridge portIndex speed detected timestamp
        ≠ .assertFailed s) ∧
      (bridge.started = false →
        ∃ r, STP_OnPortEnabled smInterface fuel bridge portIndex speed detected timestamp = .ok r ∧
          (r.ports portIndex).portEnabled = true) ∧
      (∀ r, (bridge.started = true → smInterface.Respects SamePortEnabled) →
        STP_OnPortEnabled smInterface fuel bridge portIndex speed detected timestamp = .ok r →
        (r.ports portIndex).portEnabled = true)) := by
  constructor
  · intro hen
    unfold STP_OnPortEnabled
    simp only [LOG_ports, hen]
    exact ⟨_, rfl⟩
  · intro hdis
    rw [onPortEnabled_eq smInterface fuel bridge portIndex speed detected timestamp hdis]
    refine ⟨?_, ?_, ?_⟩
    · intro s hs
      rcases RESULT.bind_eq_assertFailed.mp hs with h | ⟨a, _, h⟩
      · by_cases hst : bridge.started = true
        · rw [if_pos hst] at h
          exact RunStateMachines_ne_assertFailed _ _ _ _ _ h
        · rw [if_neg hst] at h
          cases h
      · cases h
    · intro hns
      rw [hns]
      refine ⟨_, rfl, ?_⟩
      simp
    · intro r hsm h
      obtain ⟨a, ha, h2⟩ := RESULT.bind_eq_ok.mp h
      simp only [RESULT.ok.injEq] at h2
      rw [← h2]
      simp only [FLUSH_LOG_ports, LOG_ports]
      by_cases hs : bridge.started = true
      · rw [if_pos hs] at ha
        have := (RunStateMachines_holds FrameRel_SamePortEnabled (hsm hs) fuel _ timestamp).of_ok ha
        rw [this portIndex]
        simp
      · rw [if_neg hs] at ha
        simp only [RESULT.ok.injEq] at ha
        rw [← ha]
        simp

/-- Witness of C14: on the sample bridge port 1 is enabled by a first call, and
a second call on the same port is rejected. -/
theorem onPortEnabled_contract_witness :
    (∃ r, STP_OnPortEnabled idleSmInterface 0 sampleBridge 1 100 true 0 = .ok r ∧
      (r.ports 1).portEnabled = true) ∧
    (∃ s, STP_OnPortEnabled idleSmInterface 0
      (STP_OnPortEnabled idleSmInterface 0 sampleBridge 1 100 true 0).bridgeOr 1 100 true 1
        = .assertFailed s) :=
  ⟨((onPortEnabled_contract idleSmInterface 0 sampleBridge 1 100 true 0).2 rfl).2.1 rfl,
   (onPortEnabled_contract idleSmInterface 0
      (STP_OnPortEnabled idleSmInterface 0 sampleBridge 1 100 true 0).bridgeOr 1 100 true 1).1 rfl⟩

/-- C15 (as stated, refuted): on the sample bridge port 0 is in Auto mode; a
first `STP_OnPortEnabled` with a detected point-to-point link computes
operPointToPointMAC = true; after the port went down, a second
`STP_OnPortEnabled` with no point-to-point link detected does not leave the
computed value: operPointToPointMAC becomes false. -/
theorem onPortEnabled_recomputes_operPointToPointMAC :
    STP_GetPortAdminPointToPointMAC sampleDisabledAgainBridge 0 = STP_ADMIN_P2P.AUTO ∧
    STP_GetPortOperPointToPointMAC sampleBridge 0 = false ∧
    STP_OnPortEnabled idleSmInterface 0 sampleBridge 0 100 true 0 = .ok sampleEnabledBridge ∧
    STP_GetPortOperPointToPointMAC sampleEnabledBridge 0 = true ∧
    STP_GetPortOperPointToPointMAC sampleDisabledAgainBridge 0 = true ∧
    ∃ r, STP_OnPortEnabled idleSmInterface 0 sampleDisabledAgainBridge 0 100 false 2 = .ok r ∧
      STP_GetPortOperPointToPointMAC r 0 = false :=
  ⟨rfl, rfl, rfl, rfl, rfl, _, rfl, rfl⟩

/-- C15, amended: `STP_OnPortEnabled`, called on a disabled port, sets the
port's operPointToPointMAC to detectedP2P whenever the port's admin
point-to-point mode is Auto, whether or not a value was computed before; when
the mode is ForceTrue or ForceFalse it leaves operPointToPointMAC unchanged.
The operPointToPointMAC of the other ports is unchanged.  This is the bridge
handed to the scheduler on a started bridge, and the bridge returned on a
bridge that is not started. -/
theorem onPortEnabled_operPointToPointMAC (smInterface : SM_INTERFACE) (fuel : Nat)
    (bridge : STP_BRIDGE) (portIndex speed : Nat) (detected : Bool) (timestamp : Nat)
    (hdis : (bridge.ports portIndex).portEnabled = false) :
    ∃ staged : STP_BRIDGE,
      STP_OnPortEnabled smInterface fuel bridge portIndex speed detected timestamp =
        (if bridge.started then RunStateMachines smInterface fuel staged timestamp
         else .ok staged).bind
          (fun bridge =>
            .ok (FLUSH_LOG (LOG bridge (-1) (-1) "------------------------------------\r\n" []))) ∧
      (staged.ports portIndex).operPointToPointMAC =
        (if (bridge.ports portIndex).adminPointToPointMAC = STP_ADMIN_P2P.AUTO then detected
         else (bridge.ports portIndex).operPointToPointMAC) ∧
      (∀ other, other ≠ portIndex →
        (staged.ports other).operPointToPointMAC = (bridge.ports other).operPointToPointMAC) ∧
      (bridge.started = false →
        ∃ r, STP_OnPortEnabled smInterface fuel bridge portIndex speed detected timestamp = .ok r ∧
          STP_GetPortOperPointToPointMAC r portIndex =
            (if (bridge.ports portIndex).adminPointToPointMAC = STP_ADMIN_P2P.AUTO then detected
             else (bridge.ports portIndex).operPointToPointMAC)) := by
  rw [onPortEnabled_eq smInterface fuel bridge portIndex speed detected timestamp hdis]
  refine ⟨_, rfl, ?_, ?_, ?_⟩
  · simp
  · intro other hne
    simp [Function.update_noteq hne]
  · intro hns
    rw [hns]
    refine ⟨_, rfl, ?_⟩
    unfold STP_GetPortOperPointToPointMAC
    simp

/-- Witness of C15, amended: the second call of the counterexample returns
with operPointToPointMAC = false, the value detected. -/
theorem onPortEnabled_operPointToPointMAC_witness :
    ∃ r, STP_OnPortEnabled idleSmInterface 0 sampleDisabledAgainBridge 0 100 false 2 = .ok r ∧
      STP_GetPortOperPointToPointMAC r 0 = false := by
  obtain ⟨_, _, _, _, h⟩ := onPortEnabled_operPointToPointMAC idleSmInterface 0
    sampleDisabledAgainBridge 0 100 false 2 rfl
  exact h rfl

/-- C16 (as stated, refuted): on the sample bridge with its log switched on,
whose port 0 is disabled, the second of two `STP_OnPortDisabled` calls in a row
invokes the host's `debugStrOut` again: the sequence of callbacks after two
calls is longer than after one, so neither it nor the bridge state is the same. -/
theorem onPortDisabled_twice_logs_twice :
    ∃ r1 r2, STP_OnPortDisabled idleSmInterface 0 sampleLoggingBridge 0 0 = .ok r1 ∧
      STP_OnPortDisabled idleSmInterface 0 r1 0 0 = .ok r2 ∧
      r1.callbackTrace.length < r2.callbackTrace.length ∧
      r2.callbackTrace ≠ r1.callbackTrace ∧ r2 ≠ r1 := by
  have hdis : (sampleLoggingBridge.ports 0).portEnabled = false := rfl
  have h1 := onPortDisabled_of_disabled idleSmInterface 0 sampleLoggingBridge 0 0 hdis
  have hdis1 : ((FLUSH_LOG (LOG (LOG sampleLoggingBridge (-1) (-1)
      "\x7bT\x7d: Port \x7bD\x7d down\r\n" [toString 0, toString (1 + 0)]) (-1) (-1)
      "------------------------------------\r\n" [])).ports 0).portEnabled = false := by
    simp only [FLUSH_LOG_ports, LOG_ports]
    exact hdis
  have h2 := onPortDisabled_of_disabled idleSmInterface 0 _ 0 0 hdis1
  have hlen : (FLUSH_LOG (LOG (LOG sampleLoggingBridge (-1) (-1)
      "\x7bT\x7d: Port \x7bD\x7d down\r\n" [toString 0, toString (1 + 0)]) (-1) (-1)
      "------------------------------------\r\n" [])).callbackTrace.length <
      (FLUSH_LOG (LOG (LOG (FLUSH_LOG (LOG (LOG sampleLoggingBridge (-1) (-1)
      "\x7bT\x7d: Port \x7bD\x7d down\r\n" [toString 0, toString (1 + 0)]) (-1) (-1)
      "------------------------------------\r\n" [])) (-1) (-1)
      "\x7bT\x7d: Port \x7bD\x7d down\r\n" [toString 0, toString (1 + 0)]) (-1) (-1)
      "------------------------------------\r\n" [])).callbackTrace.length := by
    rw [@FLUSH_LOG_trace_length (LOG (LOG (FLUSH_LOG _) _ _ _ _) _ _ _ _)
      (by simp only [LOG_loggingEnabled, FLUSH_LOG_loggingEnabled]; rfl)]
    have := ((LOG_onlyLogged (FLUSH_LOG (LOG (LOG sampleLoggingBridge (-1) (-1)
      "\x7bT\x7d: Port \x7bD\x7d down\r\n" [toString 0, toString (1 + 0)]) (-1) (-1)
      "------------------------------------\r\n" [])) (-1) (-1)
      "\x7bT\x7d: Port \x7bD\x7d down\r\n" [toString 0, toString (1 + 0)]).trans
      (LOG_onlyLogged _ (-1) (-1) "------------------------------------\r\n" [])).trace_length_le
    omega
  refine ⟨_, _, h1, h2, hlen, ?_, ?_⟩
  · intro heq
    rw [heq] at hlen
    exact lt_irrefl _ hlen
  · intro heq
    rw [heq] at hlen
    exact lt_irrefl _ hlen

/-- C16, amended: for every bridge and port, once a call of `STP_OnPortDisabled`
has returned, a second call in a row on the same port only logs: it returns
whatever the state machines and the fuel are (the scheduler is not run), the
bridge after it differs from the bridge after the first call in the log only,
the host is called through `debugStrOut` only, and while logging is disabled
the bridge and the sequence of callbacks are the same as after one call.  The
state machines that the first call runs on a started bridge do not write
`portEnabled`. -/
theorem onPortDisabled_twice (smInterface : SM_INTERFACE) (fuel : Nat) (bridge : STP_BRIDGE)
    (portIndex timestamp timestamp' : Nat) (r1 : STP_BRIDGE)
    (hsm : bridge.started = true → smInterface.Respects SamePortEnabled)
    (h1 : STP_OnPortDisabled smInterface fuel bridge portIndex timestamp = .ok r1) :
    ∃ r2,
      (∀ (smInterface' : SM_INTERFACE) (fuel' : Nat),
        STP_OnPortDisabled smInterface' fuel' r1 portIndex timestamp' = .ok r2) ∧
      OnlyLogged r1 r2 ∧
      (r1.loggingEnabled = false → r2 = r1) := by
  have hdis := onPortDisabled_ok_disabled hsm h1
  refine ⟨_, fun smInterface' fuel' =>
    onPortDisabled_of_disabled smInterface' fuel' r1 portIndex timestamp' hdis, ?_, ?_⟩
  · exact ((LOG_onlyLogged _ _ _ _ _).trans (LOG_onlyLogged _ _ _ _ _)).trans
      (FLUSH_LOG_onlyLogged _)
  · intro hl
    rw [LOG_of_disabled hl, LOG_of_disabled hl, FLUSH_LOG_of_disabled hl]

/-- Witness of C16, amended: on the sample bridge, whose log is off, port 0 came
up and went down; a second `STP_OnPortDisabled` returns the same bridge. -/
theorem onPortDisabled_twice_witness :
    STP_OnPortDisabled idleSmInterface 0 sampleEnabledBridge 0 1 = .ok sampleDisabledAgainBridge ∧
    ∀ (smInterface' : SM_INTERFACE) (fuel' : Nat),
      STP_OnPortDisabled smInterface' fuel' sampleDisabledAgainBridge 0 2
        = .ok sampleDisabledAgainBridge := by
  have h1 : STP_OnPortDisabled idleSmInterface 0 sampleEnabledBridge 0 1
      = .ok sampleDisabledAgainBridge := rfl
  obtain ⟨r2, hcall, _, hsame⟩ := onPortDisabled_twice idleSmInterface 0 sampleEnabledBridge 0 1 2
    sampleDisabledAgainBridge (fun _ => ⟨fun _ h => (List.not_mem_nil _ h).elim,
      ⟨fun _ _ _ _ _ => rfl, fun _ _ _ _ _ _ => rfl⟩⟩) h1
  rw [hsame rfl] at hcall
  exact ⟨h1, hcall⟩

/-! ## Received BPDUs -/

/-- The switch of `STP_OnBpduReceived` only logs. -/
theorem logBpdu_onlyLogged (bridge : STP_BRIDGE) (portIndex : Nat) (bpdu : List Nat)
    (type : VALIDATED_BPDU_TYPE) :
    OnlyLogged bridge (STP_OnBpduReceived.logBpdu bridge portIndex bpdu type).1 := by
  cases type
  · exact LOG_onlyLogged _ _ _ _ _
  all_goals first
    | exact LOG_onlyLogged _ _ _ _ _
    | exact (LOG_onlyLogged _ _ _ _ _).trans (LOG_onlyLogged _ _ _ _ _)

/-- The switch of `STP_OnBpduReceived` passes the four valid kinds of BPDU to
the state machines, and no other buffer. -/
theorem logBpdu_pass (bridge : STP_BRIDGE) (portIndex : Nat) (bpdu : List Nat)
    (type : VALIDATED_BPDU_TYPE) :
    (STP_OnBpduReceived.logBpdu bridge portIndex bpdu type).2 =
      decide (type = .STP_CONFIG ∨ type = .RST ∨ type = .MST ∨ type = .STP_TCN) := by
  cases type <;> rfl

/-- A call of `STP_OnBpduReceived` that returns either left the received-BPDU
slot as it was or cleared it. -/
theorem onBpduReceived_ok_slot {smInterface : SM_INTERFACE}
    {STP_GetValidatedBpduType : List Nat → Nat → VALIDATED_BPDU_TYPE} {fuel : Nat}
    {bridge : STP_BRIDGE} {portIndex : Nat} {bpdu : List Nat} {bpduSize timestamp : Nat}
    {r : STP_BRIDGE}
    (h : STP_OnBpduReceived smInterface STP_GetValidatedBpduType fuel bridge portIndex bpdu
      bpduSize timestamp = .ok r) :
    (r.receivedBpduContent = bridge.receivedBpduContent ∧
      r.receivedBpduType = bridge.receivedBpduType) ∨ SlotClear r := by
  unfold STP_OnBpduReceived at h
  by_cases hs : bridge.started = true
  · rw [if_pos hs] at h
    obtain ⟨m, hm, h2⟩ := RESULT.bind_eq_ok.mp h
    simp only [RESULT.ok.injEq] at h2
    rw [← h2]
    simp only [FLUSH_LOG_receivedBpduContent, LOG_receivedBpduContent,
      FLUSH_LOG_receivedBpduType, LOG_receivedBpduType, SlotClear]
    by_cases hdis : (bridge.ports portIndex).portEnabled = false
    · rw [if_pos hdis] at hm
      simp only [RESULT.ok.injEq] at hm
      rw [← hm]
      left
      exact ⟨LOG_receivedBpduContent _ _ _ _ _, LOG_receivedBpduType _ _ _ _ _⟩
    · rw [if_neg hdis] at hm
      dsimp only at hm
      have hlogged := logBpdu_onlyLogged
        (LOG bridge (-1) (-1) "\x7bT\x7d: BPDU received on Port \x7bD\x7d:\r\n"
          [toString timestamp, toString (1 + portIndex)]) portIndex bpdu
        (STP_GetValidatedBpduType bpdu bpduSize)
      by_cases hpass : (STP_OnBpduReceived.logBpdu
          (LOG bridge (-1) (-1) "\x7bT\x7d: BPDU received on Port \x7bD\x7d:\r\n"
            [toString timestamp, toString (1 + portIndex)]) portIndex bpdu
          (STP_GetValidatedBpduType bpdu bpduSize)).2 = true
      · rw [if_pos hpass] at hm
        split_ifs at hm
        obtain ⟨ran, _, h3⟩ := RESULT.bind_eq_ok.mp hm
        try dsimp only at h3
        split_ifs at h3
        simp only [RESULT.ok.injEq] at h3
        rw [← h3]
        right
        exact ⟨rfl, rfl⟩
      · rw [if_neg hpass] at hm
        simp only [RESULT.ok.injEq] at hm
        rw [← hm]
        left
        exact ⟨hlogged.receivedBpduContent.trans (LOG_receivedBpduContent _ _ _ _ _),
          hlogged.receivedBpduType.trans (LOG_receivedBpduType _ _ _ _ _)⟩
  · rw [if_neg hs] at h
    simp only [RESULT.ok.injEq] at h
    rw [← h]
    exact Or.inl ⟨rfl, rfl⟩

/-! ## Claim on the BPDUs that are discarded -/

/-- C17: for every buffer, when the bridge is not started, when the receiving
port is disabled, or when the buffer is classified as neither Config, RST, MST
nor TCN, `STP_OnBpduReceived` returns the same bridge whatever the state
machines and the fuel are (the scheduler is not run); this bridge differs from
the bridge before the call in the log only: the ports (with their rcvdBpdu
flag, roles, learning and forwarding flags), the instance states, the trees and
the received-BPDU slot are unchanged. -/
theorem onBpduReceived_discards (STP_GetValidatedBpduType : List Nat → Nat → VALIDATED_BPDU_TYPE)
    (bridge : STP_BRIDGE) (portIndex : Nat) (bpdu : List Nat) (bpduSize timestamp : Nat)
    (hcase : bridge.started = false ∨ (bridge.ports portIndex).portEnabled = false ∨
      (STP_GetValidatedBpduType bpdu bpduSize ≠ .STP_CONFIG ∧
        STP_GetValidatedBpduType bpdu bpduSize ≠ .RST ∧
        STP_GetValidatedBpduType bpdu bpduSize ≠ .MST ∧
        STP_GetValidatedBpduType bpdu bpduSize ≠ .STP_TCN)) :
    ∃ r,
      (∀ (smInterface : SM_INTERFACE) (fuel : Nat),
        STP_OnBpduReceived smInterface STP_GetValidatedBpduType fuel bridge portIndex bpdu bpduSize
          timestamp = .ok r) ∧
      OnlyLogged bridge r ∧
      r.ports = bridge.ports ∧ r.states = bridge.states ∧ r.trees = bridge.trees ∧
      r.receivedBpduContent = bridge.receivedBpduContent ∧
      r.receivedBpduType = bridge.receivedBpduType ∧
      (bridge.started = false → r = bridge) := by
  have key : ∃ r,
      (∀ (smInterface : SM_INTERFACE) (fuel : Nat),
        STP_OnBpduReceived smInterface STP_GetValidatedBpduType fuel bridge portIndex bpdu bpduSize
          timestamp = .ok r) ∧
      OnlyLogged bridge r ∧ (bridge.started = false → r = bridge) := by
    by_cases hs : bridge.started = true
    · by_cases hdis : (bridge.ports portIndex).portEnabled = false
      · refine ⟨FLUSH_LOG (LOG (LOG bridge (-1) (-1)
            "\x7bT\x7d: WARNING: BPDU received on disabled port \x7bD\x7d. The STP library is discarding it.\r\n"
            [toString timestamp, toString (1 + portIndex)]) (-1) (-1)
            "------------------------------------\r\n" []),
          fun smInterface fuel => ?_, ?_, fun hns => ?_⟩
        · unfold STP_OnBpduReceived
          rw [if_pos hs, if_pos hdis]
          rfl
        · exact ((LOG_onlyLogged _ _ _ _ _).trans (LOG_onlyLogged _ _ _ _ _)).trans
            (FLUSH_LOG_onlyLogged _)
        · rw [hs] at hns
          cases hns
      · have hinvalid : STP_GetValidatedBpduType bpdu bpduSize ≠ .STP_CONFIG ∧
            STP_GetValidatedBpduType bpdu bpduSize ≠ .RST ∧
            STP_GetValidatedBpduType bpdu bpduSize ≠ .MST ∧
            STP_GetValidatedBpduType bpdu bpduSize ≠ .STP_TCN := by
          rcases hcase with h | h | h
          · rw [hs] at h
            cases h
          · exact absurd h hdis
          · exact h
        have hpass : (STP_OnBpduReceived.logBpdu
            (LOG bridge (-1) (-1) "\x7bT\x7d: BPDU received on Port \x7bD\x7d:\r\n"
              [toString timestamp, toString (1 + portIndex)]) portIndex bpdu
            (STP_GetValidatedBpduType bpdu bpduSize)).2 = false := by
          rw [logBpdu_pass]
          simp [hinvalid.1, hinvalid.2.1, hinvalid.2.2.1, hinvalid.2.2.2]
        refine ⟨FLUSH_LOG (LOG (STP_OnBpduReceived.logBpdu
            (LOG bridge (-1) (-1) "\x7bT\x7d: BPDU received on Port \x7bD\x7d:\r\n"
              [toString timestamp, toString (1 + portIndex)]) portIndex bpdu
            (STP_GetValidatedBpduType bpdu bpduSize)).1 (-1) (-1)
            "------------------------------------\r\n" []),
          fun smInterface fuel => ?_, ?_, fun hns => ?_⟩
        · unfold STP_OnBpduReceived
          rw [if_pos hs, if_neg hdis]
          dsimp only
          rw [hpass]
          rfl
        · exact (((LOG_onlyLogged _ _ _ _ _).trans (logBpdu_onlyLogged _ _ _ _)).trans
            (LOG_onlyLogged _ _ _ _ _)).trans (FLUSH_LOG_onlyLogged _)
        · rw [hs] at hns
          cases hns
    · refine ⟨bridge, fun smInterface fuel => ?_, OnlyLogged.refl _, fun _ => rfl⟩
      unfold STP_OnBpduReceived
      rw [if_neg hs]
  obtain ⟨r, hcall, hlog, hns⟩ := key
  exact ⟨r, hcall, hlog, hlog.ports, hlog.states, hlog.trees, hlog.receivedBpduContent,
    hlog.receivedBpduType, hns⟩

/-- Witness of C17: on the started sample bridge whose port 0 is up, a buffer
that the classifier finds invalid is discarded; and so is any buffer received
on port 1, which is down. -/
theorem onBpduReceived_discards_witness :
    (∃ r, (∀ (smInterface : SM_INTERFACE) (fuel : Nat),
        STP_OnBpduReceived smInterface (sampleClassifier false) fuel sampleStartedEnabledBridge 0
          [0, 0, 0] 3 5 = .ok r) ∧
      r.ports = sampleStartedEnabledBridge.ports ∧ r.states = sampleStartedEnabledBridge.states) ∧
    (∃ r, (∀ (smInterface : SM_INTERFACE) (fuel : Nat),
        STP_OnBpduReceived smInterface (sampleClassifier true) fuel sampleStartedEnabledBridge 1
          [0, 0, 0] 3 5 = .ok r) ∧
      r.ports = sampleStartedEnabledBridge.ports ∧ r.states = sampleStartedEnabledBridge.states) := by
  constructor
  · obtain ⟨r, h1, _, h2, h3, _⟩ := onBpduReceived_discards (sampleClassifier false)
      sampleStartedEnabledBridge 0 [0, 0, 0] 3 5 (Or.inr (Or.inr (by decide)))
    exact ⟨r, h1, h2, h3⟩
  · obtain ⟨r, h1, _, h2, h3, _⟩ := onBpduReceived_discards (sampleClassifier true)
      sampleStartedEnabledBridge 1 [0, 0, 0] 3 5 (Or.inr (Or.inl rfl))
    exact ⟨r, h1, h2, h3⟩

/-! ## What creation accepts and what it builds -/

theorem RESULT.bind_ok_of {α β : Type} {r : RESULT α} {f : α → RESULT β} {P : α → Prop}
    {Q : β → Prop} (hr : ∃ a, r = .ok a ∧ P a) (hf : ∀ a, P a → ∃ b, f a = .ok b ∧ Q b) :
    ∃ b, r.bind f = .ok b ∧ Q b := by
  obtain ⟨a, ha, hp⟩ := hr
  rw [ha]
  exact hf a hp

theorem allocAndZeroMemory_always {allocOk : BLOCK → Bool} (halloc : ∀ block, allocOk block = true)
    (bridge : STP_BRIDGE) (block : BLOCK) (elements : Nat) :
    allocAndZeroMemory allocOk bridge block elements =
      .ok { bridge with
        callbackTrace :=
          bridge.callbackTrace ++ [CALLBACK_EVENT.allocAndZeroMemory block elements] } := by
  unfold allocAndZeroMemory
  rw [halloc]
  rfl

/-- With an allocator that never fails the loop over the MSTIs returns. -/
theorem createBridge_mstiLoop_total (consts : BRIDGE_CONSTANTS) {allocOk : BLOCK → Bool}
    (halloc : ∀ block, allocOk block = true) (bridgeAddress : List Nat) :
    ∀ (indices : List Nat) (bridge : STP_BRIDGE),
      ∃ r, STP_CreateBridge.mstiLoop consts allocOk bridgeAddress indices bridge = .ok r ∧
        r.ports = bridge.ports := by
  intro indices
  induction indices with
  | nil => intro bridge; exact ⟨bridge, rfl, rfl⟩
  | cons treeIndex rest ih =>
    intro bridge
    unfold STP_CreateBridge.mstiLoop
    rw [allocAndZeroMemory_always halloc]
    exact ih _

theorem portId_Set_created (portIndex : Nat) (hp : portIndex < 4095) :
    PORT_TREE.zero.portId.Set 0x80 ((portIndex % 65536 + 1) % 65536)
      = some (createdPortId portIndex) := by
  have e : (portIndex % 65536 + 1) % 65536 = portIndex + 1 := by omega
  rw [e]
  unfold PORT_ID.Set createdPortId
  have h1 : ¬ ¬ (0x80 &&& 0x0F = 0) := by decide
  have h2 : ¬ ¬ (portIndex + 1 ≥ 1 ∧ portIndex + 1 ≤ 0xFFF) := by
    rw [not_not]
    constructor <;> omega
  rw [if_neg h1, if_neg h2]

/-- With an allocator that never fails the loop over the trees of a port
returns, and has set the port identifier of the trees it visited. -/
theorem createBridge_portTreeLoop_total (consts : BRIDGE_CONSTANTS) {allocOk : BLOCK → Bool}
    (halloc : ∀ block, allocOk block = true) (portIndex : Nat) (hp : portIndex < 4095) :
    ∀ (indices : List Nat) (bridge : STP_BRIDGE),
      ∃ r, STP_CreateBridge.portTreeLoop consts allocOk portIndex indices bridge = .ok r ∧
        (∀ t, t ∈ indices → ((r.ports portIndex).trees t).portId = createdPortId portIndex) ∧
        (∀ t, t ∉ indices → (r.ports portIndex).trees t = (bridge.ports portIndex).trees t) ∧
        (∀ q, q ≠ portIndex → r.ports q = bridge.ports q) := by
  intro indices
  induction indices with
  | nil =>
    intro bridge
    exact ⟨bridge, rfl, fun t ht => (List.not_mem_nil _ ht).elim, fun _ _ => rfl, fun _ _ => rfl⟩
  | cons treeIndex rest ih =>
    intro bridge
    unfold STP_CreateBridge.portTreeLoop
    rw [allocAndZeroMemory_always halloc]
    simp only [RESULT.bind_ok]
    rw [portId_Set_created portIndex hp]
    dsimp only
    obtain ⟨r, hr, h1, h2, h3⟩ := ih
      { bridge with
        callbackTrace :=
          bridge.callbackTrace ++ [CALLBACK_EVENT.allocAndZeroMemory (.portTree portIndex treeIndex) 1]
        ports := Function.update bridge.ports portIndex
          { bridge.ports portIndex with
            trees := Function.update (bridge.ports portIndex).trees treeIndex
              { PORT_TREE.zero with
                portId := createdPortId portIndex
                portTimes := { PORT_TREE.zero.portTimes with HelloTime := consts.BridgeHelloTime }
                InternalPortPathCost := 200000 } } }
    refine ⟨r, hr, ?_, ?_, ?_⟩
    · intro t ht
      by_cases htr : t ∈ rest
      · exact h1 t htr
      · have hte : t = treeIndex := by
          rcases List.mem_cons.mp ht with h | h
          · exact h
          · exact absurd h htr
        rw [h2 t htr, hte]
        simp
    · intro t ht
      have htr : t ∉ rest := fun h => ht (List.mem_cons_of_mem _ h)
      have hne : t ≠ treeIndex := fun h => ht (h ▸ List.mem_cons_self _ _)
      rw [h2 t htr]
      simp [Function.update_noteq hne]
    · intro q hq
      rw [h3 q hq]
      simp [Function.update_noteq hq]

/-- With an allocator that never fails the loop over the ports returns, and has
set the port identifier of every tree below `treeCount` of the ports it
visited. -/
theorem createBridge_portLoop_total (consts : BRIDGE_CONSTANTS) {allocOk : BLOCK → Bool}
    (halloc : ∀ block, allocOk block = true) (treeCount : Nat) :
    ∀ (indices : List Nat), (∀ p, p ∈ indices → p < 4095) → ∀ (bridge : STP_BRIDGE),
      ∃ r, STP_CreateBridge.portLoop consts allocOk treeCount indices bridge = .ok r ∧
        (∀ p, p ∈ indices → ∀ t, t < treeCount →
          ((r.ports p).trees t).portId = createdPortId p) ∧
        (∀ q, q ∉ indices → r.ports q = bridge.ports q) := by
  intro indices
  induction indices with
  | nil =>
    intro _ bridge
    exact ⟨bridge, rfl, fun p hp => (List.not_mem_nil _ hp).elim, fun _ _ => rfl⟩
  | cons portIndex rest ih =>
    intro hlt bridge
    unfold STP_CreateBridge.portLoop
    rw [allocAndZeroMemory_always halloc]
    simp only [RESULT.bind_ok]
    rw [allocAndZeroMemory_always halloc]
    simp only [RESULT.bind_ok]
    apply RESULT.bind_ok_of
      (createBridge_portTreeLoop_total consts halloc portIndex
        (hlt portIndex (List.mem_cons_self _ _)) (List.range treeCount) _)
    intro b1 hb1
    obtain ⟨hset, _, hother⟩ := hb1
    obtain ⟨r, hr, h1, h2⟩ := ih (fun p hp => hlt p (List.mem_cons_of_mem _ hp))
      { b1 with
        ports := Function.update b1.ports portIndex
          { b1.ports portIndex with
            AutoEdge := true
            enableBPDUrx := true
            enableBPDUtx := true
            ExternalPortPathCost := 200000 } }
    refine ⟨r, hr, ?_, ?_⟩
    · intro p hp t ht
      by_cases hpr : p ∈ rest
      · exact h1 p hpr t ht
      · have hpe : p = portIndex := by
          rcases List.mem_cons.mp hp with h | h
          · exact h
          · exact absurd h hpr
        rw [h2 p hpr, hpe]
        simp only [Function.update_same]
        exact hset t (List.mem_range.mpr ht)
    · intro q hq
      have hqr : q ∉ rest := fun h => hq (List.mem_cons_of_mem _ h)
      have hne : q ≠ portIndex := fun h => hq (h ▸ List.mem_cons_self _ _)
      rw [h2 q hqr]
      simp only [Function.update_noteq hne]
      rw [hother q hne]
      simp [Function.update_noteq hne]

/-- With a log buffer of at least 2 bytes and an allocator that never fails,
`STP_CreateBridge` returns for every valid triple, and every port×tree of the
bridge holds the port identifier made of the priority 0x80 and the port number
`portIndex + 1`. -/
theorem createBridge_accepts (consts : BRIDGE_CONSTANTS) (smInterface : SM_INTERFACE)
    (HMAC_MD5 : List Nat → List Nat) {allocOk : BLOCK → Bool}
    (halloc : ∀ block, allocOk block = true) (portCount treeCount : Nat)
    (protocolVersion : STP_VERSION) (bridgeAddress : List Nat) (debugLogBufferSize : Nat)
    (hsize : 2 ≤ debugLogBufferSize) (hvalid : ValidCreateTriple portCount treeCount protocolVersion) :
    ∃ r, STP_CreateBridge consts smInterface HMAC_MD5 allocOk portCount treeCount protocolVersion
        bridgeAddress debugLogBufferSize = .ok r ∧
      ∀ p, p < portCount → ∀ t, t < treeCount →
        ((r.ports p).trees t).portId = createdPortId p := by
  obtain ⟨⟨hp1, hp2⟩, hv⟩ := hvalid
  unfold STP_CreateBridge
  rw [if_neg (not_not.mpr hsize), allocAndZeroMemory_always halloc]
  simp only [RESULT.bind_ok]
  have c1 : ¬ (protocolVersion = .LEGACY_STP ∧ ¬ (treeCount = 1)) := by
    rintro ⟨h1, h2⟩
    subst h1
    exact h2 hv
  have c2 : ¬ (protocolVersion = .RSTP ∧ ¬ (treeCount = 1)) := by
    rintro ⟨h1, h2⟩
    subst h1
    exact h2 hv
  have c3 : ¬ (protocolVersion = .MSTP ∧ ¬ (treeCount ≥ 1 ∧ treeCount ≤ 65)) := by
    rintro ⟨h1, h2⟩
    subst h1
    exact h2 hv
  have c4 : ¬ ¬ (portCount ≥ 1 ∧ portCount < 4096) := by
    rw [not_not]
    constructor <;> omega
  rw [if_neg c1, if_neg c2, if_neg c3, if_neg c4]
  simp only [allocAndZeroMemory_always halloc, RESULT.bind_ok]
  apply RESULT.bind_ok_of (createBridge_mstiLoop_total consts halloc bridgeAddress _ _)
  intro b1 _
  apply RESULT.bind_ok_of
    (createBridge_portLoop_total consts halloc treeCount (List.range portCount)
      (fun p hp => by have := List.mem_range.mp hp; omega) b1)
  intro b2 hb2
  refine ⟨_, rfl, ?_⟩
  intro p hp t ht
  exact hb2.1 p (List.mem_range.mpr hp) t ht

/-- With a log buffer of at least 2 bytes and an allocator that never fails,
`STP_CreateBridge` fails an assertion for every triple that is not valid. -/
theorem createBridge_rejects (consts : BRIDGE_CONSTANTS) (smInterface : SM_INTERFACE)
    (HMAC_MD5 : List Nat → List Nat) {allocOk : BLOCK → Bool}
    (halloc : ∀ block, allocOk block = true) (portCount treeCount : Nat)
    (protocolVersion : STP_VERSION) (bridgeAddress : List Nat) (debugLogBufferSize : Nat)
    (hsize : 2 ≤ debugLogBufferSize)
    (hinvalid : ¬ ValidCreateTriple portCount treeCount protocolVersion) :
    ∃ s, STP_CreateBridge consts smInterface HMAC_MD5 allocOk portCount treeCount protocolVersion
        bridgeAddress debugLogBufferSize = .assertFailed s := by
  unfold STP_CreateBridge
  rw [if_neg (not_not.mpr hsize), allocAndZeroMemory_always halloc]
  simp only [RESULT.bind_ok]
  by_cases c1 : protocolVersion = .LEGACY_STP ∧ ¬ (treeCount = 1)
  · rw [if_pos c1]
    exact ⟨_, rfl⟩
  rw [if_neg c1]
  by_cases c2 : protocolVersion = .RSTP ∧ ¬ (treeCount = 1)
  · rw [if_pos c2]
    exact ⟨_, rfl⟩
  rw [if_neg c2]
  by_cases c3 : protocolVersion = .MSTP ∧ ¬ (treeCount ≥ 1 ∧ treeCount ≤ 65)
  · rw [if_pos c3]
    exact ⟨_, rfl⟩
  rw [if_neg c3]
  by_cases c4 : ¬ (portCount ≥ 1 ∧ portCount < 4096)
  · rw [if_pos c4]
    exact ⟨_, rfl⟩
  exfalso
  apply hinvalid
  rw [not_not] at c4
  refine ⟨⟨c4.1, by omega⟩, ?_⟩
  cases protocolVersion
  · by_contra h
    exact c1 ⟨rfl, h⟩
  · by_contra h
    exact c2 ⟨rfl, h⟩
  · by_contra h
    exact c3 ⟨rfl, h⟩

/-! ## Claims on creation -/

/-- C19: for every debugLogBufferSize ≥ 2 and a host allocator that never
fails, `STP_CreateBridge` accepts (portCount, treeCount, version) if and only
if portCount is in 1..4095 and treeCount is exactly 1 for legacy STP and for
RSTP and in 1..65 for MSTP; every other triple is rejected by an assertion. -/
theorem createBridge_accepts_iff (consts : BRIDGE_CONSTANTS) (smInterface : SM_INTERFACE)
    (HMAC_MD5 : List Nat → List Nat) (allocOk : BLOCK → Bool)
    (halloc : ∀ block, allocOk block = true) (portCount treeCount : Nat)
    (protocolVersion : STP_VERSION) (bridgeAddress : List Nat) (debugLogBufferSize : Nat)
    (hsize : 2 ≤ debugLogBufferSize) :
    ((∃ r, STP_CreateBridge consts smInterface HMAC_MD5 allocOk portCount treeCount
        protocolVersion bridgeAddress debugLogBufferSize = .ok r) ↔
      ((1 ≤ portCount ∧ portCount ≤ 4095) ∧
        match protocolVersion with
        | .LEGACY_STP => treeCount = 1
        | .RSTP => treeCount = 1
        | .MSTP => 1 ≤ treeCount ∧ treeCount ≤ 65)) ∧
    (¬ ((1 ≤ portCount ∧ portCount ≤ 4095) ∧
        match protocolVersion with
        | .LEGACY_STP => treeCount = 1
        | .RSTP => treeCount = 1
        | .MSTP => 1 ≤ treeCount ∧ treeCount ≤ 65) →
      ∃ s, STP_CreateBridge consts smInterface HMAC_MD5 allocOk portCount treeCount
        protocolVersion bridgeAddress debugLogBufferSize = .assertFailed s) := by
  refine ⟨⟨?_, ?_⟩, ?_⟩
  · rintro ⟨r, hr⟩
    by_contra hinvalid
    obtain ⟨s, hs⟩ := createBridge_rejects consts smInterface HMAC_MD5 halloc portCount treeCount
      protocolVersion bridgeAddress debugLogBufferSize hsize hinvalid
    rw [hs] at hr
    cases hr
  · intro hvalid
    obtain ⟨r, hr, _⟩ := createBridge_accepts consts smInterface HMAC_MD5 halloc portCount
      treeCount protocolVersion bridgeAddress debugLogBufferSize hsize hvalid
    exact ⟨r, hr⟩
  · intro hinvalid
    exact createBridge_rejects consts smInterface HMAC_MD5 halloc portCount treeCount
      protocolVersion bridgeAddress debugLogBufferSize hsize hinvalid

/-- Witness of C19: an MSTP bridge with 4095 ports and 65 trees is accepted; an
RSTP bridge with 2 trees, an MSTP bridge with 66 trees and a bridge with 4096
ports are rejected. -/
theorem createBridge_accepts_iff_witness :
    (∃ r, STP_CreateBridge sampleConstants idleSmInterface sampleHash (fun _ => true) 4095 65 .MSTP
      [0x10, 0x20, 0x30, 0x40, 0x50, 0x60] 2 = .ok r) ∧
    (∃ s, STP_CreateBridge sampleConstants idleSmInterface sampleHash (fun _ => true) 2 2 .RSTP
      [0x10, 0x20, 0x30, 0x40, 0x50, 0x60] 2 = .assertFailed s) ∧
    (∃ s, STP_CreateBridge sampleConstants idleSmInterface sampleHash (fun _ => true) 2 66 .MSTP
      [0x10, 0x20, 0x30, 0x40, 0x50, 0x60] 2 = .assertFailed s) ∧
    (∃ s, STP_CreateBridge sampleConstants idleSmInterface sampleHash (fun _ => true) 4096 1 .RSTP
      [0x10, 0x20, 0x30, 0x40, 0x50, 0x60] 2 = .assertFailed s) :=
  ⟨(createBridge_accepts_iff sampleConstants idleSmInterface sampleHash (fun _ => true)
      (fun _ => rfl) 4095 65 .MSTP _ 2 (by decide)).1.mpr (by decide),
   (createBridge_accepts_iff sampleConstants idleSmInterface sampleHash (fun _ => true)
      (fun _ => rfl) 2 2 .RSTP _ 2 (by decide)).2 (by decide),
   (createBridge_accepts_iff sampleConstants idleSmInterface sampleHash (fun _ => true)
      (fun _ => rfl) 2 66 .MSTP _ 2 (by decide)).2 (by decide),
   (createBridge_accepts_iff sampleConstants idleSmInterface sampleHash (fun _ => true)
      (fun _ => rfl) 4096 1 .RSTP _ 2 (by decide)).2 (by decide)⟩

/-- C20 (the code departs from the claim): `STP_CreateBridge` accepts an RSTP
bridge with 256 ports; the port identifier of its port index 255 (port number
256) is stored with a zero low byte, which the getters take for "not
initialised": `STP_GetPortPriority` and `STP_GetPortIdentifier` fail their
assertion for port index 255, while for port index 254 they return 0x80 and
0x8000 | 255. -/
theorem getPortPriority_fails_for_port_number_256 :
    ∃ bridge, sampleWideBridgeResult = .ok bridge ∧ bridge.portCount = 256 ∧
      ((bridge.ports 255).trees 0).portId = { _high := 0x81, _low := 0 } ∧
      STP_GetPortPriority bridge 255 0 = .assertFailed bridge ∧
      STP_GetPortIdentifier bridge 255 0 = .assertFailed bridge ∧
      STP_GetPortPriority bridge 254 0 = .ok 0x80 ∧
      STP_GetPortIdentifier bridge 254 0 = .ok (0x8000 ||| 255) := by
  obtain ⟨bridge, hb, hports⟩ := createBridge_accepts sampleConstants idleSmInterface sampleHash
    (fun _ => rfl : ∀ block : BLOCK, (fun _ => true) block = true) 256 1 .RSTP
    [0x10, 0x20, 0x30, 0x40, 0x50, 0x60] 16
    (by decide) ⟨⟨by decide, by decide⟩, rfl⟩
  have hshape := createBridge_eq_ok hb
  have hpc : bridge.portCount = 256 := by rw [hshape]; rfl
  have htc : bridge.treeCount = 1 := by rw [hshape]; rfl
  have h255 := hports 255 (by decide) 0 (by decide)
  have h254 := hports 254 (by decide) 0 (by decide)
  refine ⟨bridge, hb, hpc, ?_, ?_, ?_, ?_, ?_⟩
  · rw [h255]
    rfl
  · unfold STP_GetPortPriority
    rw [hpc, htc, h255]
    rfl
  · unfold STP_GetPortIdentifier
    rw [hpc, htc, h255]
    rfl
  · unfold STP_GetPortPriority
    rw [hpc, htc, h254]
    rfl
  · unfold STP_GetPortIdentifier
    rw [hpc, htc, h254]
    rfl

theorem createBridge_mstiLoop_trace (consts : BRIDGE_CONSTANTS) (allocOk : BLOCK → Bool)
    (bridgeAddress : List Nat) :
    ∀ (indices : List Nat) (bridge r : STP_BRIDGE),
      STP_CreateBridge.mstiLoop consts allocOk bridgeAddress indices bridge = .ok r →
      r.callbackTrace = bridge.callbackTrace ++
        indices.map fun treeIndex => CALLBACK_EVENT.allocAndZeroMemory (.bridgeTree treeIndex) 1 := by
  intro indices
  induction indices with
  | nil =>
    intro bridge r h
    simp only [STP_CreateBridge.mstiLoop, RESULT.ok.injEq] at h
    subst h
    simp
  | cons treeIndex rest ih =>
    intro bridge r h
    unfold STP_CreateBridge.mstiLoop at h
    obtain ⟨b1, h1, h2⟩ := RESULT.bind_eq_ok.mp h
    have e1 := allocAndZeroMemory_eq_ok h1
    have e2 := ih _ _ h2
    rw [e2, e1]
    simp

theorem createBridge_portTreeLoop_trace (consts : BRIDGE_CONSTANTS) (allocOk : BLOCK → Bool)
    (portIndex : Nat) :
    ∀ (indices : List Nat) (bridge r : STP_BRIDGE),
      STP_CreateBridge.portTreeLoop consts allocOk portIndex indices bridge = .ok r →
      r.callbackTrace = bridge.callbackTrace ++
        indices.map fun treeIndex =>
          CALLBACK_EVENT.allocAndZeroMemory (.portTree portIndex treeIndex) 1 := by
  intro indices
  induction indices with
  | nil =>
    intro bridge r h
    simp only [STP_CreateBridge.portTreeLoop, RESULT.ok.injEq] at h
    subst h
    simp
  | cons treeIndex rest ih =>
    intro bridge r h
    unfold STP_CreateBridge.portTreeLoop at h
    obtain ⟨b1, h1, h2⟩ := RESULT.bind_eq_ok.mp h
    have e1 := allocAndZeroMemory_eq_ok h1
    dsimp only at h2
    split at h2
    · cases h2
    · have e2 := ih _ _ h2
      rw [e2, e1]
      simp

theorem createBridge_portLoop_trace (consts : BRIDGE_CONSTANTS) (allocOk : BLOCK → Bool)
    (treeCount : Nat) :
    ∀ (indices : List Nat) (bridge r : STP_BRIDGE),
      STP_CreateBridge.portLoop consts allocOk treeCount indices bridge = .ok r →
      r.callbackTrace = bridge.callbackTrace ++ indices.flatMap (portAllocations treeCount) := by
  intro indices
  induction indices with
  | nil =>
    intro bridge r h
    simp only [STP_CreateBridge.portLoop, RESULT.ok.injEq] at h
    subst h
    simp
  | cons portIndex rest ih =>
    intro bridge r h
    unfold STP_CreateBridge.portLoop at h
    obtain ⟨b1, h1, h2⟩ := RESULT.bind_eq_ok.mp h
    have e1 := allocAndZeroMemory_eq_ok h1
    dsimp only at h2
    obtain ⟨b2, h3, h4⟩ := RESULT.bind_eq_ok.mp h2
    have e2 := allocAndZeroMemory_eq_ok h3
    obtain ⟨b3, h5, h6⟩ := RESULT.bind_eq_ok.mp h4
    have e3 := createBridge_portTreeLoop_trace consts allocOk portIndex _ _ _ h5
    have e4 := ih _ _ h6
    rw [e4]
    dsimp only
    rw [e3, e2]
    dsimp only
    rw [e1]
    simp [portAllocations]

/-- The record of callbacks of a successful `STP_CreateBridge`: the
allocations, in the order of the source. -/
theorem createBridge_trace {consts : BRIDGE_CONSTANTS} {smInterface : SM_INTERFACE}
    {HMAC_MD5 : List Nat → List Nat} {allocOk : BLOCK → Bool} {portCount treeCount : Nat}
    {protocolVersion : STP_VERSION} {bridgeAddress : List Nat} {debugLogBufferSize : Nat}
    {r : STP_BRIDGE}
    (h : STP_CreateBridge consts smInterface HMAC_MD5 allocOk portCount treeCount protocolVersion
      bridgeAddress debugLogBufferSize = .ok r) :
    r.callbackTrace =
      [CALLBACK_EVENT.allocAndZeroMemory .bridge 1,
       CALLBACK_EVENT.allocAndZeroMemory .logBuffer debugLogBufferSize,
       CALLBACK_EVENT.allocAndZeroMemory .states
        ((smInterface.smInfo.map fun smInfo =>
            GetInstanceCountForStateMachine smInfo portCount treeCount).sum
          + GetInstanceCountForStateMachine smInterface.transmitSmInfo portCount treeCount),
       CALLBACK_EVENT.allocAndZeroMemory .trees treeCount,
       CALLBACK_EVENT.allocAndZeroMemory .ports portCount,
       CALLBACK_EVENT.allocAndZeroMemory (.bridgeTree CIST_INDEX) 1]
      ++ (((List.range treeCount).filter fun treeIndex => 1 ≤ treeIndex).map fun treeIndex =>
          CALLBACK_EVENT.allocAndZeroMemory (.bridgeTree treeIndex) 1)
      ++ (List.range portCount).flatMap (portAllocations treeCount) := by
  unfold STP_CreateBridge at h
  split_ifs at h
  all_goals first
    | cases h
    | (obtain ⟨b1, h1, h2⟩ := RESULT.bind_eq_ok.mp h; cases h2)
    | skip
  obtain ⟨b1, h1, h2⟩ := RESULT.bind_eq_ok.mp h
  have e1 := allocAndZeroMemory_eq_ok h1
  try dsimp only at h2
  obtain ⟨b2, h3, h4⟩ := RESULT.bind_eq_ok.mp h2
  have e2 := allocAndZeroMemory_eq_ok h3
  try dsimp only at h4
  obtain ⟨b3, h5, h6⟩ := RESULT.bind_eq_ok.mp h4
  have e3 := allocAndZeroMemory_eq_ok h5
  obtain ⟨b4, h7, h8⟩ := RESULT.bind_eq_ok.mp h6
  have e4 := allocAndZeroMemory_eq_ok h7
  obtain ⟨b5, h9, h10⟩ := RESULT.bind_eq_ok.mp h8
  have e5 := allocAndZeroMemory_eq_ok h9
  obtain ⟨b6, h11, h12⟩ := RESULT.bind_eq_ok.mp h10
  have e6 := allocAndZeroMemory_eq_ok h11
  try dsimp only at h12
  obtain ⟨b7, h13, h14⟩ := RESULT.bind_eq_ok.mp h12
  have e7 := createBridge_mstiLoop_trace consts allocOk bridgeAddress _ _ _ h13
  obtain ⟨b8, h15, h16⟩ := RESULT.bind_eq_ok.mp h14
  have e8 := createBridge_portLoop_trace consts allocOk treeCount _ _ _ h15
  simp only [RESULT.ok.injEq] at h16
  rw [← h16]
  show b8.callbackTrace = _
  rw [e8, e7]
  dsimp only
  rw [e6]
  dsimp only
  rw [e5]
  dsimp only
  rw [e4]
  dsimp only
  rw [e3]
  dsimp only
  rw [e2]
  dsimp only
  rw [e1]
  simp [STP_BRIDGE.zero]


theorem freeMemory_foldl (f : Nat → BLOCK) :
    ∀ (indices : List Nat) (bridge : STP_BRIDGE),
      indices.foldl (fun bridge i => freeMemory bridge (f i)) bridge
        = { bridge with
            callbackTrace := bridge.callbackTrace ++
              indices.map fun i => CALLBACK_EVENT.freeMemory (f i) } := by
  intro indices
  induction indices with
  | nil => intro bridge; simp
  | cons i rest ih =>
    intro bridge
    rw [List.foldl_cons, ih]
    simp [freeMemory]

theorem destroyBridge_portLoop :
    ∀ (indices : List Nat) (bridge : STP_BRIDGE),
      indices.foldl
        (fun bridge portIndex =>
          let bridge := (List.range bridge.treeCount).foldl
            (fun bridge treeIndex => freeMemory bridge (.portTree portIndex treeIndex)) bridge
          let bridge := freeMemory bridge (.portTrees portIndex)
          freeMemory bridge (.port portIndex)) bridge
        = { bridge with
            callbackTrace := bridge.callbackTrace ++
              indices.flatMap (portReleases bridge.treeCount) } := by
  intro indices
  induction indices with
  | nil => intro bridge; simp
  | cons portIndex rest ih =>
    intro bridge
    rw [List.foldl_cons, ih]
    dsimp only
    rw [freeMemory_foldl]
    simp [freeMemory, portReleases]

/-- The record of callbacks of `STP_DestroyBridge`: the releases, in the order
of the source, after what was recorded before. -/
theorem destroyBridge_trace (bridge : STP_BRIDGE) :
    (STP_DestroyBridge bridge).callbackTrace =
      bridge.callbackTrace
      ++ (List.range bridge.portCount).flatMap (portReleases bridge.treeCount)
      ++ ((List.range bridge.treeCount).map fun treeIndex =>
          CALLBACK_EVENT.freeMemory (.bridgeTree treeIndex))
      ++ [CALLBACK_EVENT.freeMemory .ports, CALLBACK_EVENT.freeMemory .trees,
          CALLBACK_EVENT.freeMemory .states, CALLBACK_EVENT.freeMemory .logBuffer,
          CALLBACK_EVENT.freeMemory .bridge] := by
  unfold STP_DestroyBridge
  dsimp only
  rw [destroyBridge_portLoop]
  dsimp only
  rw [freeMemory_foldl]
  simp [freeMemory]

theorem allocatedBlocks_append (l l' : List CALLBACK_EVENT) :
    allocatedBlocks (l ++ l') = allocatedBlocks l ++ allocatedBlocks l' :=
  List.filterMap_append _ _ _

theorem freedBlocks_append (l l' : List CALLBACK_EVENT) :
    freedBlocks (l ++ l') = freedBlocks l ++ freedBlocks l' :=
  List.filterMap_append _ _ _

theorem allocatedBlocks_map_alloc {α : Type} (f : α → BLOCK) (n : α → Nat) (l : List α) :
    allocatedBlocks (l.map fun a => CALLBACK_EVENT.allocAndZeroMemory (f a) (n a)) = l.map f := by
  induction l with
  | nil => rfl
  | cons a rest ih =>
    rw [List.map_cons, List.map_cons, ← ih]
    rfl

theorem freedBlocks_map_alloc {α : Type} (f : α → BLOCK) (n : α → Nat) (l : List α) :
    freedBlocks (l.map fun a => CALLBACK_EVENT.allocAndZeroMemory (f a) (n a)) = [] := by
  induction l with
  | nil => rfl
  | cons a rest ih =>
    rw [List.map_cons]
    exact ih

theorem freedBlocks_map_free {α : Type} (f : α → BLOCK) (l : List α) :
    freedBlocks (l.map fun a => CALLBACK_EVENT.freeMemory (f a)) = l.map f := by
  induction l with
  | nil => rfl
  | cons a rest ih =>
    rw [List.map_cons, List.map_cons, ← ih]
    rfl

theorem allocatedBlocks_map_free {α : Type} (f : α → BLOCK) (l : List α) :
    allocatedBlocks (l.map fun a => CALLBACK_EVENT.freeMemory (f a)) = [] := by
  induction l with
  | nil => rfl
  | cons a rest ih =>
    rw [List.map_cons]
    exact ih

/-- The blocks of one port, as creation obtains them. -/
theorem allocatedBlocks_portAllocations (treeCount portIndex : Nat) :
    allocatedBlocks (portAllocations treeCount portIndex) =
      [BLOCK.port portIndex, BLOCK.portTrees portIndex]
        ++ (List.range treeCount).map fun treeIndex => BLOCK.portTree portIndex treeIndex := by
  unfold portAllocations
  rw [allocatedBlocks_append, allocatedBlocks_map_alloc (fun t => BLOCK.portTree portIndex t) (fun _ => 1)]
  rfl

theorem freedBlocks_portAllocations (treeCount portIndex : Nat) :
    freedBlocks (portAllocations treeCount portIndex) = [] := by
  unfold portAllocations
  rw [freedBlocks_append, freedBlocks_map_alloc (fun t => BLOCK.portTree portIndex t) (fun _ => 1)]
  rfl

/-- The blocks of one port, as destruction returns them. -/
theorem freedBlocks_portReleases (treeCount portIndex : Nat) :
    freedBlocks (portReleases treeCount portIndex) =
      ((List.range treeCount).map fun treeIndex => BLOCK.portTree portIndex treeIndex)
        ++ [BLOCK.portTrees portIndex, BLOCK.port portIndex] := by
  unfold portReleases
  rw [freedBlocks_append, freedBlocks_map_free (fun t => BLOCK.portTree portIndex t)]
  rfl

theorem allocatedBlocks_portReleases (treeCount portIndex : Nat) :
    allocatedBlocks (portReleases treeCount portIndex) = [] := by
  unfold portReleases
  rw [allocatedBlocks_append, allocatedBlocks_map_free (fun t => BLOCK.portTree portIndex t)]
  rfl

theorem allocatedBlocks_flatMap (l : List Nat) (g : Nat → List CALLBACK_EVENT) :
    allocatedBlocks (l.flatMap g) = l.flatMap fun p => allocatedBlocks (g p) :=
  List.filterMap_flatMap _ _ _

theorem freedBlocks_flatMap (l : List Nat) (g : Nat → List CALLBACK_EVENT) :
    freedBlocks (l.flatMap g) = l.flatMap fun p => freedBlocks (g p) :=
  List.filterMap_flatMap _ _ _

theorem flatMap_nil_const (l : List Nat) : (l.flatMap fun _ => ([] : List BLOCK)) = [] := by
  induction l with
  | nil => rfl
  | cons a rest ih => rw [List.flatMap_cons, ih]; rfl

theorem range_filter_one_le (n : Nat) :
    (List.range (n + 1)).filter (fun treeIndex => decide (1 ≤ treeIndex)) = (List.range n).map Nat.succ := by
  rw [List.range_succ_eq_map, List.filter_cons]
  simp only [Nat.le_zero_eq, Nat.one_ne_zero, decide_False, Bool.false_eq_true, if_false]
  rw [List.filter_eq_self]
  intro a ha
  obtain ⟨b, _, hb⟩ := List.mem_map.mp ha
  subst hb
  simp

theorem length_flatMap_range (n k : Nat) (g : Nat → List BLOCK) (hg : ∀ p, (g p).length = k) :
    ((List.range n).flatMap g).length = n * k := by
  induction n with
  | zero => simp
  | succ n ih =>
    rw [List.range_succ, List.flatMap_append, List.length_append, ih]
    simp [hg]
    ring


/-- Creation obtains the blocks of `createdBlocks` and returns none. -/
theorem createBridge_blocks {consts : BRIDGE_CONSTANTS} {smInterface : SM_INTERFACE}
    {HMAC_MD5 : List Nat → List Nat} {allocOk : BLOCK → Bool} {portCount treeCount : Nat}
    {protocolVersion : STP_VERSION} {bridgeAddress : List Nat} {debugLogBufferSize : Nat}
    {r : STP_BRIDGE}
    (h : STP_CreateBridge consts smInterface HMAC_MD5 allocOk portCount treeCount protocolVersion
      bridgeAddress debugLogBufferSize = .ok r) :
    allocatedBlocks r.callbackTrace = createdBlocks portCount treeCount ∧
    freedBlocks r.callbackTrace = [] ∧
    (∀ event ∈ r.callbackTrace, event.allocated.isSome = true) := by
  rw [createBridge_trace h]
  refine ⟨?_, ?_, ?_⟩
  · rw [allocatedBlocks_append, allocatedBlocks_append, allocatedBlocks_flatMap,
      allocatedBlocks_map_alloc (fun t => BLOCK.bridgeTree t) (fun _ => 1)]
    simp only [allocatedBlocks_portAllocations]
    rfl
  · rw [freedBlocks_append, freedBlocks_append, freedBlocks_flatMap,
      freedBlocks_map_alloc (fun t => BLOCK.bridgeTree t) (fun _ => 1)]
    simp only [freedBlocks_portAllocations, flatMap_nil_const]
    rfl
  · intro event hev
    simp only [List.mem_append, List.mem_cons, List.mem_map, List.mem_flatMap, portAllocations,
      List.mem_singleton, List.not_mem_nil, or_false] at hev
    rcases hev with (h1 | ⟨t, _, h1⟩) | ⟨p, _, h1 | ⟨t, _, h1⟩⟩
    · rcases h1 with h1 | h1 | h1 | h1 | h1 | h1 <;> subst h1 <;> rfl
    · subst h1; rfl
    · rcases h1 with h1 | h1 <;> subst h1 <;> rfl
    · subst h1; rfl

/-- Destruction returns the blocks of `releasedBlocks` and obtains none. -/
theorem destroyBridge_blocks (bridge : STP_BRIDGE) :
    allocatedBlocks (STP_DestroyBridge bridge).callbackTrace = allocatedBlocks bridge.callbackTrace ∧
    freedBlocks (STP_DestroyBridge bridge).callbackTrace
      = freedBlocks bridge.callbackTrace ++ releasedBlocks bridge.portCount bridge.treeCount ∧
    (∀ event ∈ (STP_DestroyBridge bridge).callbackTrace,
      event ∈ bridge.callbackTrace ∨ event.freed.isSome = true) := by
  rw [destroyBridge_trace]
  refine ⟨?_, ?_, ?_⟩
  · rw [allocatedBlocks_append, allocatedBlocks_append, allocatedBlocks_append,
      allocatedBlocks_flatMap, allocatedBlocks_map_free (fun t => BLOCK.bridgeTree t)]
    simp only [allocatedBlocks_portReleases, flatMap_nil_const]
    simp [allocatedBlocks, CALLBACK_EVENT.allocated]
  · rw [freedBlocks_append, freedBlocks_append, freedBlocks_append,
      freedBlocks_flatMap, freedBlocks_map_free (fun t => BLOCK.bridgeTree t)]
    simp only [freedBlocks_portReleases]
    simp [releasedBlocks, freedBlocks, CALLBACK_EVENT.freed]
  · intro event hev
    simp only [List.mem_append, List.mem_cons, List.mem_map, List.mem_flatMap, portReleases,
      List.mem_singleton, List.not_mem_nil, or_false] at hev
    rcases hev with ((h1 | ⟨p, _, ⟨t, _, h1⟩ | h1⟩) | ⟨t, _, h1⟩) | h1
    · exact Or.inl h1
    · subst h1; exact Or.inr rfl
    · rcases h1 with h1 | h1 <;> subst h1 <;> exact Or.inr rfl
    · subst h1; exact Or.inr rfl
    · rcases h1 with h1 | h1 | h1 | h1 | h1 <;> subst h1 <;> exact Or.inr rfl

/-- No block is obtained twice by creation. -/
theorem createdBlocks_nodup (portCount treeCount : Nat) :
    (createdBlocks portCount treeCount).Nodup := by
  unfold createdBlocks
  rw [List.nodup_append, List.nodup_append]
  refine ⟨⟨?_, ?_, ?_⟩, ?_, ?_⟩
  · decide
  · refine List.Nodup.map ?_ ((List.nodup_range treeCount).filter _)
    intro a b hab
    exact BLOCK.bridgeTree.inj hab
  · intro a h1 h2
    obtain ⟨t, ht, hta⟩ := List.mem_map.mp h2
    subst hta
    have ht1 : 1 ≤ t := by simpa using (List.mem_filter.mp ht).2
    simp only [List.mem_cons, List.mem_singleton, List.not_mem_nil, or_false, CIST_INDEX,
      BLOCK.bridgeTree.injEq, reduceCtorEq, false_or] at h1
    omega
  · rw [List.nodup_flatMap]
    constructor
    · intro p _
      rw [List.nodup_append]
      refine ⟨by simp, ?_, ?_⟩
      · refine List.Nodup.map ?_ (List.nodup_range treeCount)
        intro a b hab
        exact (BLOCK.portTree.inj hab).2
      · intro a h1 h2
        obtain ⟨t, _, hta⟩ := List.mem_map.mp h2
        subst hta
        simp at h1
    · refine (List.pairwise_lt_range portCount).imp ?_
      intro p q hpq a h1 h2
      simp only [List.mem_append, List.mem_cons, List.mem_singleton, List.not_mem_nil, or_false,
        List.mem_map] at h1 h2
      rcases h1 with (h1 | h1) | ⟨t, _, h1⟩ <;> subst h1
      · rcases h2 with (h2 | h2) | ⟨t, _, h2⟩
        · have := BLOCK.port.inj h2; omega
        · cases h2
        · cases h2
      · rcases h2 with (h2 | h2) | ⟨t, _, h2⟩
        · cases h2
        · have := BLOCK.portTrees.inj h2; omega
        · cases h2
      · rcases h2 with (h2 | h2) | ⟨t', _, h2⟩
        · cases h2
        · cases h2
        · have := (BLOCK.portTree.inj h2).1; omega
  · intro a h1 h2
    obtain ⟨p, _, hp⟩ := List.mem_flatMap.mp h2
    simp only [List.mem_append, List.mem_cons, List.mem_singleton, List.not_mem_nil, or_false,
      List.mem_map] at h1 hp
    rcases hp with (hp | hp) | ⟨t, _, hp⟩ <;> subst hp
    · rcases h1 with h1 | ⟨t, _, h1⟩
      · rcases h1 with h1 | h1 | h1 | h1 | h1 | h1 <;> cases h1
      · cases h1
    · rcases h1 with h1 | ⟨t, _, h1⟩
      · rcases h1 with h1 | h1 | h1 | h1 | h1 | h1 <;> cases h1
      · cases h1
    · rcases h1 with h1 | ⟨t', _, h1⟩
      · rcases h1 with h1 | h1 | h1 | h1 | h1 | h1 <;> cases h1
      · cases h1

/-- Destruction returns the blocks creation obtained, in another order, when
the bridge has a tree. -/
theorem releasedBlocks_perm (portCount treeCount : Nat) (ht : 1 ≤ treeCount) :
    (releasedBlocks portCount treeCount).Perm (createdBlocks portCount treeCount) := by
  obtain ⟨n, rfl⟩ : ∃ n, treeCount = n + 1 := ⟨treeCount - 1, by omega⟩
  unfold releasedBlocks createdBlocks
  have hfilter : (List.range (n + 1)).filter (fun treeIndex => decide (1 ≤ treeIndex))
      = (List.range n).map Nat.succ := range_filter_one_le n
  rw [hfilter]
  have hM : ((List.range (n + 1)).map fun treeIndex => BLOCK.bridgeTree treeIndex)
      = BLOCK.bridgeTree 0 :: ((List.range n).map Nat.succ).map fun treeIndex => BLOCK.bridgeTree treeIndex := by
    rw [List.range_succ_eq_map, List.map_cons]
  rw [hM]
  have hX : ((List.range portCount).flatMap fun portIndex =>
        ((List.range (n + 1)).map fun treeIndex => BLOCK.portTree portIndex treeIndex)
          ++ [BLOCK.portTrees portIndex, BLOCK.port portIndex]).Perm
      ((List.range portCount).flatMap fun portIndex =>
        [BLOCK.port portIndex, BLOCK.portTrees portIndex]
          ++ (List.range (n + 1)).map fun treeIndex => BLOCK.portTree portIndex treeIndex) := by
    apply List.Perm.flatMap_left
    intro p _
    exact List.perm_append_comm.trans (List.Perm.append_right _ (List.Perm.swap _ _ _))
  refine ((hX.append_right _).append_right _).trans ?_
  rw [List.append_assoc]
  refine List.perm_append_comm.trans (List.Perm.append_right _ ?_)
  generalize ((List.range n).map Nat.succ).map (fun treeIndex => BLOCK.bridgeTree treeIndex) = M
  have h1 : (BLOCK.bridgeTree 0 :: M ++ [BLOCK.ports, BLOCK.trees, BLOCK.states, BLOCK.logBuffer, BLOCK.bridge]).Perm
      ([BLOCK.ports, BLOCK.trees, BLOCK.states, BLOCK.logBuffer, BLOCK.bridge] ++ (BLOCK.bridgeTree 0 :: M)) :=
    List.perm_append_comm
  refine h1.trans ?_
  have h2 : [BLOCK.ports, BLOCK.trees, BLOCK.states, BLOCK.logBuffer, BLOCK.bridge] ++ (BLOCK.bridgeTree 0 :: M)
      = ([BLOCK.ports, BLOCK.trees, BLOCK.states, BLOCK.logBuffer, BLOCK.bridge] ++ [BLOCK.bridgeTree 0]) ++ M := by
    simp
  rw [h2]
  refine List.Perm.append_right _ ?_
  exact List.Perm.append_right _
    (List.reverse_perm [BLOCK.ports, BLOCK.trees, BLOCK.states, BLOCK.logBuffer, BLOCK.bridge]).symm

/-- The number of blocks creation obtains. -/
theorem createdBlocks_length (portCount treeCount : Nat) (ht : 1 ≤ treeCount) :
    (createdBlocks portCount treeCount).length = 5 + treeCount + portCount * (2 + treeCount) := by
  obtain ⟨n, rfl⟩ : ∃ n, treeCount = n + 1 := ⟨treeCount - 1, by omega⟩
  unfold createdBlocks
  rw [range_filter_one_le, List.length_append, List.length_append,
    length_flatMap_range portCount (2 + (n + 1))]
  · simp
    omega
  · intro p
    simp
    omega


/-! ## Claim on creation followed by destruction -/

/-- C21: for every valid (portCount, treeCount, version) triple (with a log
buffer of at least 2 bytes and an allocator that never fails),
`STP_CreateBridge` followed immediately by `STP_DestroyBridge` invokes no host
callback other than `allocAndZeroMemory` and `freeMemory`: creation only
obtains blocks, destruction only returns blocks afterwards, no block is
obtained twice, the blocks returned are the blocks obtained, each once, and
there are 5 + treeCount + portCount × (2 + treeCount) allocations and as many
frees. -/
theorem createBridge_destroyBridge_blocks (consts : BRIDGE_CONSTANTS) (smInterface : SM_INTERFACE)
    (HMAC_MD5 : List Nat → List Nat) (allocOk : BLOCK → Bool)
    (halloc : ∀ block, allocOk block = true) (portCount treeCount : Nat)
    (protocolVersion : STP_VERSION) (bridgeAddress : List Nat) (debugLogBufferSize : Nat)
    (hsize : 2 ≤ debugLogBufferSize)
    (hvalid : (1 ≤ portCount ∧ portCount ≤ 4095) ∧
      match protocolVersion with
      | .LEGACY_STP => treeCount = 1
      | .RSTP => treeCount = 1
      | .MSTP => 1 ≤ treeCount ∧ treeCount ≤ 65) :
    ∃ bridge, STP_CreateBridge consts smInterface HMAC_MD5 allocOk portCount treeCount
        protocolVersion bridgeAddress debugLogBufferSize = .ok bridge ∧
      (∀ event ∈ (STP_DestroyBridge bridge).callbackTrace,
        event.allocated.isSome = true ∨ event.freed.isSome = true) ∧
      (∃ releases, (STP_DestroyBridge bridge).callbackTrace = bridge.callbackTrace ++ releases ∧
        (∀ event ∈ bridge.callbackTrace, event.allocated.isSome = true) ∧
        (∀ event ∈ releases, event.freed.isSome = true)) ∧
      (allocatedBlocks (STP_DestroyBridge bridge).callbackTrace).Nodup ∧
      (freedBlocks (STP_DestroyBridge bridge).callbackTrace).Perm
        (allocatedBlocks (STP_DestroyBridge bridge).callbackTrace) ∧
      (allocatedBlocks (STP_DestroyBridge bridge).callbackTrace).length
        = 5 + treeCount + portCount * (2 + treeCount) ∧
      (freedBlocks (STP_DestroyBridge bridge).callbackTrace).length
        = 5 + treeCount + portCount * (2 + treeCount) := by
  have ht : 1 ≤ treeCount := by
    obtain ⟨_, hv⟩ := hvalid
    cases protocolVersion
    · exact le_of_eq hv.symm
    · exact le_of_eq hv.symm
    · exact hv.1
  obtain ⟨bridge, hb, _⟩ := createBridge_accepts consts smInterface HMAC_MD5 halloc portCount
    treeCount protocolVersion bridgeAddress debugLogBufferSize hsize hvalid
  have hshape := createBridge_eq_ok hb
  have hpc : bridge.portCount = portCount := by rw [hshape]; rfl
  have htc : bridge.treeCount = treeCount := by rw [hshape]; rfl
  obtain ⟨hca, hcf, hconly⟩ := createBridge_blocks hb
  obtain ⟨hda, hdf, hdonly⟩ := destroyBridge_blocks bridge
  rw [hpc, htc, hcf, List.nil_append] at hdf
  rw [hca] at hda
  have hperm := releasedBlocks_perm portCount treeCount ht
  refine ⟨bridge, hb, ?_, ?_, ?_, ?_, ?_, ?_⟩
  · intro event hev
    rcases hdonly event hev with h | h
    · exact Or.inl (hconly event h)
    · exact Or.inr h
  · refine ⟨(List.range bridge.portCount).flatMap (portReleases bridge.treeCount)
        ++ (((List.range bridge.treeCount).map fun treeIndex =>
            CALLBACK_EVENT.freeMemory (.bridgeTree treeIndex))
          ++ [CALLBACK_EVENT.freeMemory .ports, CALLBACK_EVENT.freeMemory .trees,
              CALLBACK_EVENT.freeMemory .states, CALLBACK_EVENT.freeMemory .logBuffer,
              CALLBACK_EVENT.freeMemory .bridge]), ?_, hconly, ?_⟩
    · rw [destroyBridge_trace, List.append_assoc, List.append_assoc]
    · intro event hev
      simp only [List.mem_append, List.mem_cons, List.mem_map, List.mem_flatMap, portReleases,
        List.mem_singleton, List.not_mem_nil, or_false] at hev
      rcases hev with ⟨p, _, ⟨t, _, h1⟩ | h1⟩ | ⟨t, _, h1⟩ | h1
      · subst h1; rfl
      · rcases h1 with h1 | h1 <;> subst h1 <;> rfl
      · subst h1; rfl
      · rcases h1 with h1 | h1 | h1 | h1 | h1 <;> subst h1 <;> rfl
  · rw [hda]
    exact createdBlocks_nodup portCount treeCount
  · rw [hda, hdf]
    exact hperm
  · rw [hda]
    exact createdBlocks_length portCount treeCount ht
  · rw [hdf, hperm.length_eq]
    exact createdBlocks_length portCount treeCount ht

/-- Witness of C21: an MSTP bridge with 2 ports and 3 trees is created with
5 + 3 + 2 × (2 + 3) = 18 allocations and destroyed with 18 frees. -/
theorem createBridge_destroyBridge_blocks_witness :
    ∃ bridge, STP_CreateBridge sampleConstants idleSmInterface sampleHash (fun _ => true) 2 3 .MSTP
        [0x10, 0x20, 0x30, 0x40, 0x50, 0x60] 16 = .ok bridge ∧
      (allocatedBlocks (STP_DestroyBridge bridge).callbackTrace).Nodup ∧
      (freedBlocks (STP_DestroyBridge bridge).callbackTrace).Perm
        (allocatedBlocks (STP_DestroyBridge bridge).callbackTrace) ∧
      (allocatedBlocks (STP_DestroyBridge bridge).callbackTrace).length = 18 ∧
      (freedBlocks (STP_DestroyBridge bridge).callbackTrace).length = 18 := by
  obtain ⟨bridge, hb, _, _, h1, h2, h3, h4⟩ :=
    createBridge_destroyBridge_blocks sampleConstants idleSmInterface sampleHash (fun _ => true)
      (fun _ => rfl) 2 3 .MSTP [0x10, 0x20, 0x30, 0x40, 0x50, 0x60] 16 (by decide) (by decide)
  exact ⟨bridge, hb, h1, h2, h3, h4⟩

/-! ## Start and stop -/

theorem FrameRel_SameStartedBegin : FrameRel SameStartedBegin where
  refl := fun _ => ⟨rfl, rfl⟩
  trans := fun _ _ _ h1 h2 => ⟨h2.1.trans h1.1, h2.2.trans h1.2⟩
  log := fun b port tree format args => ⟨LOG_started b port tree format args, LOG_BEGIN b port tree format args⟩
  states := fun _ _ _ => ⟨rfl, rfl⟩

/-- C22: `STP_StartBridge` is rejected by its assertion when the bridge is
already started.  On a bridge that is not started it runs the scheduler once on
the bridge with `started` and `BEGIN` set and, when that run returns, once more
with `BEGIN` cleared; when both runs return, the call returns, and (the state
machines not writing the two flags) the returned bridge has started = true and
BEGIN = false; and the call returns in no other way. -/
theorem startBridge_contract (smInterface : SM_INTERFACE) (fuel : Nat) (bridge : STP_BRIDGE)
    (timestamp : Nat) :
    (bridge.started = true →
      ∃ s, STP_StartBridge smInterface fuel bridge timestamp = .assertFailed s) ∧
    (bridge.started = false →
      (∀ b1 b2,
        RunStateMachines smInterface fuel
          { LOG bridge (-1) (-1) "\x7bT\x7d: Starting the bridge...\r\n" [toString timestamp] with
            started := true, BEGIN := true } timestamp = .ok b1 →
        RunStateMachines smInterface fuel { b1 with BEGIN := false } timestamp = .ok b2 →
        ∃ r, STP_StartBridge smInterface fuel bridge timestamp = .ok r ∧
          OnlyLogged b2 r ∧
          (smInterface.Respects SameStartedBegin → r.started = true ∧ r.BEGIN = false)) ∧
      (∀ r, STP_StartBridge smInterface fuel bridge timestamp = .ok r →
        ∃ b1 b2,
          RunStateMachines smInterface fuel
            { LOG bridge (-1) (-1) "\x7bT\x7d: Starting the bridge...\r\n" [toString timestamp] with
              started := true, BEGIN := true } timestamp = .ok b1 ∧
          RunStateMachines smInterface fuel { b1 with BEGIN := false } timestamp = .ok b2 ∧
          OnlyLogged b2 r ∧
          (smInterface.Respects SameStartedBegin → r.started = true ∧ r.BEGIN = false))) := by
  have hflags : ∀ b1 b2,
      RunStateMachines smInterface fuel
        { LOG bridge (-1) (-1) "\x7bT\x7d: Starting the bridge...\r\n" [toString timestamp] with
          started := true, BEGIN := true } timestamp = .ok b1 →
      RunStateMachines smInterface fuel { b1 with BEGIN := false } timestamp = .ok b2 →
      smInterface.Respects SameStartedBegin →
      b2.started = true ∧ b2.BEGIN = false := by
    intro b1 b2 h1 h2 hsm
    have r1 := RESULT.Holds.of_ok
      (RunStateMachines_holds FrameRel_SameStartedBegin hsm fuel _ timestamp) h1
    have r2 := RESULT.Holds.of_ok
      (RunStateMachines_holds FrameRel_SameStartedBegin hsm fuel _ timestamp) h2
    exact ⟨r2.1.trans r1.1, r2.2⟩
  have hlog : ∀ b2 : STP_BRIDGE,
      OnlyLogged b2 (FLUSH_LOG (LOG (LOG b2 (-1) (-1) "Bridge started.\r\n" []) (-1) (-1)
        "------------------------------------\r\n" [])) := fun b2 =>
    ((LOG_onlyLogged _ _ _ _ _).trans (LOG_onlyLogged _ _ _ _ _)).trans (FLUSH_LOG_onlyLogged _)
  have hfinal : ∀ b2 : STP_BRIDGE, b2.started = true ∧ b2.BEGIN = false →
      (FLUSH_LOG (LOG (LOG b2 (-1) (-1) "Bridge started.\r\n" []) (-1) (-1)
        "------------------------------------\r\n" [])).started = true ∧
      (FLUSH_LOG (LOG (LOG b2 (-1) (-1) "Bridge started.\r\n" []) (-1) (-1)
        "------------------------------------\r\n" [])).BEGIN = false := by
    intro b2 h
    simp only [FLUSH_LOG_started, LOG_started, FLUSH_LOG_BEGIN, LOG_BEGIN]
    exact h
  refine ⟨?_, ?_⟩
  · intro hs
    refine ⟨LOG bridge (-1) (-1) "\x7bT\x7d: Starting the bridge...\r\n" [toString timestamp], ?_⟩
    unfold STP_StartBridge
    dsimp only
    rw [if_pos]
    rw [LOG_started, hs]
    decide
  · intro hs
    have hnot : ¬ ¬ ((LOG bridge (-1) (-1) "\x7bT\x7d: Starting the bridge...\r\n"
        [toString timestamp]).started = false) := by
      rw [LOG_started, hs]
      decide
    refine ⟨?_, ?_⟩
    · intro b1 b2 h1 h2
      refine ⟨_, ?_, hlog b2, fun hsm => hfinal b2 (hflags b1 b2 h1 h2 hsm)⟩
      unfold STP_StartBridge
      dsimp only
      rw [if_neg hnot, h1]
      simp only [RESULT.bind_ok]
      rw [h2]
      rfl
    · intro r hr
      unfold STP_StartBridge at hr
      dsimp only at hr
      rw [if_neg hnot] at hr
      obtain ⟨b1, h1, hr2⟩ := RESULT.bind_eq_ok.mp hr
      obtain ⟨b2, h2, hr3⟩ := RESULT.bind_eq_ok.mp hr2
      simp only [RESULT.ok.injEq] at hr3
      subst hr3
      exact ⟨b1, b2, h1, h2, hlog b2, fun hsm => hfinal b2 (hflags b1 b2 h1 h2 hsm)⟩


theorem idleSmInterface_SameStartedBegin : idleSmInterface.Respects SameStartedBegin :=
  ⟨fun _ h => (List.not_mem_nil _ h).elim,
   ⟨fun _ _ _ _ => ⟨rfl, rfl⟩, fun _ _ _ _ _ => ⟨rfl, rfl⟩⟩⟩

/-- Witness of C22: the sample bridge is started by a call that returns with
started = true and BEGIN = false, and a second call is rejected. -/
theorem startBridge_contract_witness :
    sampleBridge.started = false ∧
    ∃ r, STP_StartBridge idleSmInterface 1 sampleBridge 0 = .ok r ∧
      r.started = true ∧ r.BEGIN = false ∧
      ∃ s, STP_StartBridge idleSmInterface 1 r 1 = .assertFailed s := by
  refine ⟨rfl, ?_⟩
  obtain ⟨r, hr, _, hflags⟩ :=
    ((startBridge_contract idleSmInterface 1 sampleBridge 0).2 rfl).1 _ _ rfl rfl
  have hf := hflags idleSmInterface_SameStartedBegin
  exact ⟨r, hr, hf.1, hf.2, (startBridge_contract idleSmInterface 1 r 1).1 hf.1⟩

/-- C23: `STP_StopBridge` sets `started` to false and evaluates no state
machine: apart from that flag and the log it leaves the bridge as it was, so
the role, the learning flag and the forwarding flag of every port×tree and the
stored state of every state-machine instance are the same after the call as
before it, and the only host callback it invokes is the log callback
`debugStrOut` (no enableLearning, enableForwarding, flushFdb or transmit
callback). -/
theorem stopBridge_frame (bridge : STP_BRIDGE) (timestamp : Nat) :
    (STP_StopBridge bridge timestamp).started = false ∧
    STP_IsBridgeStarted (STP_StopBridge bridge timestamp) = false ∧
    OnlyLogged { bridge with started := false } (STP_StopBridge bridge timestamp) ∧
    (∀ portIndex treeIndex,
      STP_GetPortRole (STP_StopBridge bridge timestamp) portIndex treeIndex
        = STP_GetPortRole bridge portIndex treeIndex ∧
      STP_GetPortLearning (STP_StopBridge bridge timestamp) portIndex treeIndex
        = STP_GetPortLearning bridge portIndex treeIndex ∧
      STP_GetPortForwarding (STP_StopBridge bridge timestamp) portIndex treeIndex
        = STP_GetPortForwarding bridge portIndex treeIndex) ∧
    (∀ slot, (STP_StopBridge bridge timestamp).states slot = bridge.states slot) ∧
    (∃ events, (STP_StopBridge bridge timestamp).callbackTrace = bridge.callbackTrace ++ events ∧
      ∀ event ∈ events, ∃ portIndex treeIndex text flush,
        event = CALLBACK_EVENT.debugStrOut portIndex treeIndex text flush) := by
  have hlog : OnlyLogged { bridge with started := false } (STP_StopBridge bridge timestamp) :=
    ((LOG_onlyLogged _ _ _ _ _).trans (LOG_onlyLogged _ _ _ _ _)).trans (FLUSH_LOG_onlyLogged _)
  have hports : (STP_StopBridge bridge timestamp).ports = bridge.ports := hlog.ports
  have hstates : (STP_StopBridge bridge timestamp).states = bridge.states := hlog.states
  have hstarted : (STP_StopBridge bridge timestamp).started = false := by
    unfold STP_StopBridge
    simp only [FLUSH_LOG_started, LOG_started]
  refine ⟨hstarted, hstarted, hlog, ?_, ?_, ?_⟩
  · intro portIndex treeIndex
    unfold STP_GetPortRole STP_GetPortLearning STP_GetPortForwarding
    rw [hports]
    exact ⟨rfl, rfl, rfl⟩
  · intro slot
    rw [hstates]
  · obtain ⟨events, he, hall⟩ := hlog.2
    refine ⟨events, he, ?_⟩
    intro event hev
    have := hall event hev
    cases event <;> simp [CALLBACK_EVENT.isDebugStrOut] at this ⊢

/-! ## Bridge address -/

/-- The loop of `STP_SetBridgeAddress` writes the address into the bridge
identifier of the trees it visits and nothing else. -/
theorem setBridgeAddress_loop_spec (address : List Nat) :
    ∀ (indices : List Nat) (bridge : STP_BRIDGE),
      STP_SetBridgeAddress.loop address indices bridge =
        { bridge with
          trees := fun t =>
            if t ∈ indices then
              (bridge.trees t).SetBridgeIdentifier
                ((bridge.trees t).GetBridgeIdentifier.SetAddress address)
            else bridge.trees t } := by
  intro indices
  induction indices with
  | nil => intro bridge; simp [STP_SetBridgeAddress.loop]
  | cons i rest ih =>
    intro bridge
    unfold STP_SetBridgeAddress.loop
    dsimp only
    rw [ih]
    congr 1
    funext t
    by_cases hti : t = i
    · subst hti
      simp only [List.mem_cons, true_or, if_true, Function.update_same]
      split_ifs <;> rfl
    · simp only [List.mem_cons, hti, false_or, Function.update_noteq hti]

/-- C24: after `STP_SetBridgeAddress (a)` on a bridge that is not started, the
bridge identifier of every tree carries the address a, so that all trees share
one address and `STP_GetBridgeAddress` returns a (the bridge has a tree 0), and
`STP_GetBridgePriority` of every tree is the same as before the call. -/
theorem setBridgeAddress_all_trees (smInterface : SM_INTERFACE) (fuel : Nat) (bridge : STP_BRIDGE)
    (address : List Nat) (timestamp : Nat) (hs : bridge.started = false) :
    ∃ r, STP_SetBridgeAddress smInterface fuel bridge address timestamp = .ok r ∧
      r.treeCount = bridge.treeCount ∧
      (∀ treeIndex, treeIndex < bridge.treeCount →
        (r.trees treeIndex).GetBridgeIdentifier.GetAddress = address) ∧
      (0 < bridge.treeCount → STP_GetBridgeAddress r = address) ∧
      (∀ treeIndex, treeIndex < bridge.treeCount →
        STP_GetBridgePriority r treeIndex = STP_GetBridgePriority bridge treeIndex ∧
        STP_GetBridgePriority r treeIndex
          = .ok ((bridge.trees treeIndex).GetBridgeIdentifier.GetPriority &&& 0xF000)) := by
  have hcall : STP_SetBridgeAddress smInterface fuel bridge address timestamp =
      .ok (FLUSH_LOG (LOG
        (STP_SetBridgeAddress.loop address (List.range bridge.treeCount)
          (LOG bridge (-1) (-1) "\x7bT\x7d: Setting bridge MAC address to \x7bBA\x7d...\r\n"
            [toString timestamp, toString address]))
        (-1) (-1) "------------------------------------\r\n" [])) := by
    unfold STP_SetBridgeAddress
    dsimp only
    rw [LOG_treeCount]
    have hst : (STP_SetBridgeAddress.loop address (List.range bridge.treeCount)
        (LOG bridge (-1) (-1) "\x7bT\x7d: Setting bridge MAC address to \x7bBA\x7d...\r\n"
          [toString timestamp, toString address])).started = false := by
      rw [setBridgeAddress_loop_spec]
      simp only [LOG_started, hs]
    rw [hst]
    simp only [Bool.false_eq_true, if_false, ite_self, RESULT.bind_ok]
  have htrees : ∀ t, (FLUSH_LOG (LOG
        (STP_SetBridgeAddress.loop address (List.range bridge.treeCount)
          (LOG bridge (-1) (-1) "\x7bT\x7d: Setting bridge MAC address to \x7bBA\x7d...\r\n"
            [toString timestamp, toString address]))
        (-1) (-1) "------------------------------------\r\n" [])).trees t =
      if t < bridge.treeCount then
        (bridge.trees t).SetBridgeIdentifier ((bridge.trees t).GetBridgeIdentifier.SetAddress address)
      else bridge.trees t := by
    intro t
    rw [FLUSH_LOG_trees, LOG_trees, setBridgeAddress_loop_spec]
    simp only [LOG_trees, List.mem_range]
  have htc : (FLUSH_LOG (LOG
        (STP_SetBridgeAddress.loop address (List.range bridge.treeCount)
          (LOG bridge (-1) (-1) "\x7bT\x7d: Setting bridge MAC address to \x7bBA\x7d...\r\n"
            [toString timestamp, toString address]))
        (-1) (-1) "------------------------------------\r\n" [])).treeCount = bridge.treeCount := by
    rw [FLUSH_LOG_treeCount, LOG_treeCount, setBridgeAddress_loop_spec]
    simp only [LOG_treeCount]
  refine ⟨_, hcall, htc, ?_, ?_, ?_⟩
  · intro t ht
    rw [htrees t, if_pos ht]
    rfl
  · intro h0
    unfold STP_GetBridgeAddress
    rw [htrees CIST_INDEX, if_pos (show CIST_INDEX < bridge.treeCount from h0)]
    rfl
  · intro t ht
    unfold STP_GetBridgePriority
    rw [htc, htrees t, if_pos ht, if_neg (not_not.mpr ht), if_neg (not_not.mpr ht)]
    exact ⟨rfl, rfl⟩

/-- Witness of C24: the sample bridge (3 trees) is given the address
01:02:03:04:05:06; every tree then carries it and keeps the priority 0x8000. -/
theorem setBridgeAddress_all_trees_witness :
    sampleBridge.started = false ∧
    ∃ r, STP_SetBridgeAddress idleSmInterface 0 sampleBridge [1, 2, 3, 4, 5, 6] 0 = .ok r ∧
      STP_GetBridgeAddress r = [1, 2, 3, 4, 5, 6] ∧
      (r.trees 2).GetBridgeIdentifier.GetAddress = [1, 2, 3, 4, 5, 6] ∧
      STP_GetBridgePriority r 2 = .ok 0x8000 := by
  refine ⟨rfl, ?_⟩
  obtain ⟨r, hr, _, haddr, hget, hprio⟩ :=
    setBridgeAddress_all_trees idleSmInterface 0 sampleBridge [1, 2, 3, 4, 5, 6] 0 rfl
  exact ⟨r, hr, hget (by decide), haddr 2 (by decide), (hprio 2 (by decide)).2⟩

/-! ## Port identifiers -/

/-- A priority that is a multiple of 16 has a zero low nibble. -/
theorem low_nibble_zero {priority : Nat} (h : priority % 16 = 0) : priority &&& 0x0F = 0 := by
  have := Nat.and_pow_two_sub_one_eq_mod priority 4
  simpa [h] using this

/-- The high byte `PORT_ID::SetPriority` stores, read back through the mask
0xF0, is the priority. -/
theorem portId_high_mask (priority high : Nat) (hp : priority % 16 = 0) (hbyte : priority < 256) :
    (priority ||| (high &&& 0x0F)) &&& 0xF0 = priority := by
  apply Nat.eq_of_testBit_eq
  intro i
  have h15 : (0x0F : Nat) = 2 ^ 4 - 1 := by norm_num
  rw [Nat.testBit_and, Nat.testBit_or, Nat.testBit_and, h15, Nat.testBit_two_pow_sub_one]
  by_cases h4 : i < 4
  · have hpi : priority.testBit i = false := by
      have := Nat.testBit_mod_two_pow priority 4 i
      rw [show (2 : Nat) ^ 4 = 16 by norm_num, hp] at this
      simpa [h4] using this.symm
    have hmask : Nat.testBit 0xF0 i = false := by
      interval_cases i <;> decide
    rw [hpi, hmask]
    simp
  · by_cases h8 : i < 8
    · have hmask : Nat.testBit 0xF0 i = true := by
        interval_cases i <;> decide
      rw [hmask]
      simp [h4]
    · have hpi : priority.testBit i = false :=
        Nat.testBit_lt_two_pow (lt_of_lt_of_le hbyte (by
          calc (256 : Nat) = 2 ^ 8 := by norm_num
            _ ≤ 2 ^ i := Nat.pow_le_pow_right (by norm_num) (by omega)))
      have hmask : Nat.testBit 0xF0 i = false :=
        Nat.testBit_lt_two_pow (lt_of_lt_of_le (by norm_num : (0xF0 : Nat) < 2 ^ 8)
          (Nat.pow_le_pow_right (by norm_num) (by omega)))
      rw [hpi, hmask]
      simp

/-- The low 12 bits of the port identifier do not depend on the priority
nibble of the high byte. -/
theorem portId_low12 (priority high low : Nat) (hp : priority % 16 = 0) :
    ((((priority ||| (high &&& 0x0F)) <<< 8) % 65536) ||| low) % 4096
      = (((high <<< 8) % 65536) ||| low) % 4096 := by
  apply Nat.eq_of_testBit_eq
  intro i
  have e1 : (4096 : Nat) = 2 ^ 12 := by norm_num
  have e2 : (65536 : Nat) = 2 ^ 16 := by norm_num
  have h15 : (0x0F : Nat) = 2 ^ 4 - 1 := by norm_num
  rw [e1, e2]
  simp only [Nat.testBit_mod_two_pow, Nat.testBit_or, Nat.testBit_shiftLeft, Nat.testBit_and, h15,
    Nat.testBit_two_pow_sub_one]
  by_cases hi : i < 12
  · by_cases h8 : 8 ≤ i
    · have hpi : priority.testBit (i - 8) = false := by
        have := Nat.testBit_mod_two_pow priority 4 (i - 8)
        rw [show (2 : Nat) ^ 4 = 16 by norm_num, hp] at this
        have hlt : i - 8 < 4 := by omega
        simpa [hlt] using this.symm
      have hlt : i - 8 < 4 := by omega
      simp [hi, h8, hpi, hlt]
    · simp [hi, h8]
  · simp [hi]

/-- What `STP_SetPortPriority` does on a bridge that is not started once its
assertions hold: one port identifier is rewritten. -/
theorem setPortPriority_eq (smInterface : SM_INTERFACE) (fuel : Nat) (bridge : STP_BRIDGE)
    (portIndex treeIndex portPriority timestamp : Nat) (hs : bridge.started = false)
    (hport : portIndex < bridge.portCount) (htree : treeIndex < bridge.treeCount)
    (hp : portPriority % 16 = 0)
    (hinit : ((bridge.ports portIndex).trees treeIndex).portId._low ≠ 0) :
    ∃ r, STP_SetPortPriority smInterface fuel bridge portIndex treeIndex portPriority timestamp
        = .ok r ∧
      r.portCount = bridge.portCount ∧ r.treeCount = bridge.treeCount ∧
      r.ports = Function.update bridge.ports portIndex
        { bridge.ports portIndex with
          trees := Function.update (bridge.ports portIndex).trees treeIndex
            { (bridge.ports portIndex).trees treeIndex with
              portId :=
                { ((bridge.ports portIndex).trees treeIndex).portId with
                  _high := portPriority |||
                    (((bridge.ports portIndex).trees treeIndex).portId._high &&& 0x0F) } } } := by
  unfold STP_SetPortPriority
  rw [if_neg (not_not.mpr hp), if_neg (not_not.mpr hport), if_neg (not_not.mpr htree)]
  dsimp only
  rw [LOG_ports]
  have hset : ((bridge.ports portIndex).trees treeIndex).portId.SetPriority portPriority
      = some { ((bridge.ports portIndex).trees treeIndex).portId with
          _high := portPriority |||
            (((bridge.ports portIndex).trees treeIndex).portId._high &&& 0x0F) } := by
    unfold PORT_ID.SetPriority
    rw [if_neg (not_not.mpr hinit), if_neg (not_not.mpr (low_nibble_zero hp))]
  rw [hset]
  dsimp only
  rw [LOG_started, hs]
  simp only [Bool.false_eq_true, if_false, RESULT.bind_ok]
  refine ⟨_, rfl, ?_, ?_, ?_⟩
  · simp only [FLUSH_LOG_portCount, LOG_portCount]
  · simp only [FLUSH_LOG_treeCount, LOG_treeCount]
  · simp only [FLUSH_LOG_ports, LOG_ports]

/-- C25: for every port×tree whose portId is initialised (its low byte is not
zero) and every portPriority (an unsigned char) that is a multiple of 16, on a
bridge that is not started, after `STP_SetPortPriority (portIndex, treeIndex,
portPriority)` the getter `STP_GetPortPriority (portIndex, treeIndex)` returns
portPriority, the low 12 bits of `STP_GetPortIdentifier (portIndex,
treeIndex)` are what they were, and the port identifier of every other
port×tree is unchanged. -/
theorem getPortPriority_after_setPortPriority (smInterface : SM_INTERFACE) (fuel : Nat)
    (bridge : STP_BRIDGE) (portIndex treeIndex portPriority timestamp : Nat)
    (hs : bridge.started = false)
    (hport : portIndex < bridge.portCount) (htree : treeIndex < bridge.treeCount)
    (hp : portPriority % 16 = 0) (hbyte : portPriority < 256)
    (hinit : ((bridge.ports portIndex).trees treeIndex).portId._low ≠ 0) :
    ∃ r, STP_SetPortPriority smInterface fuel bridge portIndex treeIndex portPriority timestamp
        = .ok r ∧
      STP_GetPortPriority r portIndex treeIndex = .ok portPriority ∧
      (∃ before after,
        STP_GetPortIdentifier bridge portIndex treeIndex = .ok before ∧
        STP_GetPortIdentifier r portIndex treeIndex = .ok after ∧
        after % 4096 = before % 4096) ∧
      (∀ p t, ¬ (p = portIndex ∧ t = treeIndex) →
        ((r.ports p).trees t).portId = ((bridge.ports p).trees t).portId) := by
  obtain ⟨r, hr, hpc, htc, hports⟩ := setPortPriority_eq smInterface fuel bridge portIndex
    treeIndex portPriority timestamp hs hport htree hp hinit
  refine ⟨r, hr, ?_, ?_, ?_⟩
  · unfold STP_GetPortPriority
    rw [hpc, htc, if_neg (not_not.mpr hport), if_neg (not_not.mpr htree), hports]
    simp only [Function.update_same]
    unfold PORT_ID.GetPriority
    dsimp only
    rw [if_neg (not_not.mpr hinit), portId_high_mask _ _ hp hbyte]
  · refine ⟨((((bridge.ports portIndex).trees treeIndex).portId._high <<< 8) % 65536)
        ||| ((bridge.ports portIndex).trees treeIndex).portId._low,
      (((portPriority ||| (((bridge.ports portIndex).trees treeIndex).portId._high &&& 0x0F)) <<< 8)
          % 65536) ||| ((bridge.ports portIndex).trees treeIndex).portId._low, ?_, ?_, ?_⟩
    · unfold STP_GetPortIdentifier
      rw [if_neg (not_not.mpr hport), if_neg (not_not.mpr htree)]
      unfold PORT_ID.GetPortIdentifier
      rw [if_neg (not_not.mpr hinit)]
    · unfold STP_GetPortIdentifier
      rw [hpc, htc, if_neg (not_not.mpr hport), if_neg (not_not.mpr htree), hports]
      simp only [Function.update_same]
      unfold PORT_ID.GetPortIdentifier
      dsimp only
      rw [if_neg (not_not.mpr hinit)]
    · exact portId_low12 _ _ _ hp
  · intro p t hne
    rw [hports]
    by_cases hpe : p = portIndex
    · subst hpe
      have hte : t ≠ treeIndex := fun h => hne ⟨rfl, h⟩
      simp only [Function.update_same, Function.update_noteq hte]
    · simp only [Function.update_noteq hpe]

/-- Witness of C25: port 1 of the sample bridge is given the priority 0x40 in
tree 2; the priority reads back and the port number 2 is kept. -/
theorem getPortPriority_after_setPortPriority_witness :
    ∃ r, STP_SetPortPriority idleSmInterface 0 sampleBridge 1 2 0x40 0 = .ok r ∧
      STP_GetPortPriority r 1 2 = .ok 0x40 ∧
      STP_GetPortIdentifier sampleBridge 1 2 = .ok 0x8002 ∧
      STP_GetPortIdentifier r 1 2 = .ok 0x4002 ∧
      ((r.ports 0).trees 2).portId = ((sampleBridge.ports 0).trees 2).portId := by
  obtain ⟨r, hr, hprio, _, hother⟩ :=
    getPortPriority_after_setPortPriority idleSmInterface 0 sampleBridge 1 2 0x40 0 rfl
      (by decide) (by decide) (by decide) (by decide) (by decide)
  have hr' : STP_SetPortPriority idleSmInterface 0 sampleBridge 1 2 0x40 0
      = .ok (STP_SetPortPriority idleSmInterface 0 sampleBridge 1 2 0x40 0).bridgeOr := rfl
  have hrr : r = (STP_SetPortPriority idleSmInterface 0 sampleBridge 1 2 0x40 0).bridgeOr := by
    rw [hr'] at hr
    exact (RESULT.ok.inj hr).symm
  refine ⟨r, hr, hprio, rfl, ?_, hother 0 2 (by decide)⟩
  rw [hrr]
  rfl

/-! ## Claim on the getters of the port identifier -/

/-- What `PORT_ID::Set` stores for a port number below 256 is recovered by the
getters. -/
theorem portId_getters_below_256 (self : PORT_ID) (priority portNumber : Nat)
    (hp : priority &&& 0x0F = 0) (h1 : 1 ≤ portNumber) (h255 : portNumber ≤ 255) :
    ∃ id, self.Set priority portNumber = some id ∧
      id.GetPortNumber = some portNumber ∧
      (priority < 256 → id.GetPriority = some priority) := by
  have hshift : (portNumber >>> 8) % 256 = 0 := by
    rw [Nat.shiftRight_eq_div_pow]
    have : portNumber / 2 ^ 8 = 0 := Nat.div_eq_of_lt (by norm_num; omega)
    rw [this]
  have hlow : portNumber % 256 = portNumber := Nat.mod_eq_of_lt (by omega)
  refine ⟨{ _high := priority, _low := portNumber }, ?_, ?_, ?_⟩
  · unfold PORT_ID.Set
    rw [if_neg (not_not.mpr hp), if_neg (not_not.mpr ⟨h1, by omega⟩), hshift, hlow]
    simp
  · unfold PORT_ID.GetPortNumber
    dsimp only
    rw [if_neg (not_not.mpr (by omega : portNumber ≠ 0)), hp]
    simp
  · intro hbyte
    unfold PORT_ID.GetPriority
    dsimp only
    rw [if_neg (not_not.mpr (by omega : portNumber ≠ 0))]
    have hmod : priority % 16 = 0 := by
      have := Nat.and_pow_two_sub_one_eq_mod priority 4
      simpa [hp] using this.symm
    have := portId_high_mask priority 0 hmod hbyte
    simpa using this

/-- C26 (the code departs from the claim): `PORT_ID::Set (0x80, 257)` is
accepted and stores the bytes 0x81 and 0x01; `GetPriority` returns 0x80 and
`GetPortIdentifier` returns 0x8101, but `GetPortNumber` returns 1, not 257: it
combines the low nibble of the high byte with the low byte without shifting it
by 8 bits.  And `PORT_ID::Set (0x80, 256)` is accepted and stores a zero low
byte, after which `GetPriority` and `GetPortNumber` fail their assertion. -/
theorem portId_getPortNumber_without_shift :
    PORT_ID.Set { _high := 0, _low := 0 } 0x80 257 = some { _high := 0x81, _low := 0x01 } ∧
    PORT_ID.GetPriority { _high := 0x81, _low := 0x01 } = some 0x80 ∧
    PORT_ID.GetPortIdentifier { _high := 0x81, _low := 0x01 } = some 0x8101 ∧
    PORT_ID.GetPortNumber { _high := 0x81, _low := 0x01 } = some 1 ∧
    PORT_ID.Set { _high := 0, _low := 0 } 0x80 256 = some { _high := 0x81, _low := 0 } ∧
    PORT_ID.GetPriority { _high := 0x81, _low := 0 } = none ∧
    PORT_ID.GetPortNumber { _high := 0x81, _low := 0 } = none := by
  refine ⟨?_, ?_, ?_, ?_, ?_, ?_, ?_⟩ <;> decide

/-! ## One instance run to convergence -/

/-- The two ways of one iteration of `RunStateMachineInstance`. -/
theorem RunStateMachineInstance_succ (fuel : Nat) (bridge : STP_BRIDGE) (smInfo : SM_INFO)
    (givenPort givenTree : Int) (statePtr timestamp : Nat) :
    RunStateMachineInstance (fuel + 1) bridge smInfo givenPort givenTree statePtr timestamp =
      if (smInfo.checkConditions bridge givenPort givenTree (bridge.states statePtr)).2 ≠ 0 then
        (RunStateMachineInstance fuel
          (RunStateMachineInstance.transition smInfo
            (smInfo.checkConditions bridge givenPort givenTree (bridge.states statePtr)).1
            givenPort givenTree statePtr
            (smInfo.checkConditions bridge givenPort givenTree (bridge.states statePtr)).2 timestamp)
          smInfo givenPort givenTree statePtr timestamp).bind fun r => .ok (r.1, true)
      else .ok ((smInfo.checkConditions bridge givenPort givenTree (bridge.states statePtr)).1, false) :=
  rfl

/-- A transition logs, calls `initState` with the new state on the logged
bridge and then stores the new state in the slot of the instance. -/
theorem transition_spec (smInfo : SM_INFO) (bridge : STP_BRIDGE) (givenPort givenTree : Int)
    (statePtr : Nat) (newState : SM_STATE) (timestamp : Nat) :
    ∃ logged, OnlyLogged bridge logged ∧
      RunStateMachineInstance.transition smInfo bridge givenPort givenTree statePtr newState timestamp
        = { smInfo.initState logged givenPort givenTree newState timestamp with
            states := Function.update
              (smInfo.initState logged givenPort givenTree newState timestamp).states
              statePtr newState } := by
  have h1 : OnlyLogged bridge
      (if givenPort = -1 then LOG bridge givenPort givenTree "Bridge: " []
       else LOG bridge givenPort givenTree "Port \x7bD\x7d: " [toString (1 + givenPort)]) := by
    split_ifs <;> exact LOG_onlyLogged _ _ _ _ _
  have h2 : ∀ b1 : STP_BRIDGE, OnlyLogged b1
      (if b1.ForceProtocolVersion.toNat ≥ STP_VERSION.MSTP.toNat then
        if givenTree = (CIST_INDEX : Int) then LOG b1 givenPort givenTree "CIST: " []
        else if givenTree > 0 then LOG b1 givenPort givenTree "MST\x7bD\x7d: " [toString givenTree]
        else b1
      else b1) := by
    intro b1
    split_ifs <;> first | exact LOG_onlyLogged _ _ _ _ _ | exact OnlyLogged.refl _
  exact ⟨_, (h1.trans (h2 _)).trans (LOG_onlyLogged _ _ _ _ _), rfl⟩

/-- A call that returns has made a run of the instance with fewer transitions
than its fuel. -/
theorem RunStateMachineInstance_run (smInfo : SM_INFO) (givenPort givenTree : Int)
    (statePtr timestamp : Nat) :
    ∀ (fuel : Nat) (bridge r : STP_BRIDGE) (changed : Bool),
      RunStateMachineInstance fuel bridge smInfo givenPort givenTree statePtr timestamp
        = .ok (r, changed) →
      ∃ newStates, InstanceRun smInfo givenPort givenTree statePtr timestamp bridge newStates r ∧
        newStates.length < fuel ∧ changed = !newStates.isEmpty := by
  intro fuel
  induction fuel with
  | zero => intro bridge r changed h; cases h
  | succ fuel ih =>
    intro bridge r changed h
    rw [RunStateMachineInstance_succ] at h
    by_cases hne :
        (smInfo.checkConditions bridge givenPort givenTree (bridge.states statePtr)).2 ≠ 0
    · rw [if_pos hne] at h
      obtain ⟨a, ha, h2⟩ := RESULT.bind_eq_ok.mp h
      simp only [RESULT.ok.injEq, Prod.mk.injEq] at h2
      obtain ⟨newStates, hrun, hlen, _⟩ := ih _ a.1 a.2 (by rw [ha])
      refine ⟨(smInfo.checkConditions bridge givenPort givenTree (bridge.states statePtr)).2
        :: newStates, ?_, ?_, ?_⟩
      · rw [← h2.1]
        exact InstanceRun.step bridge newStates a.1 hne hrun
      · rw [List.length_cons]
        omega
      · rw [← h2.2]
        rfl
    · rw [if_neg hne] at h
      simp only [RESULT.ok.injEq, Prod.mk.injEq] at h
      refine ⟨[], ?_, by simp, ?_⟩
      · rw [← h.1]
        exact InstanceRun.rest bridge (not_not.mp hne)
      · rw [← h.2]
        rfl

/-- A run of the instance is what the call returns, given more fuel than the
run has transitions. -/
theorem RunStateMachineInstance_of_run {smInfo : SM_INFO} {givenPort givenTree : Int}
    {statePtr timestamp : Nat} {bridge r : STP_BRIDGE} {newStates : List SM_STATE}
    (hrun : InstanceRun smInfo givenPort givenTree statePtr timestamp bridge newStates r) :
    ∀ fuel, newStates.length < fuel →
      RunStateMachineInstance fuel bridge smInfo givenPort givenTree statePtr timestamp
        = .ok (r, !newStates.isEmpty) := by
  induction hrun with
  | rest bridge h0 =>
    intro fuel hlen
    obtain ⟨fuel, rfl⟩ : ∃ n, fuel = n + 1 := ⟨fuel - 1, by simp at hlen; omega⟩
    rw [RunStateMachineInstance_succ, if_neg (not_not.mpr h0)]
    rfl
  | step bridge newStates r hne _ ih =>
    intro fuel hlen
    obtain ⟨fuel, rfl⟩ : ∃ n, fuel = n + 1 := ⟨fuel - 1, by simp at hlen; omega⟩
    rw [RunStateMachineInstance_succ, if_pos hne, ih fuel (by simpa using hlen)]
    rfl

/-- The last evaluation of a run: it was made on a bridge whose slot held the
last state reached (the state of the slot at the start when there was no
transition), yielded "no transition" and left the bridge of the result. -/
theorem InstanceRun.last {smInfo : SM_INFO} {givenPort givenTree : Int}
    {statePtr timestamp : Nat} {bridge r : STP_BRIDGE} {newStates : List SM_STATE}
    (hrun : InstanceRun smInfo givenPort givenTree statePtr timestamp bridge newStates r) :
    ∃ last, smInfo.checkConditions last givenPort givenTree (last.states statePtr) = (r, 0) ∧
      last.states statePtr = (newStates.getLast?).getD (bridge.states statePtr) := by
  induction hrun with
  | rest bridge h0 =>
    exact ⟨bridge, Prod.ext rfl h0, rfl⟩
  | step bridge newStates r hne _ ih =>
    obtain ⟨last, hcheck, hslot⟩ := ih
    refine ⟨last, hcheck, ?_⟩
    rw [hslot]
    cases newStates with
    | nil => simp [RunStateMachineInstance.transition]
    | cons s rest =>
      have hsome : (s :: rest).getLast? = some ((s :: rest).getLast (List.cons_ne_nil _ _)) :=
        List.getLast?_eq_getLast _ _
      rw [List.getLast?_cons_cons, hsome]
      rfl


/-- C27: `RunStateMachineInstance` keeps re-evaluating the same instance, on
the same slot, until its `checkConditions` yields "no transition" (0), and only
then the loop of `RunStateMachineInstances` moves to the next instance; for
each transition it calls `initState` with the new state and then stores the
new state in the instance's slot, so that the last evaluation is made on a
bridge whose slot holds the last state reached (and the returned bridge holds
it when `checkConditions` only reads the bridge); it returns true if and only
if at least one transition occurred; and a run with fewer transitions than the
fuel is what the call returns. -/
theorem runStateMachineInstance_converges (smInfo : SM_INFO) (givenPort givenTree : Int)
    (statePtr timestamp : Nat) (bridge : STP_BRIDGE) :
    (∀ fuel r changed,
      RunStateMachineInstance fuel bridge smInfo givenPort givenTree statePtr timestamp
        = .ok (r, changed) →
      ∃ newStates last,
        InstanceRun smInfo givenPort givenTree statePtr timestamp bridge newStates r ∧
        newStates.length < fuel ∧
        (changed = true ↔ newStates ≠ []) ∧
        smInfo.checkConditions last givenPort givenTree (last.states statePtr) = (r, 0) ∧
        last.states statePtr = (newStates.getLast?).getD (bridge.states statePtr) ∧
        (smInfo.ChecksPurely →
          r.states statePtr = (newStates.getLast?).getD (bridge.states statePtr))) ∧
    (∀ newStates r,
      InstanceRun smInfo givenPort givenTree statePtr timestamp bridge newStates r →
      ∀ fuel, newStates.length < fuel →
        RunStateMachineInstance fuel bridge smInfo givenPort givenTree statePtr timestamp
          = .ok (r, !newStates.isEmpty)) ∧
    (∀ newState, ∃ logged, OnlyLogged bridge logged ∧
      RunStateMachineInstance.transition smInfo bridge givenPort givenTree statePtr newState timestamp
        = { smInfo.initState logged givenPort givenTree newState timestamp with
            states := Function.update
              (smInfo.initState logged givenPort givenTree newState timestamp).states
              statePtr newState }) ∧
    (∀ fuel rest changed,
      RunStateMachineInstances.loop fuel smInfo timestamp ((givenPort, givenTree) :: rest) bridge
          statePtr changed =
        (RunStateMachineInstance fuel bridge smInfo givenPort givenTree statePtr timestamp).bind
          fun r => RunStateMachineInstances.loop fuel smInfo timestamp rest r.1 (statePtr + 1)
            (changed || r.2)) := by
  refine ⟨?_, ?_, ?_, ?_⟩
  · intro fuel r changed h
    obtain ⟨newStates, hrun, hlen, hchanged⟩ :=
      RunStateMachineInstance_run smInfo givenPort givenTree statePtr timestamp fuel bridge r
        changed h
    obtain ⟨last, hcheck, hslot⟩ := hrun.last
    refine ⟨newStates, last, hrun, hlen, ?_, hcheck, hslot, ?_⟩
    · rw [hchanged]
      cases newStates <;> simp
    · intro hpure
      have hr : r = last := by
        have := hpure last givenPort givenTree (last.states statePtr)
        rw [hcheck] at this
        exact this
      rw [hr]
      exact hslot
  · intro newStates r hrun
    exact RunStateMachineInstance_of_run hrun
  · intro newState
    exact transition_spec smInfo bridge givenPort givenTree statePtr newState timestamp
  · intro fuel rest changed
    rfl

/-- Witness of C27: on the sample bridge the one-shot kind makes one
transition; the call returns true and the slot holds the state reached. -/
theorem runStateMachineInstance_converges_witness :
    ∃ r, RunStateMachineInstance 2 sampleBridge oneShotSmInfo (-1) (-1) 0 0 = .ok (r, true) ∧
      ∃ newStates, InstanceRun oneShotSmInfo (-1) (-1) 0 0 sampleBridge newStates r ∧
        newStates ≠ [] ∧ r.states 0 = (newStates.getLast?).getD (sampleBridge.states 0) ∧
        r.states 0 = 1 := by
  refine ⟨_, rfl, ?_⟩
  obtain ⟨newStates, last, hrun, _, hiff, _, _, hpure⟩ :=
    (runStateMachineInstance_converges oneShotSmInfo (-1) (-1) 0 0 sampleBridge).1 2 _ true rfl
  exact ⟨newStates, hrun, hiff.mp rfl, hpure (fun _ _ _ _ => rfl), rfl⟩

/-! ## The slots of the instances -/

theorem RESULT.bind_assoc {α β γ : Type} (r : RESULT α) (f : α → RESULT β) (g : β → RESULT γ) :
    (r.bind f).bind g = r.bind fun a => (f a).bind g := by
  cases r <;> rfl

theorem FrameRel_SameCounts : FrameRel SameCounts where
  refl := fun _ => ⟨rfl, rfl⟩
  trans := fun _ _ _ h1 h2 => ⟨h2.1.trans h1.1, h2.2.trans h1.2⟩
  log := fun b port tree format args =>
    ⟨LOG_portCount b port tree format args, LOG_treeCount b port tree format args⟩
  states := fun _ _ _ => ⟨rfl, rfl⟩

theorem runSlots_append (fuel timestamp : Nat) :
    ∀ (l l' : List (SM_INFO × Int × Int × Nat)) (bridge : STP_BRIDGE) (changed : Bool),
      runSlots fuel timestamp (l ++ l') bridge changed =
        (runSlots fuel timestamp l bridge changed).bind fun r =>
          runSlots fuel timestamp l' r.1 r.2 := by
  intro l
  induction l with
  | nil => intro l' bridge changed; rfl
  | cons x rest ih =>
    intro l' bridge changed
    obtain ⟨smInfo, givenPort, givenTree, slot⟩ := x
    show (RunStateMachineInstance fuel bridge smInfo givenPort givenTree slot timestamp).bind
        (fun r => runSlots fuel timestamp (rest ++ l') r.1 (changed || r.2)) =
      ((RunStateMachineInstance fuel bridge smInfo givenPort givenTree slot timestamp).bind
        (fun r => runSlots fuel timestamp rest r.1 (changed || r.2))).bind
        (fun r => runSlots fuel timestamp l' r.1 r.2)
    rw [RESULT.bind_assoc]
    congr 1
    funext r
    exact ih _ _ _

theorem runSlots_flag (fuel timestamp : Nat) :
    ∀ (l : List (SM_INFO × Int × Int × Nat)) (bridge : STP_BRIDGE) (changed : Bool),
      runSlots fuel timestamp l bridge changed =
        (runSlots fuel timestamp l bridge false).bind fun r => .ok (r.1, changed || r.2) := by
  intro l
  induction l with
  | nil => intro bridge changed; simp [runSlots, RESULT.bind]
  | cons x rest ih =>
    intro bridge changed
    obtain ⟨smInfo, givenPort, givenTree, slot⟩ := x
    unfold runSlots
    rw [RESULT.bind_assoc]
    congr 1
    funext r
    rw [ih r.1 (changed || r.2), ih r.1 (false || r.2), RESULT.bind_assoc]
    congr 1
    funext q
    simp [RESULT.bind, Bool.or_assoc]

/-- The loop over the instances of a kind runs them on the slots `slotsFrom`
gives them and advances the state pointer by their number. -/
theorem loop_eq_runSlots (fuel : Nat) (smInfo : SM_INFO) (timestamp : Nat) :
    ∀ (instances : List (Int × Int)) (bridge : STP_BRIDGE) (statePtr : Nat) (changed : Bool),
      RunStateMachineInstances.loop fuel smInfo timestamp instances bridge statePtr changed =
        (runSlots fuel timestamp (slotsFrom smInfo instances statePtr) bridge changed).bind
          fun r => .ok (r.1, statePtr + instances.length, r.2) := by
  intro instances
  induction instances with
  | nil => intro bridge statePtr changed; rfl
  | cons inst rest ih =>
    intro bridge statePtr changed
    obtain ⟨givenPort, givenTree⟩ := inst
    unfold RunStateMachineInstances.loop slotsFrom runSlots
    rw [RESULT.bind_assoc]
    congr 1
    funext r
    rw [ih]
    congr 1
    funext q
    rw [List.length_cons]
    have : statePtr + 1 + rest.length = statePtr + (rest.length + 1) := by omega
    rw [this]

theorem instances_congr (smInfo : SM_INFO) {b b' : STP_BRIDGE} (h : SameCounts b b') :
    smInfo.instances b' = smInfo.instances b := by
  unfold SM_INFO.instances
  rw [h.1, h.2]

theorem instanceSlots_congr {b b' : STP_BRIDGE} (h : SameCounts b b') :
    ∀ (kinds : List SM_INFO) (statePtr : Nat),
      instanceSlots b' kinds statePtr = instanceSlots b kinds statePtr := by
  intro kinds
  induction kinds with
  | nil => intro statePtr; rfl
  | cons smInfo rest ih =>
    intro statePtr
    unfold instanceSlots
    rw [instances_congr smInfo h, ih]

/-- The pass over a list of kinds runs their instances on the slots
`instanceSlots` gives them and advances the state pointer by their number, when
the state machines do not write the counts of ports and trees. -/
theorem pass_eq_runSlots (fuel timestamp : Nat) :
    ∀ (kinds : List SM_INFO), (∀ smInfo ∈ kinds, smInfo.Respects SameCounts) →
      ∀ (bridge : STP_BRIDGE) (statePtr : Nat) (changed : Bool),
        RunStateMachines.pass fuel timestamp kinds bridge statePtr changed =
          (runSlots fuel timestamp (instanceSlots bridge kinds statePtr) bridge changed).bind
            fun r => .ok (r.1,
              statePtr + (kinds.map fun smInfo => (smInfo.instances bridge).length).sum, r.2) := by
  intro kinds
  induction kinds with
  | nil => intro _ bridge statePtr changed; rfl
  | cons smInfo rest ih =>
    intro hk bridge statePtr changed
    unfold RunStateMachines.pass instanceSlots
    rw [RunStateMachineInstances_eq_loop, loop_eq_runSlots, runSlots_append, RESULT.bind_assoc,
      RESULT.bind_assoc, runSlots_flag fuel timestamp _ bridge changed, RESULT.bind_assoc]
    cases hrun : runSlots fuel timestamp
        (slotsFrom smInfo (smInfo.instances bridge) statePtr) bridge false with
    | assertFailed s => rfl
    | outOfFuel => rfl
    | ok a =>
      have hloop : RunStateMachineInstances.loop fuel smInfo timestamp (smInfo.instances bridge)
          bridge statePtr false = .ok (a.1, statePtr + (smInfo.instances bridge).length, a.2) := by
        rw [loop_eq_runSlots, hrun]
        rfl
      have hsame : SameCounts bridge a.1 := by
        have hholds := RunStateMachineInstances_loop_holds FrameRel_SameCounts
          (hk smInfo (List.mem_cons_self _ _)) fuel timestamp (smInfo.instances bridge) bridge
          statePtr false
        rw [hloop] at hholds
        exact hholds
      simp only [RESULT.bind_ok]
      rw [ih (fun k hk' => hk k (List.mem_cons_of_mem _ hk')), instanceSlots_congr hsame]
      congr 1
      funext q
      have hsum : (rest.map fun k => (k.instances a.1).length).sum
          = (rest.map fun k => (k.instances bridge).length).sum := by
        congr 1
        apply List.map_congr_left
        intro k _
        rw [instances_congr k hsame]
      rw [hsum, List.map_cons, List.sum_cons, Nat.add_assoc]

theorem length_flatMap_range_const {α : Type} (n k : Nat) (g : Nat → List α)
    (hg : ∀ p, (g p).length = k) : ((List.range n).flatMap g).length = n * k := by
  induction n with
  | zero => simp
  | succ n ih =>
    rw [List.range_succ, List.flatMap_append, List.length_append, ih, List.flatMap_cons,
      List.flatMap_nil, List.append_nil, hg, Nat.succ_mul]

/-- A list of indices read as a list of integers is the list of their casts. -/
theorem castList_eq_map (l : List Nat) :
    (l : List Int) = List.map (fun a : Nat => (a : Int)) l := by
  induction l with
  | nil => rfl
  | cons a rest ih =>
    show (a : Int) :: (rest : List Int) = _
    rw [ih]
    rfl

theorem length_castList (l : List Nat) : ((l : List Int)).length = l.length := by
  rw [castList_eq_map, List.length_map]

/-- The number of instances of a kind is what creation counts for it. -/
theorem instances_length (smInfo : SM_INFO) (bridge : STP_BRIDGE) :
    (smInfo.instances bridge).length
      = GetInstanceCountForStateMachine smInfo bridge.portCount bridge.treeCount := by
  unfold SM_INFO.instances GetInstanceCountForStateMachine
  cases smInfo.instanceType
  · rfl
  · dsimp only
    rw [List.length_map]
    exact (length_castList _).trans (List.length_range _)
  · dsimp only
    rw [List.length_map]
    exact (length_castList _).trans (List.length_range _)
  · dsimp only
    apply length_flatMap_range_const
    intro p
    rw [List.length_map]
    exact (length_castList _).trans (List.length_range _)

theorem slotsFrom_slots (smInfo : SM_INFO) :
    ∀ (instances : List (Int × Int)) (statePtr : Nat),
      (slotsFrom smInfo instances statePtr).map (fun x => x.2.2.2)
        = List.range' statePtr instances.length := by
  intro instances
  induction instances with
  | nil => intro statePtr; rfl
  | cons inst rest ih =>
    intro statePtr
    obtain ⟨givenPort, givenTree⟩ := inst
    unfold slotsFrom
    rw [List.map_cons, ih, List.length_cons, List.range'_succ]

/-- The slots `instanceSlots` gives to the instances of a list of kinds are the
consecutive indices from `statePtr` on, as many as creation counts. -/
theorem instanceSlots_slots (bridge : STP_BRIDGE) :
    ∀ (kinds : List SM_INFO) (statePtr : Nat),
      (instanceSlots bridge kinds statePtr).map (fun x => x.2.2.2)
        = List.range' statePtr
            (kinds.map fun smInfo =>
              GetInstanceCountForStateMachine smInfo bridge.portCount bridge.treeCount).sum := by
  intro kinds
  induction kinds with
  | nil => intro statePtr; rfl
  | cons smInfo rest ih =>
    intro statePtr
    unfold instanceSlots
    rw [List.map_append, slotsFrom_slots, ih, instances_length, List.map_cons, List.sum_cons]
    have := @List.range'_append statePtr
      (GetInstanceCountForStateMachine smInfo bridge.portCount bridge.treeCount)
      (rest.map fun smInfo =>
        GetInstanceCountForStateMachine smInfo bridge.portCount bridge.treeCount).sum 1
    rw [Nat.one_mul] at this
    rw [this, Nat.add_comm]


theorem instances_length_sum (kinds : List SM_INFO) (bridge : STP_BRIDGE) :
    (kinds.map fun smInfo => (smInfo.instances bridge).length).sum
      = (kinds.map fun smInfo =>
          GetInstanceCountForStateMachine smInfo bridge.portCount bridge.treeCount).sum := by
  congr 1
  apply List.map_congr_left
  intro k _
  exact instances_length k bridge

/-- The run of one kind from the slot `statePtr` on a bridge with the counts of
`bridge`. -/
theorem instances_eq_runSlots (fuel : Nat) (smInfo : SM_INFO) (timestamp : Nat)
    {bridge b1 : STP_BRIDGE} (hsame : SameCounts bridge b1) (statePtr : Nat) :
    RunStateMachineInstances fuel b1 smInfo statePtr timestamp =
      (runSlots fuel timestamp (instanceSlots bridge [smInfo] statePtr) b1 false).bind fun r =>
        .ok (r.1,
          statePtr + GetInstanceCountForStateMachine smInfo bridge.portCount bridge.treeCount,
          r.2) := by
  rw [RunStateMachineInstances_eq_loop, loop_eq_runSlots, instances_congr smInfo hsame,
    instances_length]
  unfold instanceSlots instanceSlots
  rw [List.append_nil]

/-- One iteration of the scheduler in terms of the slots of the instances. -/
theorem cycle_eq_runSlots {smInterface : SM_INTERFACE} (hsm : smInterface.Respects SameCounts)
    (fuel : Nat) (bridge : STP_BRIDGE) (timestamp : Nat) :
    RunStateMachines.cycle smInterface fuel bridge timestamp =
      (runSlots fuel timestamp (instanceSlots bridge smInterface.smInfo 0) bridge false).bind
        fun r =>
          if r.2 = false then
            (runSlots fuel timestamp
              (instanceSlots bridge [smInterface.transmitSmInfo]
                (smInterface.smInfo.map fun smInfo =>
                  GetInstanceCountForStateMachine smInfo bridge.portCount bridge.treeCount).sum)
              r.1 false).bind fun t => .ok (t.1, r.2 || t.2)
          else .ok (r.1, r.2) := by
  unfold RunStateMachines.cycle
  rw [pass_eq_runSlots fuel timestamp _ hsm.1, RESULT.bind_assoc, instances_length_sum,
    Nat.zero_add]
  cases hrun : runSlots fuel timestamp (instanceSlots bridge smInterface.smInfo 0) bridge false with
  | assertFailed s => rfl
  | outOfFuel => rfl
  | ok a =>
    have hpass : RunStateMachines.pass fuel timestamp smInterface.smInfo bridge 0 false
        = .ok (a.1, 0 + (smInterface.smInfo.map fun smInfo =>
            (smInfo.instances bridge).length).sum, a.2) := by
      rw [pass_eq_runSlots fuel timestamp _ hsm.1, hrun]
      rfl
    have hsame : SameCounts bridge a.1 := by
      have hholds := RunStateMachines_pass_holds FrameRel_SameCounts fuel timestamp _ hsm.1
        bridge 0 false
      rw [hpass] at hholds
      exact hholds
    simp only [RESULT.bind_ok]
    by_cases hq : a.2 = false
    · rw [if_pos hq, if_pos hq, instances_eq_runSlots fuel _ timestamp hsame, RESULT.bind_assoc]
      rfl
    · rw [if_neg hq, if_neg hq]

/-- The state pointer at the end of one iteration of the scheduler. -/
theorem cycleStatePtr_eq_runSlots {smInterface : SM_INTERFACE}
    (hsm : smInterface.Respects SameCounts) (fuel : Nat) (bridge : STP_BRIDGE) (timestamp : Nat) :
    RunStateMachines.cycleStatePtr smInterface fuel bridge timestamp =
      (runSlots fuel timestamp (instanceSlots bridge smInterface.smInfo 0) bridge false).bind
        fun r =>
          if r.2 = false then
            (runSlots fuel timestamp
              (instanceSlots bridge [smInterface.transmitSmInfo]
                (smInterface.smInfo.map fun smInfo =>
                  GetInstanceCountForStateMachine smInfo bridge.portCount bridge.treeCount).sum)
              r.1 false).bind fun _ =>
                .ok (stateMachineInstanceCount smInterface bridge.portCount bridge.treeCount)
          else
            .ok (smInterface.smInfo.map fun smInfo =>
              GetInstanceCountForStateMachine smInfo bridge.portCount bridge.treeCount).sum := by
  unfold RunStateMachines.cycleStatePtr
  rw [pass_eq_runSlots fuel timestamp _ hsm.1, RESULT.bind_assoc, instances_length_sum,
    Nat.zero_add]
  cases hrun : runSlots fuel timestamp (instanceSlots bridge smInterface.smInfo 0) bridge false with
  | assertFailed s => rfl
  | outOfFuel => rfl
  | ok a =>
    have hpass : RunStateMachines.pass fuel timestamp smInterface.smInfo bridge 0 false
        = .ok (a.1, 0 + (smInterface.smInfo.map fun smInfo =>
            (smInfo.instances bridge).length).sum, a.2) := by
      rw [pass_eq_runSlots fuel timestamp _ hsm.1, hrun]
      rfl
    have hsame : SameCounts bridge a.1 := by
      have hholds := RunStateMachines_pass_holds FrameRel_SameCounts fuel timestamp _ hsm.1
        bridge 0 false
      rw [hpass] at hholds
      exact hholds
    simp only [RESULT.bind_ok]
    by_cases hq : a.2 = false
    · rw [if_pos hq, if_pos hq, instances_eq_runSlots fuel _ timestamp hsame, RESULT.bind_assoc]
      rfl
    · rw [if_neg hq, if_neg hq]

/-- The slots of all instances of the interface: the consecutive indices below
the number of slots creation allocates. -/
theorem interface_slots (smInterface : SM_INTERFACE) (bridge : STP_BRIDGE) :
    (smInterface.instanceSlots bridge).map (fun x => x.2.2.2)
      = List.range (stateMachineInstanceCount smInterface bridge.portCount bridge.treeCount) := by
  unfold SM_INTERFACE.instanceSlots stateMachineInstanceCount
  rw [instanceSlots_slots, List.range_eq_range', List.map_append, List.sum_append]
  simp


theorem oneShotSmInterface_SameCounts : oneShotSmInterface.Respects SameCounts :=
  ⟨fun k hk => by
      rw [List.mem_singleton.mp hk]
      exact ⟨fun _ _ _ _ => ⟨rfl, rfl⟩, fun _ _ _ _ _ => ⟨rfl, rfl⟩⟩,
   ⟨fun _ _ _ _ => ⟨rfl, rfl⟩, fun _ _ _ _ _ => ⟨rfl, rfl⟩⟩⟩

theorem sampleOneShotBridge_created :
    STP_CreateBridge sampleConstants oneShotSmInterface sampleHash (fun _ => true) 2 1 .RSTP
      [0x10, 0x20, 0x30, 0x40, 0x50, 0x60] 16 = .ok sampleOneShotBridge := rfl

/-! ## Claim on the slots of the instance states -/

/-- C28 (as stated, refuted): for the bridge created with the one-shot
interface `STP_CreateBridge` allocates two instance states, one for the
non-transmit kind and one for the transmit kind; in the first iteration of the
scheduler the non-transmit instance makes a transition, so the transmit kind is
not run and the state pointer ends at 1: it has advanced over one slot, not
over the two that were allocated. -/
theorem runStateMachines_cycle_stops_before_transmit_slots :
    STP_CreateBridge sampleConstants oneShotSmInterface sampleHash (fun _ => true) 2 1 .RSTP
      [0x10, 0x20, 0x30, 0x40, 0x50, 0x60] 16 = .ok sampleOneShotBridge ∧
    CALLBACK_EVENT.allocAndZeroMemory .states 2 ∈ sampleOneShotBridge.callbackTrace ∧
    stateMachineInstanceCount oneShotSmInterface sampleOneShotBridge.portCount
      sampleOneShotBridge.treeCount = 2 ∧
    (∃ r, RunStateMachines.cycle oneShotSmInterface 2 sampleOneShotBridge 0 = .ok (r, true)) ∧
    RunStateMachines.cycleStatePtr oneShotSmInterface 2 sampleOneShotBridge 0 = .ok 1 := by
  refine ⟨rfl, ?_, rfl, ⟨_, rfl⟩, rfl⟩
  rw [createBridge_trace sampleOneShotBridge_created]
  decide

/-- C28, amended: for every bridge, every list of state-machine kinds that do
not write the counts of ports and trees, the instances of the interface are
given the consecutive slots 0, 1, ... below the number of slots
`STP_CreateBridge` allocated (the sum of `GetInstanceCountForStateMachine` over
all kinds plus the transmit kind), each instance a slot of its own, so none is
given a slot outside the states array.  One iteration of `RunStateMachines`
runs the instances of the non-transmit kinds on their slots and then, only if
none of them made a transition, the instances of the transmit kind on theirs;
the state pointer has then advanced over exactly the allocated slots, and over
the slots of the non-transmit kinds otherwise.  The bridge an iteration leaves
gives every instance the same slot again. -/
theorem runStateMachines_cycle_slots (smInterface : SM_INTERFACE)
    (hsm : smInterface.Respects SameCounts) (fuel : Nat) (bridge : STP_BRIDGE) (timestamp : Nat) :
    (smInterface.instanceSlots bridge).map (fun x => x.2.2.2)
      = List.range (stateMachineInstanceCount smInterface bridge.portCount bridge.treeCount) ∧
    (∀ x ∈ smInterface.instanceSlots bridge,
      x.2.2.2 < stateMachineInstanceCount smInterface bridge.portCount bridge.treeCount) ∧
    ((smInterface.instanceSlots bridge).map (fun x => x.2.2.2)).Nodup ∧
    smInterface.instanceSlots bridge =
      instanceSlots bridge smInterface.smInfo 0 ++
        instanceSlots bridge [smInterface.transmitSmInfo]
          (smInterface.smInfo.map fun smInfo =>
            GetInstanceCountForStateMachine smInfo bridge.portCount bridge.treeCount).sum ∧
    RunStateMachines.cycle smInterface fuel bridge timestamp =
      ((runSlots fuel timestamp (instanceSlots bridge smInterface.smInfo 0) bridge false).bind
        fun r =>
          if r.2 = false then
            (runSlots fuel timestamp
              (instanceSlots bridge [smInterface.transmitSmInfo]
                (smInterface.smInfo.map fun smInfo =>
                  GetInstanceCountForStateMachine smInfo bridge.portCount bridge.treeCount).sum)
              r.1 false).bind fun t => .ok (t.1, r.2 || t.2)
          else .ok (r.1, r.2)) ∧
    RunStateMachines.cycleStatePtr smInterface fuel bridge timestamp =
      ((runSlots fuel timestamp (instanceSlots bridge smInterface.smInfo 0) bridge false).bind
        fun r =>
          if r.2 = false then
            (runSlots fuel timestamp
              (instanceSlots bridge [smInterface.transmitSmInfo]
                (smInterface.smInfo.map fun smInfo =>
                  GetInstanceCountForStateMachine smInfo bridge.portCount bridge.treeCount).sum)
              r.1 false).bind fun _ =>
                .ok (stateMachineInstanceCount smInterface bridge.portCount bridge.treeCount)
          else
            .ok (smInterface.smInfo.map fun smInfo =>
              GetInstanceCountForStateMachine smInfo bridge.portCount bridge.treeCount).sum) ∧
    (∀ statePtr, RunStateMachines.cycleStatePtr smInterface fuel bridge timestamp = .ok statePtr →
      statePtr ≤ stateMachineInstanceCount smInterface bridge.portCount bridge.treeCount) ∧
    (∀ r changed, RunStateMachines.cycle smInterface fuel bridge timestamp = .ok (r, changed) →
      (∃ statePtr,
        RunStateMachines.cycleStatePtr smInterface fuel bridge timestamp = .ok statePtr) ∧
      smInterface.instanceSlots r = smInterface.instanceSlots bridge ∧
      stateMachineInstanceCount smInterface r.portCount r.treeCount
        = stateMachineInstanceCount smInterface bridge.portCount bridge.treeCount) ∧
    (∀ (consts : BRIDGE_CONSTANTS) (HMAC_MD5 : List Nat → List Nat) (allocOk : BLOCK → Bool)
        (portCount treeCount : Nat) (protocolVersion : STP_VERSION) (bridgeAddress : List Nat)
        (debugLogBufferSize : Nat),
      STP_CreateBridge consts smInterface HMAC_MD5 allocOk portCount treeCount protocolVersion
        bridgeAddress debugLogBufferSize = .ok bridge →
      CALLBACK_EVENT.allocAndZeroMemory .states
        (stateMachineInstanceCount smInterface bridge.portCount bridge.treeCount)
        ∈ bridge.callbackTrace) := by
  have hslots := interface_slots smInterface bridge
  have hptr := cycleStatePtr_eq_runSlots hsm fuel bridge timestamp
  refine ⟨hslots, ?_, ?_, ?_, cycle_eq_runSlots hsm fuel bridge timestamp, hptr, ?_, ?_, ?_⟩
  · intro x hx
    have hmem : x.2.2.2 ∈ (smInterface.instanceSlots bridge).map (fun x => x.2.2.2) :=
      List.mem_map_of_mem _ hx
    rw [hslots] at hmem
    exact List.mem_range.mp hmem
  · rw [hslots]
    exact List.nodup_range _
  · unfold SM_INTERFACE.instanceSlots
    rw [instanceSlots_append, Nat.zero_add, instances_length_sum]
  · intro statePtr h
    rw [hptr] at h
    obtain ⟨a, _, h2⟩ := RESULT.bind_eq_ok.mp h
    by_cases hq : a.2 = false
    · rw [if_pos hq] at h2
      obtain ⟨t, _, h3⟩ := RESULT.bind_eq_ok.mp h2
      simp only [RESULT.ok.injEq] at h3
      omega
    · rw [if_neg hq] at h2
      simp only [RESULT.ok.injEq] at h2
      unfold stateMachineInstanceCount
      omega
  · intro r changed h
    have hholds := RunStateMachines_cycle_holds FrameRel_SameCounts hsm fuel bridge timestamp
    rw [h] at hholds
    have hsame : SameCounts bridge r := hholds
    refine ⟨?_, ?_, by rw [hsame.1, hsame.2]⟩
    · rw [cycle_eq_runSlots hsm] at h
      obtain ⟨a, ha, h2⟩ := RESULT.bind_eq_ok.mp h
      rw [hptr, ha]
      simp only [RESULT.bind_ok]
      by_cases hq : a.2 = false
      · rw [if_pos hq] at h2
        obtain ⟨t, ht, _⟩ := RESULT.bind_eq_ok.mp h2
        rw [if_pos hq, ht]
        exact ⟨_, rfl⟩
      · rw [if_neg hq]
        exact ⟨_, rfl⟩
    · unfold SM_INTERFACE.instanceSlots
      exact instanceSlots_congr hsame _ _
  · intro consts HMAC_MD5 allocOk portCount treeCount protocolVersion bridgeAddress
      debugLogBufferSize hcreate
    have hshape := createBridge_eq_ok hcreate
    have hpc : bridge.portCount = portCount := by rw [hshape]; rfl
    have htc : bridge.treeCount = treeCount := by rw [hshape]; rfl
    rw [createBridge_trace hcreate, hpc, htc]
    unfold stateMachineInstanceCount
    simp

/-- Witness of C28, amended: the bridge created with the one-shot interface
has the slots 0 and 1; its first iteration ends with the state pointer at 1
and leaves a bridge whose instances have the same slots. -/
theorem runStateMachines_cycle_slots_witness :
    (oneShotSmInterface.instanceSlots sampleOneShotBridge).map (fun x => x.2.2.2) = [0, 1] ∧
    (∀ statePtr,
      RunStateMachines.cycleStatePtr oneShotSmInterface 2 sampleOneShotBridge 0 = .ok statePtr →
      statePtr ≤ 2) ∧
    CALLBACK_EVENT.allocAndZeroMemory .states 2 ∈ sampleOneShotBridge.callbackTrace := by
  obtain ⟨h1, _, _, _, _, _, h2, _, h3⟩ :=
    runStateMachines_cycle_slots oneShotSmInterface oneShotSmInterface_SameCounts 2
      sampleOneShotBridge 0
  exact ⟨h1, h2, h3 _ _ _ _ _ _ _ _ sampleOneShotBridge_created⟩

/-! ## The operational point-to-point status -/

/-- The loop over the trees of a port writes only the trees of that port. -/
theorem createBridge_portTreeLoop_shape (consts : BRIDGE_CONSTANTS) (allocOk : BLOCK → Bool)
    (portIndex : Nat) :
    ∀ (indices : List Nat) (bridge r : STP_BRIDGE),
      STP_CreateBridge.portTreeLoop consts allocOk portIndex indices bridge = .ok r →
      r.ports portIndex = { bridge.ports portIndex with trees := (r.ports portIndex).trees } ∧
      ∀ q, q ≠ portIndex → r.ports q = bridge.ports q := by
  intro indices
  induction indices with
  | nil =>
    intro bridge r h
    simp only [STP_CreateBridge.portTreeLoop, RESULT.ok.injEq] at h
    subst h
    exact ⟨rfl, fun _ _ => rfl⟩
  | cons treeIndex rest ih =>
    intro bridge r h
    unfold STP_CreateBridge.portTreeLoop at h
    obtain ⟨b1, h1, h2⟩ := RESULT.bind_eq_ok.mp h
    have e1 := allocAndZeroMemory_eq_ok h1
    dsimp only at h2
    split at h2
    · cases h2
    · obtain ⟨i1, i2⟩ := ih _ _ h2
      subst e1
      constructor
      · rw [i1]
        simp only [Function.update_same]
      · intro q hq
        rw [i2 q hq]
        simp only [Function.update_noteq hq]

/-- Every port of a bridge `STP_CreateBridge` returns is zeroed memory in which
creation has written trees, AutoEdge, the BPDU switches and the path cost, or
untouched zeroed memory: its administrative mode is Auto and nothing was
detected. -/
theorem createBridge_portLoop_p2p (consts : BRIDGE_CONSTANTS) (allocOk : BLOCK → Bool)
    (treeCount : Nat) :
    ∀ (indices : List Nat) (bridge r : STP_BRIDGE),
      STP_CreateBridge.portLoop consts allocOk treeCount indices bridge = .ok r →
      (∀ p, (bridge.ports p).OperAgreesWithAdmin) → ∀ p, (r.ports p).OperAgreesWithAdmin := by
  intro indices
  induction indices with
  | nil =>
    intro bridge r h hinv
    simp only [STP_CreateBridge.portLoop, RESULT.ok.injEq] at h
    subst h
    exact hinv
  | cons portIndex rest ih =>
    intro bridge r h hinv
    unfold STP_CreateBridge.portLoop at h
    obtain ⟨b1, h1, h2⟩ := RESULT.bind_eq_ok.mp h
    have e1 := allocAndZeroMemory_eq_ok h1
    dsimp only at h2
    obtain ⟨b2, h3, h4⟩ := RESULT.bind_eq_ok.mp h2
    have e2 := allocAndZeroMemory_eq_ok h3
    obtain ⟨b3, h5, h6⟩ := RESULT.bind_eq_ok.mp h4
    have e3 := createBridge_portTreeLoop_shape consts allocOk portIndex _ _ _ h5
    refine ih _ _ h6 ?_
    intro p
    by_cases hp : p = portIndex
    · subst hp
      simp only [Function.update_same]
      rw [e3.1, e2]
      simp only [Function.update_same]
      rfl
    · simp only [Function.update_noteq hp]
      rw [e3.2 p hp, e2]
      simp only [Function.update_noteq hp]
      rw [e1]
      exact hinv p


/-- On a bridge `STP_CreateBridge` has just returned, every port's operational
point-to-point status agrees with its administrative mode. -/
theorem createBridge_p2p {consts : BRIDGE_CONSTANTS} {smInterface : SM_INTERFACE}
    {HMAC_MD5 : List Nat → List Nat} {allocOk : BLOCK → Bool} {portCount treeCount : Nat}
    {protocolVersion : STP_VERSION} {bridgeAddress : List Nat} {debugLogBufferSize : Nat}
    {r : STP_BRIDGE}
    (h : STP_CreateBridge consts smInterface HMAC_MD5 allocOk portCount treeCount protocolVersion
      bridgeAddress debugLogBufferSize = .ok r) :
    ∀ p, (r.ports p).OperAgreesWithAdmin := by
  unfold STP_CreateBridge at h
  split_ifs at h
  all_goals first
    | cases h
    | (obtain ⟨b1, h1, h2⟩ := RESULT.bind_eq_ok.mp h; cases h2)
    | skip
  obtain ⟨b1, h1, h2⟩ := RESULT.bind_eq_ok.mp h
  have e1 := allocAndZeroMemory_eq_ok h1
  try dsimp only at h2
  obtain ⟨b2, h3, h4⟩ := RESULT.bind_eq_ok.mp h2
  have e2 := allocAndZeroMemory_eq_ok h3
  try dsimp only at h4
  obtain ⟨b3, h5, h6⟩ := RESULT.bind_eq_ok.mp h4
  have e3 := allocAndZeroMemory_eq_ok h5
  obtain ⟨b4, h7, h8⟩ := RESULT.bind_eq_ok.mp h6
  have e4 := allocAndZeroMemory_eq_ok h7
  obtain ⟨b5, h9, h10⟩ := RESULT.bind_eq_ok.mp h8
  have e5 := allocAndZeroMemory_eq_ok h9
  obtain ⟨b6, h11, h12⟩ := RESULT.bind_eq_ok.mp h10
  have e6 := allocAndZeroMemory_eq_ok h11
  try dsimp only at h12
  obtain ⟨b7, h13, h14⟩ := RESULT.bind_eq_ok.mp h12
  have e7 := createBridge_mstiLoop_ok consts allocOk bridgeAddress _ _ _ h13
  obtain ⟨b8, h15, h16⟩ := RESULT.bind_eq_ok.mp h14
  simp only [RESULT.ok.injEq] at h16
  have hb7 : ∀ p, (b7.ports p).OperAgreesWithAdmin := by
    intro p
    rw [e7]
    dsimp only
    rw [e6]
    dsimp only
    rw [e5]
    dsimp only
    rw [e4]
    dsimp only
    rw [e3]
    dsimp only
    rw [e2]
    dsimp only
    rw [e1]
    rfl
  have hb8 := createBridge_portLoop_p2p consts allocOk treeCount _ _ _ h15 hb7
  intro p
  rw [← h16]
  exact hb8 p

/-- The invariant of C29 is kept by `STP_OnPortEnabled` on a bridge that is
not started. -/
theorem onPortEnabled_keeps_p2p {smInterface : SM_INTERFACE} {fuel : Nat} {bridge : STP_BRIDGE}
    {portIndex speed : Nat} {detected : Bool} {timestamp : Nat} {r : STP_BRIDGE}
    (hs : bridge.started = false) (hinv : ∀ p, (bridge.ports p).OperAgreesWithAdmin)
    (h : STP_OnPortEnabled smInterface fuel bridge portIndex speed detected timestamp = .ok r) :
    r.started = false ∧ ∀ p, (r.ports p).OperAgreesWithAdmin := by
  have hdis : (bridge.ports portIndex).portEnabled = false := by
    by_contra hen
    unfold STP_OnPortEnabled at h
    simp only [LOG_ports] at h
    rw [if_pos hen] at h
    cases h
  rw [onPortEnabled_eq _ _ _ _ _ _ _ hdis, hs] at h
  simp only [Bool.false_eq_true, if_false, RESULT.bind_ok, RESULT.ok.injEq] at h
  subst h
  refine ⟨by simp only [FLUSH_LOG_started, LOG_started, hs], ?_⟩
  intro p
  simp only [FLUSH_LOG_ports, LOG_ports]
  by_cases hp : p = portIndex
  · subst hp
    simp only [Function.update_same]
    have := hinv p
    unfold PORT.OperAgreesWithAdmin at this ⊢
    dsimp only
    cases hmode : (bridge.ports p).adminPointToPointMAC <;> rw [hmode] at this <;>
      simp_all
  · simp only [Function.update_noteq hp]
    exact hinv p

/-- The invariant of C29 is kept by `STP_OnPortDisabled` on a bridge that is
not started. -/
theorem onPortDisabled_keeps_p2p {smInterface : SM_INTERFACE} {fuel : Nat} {bridge : STP_BRIDGE}
    {portIndex timestamp : Nat} {r : STP_BRIDGE}
    (hs : bridge.started = false) (hinv : ∀ p, (bridge.ports p).OperAgreesWithAdmin)
    (h : STP_OnPortDisabled smInterface fuel bridge portIndex timestamp = .ok r) :
    r.started = false ∧ ∀ p, (r.ports p).OperAgreesWithAdmin := by
  unfold STP_OnPortDisabled at h
  simp only [LOG_ports, LOG_started, hs, Bool.false_eq_true, if_false] at h
  by_cases hen : (bridge.ports portIndex).portEnabled = true
  · rw [if_pos hen] at h
    simp only [RESULT.bind_ok, RESULT.ok.injEq] at h
    subst h
    refine ⟨by simp only [FLUSH_LOG_started, LOG_started, hs], ?_⟩
    intro p
    simp only [FLUSH_LOG_ports, LOG_ports]
    by_cases hp : p = portIndex
    · subst hp
      simp only [Function.update_same]
      exact hinv p
    · simp only [Function.update_noteq hp]
      exact hinv p
  · rw [if_neg hen] at h
    simp only [RESULT.bind_ok, RESULT.ok.injEq] at h
    subst h
    refine ⟨by simp only [FLUSH_LOG_started, LOG_started, hs], ?_⟩
    intro p
    simp only [FLUSH_LOG_ports, LOG_ports]
    exact hinv p

/-- `STP_SetPortAdminPointToPointMAC` returns, and what it leaves: the mode of
the port is the given one and the operational status follows it. -/
theorem setPortAdminPointToPointMAC_eq (bridge : STP_BRIDGE) (portIndex : Nat)
    (mode : STP_ADMIN_P2P) (timestamp : Nat) :
    ∃ r, STP_SetPortAdminPointToPointMAC bridge portIndex mode timestamp = .ok r ∧
      r.started = bridge.started ∧
      (∀ q, q ≠ portIndex → r.ports q = bridge.ports q) ∧
      r.ports portIndex =
        if (bridge.ports portIndex).adminPointToPointMAC = mode then bridge.ports portIndex
        else
          { bridge.ports portIndex with
            adminPointToPointMAC := mode
            operPointToPointMAC :=
              match mode with
              | .FORCE_TRUE => true
              | .FORCE_FALSE => false
              | .AUTO => (bridge.ports portIndex).detectedPointToPointMAC } := by
  unfold STP_SetPortAdminPointToPointMAC
  simp only [LOG_ports]
  by_cases hsame : (bridge.ports portIndex).adminPointToPointMAC = mode
  · rw [if_neg (not_not.mpr hsame), if_pos hsame]
    refine ⟨_, rfl, ?_, ?_, ?_⟩
    · simp only [FLUSH_LOG_started, LOG_started]
    · intro q _
      simp only [FLUSH_LOG_ports, LOG_ports]
    · simp only [FLUSH_LOG_ports, LOG_ports]
  · rw [if_pos hsame, if_neg hsame]
    cases mode
    · refine ⟨_, rfl, ?_, ?_, ?_⟩
      · simp only [FLUSH_LOG_started, LOG_started]
      · intro q hq
        simp only [FLUSH_LOG_ports, LOG_ports, Function.update_noteq hq]
      · simp only [FLUSH_LOG_ports, LOG_ports, Function.update_same]
    · refine ⟨_, rfl, ?_, ?_, ?_⟩
      · simp only [FLUSH_LOG_started, LOG_started]
      · intro q hq
        simp only [FLUSH_LOG_ports, LOG_ports, Function.update_noteq hq]
      · simp only [FLUSH_LOG_ports, LOG_ports, Function.update_same]
    · refine ⟨_, rfl, ?_, ?_, ?_⟩
      · simp only [FLUSH_LOG_started, LOG_started]
      · intro q hq
        simp only [FLUSH_LOG_ports, LOG_ports, Function.update_noteq hq]
      · simp only [FLUSH_LOG_ports, LOG_ports, Function.update_same]

/-- The invariant of C29 is kept by `STP_SetPortAdminPointToPointMAC`. -/
theorem setPortAdminPointToPointMAC_keeps_p2p {bridge : STP_BRIDGE} {portIndex : Nat}
    {mode : STP_ADMIN_P2P} {timestamp : Nat} {r : STP_BRIDGE}
    (hs : bridge.started = false) (hinv : ∀ p, (bridge.ports p).OperAgreesWithAdmin)
    (h : STP_SetPortAdminPointToPointMAC bridge portIndex mode timestamp = .ok r) :
    r.started = false ∧ ∀ p, (r.ports p).OperAgreesWithAdmin := by
  obtain ⟨r', hr', hstarted, hother, hport⟩ :=
    setPortAdminPointToPointMAC_eq bridge portIndex mode timestamp
  rw [hr'] at h
  simp only [RESULT.ok.injEq] at h
  subst h
  refine ⟨by rw [hstarted, hs], ?_⟩
  intro p
  by_cases hp : p = portIndex
  · subst hp
    rw [hport]
    by_cases hsame : (bridge.ports p).adminPointToPointMAC = mode
    · rw [if_pos hsame]
      exact hinv p
    · rw [if_neg hsame]
      unfold PORT.OperAgreesWithAdmin
      cases mode <;> rfl
  · rw [hother p hp]
    exact hinv p


/-! ## Claim on the operational point-to-point status -/

/-- C29: in every state reached from `STP_CreateBridge` by any sequence of
`STP_OnPortEnabled`, `STP_OnPortDisabled` and
`STP_SetPortAdminPointToPointMAC` calls (the bridge is then not started), every
port's operPointToPointMAC agrees with its admin mode: it is true when the mode
is ForceTrue, false when the mode is ForceFalse, and equal to
detectedPointToPointMAC when the mode is Auto. -/
theorem operPointToPointMAC_agrees_with_admin (consts : BRIDGE_CONSTANTS)
    (smInterface : SM_INTERFACE) (HMAC_MD5 : List Nat → List Nat) (bridge : STP_BRIDGE)
    (h : ReachableByPortEvents consts smInterface HMAC_MD5 bridge) :
    bridge.started = false ∧
    ∀ portIndex,
      (bridge.ports portIndex).OperAgreesWithAdmin ∧
      (STP_GetPortAdminPointToPointMAC bridge portIndex = STP_ADMIN_P2P.FORCE_TRUE →
        STP_GetPortOperPointToPointMAC bridge portIndex = true) ∧
      (STP_GetPortAdminPointToPointMAC bridge portIndex = STP_ADMIN_P2P.FORCE_FALSE →
        STP_GetPortOperPointToPointMAC bridge portIndex = false) ∧
      (STP_GetPortAdminPointToPointMAC bridge portIndex = STP_ADMIN_P2P.AUTO →
        STP_GetPortOperPointToPointMAC bridge portIndex
          = (bridge.ports portIndex).detectedPointToPointMAC) := by
  have inv : bridge.started = false ∧ ∀ p, (bridge.ports p).OperAgreesWithAdmin := by
    induction h with
    | create allocOk portCount treeCount protocolVersion bridgeAddress debugLogBufferSize b hc =>
      exact ⟨(createBridge_ok_config hc).1, createBridge_p2p hc⟩
    | onPortEnabled fuel b portIndex speed detected timestamp b' _ hcall ih =>
      exact onPortEnabled_keeps_p2p ih.1 ih.2 hcall
    | onPortDisabled fuel b portIndex timestamp b' _ hcall ih =>
      exact onPortDisabled_keeps_p2p ih.1 ih.2 hcall
    | setPortAdminPointToPointMAC b portIndex mode timestamp b' _ hcall ih =>
      exact setPortAdminPointToPointMAC_keeps_p2p ih.1 ih.2 hcall
  refine ⟨inv.1, ?_⟩
  intro portIndex
  have hp := inv.2 portIndex
  refine ⟨hp, ?_, ?_, ?_⟩ <;>
  · intro hmode
    unfold STP_GetPortAdminPointToPointMAC at hmode
    unfold STP_GetPortOperPointToPointMAC
    unfold PORT.OperAgreesWithAdmin at hp
    rw [hmode] at hp
    exact hp

theorem sampleEnabledBridge_enabled :
    STP_OnPortEnabled idleSmInterface 0 sampleBridge 0 100 true 0 = .ok sampleEnabledBridge := rfl

theorem sampleForcedBridge_forced :
    STP_SetPortAdminPointToPointMAC sampleEnabledBridge 0 .FORCE_FALSE 1 = .ok sampleForcedBridge :=
  rfl

/-- Witness of C29: port 0 of the sample bridge came up with a point-to-point
link and was then forced to "not point-to-point"; its operational status is
false although a point-to-point link was detected, and port 1, still in Auto
mode, has the status that was detected for it. -/
theorem operPointToPointMAC_agrees_with_admin_witness :
    ReachableByPortEvents sampleConstants idleSmInterface sampleHash sampleForcedBridge ∧
    STP_GetPortAdminPointToPointMAC sampleForcedBridge 0 = STP_ADMIN_P2P.FORCE_FALSE ∧
    (sampleForcedBridge.ports 0).detectedPointToPointMAC = true ∧
    STP_GetPortOperPointToPointMAC sampleForcedBridge 0 = false ∧
    STP_GetPortOperPointToPointMAC sampleForcedBridge 1
      = (sampleForcedBridge.ports 1).detectedPointToPointMAC := by
  have hreach : ReachableByPortEvents sampleConstants idleSmInterface sampleHash
      sampleForcedBridge :=
    .setPortAdminPointToPointMAC _ _ _ _ _
      (.onPortEnabled _ _ _ _ _ _ _ (.create _ _ _ _ _ _ _ sampleBridge_created)
        sampleEnabledBridge_enabled)
      sampleForcedBridge_forced
  have h := operPointToPointMAC_agrees_with_admin sampleConstants idleSmInterface sampleHash
    sampleForcedBridge hreach
  exact ⟨hreach, rfl, rfl, (h.2 0).2.2.1 rfl, (h.2 1).2.2.2 rfl⟩

/-! ## The two table setters -/

/-- For a list without a repeated VLAN the array of the list holds the table
of the list. -/
theorem mstidsOf_eq_tableOf (table : List VLAN_TO_MSTID)
    (hnodup : (table.map VLAN_TO_MSTID.vlan).Nodup) (i : Nat) :
    mstidsOf table i = tableOf table (i + 1) := by
  unfold mstidsOf
  cases hfind : table.find? (fun entry => decide (entry.vlan = i + 1)) with
  | none =>
    have hnone := List.find?_eq_none.mp hfind
    rw [tableOf_of_not_mem table (i + 1) fun entry he hv => hnone entry he (by simpa using hv)]
  | some entry =>
    have hmem := List.mem_of_find?_eq_some hfind
    have hv : entry.vlan = i + 1 := by simpa using List.find?_some hfind
    rw [← hv, tableOf_of_mem table hnodup entry hmem]

/-- The table of a list holds bytes. -/
theorem tableOf_lt_256 (table : List VLAN_TO_MSTID)
    (hnodup : (table.map VLAN_TO_MSTID.vlan).Nodup) (v : Nat) : tableOf table v < 256 := by
  by_cases h : ∃ entry ∈ table, entry.vlan = v
  · obtain ⟨entry, hmem, hv⟩ := h
    rw [← hv, tableOf_of_mem table hnodup entry hmem]
    exact Nat.mod_lt _ (by norm_num)
  · rw [tableOf_of_not_mem table v fun entry he hv => h ⟨entry, he, hv⟩]
    norm_num

/-- The loop of the first setter accepts a list without a repeated VLAN whose
VLANs are in 1..4094 and free in the table and whose tree indices are not
above treeCount. -/
theorem setTable_loop_total :
    ∀ (table : List VLAN_TO_MSTID) (bridge : STP_BRIDGE),
      (table.map VLAN_TO_MSTID.vlan).Nodup →
      (∀ entry ∈ table, 1 ≤ entry.vlan ∧ entry.vlan ≤ 4094 ∧
        entry.mstid % 256 ≤ bridge.treeCount ∧ bridge.mstConfigTable entry.vlan = 0) →
      ∃ r, STP_SetMstConfigTableAndComputeDigest.loop table bridge = .ok r := by
  intro table
  induction table with
  | nil => intro bridge _ _; exact ⟨bridge, rfl⟩
  | cons entry rest ih =>
    intro bridge hnodup hall
    rw [List.map_cons, List.nodup_cons] at hnodup
    obtain ⟨h1, h2, h3, h4⟩ := hall entry (List.mem_cons_self _ _)
    have hgood : ¬ (entry.vlan = 0 ∨ 4094 < entry.vlan ∨ bridge.treeCount < entry.mstid % 256
        ∨ bridge.mstConfigTable entry.vlan ≠ 0) := by
      rintro (h | h | h | h)
      · omega
      · omega
      · omega
      · exact h h4
    rw [setTable_loop_cons, if_neg hgood]
    apply ih _ hnodup.2
    intro e he
    obtain ⟨g1, g2, g3, g4⟩ := hall e (List.mem_cons_of_mem _ he)
    refine ⟨g1, g2, g3, ?_⟩
    have hne : e.vlan ≠ entry.vlan := by
      intro heq
      exact hnodup.1 (List.mem_map.mpr ⟨e, he, heq⟩)
    show Function.update bridge.mstConfigTable entry.vlan (entry.mstid % 256) e.vlan = 0
    rw [Function.update_noteq hne]
    exact g4

/-- The loop of the second setter accepts an array whose bytes are below
treeCount. -/
theorem setTable1_loop_total (mstids : Nat → Nat) :
    ∀ (indices : List Nat) (bridge : STP_BRIDGE),
      (∀ i ∈ indices, mstids i % 256 < bridge.treeCount) →
      ∃ r, STP_SetMstConfigTableAndComputeDigest1.loop mstids indices bridge = .ok r := by
  intro indices
  induction indices with
  | nil => intro bridge _; exact ⟨bridge, rfl⟩
  | cons i rest ih =>
    intro bridge hall
    unfold STP_SetMstConfigTableAndComputeDigest1.loop
    dsimp only
    rw [if_neg (not_not.mpr (hall i (List.mem_cons_self _ _)))]
    exact ih _ fun j hj => hall j (List.mem_cons_of_mem _ hj)

/-- The table and the digest a successful call of the second setter leaves,
when the state machines keep the MST configuration. -/
theorem setTable1_ok_config {smInterface : SM_INTERFACE} {HMAC_MD5 : List Nat → List Nat}
    {fuel : Nat} {bridge : STP_BRIDGE} {mstids : Nat → Nat} {timestamp : Nat}
    {r : STP_BRIDGE} (hsm : bridge.started = true → smInterface.KeepsMstConfig)
    (h : STP_SetMstConfigTableAndComputeDigest1 smInterface HMAC_MD5 fuel bridge mstids timestamp
      = .ok r) :
    r.mstConfigTable = (fun v =>
      if 1 ≤ v ∧ (v - 1) ∈ List.range 4094 then mstids (v - 1) % 256
      else bridge.mstConfigTable v) ∧
    r.MstConfigId.ConfigurationDigest = HMAC_MD5 (mstConfigTableBytes fun v =>
      if 1 ≤ v ∧ (v - 1) ∈ List.range 4094 then mstids (v - 1) % 256
      else bridge.mstConfigTable v) := by
  obtain ⟨logged, mid, r1, hlogged, hmid, hrun, hr⟩ := setTable1_eq_ok h
  have hsame : SameMstConfig mid r1 := by
    by_cases hs : bridge.started = true
    · rw [if_pos hs] at hrun
      exact beginRun_SameMstConfig (hsm hs) fuel mid timestamp r1 hrun
    · rw [if_neg hs] at hrun
      simp only [RESULT.ok.injEq] at hrun
      subst hrun
      exact ⟨rfl, rfl⟩
  subst hr
  simp only [FLUSH_LOG_mstConfigTable, LOG_mstConfigTable, FLUSH_LOG_MstConfigId, LOG_MstConfigId,
    hsame.1, hsame.2]
  subst hmid
  exact ⟨rfl, rfl⟩

/-- The hashed bytes depend on the 4096 entries of the table only. -/
theorem mstConfigTableBytes_congr {t t' : Nat → Nat} (h : ∀ v, v < 4096 → t v = t' v) :
    mstConfigTableBytes t = mstConfigTableBytes t' := by
  unfold mstConfigTableBytes
  have key : ∀ (l : List Nat), (∀ v ∈ l, v < 4096) →
      (l.flatMap fun i => [(t i / 256) % 256, t i % 256])
        = l.flatMap fun i => [(t' i / 256) % 256, t' i % 256] := by
    intro l
    induction l with
    | nil => intro _; rfl
    | cons a rest ih =>
      intro hl
      rw [List.flatMap_cons, List.flatMap_cons, ih fun v hv => hl v (List.mem_cons_of_mem _ hv),
        h a (hl a (List.mem_cons_self _ _))]
  exact key _ fun v hv => List.mem_range.mp hv


/-- The table the second setter leaves for the array of a list is the table of
the list, on the 4096 entries of the table, when the two unused entries held 0. -/
theorem setTable1_table_eq (bridge : STP_BRIDGE) (table : List VLAN_TO_MSTID)
    (hunused : bridge.mstConfigTable 0 = 0 ∧ bridge.mstConfigTable 4095 = 0)
    (hnodup : (table.map VLAN_TO_MSTID.vlan).Nodup)
    (hvlan : ∀ entry ∈ table, 1 ≤ entry.vlan ∧ entry.vlan ≤ 4094) (v : Nat) (hv : v < 4096) :
    tableOf table v =
      if 1 ≤ v ∧ (v - 1) ∈ List.range 4094 then mstidsOf table (v - 1) % 256
      else bridge.mstConfigTable v := by
  by_cases hin : 1 ≤ v ∧ (v - 1) ∈ List.range 4094
  · rw [if_pos hin, mstidsOf_eq_tableOf table hnodup, Nat.sub_add_cancel hin.1,
      Nat.mod_eq_of_lt (tableOf_lt_256 table hnodup v)]
  · rw [if_neg hin]
    have hout : v = 0 ∨ v = 4095 := by
      by_contra hc
      apply hin
      refine ⟨by omega, List.mem_range.mpr (by omega)⟩
    have hnone : tableOf table v = 0 :=
      tableOf_of_not_mem table v fun entry he hev => by
        have := hvlan entry he
        omega
    rcases hout with h0 | h0 <;> subst h0
    · rw [hnone, hunused.1]
    · rw [hnone, hunused.2]

/-- A bridge `STP_CreateBridge` returns has a tree. -/
theorem createBridge_ok_treeCount {consts : BRIDGE_CONSTANTS} {smInterface : SM_INTERFACE}
    {HMAC_MD5 : List Nat → List Nat} {allocOk : BLOCK → Bool} {portCount treeCount : Nat}
    {protocolVersion : STP_VERSION} {bridgeAddress : List Nat} {debugLogBufferSize : Nat}
    {r : STP_BRIDGE}
    (h : STP_CreateBridge consts smInterface HMAC_MD5 allocOk portCount treeCount protocolVersion
      bridgeAddress debugLogBufferSize = .ok r) : 0 < r.treeCount := by
  have htc : r.treeCount = treeCount := by rw [createBridge_eq_ok h]; rfl
  rw [htc]
  unfold STP_CreateBridge at h
  by_cases c0 : ¬ (debugLogBufferSize ≥ 2)
  · rw [if_pos c0] at h
    cases h
  rw [if_neg c0] at h
  obtain ⟨b1, _, h2⟩ := RESULT.bind_eq_ok.mp h
  by_cases c1 : protocolVersion = .LEGACY_STP ∧ ¬ (treeCount = 1)
  · rw [if_pos c1] at h2
    cases h2
  by_cases c2 : protocolVersion = .RSTP ∧ ¬ (treeCount = 1)
  · rw [if_neg c1, if_pos c2] at h2
    cases h2
  by_cases c3 : protocolVersion = .MSTP ∧ ¬ (treeCount ≥ 1 ∧ treeCount ≤ 65)
  · rw [if_neg c1, if_neg c2, if_pos c3] at h2
    cases h2
  cases protocolVersion
  · have : treeCount = 1 := by
      by_contra hne
      exact c1 ⟨rfl, hne⟩
    omega
  · have : treeCount = 1 := by
      by_contra hne
      exact c2 ⟨rfl, hne⟩
    omega
  · have : treeCount ≥ 1 ∧ treeCount ≤ 65 := by
      by_contra hne
      exact c3 ⟨rfl, hne⟩
    omega

/-- What the claim on the two setters supposes of the bridge holds in every
state reached from `STP_CreateBridge` by the two setters: the bridge is not
started, it has a tree, and the unused entries 0 and 4095 of its table hold 0. -/
theorem reachableBySetters_wellFormed (consts : BRIDGE_CONSTANTS) (smInterface : SM_INTERFACE)
    (HMAC_MD5 : List Nat → List Nat) (bridge : STP_BRIDGE)
    (h : ReachableBySetters consts smInterface HMAC_MD5 bridge) :
    bridge.started = false ∧ 0 < bridge.treeCount ∧
    bridge.mstConfigTable 0 = 0 ∧ bridge.mstConfigTable 4095 = 0 := by
  induction h with
  | create allocOk portCount treeCount protocolVersion bridgeAddress debugLogBufferSize b hc =>
    obtain ⟨h1, h2, _⟩ := createBridge_ok_config hc
    refine ⟨h1, createBridge_ok_treeCount hc, ?_, ?_⟩ <;> rw [h2]
  | setTable fuel b table timestamp b' _ hset ih =>
    obtain ⟨hs, htree, _, _⟩ := ih
    have hcfg := setTable_ok_config (fun hst => by rw [hs] at hst; cases hst) hset
    obtain ⟨logged, mid, r1, hlogged, hloop, hmid, hrun, hr⟩ := setTable_eq_ok hset
    have hin : ∀ entry ∈ table, ¬ (entry.vlan = 0 ∨ 4094 < entry.vlan) := by
      intro entry he hbad
      obtain ⟨s, hfail⟩ := setTable_loop_bad_vlan table
        { logged with mstConfigTable := fun _ => 0 } ⟨entry, he, hbad⟩
      rw [hloop] at hfail
      cases hfail
    have htc : b'.treeCount = b.treeCount := by
      rw [hs] at hrun
      simp only [Bool.false_eq_true, if_false, RESULT.ok.injEq] at hrun
      subst hr hrun hmid hlogged
      simp only [FLUSH_LOG_treeCount, LOG_treeCount, ComputeMstConfigDigest]
    refine ⟨setTable_ok_started hs hset, by rw [htc]; exact htree, ?_, ?_⟩
    · rw [hcfg.1]
      exact tableOf_of_not_mem table 0 fun entry he hv => hin entry he (Or.inl hv)
    · rw [hcfg.1]
      exact tableOf_of_not_mem table 4095 fun entry he hv =>
        hin entry he (Or.inr (by omega))
  | setTable1 fuel b mstids timestamp b' _ hset ih =>
    obtain ⟨hs, htree, h0, h4095⟩ := ih
    obtain ⟨logged, mid, r1, hlogged, hmid, hrun, hr⟩ := setTable1_eq_ok hset
    rw [hs] at hrun
    simp only [Bool.false_eq_true, if_false, RESULT.ok.injEq] at hrun
    subst hr hrun hmid hlogged
    simp only [FLUSH_LOG_started, LOG_started, FLUSH_LOG_treeCount, LOG_treeCount,
      FLUSH_LOG_mstConfigTable, LOG_mstConfigTable, ComputeMstConfigDigest]
    refine ⟨hs, htree, ?_, ?_⟩
    · simp [h0]
    · simp [h4095]

/-! ## Claim on the two table setters -/

/-- C30: the two table setters agree.  On an MSTP bridge (it has a tree, and
the two unused entries 0 and 4095 of its table hold 0, as on every bridge since
its creation), for every duplicate-free entry list whose VLANs are in 1..4094
and whose tree indices are below treeCount, neither
`STP_SetMstConfigTableAndComputeDigest (entries)` nor
`STP_SetMstConfigTableAndComputeDigest1 (m)`, with m the 4094-byte array in
which m[v-1] is the tree index of the entry for VLAN v and 0 where the list has
no entry, is rejected; on a bridge that is not started both return; and when
they return they leave the same MST configuration table and the same digest,
and `STP_GetMstConfigTable` then returns m.  Where the bridge is started, so
that the calls run the state machines, these do not write the MST
configuration. -/
theorem setMstConfigTable_agrees_with_setMstConfigTable1 (smInterface : SM_INTERFACE)
    (HMAC_MD5 : List Nat → List Nat) (fuel fuel1 : Nat) (bridge : STP_BRIDGE)
    (table : List VLAN_TO_MSTID) (timestamp timestamp1 : Nat)
    (hversion : bridge.ForceProtocolVersion = STP_VERSION.MSTP)
    (htree : 0 < bridge.treeCount)
    (hunused : bridge.mstConfigTable 0 = 0 ∧ bridge.mstConfigTable 4095 = 0)
    (hsm : bridge.started = true → smInterface.KeepsMstConfig)
    (hnodup : (table.map VLAN_TO_MSTID.vlan).Nodup)
    (hvlan : ∀ entry ∈ table, 1 ≤ entry.vlan ∧ entry.vlan ≤ 4094)
    (hmstid : ∀ entry ∈ table, entry.mstid < bridge.treeCount) :
    (∀ s, STP_SetMstConfigTableAndComputeDigest smInterface HMAC_MD5 fuel bridge table timestamp
      ≠ .assertFailed s) ∧
    (∀ s, STP_SetMstConfigTableAndComputeDigest1 smInterface HMAC_MD5 fuel1 bridge
      (mstidsOf table) timestamp1 ≠ .assertFailed s) ∧
    (bridge.started = false →
      ∃ r r1,
        STP_SetMstConfigTableAndComputeDigest smInterface HMAC_MD5 fuel bridge table timestamp
          = .ok r ∧
        STP_SetMstConfigTableAndComputeDigest1 smInterface HMAC_MD5 fuel1 bridge
          (mstidsOf table) timestamp1 = .ok r1) ∧
    (∀ r r1,
      STP_SetMstConfigTableAndComputeDigest smInterface HMAC_MD5 fuel bridge table timestamp
        = .ok r →
      STP_SetMstConfigTableAndComputeDigest1 smInterface HMAC_MD5 fuel1 bridge
        (mstidsOf table) timestamp1 = .ok r1 →
      (∀ v, v < 4096 → r.mstConfigTable v = r1.mstConfigTable v) ∧
      r.MstConfigId.ConfigurationDigest = r1.MstConfigId.ConfigurationDigest ∧
      STP_GetMstConfigTable r = (List.range 4094).map (mstidsOf table) ∧
      STP_GetMstConfigTable r1 = (List.range 4094).map (mstidsOf table)) := by
  have hv : bridge.ForceProtocolVersion.toNat ≥ STP_VERSION.MSTP.toNat := by
    rw [hversion]
  have hbyte : ∀ entry ∈ table, entry.mstid % 256 ≤ bridge.treeCount := fun entry he =>
    le_trans (Nat.mod_le _ _) (le_of_lt (hmstid entry he))
  have hloop : ∃ b0, STP_SetMstConfigTableAndComputeDigest.loop table
      { LOG bridge (-1) (-1) "\x7bT\x7d: Setting MST Config Table...\r\n" [toString timestamp]
        with mstConfigTable := fun _ => 0 } = .ok b0 :=
    setTable_loop_total table _ hnodup fun entry he =>
      ⟨(hvlan entry he).1, (hvlan entry he).2, by
        show entry.mstid % 256 ≤ (LOG bridge _ _ _ _).treeCount
        rw [LOG_treeCount]
        exact hbyte entry he, rfl⟩
  have hm : ∀ i, mstidsOf table i % 256 < bridge.treeCount := by
    intro i
    unfold mstidsOf
    cases hfind : table.find? (fun entry => decide (entry.vlan = i + 1)) with
    | none => exact htree
    | some entry =>
      have hmem := List.mem_of_find?_eq_some hfind
      show entry.mstid % 256 % 256 < bridge.treeCount
      rw [Nat.mod_mod]
      exact lt_of_le_of_lt (Nat.mod_le _ _) (hmstid entry hmem)
  have hloop1 : ∃ b0, STP_SetMstConfigTableAndComputeDigest1.loop (mstidsOf table)
      (List.range 4094)
      (LOG bridge (-1) (-1) "\x7bT\x7d: Setting MST Config Table...\r\n" [toString timestamp1])
      = .ok b0 :=
    setTable1_loop_total _ _ _ fun i _ => by
      rw [LOG_treeCount]
      exact hm i
  refine ⟨?_, ?_, ?_, ?_⟩
  · intro s h
    rcases setTable_eq_assertFailed h with ⟨hbad, _⟩ | ⟨_, hfail⟩
    · exact hbad hv
    · obtain ⟨b0, hb0⟩ := hloop
      rw [hb0] at hfail
      cases hfail
  · intro s h
    obtain ⟨b0, hb0⟩ := hloop1
    unfold STP_SetMstConfigTableAndComputeDigest1 at h
    rw [if_neg (not_not.mpr hv)] at h
    dsimp only at h
    rw [hb0] at h
    simp only [RESULT.bind_ok] at h
    rcases RESULT.bind_eq_assertFailed.mp h with h2 | ⟨a, _, h2⟩
    · split_ifs at h2
      · exact beginRun_ne_assertFailed _ _ _ _ _ h2
    · cases h2
  · intro hs
    obtain ⟨b0, hb0⟩ := hloop
    obtain ⟨b1, hb1⟩ := hloop1
    have e0 := setTable_loop_ok _ _ _ hb0
    have e1 := setTable1_loop_ok _ _ _ _ hb1
    have hs0 : (ComputeMstConfigDigest HMAC_MD5 b0).started = false := by
      rw [e0]
      show (LOG bridge _ _ _ _).started = false
      rw [LOG_started, hs]
    have hs1 : (ComputeMstConfigDigest HMAC_MD5 b1).started = false := by
      rw [e1]
      show (LOG bridge _ _ _ _).started = false
      rw [LOG_started, hs]
    refine ⟨FLUSH_LOG (LOG (ComputeMstConfigDigest HMAC_MD5 b0) (-1) (-1)
        "------------------------------------\r\n" []),
      FLUSH_LOG (LOG (ComputeMstConfigDigest HMAC_MD5 b1) (-1) (-1)
        "------------------------------------\r\n" []), ?_, ?_⟩
    · unfold STP_SetMstConfigTableAndComputeDigest
      rw [if_neg (not_not.mpr hv)]
      dsimp only
      rw [hb0]
      simp only [RESULT.bind_ok, hs0, Bool.false_eq_true, if_false]
    · unfold STP_SetMstConfigTableAndComputeDigest1
      rw [if_neg (not_not.mpr hv)]
      dsimp only
      rw [hb1]
      simp only [RESULT.bind_ok, hs1, Bool.false_eq_true, if_false]
  · intro r r1 hr hr1
    obtain ⟨ht, hd⟩ := setTable_ok_config hsm hr
    obtain ⟨ht1, hd1⟩ := setTable1_ok_config hsm hr1
    have htab : ∀ v, v < 4096 → r.mstConfigTable v = r1.mstConfigTable v := by
      intro v hv4
      rw [ht, ht1]
      exact setTable1_table_eq bridge table hunused hnodup hvlan v hv4
    refine ⟨htab, ?_, ?_, ?_⟩
    · have hbytes : mstConfigTableBytes (fun v => tableOf table v) =
          mstConfigTableBytes (fun v =>
            if 1 ≤ v ∧ (v - 1) ∈ List.range 4094 then mstidsOf table (v - 1) % 256
            else bridge.mstConfigTable v) :=
        mstConfigTableBytes_congr fun v hv4 =>
          setTable1_table_eq bridge table hunused hnodup hvlan v hv4
      rw [hd, hd1, hbytes]
    · unfold STP_GetMstConfigTable
      apply List.map_congr_left
      intro i _
      rw [ht, mstidsOf_eq_tableOf table hnodup]
      exact Nat.mod_eq_of_lt (tableOf_lt_256 table hnodup _)
    · unfold STP_GetMstConfigTable
      apply List.map_congr_left
      intro i hi
      rw [← htab (i + 1) (by have := List.mem_range.mp hi; omega), ht,
        mstidsOf_eq_tableOf table hnodup]
      exact Nat.mod_eq_of_lt (tableOf_lt_256 table hnodup _)


/-- Witness of C30: on the sample bridge in which VLAN 10 is mapped to tree 1
and VLAN 20 to tree 2, the list that maps VLAN 30 to tree 2 and VLAN 10 to
tree 1 and its array leave the same digest, and the table read back is the
array. -/
theorem setMstConfigTable_agrees_with_setMstConfigTable1_witness :
    ∃ r r1,
      STP_SetMstConfigTableAndComputeDigest idleSmInterface sampleHash 0 sampleMappedBridge
        [entryFor 30 2, entryFor 10 1] 0 = .ok r ∧
      STP_SetMstConfigTableAndComputeDigest1 idleSmInterface sampleHash 0 sampleMappedBridge
        (mstidsOf [entryFor 30 2, entryFor 10 1]) 1 = .ok r1 ∧
      r.MstConfigId.ConfigurationDigest = r1.MstConfigId.ConfigurationDigest ∧
      STP_GetMstConfigTable r = (List.range 4094).map (mstidsOf [entryFor 30 2, entryFor 10 1]) ∧
      STP_GetMstConfigTable r1 = (List.range 4094).map (mstidsOf [entryFor 30 2, entryFor 10 1]) ∧
      mstidsOf [entryFor 30 2, entryFor 10 1] 29 = 2 ∧
      mstidsOf [entryFor 30 2, entryFor 10 1] 19 = 0 := by
  have h := setMstConfigTable_agrees_with_setMstConfigTable1 idleSmInterface sampleHash 0 0
    sampleMappedBridge [entryFor 30 2, entryFor 10 1] 0 1 rfl (by decide) ⟨rfl, rfl⟩
    (fun _ => idleSmInterface_KeepsMstConfig) (by decide) (by decide) (by decide)
  obtain ⟨r, r1, hr, hr1⟩ := h.2.2.1 rfl
  obtain ⟨_, hd, hg, hg1⟩ := h.2.2.2 r r1 hr hr1
  exact ⟨r, r1, hr, hr1, hd, hg, hg1, rfl, rfl⟩

/-! ## The received-BPDU slot across the entry points -/

theorem FrameRel_SameSlot : FrameRel SameSlot where
  refl := fun _ => ⟨rfl, rfl⟩
  trans := fun _ _ _ h1 h2 => ⟨h2.1.trans h1.1, h2.2.trans h1.2⟩
  log := fun b port tree format args =>
    ⟨LOG_receivedBpduContent b port tree format args, LOG_receivedBpduType b port tree format args⟩
  states := fun _ _ _ => ⟨rfl, rfl⟩

theorem SameSlot.andThen {a b c : STP_BRIDGE} (h1 : SameSlot a b) (h2 : SameSlot b c) :
    SameSlot a c :=
  ⟨h2.1.trans h1.1, h2.2.trans h1.2⟩

theorem SameSlot.log {a b : STP_BRIDGE} (h : SameSlot a b) (port tree : Int) (format : String)
    (args : List String) : SameSlot a (LOG b port tree format args) :=
  h.andThen ⟨LOG_receivedBpduContent _ _ _ _ _, LOG_receivedBpduType _ _ _ _ _⟩

theorem SameSlot.flush {a b : STP_BRIDGE} (h : SameSlot a b) : SameSlot a (FLUSH_LOG b) :=
  h.andThen ⟨FLUSH_LOG_receivedBpduContent _, FLUSH_LOG_receivedBpduType _⟩

theorem SameSlot.of_log {a b : STP_BRIDGE} {port tree : Int} {format : String}
    {args : List String} (h : SameSlot (LOG a port tree format args) b) : SameSlot a b :=
  SameSlot.andThen ⟨LOG_receivedBpduContent _ _ _ _ _, LOG_receivedBpduType _ _ _ _ _⟩ h

/-- The relation seen from a bridge state with the same slot. -/
theorem SameSlot.of_fields {a a' b : STP_BRIDGE} (h : SameSlot a' b)
    (hc : a'.receivedBpduContent = a.receivedBpduContent)
    (ht : a'.receivedBpduType = a.receivedBpduType) : SameSlot a b :=
  ⟨h.1.trans hc, h.2.trans ht⟩

/-- A loop whose body leaves the slot leaves the slot. -/
theorem foldl_sameSlot {α : Type} (step : STP_BRIDGE → α → STP_BRIDGE)
    (hstep : ∀ b a, SameSlot b (step b a)) :
    ∀ (l : List α) (b : STP_BRIDGE), SameSlot b (l.foldl step b) := by
  intro l
  induction l with
  | nil => intro b; exact ⟨rfl, rfl⟩
  | cons a rest ih =>
    intro b
    rw [List.foldl_cons]
    exact (hstep b a).andThen (ih _)

theorem markTree_sameSlot (bridge : STP_BRIDGE) (treeIndex : Nat) :
    SameSlot bridge (RecomputePrioritiesAndPortRoles.markTree bridge treeIndex) := by
  unfold RecomputePrioritiesAndPortRoles.markTree
  exact foldl_sameSlot
    (fun bridge portIndex => RecomputePrioritiesAndPortRoles.mark bridge portIndex treeIndex)
    (fun _ _ => ⟨rfl, rfl⟩) _ _

theorem markPorts_sameSlot (bridge : STP_BRIDGE) (treeIndex : Nat) :
    SameSlot bridge (RecomputePrioritiesAndPortRoles.markPorts bridge treeIndex) := by
  unfold RecomputePrioritiesAndPortRoles.markPorts
  split_ifs
  · exact foldl_sameSlot
      (fun bridge treeIndex => RecomputePrioritiesAndPortRoles.markTree bridge treeIndex)
      (fun b t => markTree_sameSlot b t) _ _
  · exact markTree_sameSlot _ _

/-- The scheduler leaves the slot as it found it when the state machines do not
write it. -/
theorem runStateMachines_sameSlot {smInterface : SM_INTERFACE}
    (hsm : smInterface.Respects SameSlot) {fuel : Nat} {bridge : STP_BRIDGE} {timestamp : Nat}
    {r : STP_BRIDGE} (h : RunStateMachines smInterface fuel bridge timestamp = .ok r) :
    SameSlot bridge r :=
  (RunStateMachines_holds FrameRel_SameSlot hsm fuel bridge timestamp).of_ok h

theorem recompute_sameSlot {smInterface : SM_INTERFACE}
    (hsm : smInterface.Respects SameSlot) {fuel : Nat} {bridge : STP_BRIDGE}
    {treeIndex timestamp : Nat} {r : STP_BRIDGE}
    (h : RecomputePrioritiesAndPortRoles smInterface fuel bridge treeIndex timestamp = .ok r) :
    SameSlot bridge r :=
  (markPorts_sameSlot bridge treeIndex).andThen (runStateMachines_sameSlot hsm h)

/-- The double run of the scheduler, the second one with `BEGIN` cleared,
leaves the slot as it found it when the state machines do not write it. -/
theorem beginRun_sameSlot {smInterface : SM_INTERFACE}
    (hsm : smInterface.Respects SameSlot) {fuel : Nat} {bridge : STP_BRIDGE} {timestamp : Nat}
    {r : STP_BRIDGE}
    (h : (RunStateMachines smInterface fuel bridge timestamp).bind
      (fun bridge => RunStateMachines smInterface fuel { bridge with BEGIN := false } timestamp)
      = .ok r) : SameSlot bridge r := by
  obtain ⟨a, h1, h2⟩ := RESULT.bind_eq_ok.mp h
  have e1 : SameSlot bridge a := runStateMachines_sameSlot hsm h1
  have e2 : SameSlot a r := (runStateMachines_sameSlot hsm h2).of_fields rfl rfl
  exact e1.andThen e2

/-- The closing lines of an entry point: the separator is logged and the log
flushed. -/
theorem closing_sameSlot {x : RESULT STP_BRIDGE} {bridge r : STP_BRIDGE}
    (hx : ∀ a, x = .ok a → SameSlot bridge a)
    (h : x.bind (fun bridge =>
      RESULT.ok (FLUSH_LOG (LOG bridge (-1) (-1) "------------------------------------\r\n" [])))
      = .ok r) : SameSlot bridge r := by
  obtain ⟨a, h1, h2⟩ := RESULT.bind_eq_ok.mp h
  simp only [RESULT.ok.injEq] at h2
  rw [← h2]
  exact ((hx a h1).log _ _ _ _).flush

theorem startBridge_sameSlot {smInterface : SM_INTERFACE}
    (hsm : smInterface.Respects SameSlot) {fuel : Nat} {bridge : STP_BRIDGE} {timestamp : Nat}
    {r : STP_BRIDGE} (h : STP_StartBridge smInterface fuel bridge timestamp = .ok r) :
    SameSlot bridge r := by
  unfold STP_StartBridge at h
  dsimp only at h
  split_ifs at h
  obtain ⟨a, h1, h2⟩ := RESULT.bind_eq_ok.mp h
  obtain ⟨c, h3, h4⟩ := RESULT.bind_eq_ok.mp h2
  simp only [RESULT.ok.injEq] at h4
  rw [← h4]
  have e1 : SameSlot bridge a := (runStateMachines_sameSlot hsm h1).of_fields
    (LOG_receivedBpduContent _ _ _ _ _) (LOG_receivedBpduType _ _ _ _ _)
  have e2 : SameSlot a c := (runStateMachines_sameSlot hsm h3).of_fields rfl rfl
  exact (((e1.andThen e2).log _ _ _ _).log _ _ _ _).flush

theorem stopBridge_sameSlot (bridge : STP_BRIDGE) (timestamp : Nat) :
    SameSlot bridge (STP_StopBridge bridge timestamp) := by
  unfold STP_StopBridge
  have e : SameSlot bridge { bridge with started := false } := ⟨rfl, rfl⟩
  exact ((e.log _ _ _ _).log _ _ _ _).flush

theorem setBridgeAddress_loop_sameSlot (address : List Nat) :
    ∀ (indices : List Nat) (bridge : STP_BRIDGE),
      SameSlot bridge (STP_SetBridgeAddress.loop address indices bridge) := by
  intro indices bridge
  rw [setBridgeAddress_loop_spec]
  exact ⟨rfl, rfl⟩

theorem setBridgeAddress_sameSlot {smInterface : SM_INTERFACE}
    (hsm : smInterface.Respects SameSlot) {fuel : Nat} {bridge : STP_BRIDGE}
    {address : List Nat} {timestamp : Nat} {r : STP_BRIDGE}
    (h : STP_SetBridgeAddress smInterface fuel bridge address timestamp = .ok r) :
    SameSlot bridge r := by
  unfold STP_SetBridgeAddress at h
  dsimp only at h
  refine closing_sameSlot ?_ h
  intro a ha
  have e0 : SameSlot bridge (STP_SetBridgeAddress.loop address
      (List.range (LOG bridge (-1) (-1)
        "\x7bT\x7d: Setting bridge MAC address to \x7bBA\x7d...\r\n"
        [toString timestamp, toString address]).treeCount)
      (LOG bridge (-1) (-1) "\x7bT\x7d: Setting bridge MAC address to \x7bBA\x7d...\r\n"
        [toString timestamp, toString address])) :=
    (FrameRel_SameSlot.log _ _ _ _ _).andThen (setBridgeAddress_loop_sameSlot _ _ _)
  split_ifs at ha
  · exact e0.andThen (recompute_sameSlot hsm ha)
  · simp only [RESULT.ok.injEq] at ha
    rw [← ha]
    exact e0
  · exact e0.andThen ((beginRun_sameSlot hsm ha).of_fields rfl rfl)
  · simp only [RESULT.ok.injEq] at ha
    rw [← ha]
    exact e0

theorem onPortEnabled_sameSlot {smInterface : SM_INTERFACE}
    (hsm : smInterface.Respects SameSlot) {fuel : Nat} {bridge : STP_BRIDGE}
    {portIndex speedMegabitsPerSecond : Nat} {detectedPointToPointMAC : Bool} {timestamp : Nat}
    {r : STP_BRIDGE}
    (h : STP_OnPortEnabled smInterface fuel bridge portIndex speedMegabitsPerSecond
      detectedPointToPointMAC timestamp = .ok r) :
    SameSlot bridge r := by
  unfold STP_OnPortEnabled at h
  dsimp only at h
  split_ifs at h
  all_goals
    refine closing_sameSlot ?_ h
    intro a ha
    first
      | exact (runStateMachines_sameSlot hsm ha).of_fields
          (LOG_receivedBpduContent _ _ _ _ _) (LOG_receivedBpduType _ _ _ _ _)
      | (simp only [RESULT.ok.injEq] at ha
         rw [← ha]
         exact ⟨LOG_receivedBpduContent _ _ _ _ _, LOG_receivedBpduType _ _ _ _ _⟩)


theorem onPortDisabled_sameSlot {smInterface : SM_INTERFACE}
    (hsm : smInterface.Respects SameSlot) {fuel : Nat} {bridge : STP_BRIDGE}
    {portIndex timestamp : Nat} {r : STP_BRIDGE}
    (h : STP_OnPortDisabled smInterface fuel bridge portIndex timestamp = .ok r) :
    SameSlot bridge r := by
  unfold STP_OnPortDisabled at h
  dsimp only at h
  refine closing_sameSlot ?_ h
  intro a ha
  split_ifs at ha
  · exact (runStateMachines_sameSlot hsm ha).of_fields
      (LOG_receivedBpduContent _ _ _ _ _) (LOG_receivedBpduType _ _ _ _ _)
  all_goals
    simp only [RESULT.ok.injEq] at ha
    rw [← ha]
    exact ⟨LOG_receivedBpduContent _ _ _ _ _, LOG_receivedBpduType _ _ _ _ _⟩

theorem tickPorts_sameSlot (bridge : STP_BRIDGE) :
    SameSlot bridge (STP_OnOneSecondTick.tickPorts bridge) := by
  unfold STP_OnOneSecondTick.tickPorts
  exact foldl_sameSlot
    (fun bridge givenPort =>
      { bridge with
        ports := Function.update bridge.ports givenPort
          { bridge.ports givenPort with tick := true } })
    (fun _ _ => ⟨rfl, rfl⟩) _ _

theorem onOneSecondTick_sameSlot {smInterface : SM_INTERFACE}
    (hsm : smInterface.Respects SameSlot) {fuel : Nat} {bridge : STP_BRIDGE} {timestamp : Nat}
    {r : STP_BRIDGE} (h : STP_OnOneSecondTick smInterface fuel bridge timestamp = .ok r) :
    SameSlot bridge r := by
  unfold STP_OnOneSecondTick at h
  dsimp only at h
  by_cases hs : bridge.started = true
  · rw [if_pos hs] at h
    refine closing_sameSlot ?_ h
    intro a ha
    refine SameSlot.andThen ?_ (runStateMachines_sameSlot hsm ha)
    refine SameSlot.andThen ?_ (tickPorts_sameSlot _)
    split_ifs
    · exact ⟨LOG_receivedBpduContent _ _ _ _ _, LOG_receivedBpduType _ _ _ _ _⟩
    · exact ⟨LOG_receivedBpduContent _ _ _ _ _, LOG_receivedBpduType _ _ _ _ _⟩
  · rw [if_neg hs] at h
    simp only [RESULT.ok.injEq] at h
    rw [← h]
    exact ⟨rfl, rfl⟩

theorem setPortAdminPointToPointMAC_sameSlot {bridge : STP_BRIDGE} {portIndex : Nat}
    {adminPointToPointMAC : STP_ADMIN_P2P} {timestamp : Nat} {r : STP_BRIDGE}
    (h : STP_SetPortAdminPointToPointMAC bridge portIndex adminPointToPointMAC timestamp = .ok r) :
    SameSlot bridge r := by
  unfold STP_SetPortAdminPointToPointMAC at h
  dsimp only at h
  refine closing_sameSlot ?_ h
  intro a ha
  split_ifs at ha
  all_goals
    simp only [RESULT.ok.injEq] at ha
    rw [← ha]
    exact ⟨LOG_receivedBpduContent _ _ _ _ _, LOG_receivedBpduType _ _ _ _ _⟩

theorem setBridgePriority_sameSlot {smInterface : SM_INTERFACE}
    (hsm : smInterface.Respects SameSlot) {fuel : Nat} {bridge : STP_BRIDGE}
    {treeIndex bridgePriority timestamp : Nat} {r : STP_BRIDGE}
    (h : STP_SetBridgePriority smInterface fuel bridge treeIndex bridgePriority timestamp = .ok r) :
    SameSlot bridge r := by
  unfold STP_SetBridgePriority at h
  dsimp only at h
  split_ifs at h
  all_goals
    refine closing_sameSlot ?_ h
    intro a ha
    first
      | exact (recompute_sameSlot hsm ha).of_fields
          (LOG_receivedBpduContent _ _ _ _ _) (LOG_receivedBpduType _ _ _ _ _)
      | (simp only [RESULT.ok.injEq] at ha
         rw [← ha]
         exact ⟨LOG_receivedBpduContent _ _ _ _ _, LOG_receivedBpduType _ _ _ _ _⟩)

theorem setPortPriority_sameSlot {smInterface : SM_INTERFACE}
    (hsm : smInterface.Respects SameSlot) {fuel : Nat} {bridge : STP_BRIDGE}
    {portIndex treeIndex portPriority timestamp : Nat} {r : STP_BRIDGE}
    (h : STP_SetPortPriority smInterface fuel bridge portIndex treeIndex portPriority timestamp
      = .ok r) :
    SameSlot bridge r := by
  unfold STP_SetPortPriority at h
  dsimp only at h
  split_ifs at h
  all_goals
    split at h
    · cases h
    · refine closing_sameSlot ?_ h
      intro a ha
      first
        | exact (recompute_sameSlot hsm ha).of_fields
            (LOG_receivedBpduContent _ _ _ _ _) (LOG_receivedBpduType _ _ _ _ _)
        | (simp only [RESULT.ok.injEq] at ha
           rw [← ha]
           exact ⟨LOG_receivedBpduContent _ _ _ _ _, LOG_receivedBpduType _ _ _ _ _⟩)

theorem setMstConfigName_sameSlot {smInterface : SM_INTERFACE}
    (hsm : smInterface.Respects SameSlot) {fuel : Nat} {bridge : STP_BRIDGE}
    {name : List Nat} {timestamp : Nat} {r : STP_BRIDGE}
    (h : STP_SetMstConfigName smInterface fuel bridge name timestamp = .ok r) :
    SameSlot bridge r := by
  unfold STP_SetMstConfigName at h
  dsimp only at h
  split_ifs at h
  all_goals
    refine closing_sameSlot ?_ h
    intro a ha
    first
      | exact (beginRun_sameSlot hsm ha).of_fields
          (LOG_receivedBpduContent _ _ _ _ _) (LOG_receivedBpduType _ _ _ _ _)
      | (simp only [RESULT.ok.injEq] at ha
         rw [← ha]
         exact ⟨LOG_receivedBpduContent _ _ _ _ _, LOG_receivedBpduType _ _ _ _ _⟩)

theorem setMstConfigRevisionLevel_sameSlot {smInterface : SM_INTERFACE}
    (hsm : smInterface.Respects SameSlot) {fuel : Nat} {bridge : STP_BRIDGE}
    {revisionLevel timestamp : Nat} {r : STP_BRIDGE}
    (h : STP_SetMstConfigRevisionLevel smInterface fuel bridge revisionLevel timestamp = .ok r) :
    SameSlot bridge r := by
  unfold STP_SetMstConfigRevisionLevel at h
  dsimp only at h
  split_ifs at h
  · refine closing_sameSlot ?_ h
    intro a ha
    exact (beginRun_sameSlot hsm ha).of_fields
      (LOG_receivedBpduContent _ _ _ _ _) (LOG_receivedBpduType _ _ _ _ _)
  · refine closing_sameSlot ?_ h
    intro a ha
    simp only [RESULT.ok.injEq] at ha
    rw [← ha]
    exact ⟨LOG_receivedBpduContent _ _ _ _ _, LOG_receivedBpduType _ _ _ _ _⟩
  · simp only [RESULT.ok.injEq] at h
    rw [← h]
    exact ⟨rfl, rfl⟩

theorem setTable_sameSlot {smInterface : SM_INTERFACE}
    (hsm : smInterface.Respects SameSlot) {HMAC_MD5 : List Nat → List Nat} {fuel : Nat}
    {bridge : STP_BRIDGE} {table : List VLAN_TO_MSTID} {timestamp : Nat} {r : STP_BRIDGE}
    (h : STP_SetMstConfigTableAndComputeDigest smInterface HMAC_MD5 fuel bridge table timestamp
      = .ok r) :
    SameSlot bridge r := by
  obtain ⟨logged, mid, r1, hlogged, _, hmid, hrun, hr⟩ := setTable_eq_ok h
  have e0 : SameSlot bridge mid := by
    rw [hmid, hlogged]
    exact ⟨LOG_receivedBpduContent _ _ _ _ _, LOG_receivedBpduType _ _ _ _ _⟩
  have e1 : SameSlot mid r1 := by
    split_ifs at hrun
    · exact (beginRun_sameSlot hsm hrun).of_fields rfl rfl
    · simp only [RESULT.ok.injEq] at hrun
      rw [← hrun]
      exact ⟨rfl, rfl⟩
  rw [hr]
  exact (((e0.andThen e1).log _ _ _ _).flush)

theorem setTable1_sameSlot {smInterface : SM_INTERFACE}
    (hsm : smInterface.Respects SameSlot) {HMAC_MD5 : List Nat → List Nat} {fuel : Nat}
    {bridge : STP_BRIDGE} {mstids : Nat → Nat} {timestamp : Nat} {r : STP_BRIDGE}
    (h : STP_SetMstConfigTableAndComputeDigest1 smInterface HMAC_MD5 fuel bridge mstids timestamp
      = .ok r) :
    SameSlot bridge r := by
  obtain ⟨logged, mid, r1, hlogged, hmid, hrun, hr⟩ := setTable1_eq_ok h
  have e0 : SameSlot bridge mid := by
    rw [hmid, hlogged]
    exact ⟨LOG_receivedBpduContent _ _ _ _ _, LOG_receivedBpduType _ _ _ _ _⟩
  have e1 : SameSlot mid r1 := by
    split_ifs at hrun
    · exact (beginRun_sameSlot hsm hrun).of_fields rfl rfl
    · simp only [RESULT.ok.injEq] at hrun
      rw [← hrun]
      exact ⟨rfl, rfl⟩
  rw [hr]
  exact (((e0.andThen e1).log _ _ _ _).flush)

/-- A call of `STP_OnBpduReceived` that returns after it passed the BPDU to the
state machines has cleared the slot, whatever the state machines did. -/
theorem onBpduReceived_ok_dispatched {smInterface : SM_INTERFACE}
    {STP_GetValidatedBpduType : List Nat → Nat → VALIDATED_BPDU_TYPE} {fuel : Nat}
    {bridge : STP_BRIDGE} {portIndex : Nat} {bpdu : List Nat} {bpduSize timestamp : Nat}
    {r : STP_BRIDGE}
    (h : STP_OnBpduReceived smInterface STP_GetValidatedBpduType fuel bridge portIndex bpdu
      bpduSize timestamp = .ok r)
    (hs : bridge.started = true) (hen : (bridge.ports portIndex).portEnabled = true)
    (hvalid : STP_GetValidatedBpduType bpdu bpduSize ≠ .UNKNOWN) :
    SlotClear r := by
  rcases onBpduReceived_ok_slot h with hsame | hclear
  · have hpass : (STP_OnBpduReceived.logBpdu
        (LOG bridge (-1) (-1) "\x7bT\x7d: BPDU received on Port \x7bD\x7d:\r\n"
          [toString timestamp, toString (1 + portIndex)]) portIndex bpdu
        (STP_GetValidatedBpduType bpdu bpduSize)).2 = true := by
      rw [logBpdu_pass]
      cases htype : STP_GetValidatedBpduType bpdu bpduSize
      · exact absurd htype hvalid
      all_goals simp
    have hdis : ¬ ((bridge.ports portIndex).portEnabled = false) := by
      rw [hen]
      exact Bool.noConfusion
    unfold STP_OnBpduReceived at h
    rw [if_pos hs] at h
    obtain ⟨m, hm, h2⟩ := RESULT.bind_eq_ok.mp h
    simp only [RESULT.ok.injEq] at h2
    rw [if_neg hdis] at hm
    dsimp only at hm
    rw [if_pos hpass] at hm
    split_ifs at hm
    obtain ⟨ran, _, h3⟩ := RESULT.bind_eq_ok.mp hm
    try dsimp only at h3
    split_ifs at h3
    simp only [RESULT.ok.injEq] at h3
    rw [← h2, ← h3]
    exact ⟨(FLUSH_LOG_receivedBpduContent _).trans (LOG_receivedBpduContent _ _ _ _ _),
      (FLUSH_LOG_receivedBpduType _).trans (LOG_receivedBpduType _ _ _ _ _)⟩
  · exact hclear


theorem receiveSmInterface_keeps_slot : receiveSmInterface.Respects SameSlot := by
  refine ⟨fun smInfo hmem => ?_, ⟨fun _ _ _ _ => ⟨rfl, rfl⟩, fun _ _ _ _ _ => ⟨rfl, rfl⟩⟩⟩
  have hk : smInfo = receiveSmInfo := by
    simpa [receiveSmInterface] using hmem
  subst hk
  exact ⟨fun _ _ _ _ => ⟨rfl, rfl⟩, fun _ _ _ _ _ => ⟨rfl, rfl⟩⟩

/-! ## Claim on the received-BPDU slot -/

/-- C18 (as stated, refuted): "every behaviour of the state machines" includes
a state machine whose entry action writes the received-BPDU slot.  With such a
kind registered, `STP_StartBridge` returns a bridge whose slot holds the buffer
[1]; a BPDU then received on port 0, which is down, is discarded, and so is a
buffer the classifier finds invalid once port 0 is up: both calls of
`STP_OnBpduReceived` return, and the bridge they return has
receivedBpduContent non-null. -/
theorem receivedBpdu_slot_left_written :
    ∃ created started enabled r1 r2,
      STP_CreateBridge sampleConstants slotWriterSmInterface sampleHash (fun _ => true) 2 1
        .RSTP [0x10, 0x20, 0x30, 0x40, 0x50, 0x60] 16 = .ok created ∧
      created.receivedBpduContent = none ∧
      STP_StartBridge slotWriterSmInterface 2 created 0 = .ok started ∧
      STP_OnBpduReceived slotWriterSmInterface (sampleClassifier true) 2 started 0
        [0, 0, 2, 2] 4 1 = .ok r1 ∧
      r1.receivedBpduContent = some [1] ∧
      STP_OnPortEnabled slotWriterSmInterface 2 started 0 100 true 2 = .ok enabled ∧
      STP_OnBpduReceived slotWriterSmInterface (sampleClassifier false) 2 enabled 0
        [0, 0, 2, 2] 4 3 = .ok r2 ∧
      r2.receivedBpduContent = some [1] :=
  ⟨_, _, _, _, _, rfl, rfl, rfl, rfl, rfl, rfl, rfl, rfl⟩

/-- C18, amended: whatever the state machines do, a call of
`STP_OnBpduReceived` that returns leaves the received-BPDU slot clear
(receivedBpduContent null, receivedBpduType VALIDATED_BPDU_TYPE_UNKNOWN) if the
slot was clear before the call, and has cleared it if the BPDU was passed to the
state machines (bridge started, port enabled, buffer classified as Config, RST,
MST or TCN), for every classification of the buffer.  And when the state
machines do not write the slot, the slot is clear in every bridge state
observed after `STP_CreateBridge` and after any later call of an entry point of
stp.cpp has returned, the calls of `STP_OnBpduReceived` among them. -/
theorem receivedBpdu_slot_clear (consts : BRIDGE_CONSTANTS) (smInterface : SM_INTERFACE)
    (HMAC_MD5 : List Nat → List Nat)
    (STP_GetValidatedBpduType : List Nat → Nat → VALIDATED_BPDU_TYPE) :
    (∀ (fuel : Nat) (bridge : STP_BRIDGE) (portIndex : Nat) (bpdu : List Nat)
        (bpduSize timestamp : Nat) (r : STP_BRIDGE),
      STP_OnBpduReceived smInterface STP_GetValidatedBpduType fuel bridge portIndex bpdu bpduSize
        timestamp = .ok r →
      ((bridge.receivedBpduContent = none ∧
          bridge.receivedBpduType = VALIDATED_BPDU_TYPE.UNKNOWN) →
        r.receivedBpduContent = none ∧ r.receivedBpduType = VALIDATED_BPDU_TYPE.UNKNOWN) ∧
      (bridge.started = true → (bridge.ports portIndex).portEnabled = true →
        STP_GetValidatedBpduType bpdu bpduSize ≠ VALIDATED_BPDU_TYPE.UNKNOWN →
        r.receivedBpduContent = none ∧ r.receivedBpduType = VALIDATED_BPDU_TYPE.UNKNOWN)) ∧
    (smInterface.Respects SameSlot →
      ∀ bridge : STP_BRIDGE,
        ReachableByEntryPoints consts smInterface HMAC_MD5 STP_GetValidatedBpduType bridge →
        bridge.receivedBpduContent = none ∧
        bridge.receivedBpduType = VALIDATED_BPDU_TYPE.UNKNOWN) := by
  have hcall : ∀ (fuel : Nat) (bridge : STP_BRIDGE) (portIndex : Nat) (bpdu : List Nat)
      (bpduSize timestamp : Nat) (r : STP_BRIDGE),
      STP_OnBpduReceived smInterface STP_GetValidatedBpduType fuel bridge portIndex bpdu bpduSize
        timestamp = .ok r → SlotClear bridge → SlotClear r := by
    intro fuel bridge portIndex bpdu bpduSize timestamp r h hclear
    rcases onBpduReceived_ok_slot h with hsame | hr
    · exact ⟨hsame.1.trans hclear.1, hsame.2.trans hclear.2⟩
    · exact hr
  refine ⟨fun fuel bridge portIndex bpdu bpduSize timestamp r h =>
    ⟨hcall fuel bridge portIndex bpdu bpduSize timestamp r h,
      fun hs hen hvalid => onBpduReceived_ok_dispatched h hs hen hvalid⟩, ?_⟩
  intro hsm bridge hreach
  have keep : ∀ {b b' : STP_BRIDGE}, SameSlot b b' → SlotClear b → SlotClear b' :=
    fun hsame hclear => ⟨hsame.1.trans hclear.1, hsame.2.trans hclear.2⟩
  show SlotClear bridge
  induction hreach with
  | createBridge allocOk portCount treeCount protocolVersion bridgeAddress debugLogBufferSize b hc =>
    rw [createBridge_eq_ok hc]
    exact ⟨rfl, rfl⟩
  | startBridge fuel b timestamp b' _ h ih => exact keep (startBridge_sameSlot hsm h) ih
  | stopBridge b timestamp _ ih => exact keep (stopBridge_sameSlot b timestamp) ih
  | setBridgeAddress fuel b address timestamp b' _ h ih =>
    exact keep (setBridgeAddress_sameSlot hsm h) ih
  | onPortEnabled fuel b portIndex speed detected timestamp b' _ h ih =>
    exact keep (onPortEnabled_sameSlot hsm h) ih
  | onPortDisabled fuel b portIndex timestamp b' _ h ih =>
    exact keep (onPortDisabled_sameSlot hsm h) ih
  | onOneSecondTick fuel b timestamp b' _ h ih => exact keep (onOneSecondTick_sameSlot hsm h) ih
  | onBpduReceived fuel b portIndex bpdu bpduSize timestamp b' _ h ih =>
    exact hcall fuel b portIndex bpdu bpduSize timestamp b' h ih
  | enableLogging b enable _ ih => exact ih
  | setPortAdminEdge b portIndex newAdminEdge timestamp _ ih => exact ih
  | setPortAutoEdge b portIndex newAutoEdge timestamp _ ih => exact ih
  | setPortAdminPointToPointMAC b portIndex adminPointToPointMAC timestamp b' _ h ih =>
    exact keep (setPortAdminPointToPointMAC_sameSlot h) ih
  | setBridgePriority fuel b treeIndex bridgePriority timestamp b' _ h ih =>
    exact keep (setBridgePriority_sameSlot hsm h) ih
  | setPortPriority fuel b portIndex treeIndex portPriority timestamp b' _ h ih =>
    exact keep (setPortPriority_sameSlot hsm h) ih
  | setMstConfigName fuel b name timestamp b' _ h ih =>
    exact keep (setMstConfigName_sameSlot hsm h) ih
  | setMstConfigRevisionLevel fuel b revisionLevel timestamp b' _ h ih =>
    exact keep (setMstConfigRevisionLevel_sameSlot hsm h) ih
  | setMstConfigTableAndComputeDigest1 fuel b mstids timestamp b' _ h ih =>
    exact keep (setTable1_sameSlot hsm h) ih
  | setMstConfigTableAndComputeDigest fuel b table timestamp b' _ h ih =>
    exact keep (setTable_sameSlot hsm h) ih
  | setStpVersion b version b' _ h ih => cases h
  | setApplicationContext b applicationContext _ ih => exact ih

/-- Witness of C18, amended: the receiver bridge is created, started, and its
port 0 comes up, each through the entry point itself; it then receives an RSTP
BPDU on port 0.  The BPDU is passed to the state machines, which consume it
and do not write the slot; the call returns and the slot is clear, both as the
result of this call and as a state reached through the entry points. -/
theorem receivedBpdu_slot_clear_witness :
    receiveSmInterface.Respects SameSlot ∧
    ∃ r,
      ReachableByEntryPoints sampleConstants receiveSmInterface sampleHash (sampleClassifier true)
        r ∧
      STP_OnBpduReceived receiveSmInterface (sampleClassifier true) 3 sampleReceiverBridge 0
        [0, 0, 2, 2] 4 2 = .ok r ∧
      sampleReceiverBridge.started = true ∧
      (sampleReceiverBridge.ports 0).portEnabled = true ∧
      sampleClassifier true [0, 0, 2, 2] 4 ≠ VALIDATED_BPDU_TYPE.UNKNOWN ∧
      r.receivedBpduContent = none ∧ r.receivedBpduType = VALIDATED_BPDU_TYPE.UNKNOWN ∧
      (r.ports 0).rcvdBpdu = false ∧ r.states 0 = 1 := by
  have hcreated : STP_CreateBridge sampleConstants receiveSmInterface sampleHash (fun _ => true) 2 1
      .RSTP [0x10, 0x20, 0x30, 0x40, 0x50, 0x60] 16 = .ok sampleReceiverCreated := rfl
  have hstarted : STP_StartBridge receiveSmInterface 2 sampleReceiverCreated 0
      = .ok sampleReceiverStarted := rfl
  have henabled : STP_OnPortEnabled receiveSmInterface 2 sampleReceiverStarted 0 100 true 1
      = .ok sampleReceiverBridge := rfl
  have hcall : STP_OnBpduReceived receiveSmInterface (sampleClassifier true) 3
      sampleReceiverBridge 0 [0, 0, 2, 2] 4 2
      = .ok (STP_OnBpduReceived receiveSmInterface (sampleClassifier true) 3
          sampleReceiverBridge 0 [0, 0, 2, 2] 4 2).bridgeOr := rfl
  have hreach : ReachableByEntryPoints sampleConstants receiveSmInterface sampleHash
      (sampleClassifier true)
      (STP_OnBpduReceived receiveSmInterface (sampleClassifier true) 3
          sampleReceiverBridge 0 [0, 0, 2, 2] 4 2).bridgeOr :=
    .onBpduReceived 3 sampleReceiverBridge 0 [0, 0, 2, 2] 4 2 _
      (.onPortEnabled 2 sampleReceiverStarted 0 100 true 1 _
        (.startBridge 2 sampleReceiverCreated 0 _
          (.createBridge _ _ _ _ _ _ _ hcreated) hstarted) henabled) hcall
  have hthm := receivedBpdu_slot_clear sampleConstants receiveSmInterface sampleHash
    (sampleClassifier true)
  have hclear := hthm.2 receiveSmInterface_keeps_slot _ hreach
  have hdispatched := (hthm.1 3 sampleReceiverBridge 0 [0, 0, 2, 2] 4 2 _ hcall).2 rfl rfl
    (by decide)
  exact ⟨receiveSmInterface_keeps_slot, _, hreach, hcall, rfl, rfl, by decide, hdispatched.1,
    hclear.2, rfl, rfl⟩

end Stp
